import Mathlib

/-!
# BufferQueue

A shallow embedding of `frameworks/surface/src/buffer_queue.cpp`.

Conventions of the embedding

* `sptr<T>` is `Option T`; dereferencing a null pointer is the fault
  `Fault.nullDeref`.
* `std::mutex mutex_` is the flag `mutex_` of the state; locking it while it
  is held is the fault `Fault.deadlock` (the mutex is not recursive).
* `std::map<int32_t, BufferElement>` is a key-ordered association list;
  `operator[]` on a missing key inserts a value-initialised element
  (`cacheIndex`, `cacheModify`).
* External collaborators are inputs of the operation that consults them:
  the allocator (`AllocOutcome`), `SurfaceBuffer::FlushCache`, the clock,
  and the return value of the `onBufferRelease` callback.
* Invocations of `onBufferDelete_` and of `OnBufferAvailable` are recorded in
  the two trace fields `deleteCalls` and `availableCalls`.
* Logging and tracing statements are omitted.  Container sizes are taken as
  natural numbers (they stay far below `2^31`); the unsigned subtraction in
  `SetQueueSize` is modelled modulo `2^32`.
* Constants and enumerators of headers that are not part of the sources at
  hand are the fields of `SurfaceConsts`.
* A `std::string` is the list of its characters.  An exception that leaves a
  function is a fault (`Fault.outOfRange` for `std::out_of_range`).

The second part (namespace `Rosen`) embeds
`rosen/modules/composer/vsync/src/vsync_distributor.cpp`.  A `VSyncConnection`
object is a record with its address; `connections_` holds the registered
objects, and a pointer to a connection is its address.  Each function runs as
one step, so the mutex of the distributor, which every function takes and
releases in its own scope, is left out.
-/

namespace OHOS

/-- Status codes returned by the queue (the enumerators used in this file, and
three that stand for allocator failures). -/
inductive GSError where
  | GSERROR_OK
  | GSERROR_INVALID_ARGUMENTS
  | GSERROR_NO_ENTRY
  | GSERROR_INVALID_OPERATING
  | GSERROR_NO_BUFFER
  | GSERROR_NO_CONSUMER
  | GSERROR_OUT_OF_RANGE
  | GSERROR_NO_MEM
  | GSERROR_API_FAILED
  | GSERROR_INTERNAL
  deriving DecidableEq, Repr

/-- Ways in which a call fails to return normally; `outOfRange` is the
exception `std::out_of_range`. -/
inductive Fault where
  | nullDeref
  | deadlock
  | outOfRange
  deriving DecidableEq, Repr

/-- States of a cache entry. -/
inductive BufferState where
  | BUFFER_STATE_RELEASED
  | BUFFER_STATE_REQUESTED
  | BUFFER_STATE_FLUSHED
  | BUFFER_STATE_ACQUIRED
  | BUFFER_STATE_ATTACHED
  deriving DecidableEq, Repr

/-- Constants and enumerators declared in headers outside the sources at
hand (`surface_type.h`, `display_type.h`). -/
structure SurfaceConsts where
  SURFACE_DEFAULT_QUEUE_SIZE : Nat
  SURFACE_MAX_QUEUE_SIZE : Nat
  SURFACE_MIN_STRIDE_ALIGNMENT : Nat
  SURFACE_MAX_STRIDE_ALIGNMENT : Nat
  PIXEL_FMT_BUTT : Int
  COLOR_GAMUT_INVALID : Int
  COLOR_GAMUT_SRGB : Int
  COLOR_GAMUT_DISPLAY_BT2020 : Int
  ROTATE_NONE : Int
  ROTATE_BUTT : Int
  SCALING_MODE_FREEZE : Int
  SCALING_MODE_SCALE_TO_WINDOW : Int
  SCALING_MODE_NO_SCALE_CROP : Int
  HBM_USE_CPU_WRITE : Nat
  deriving DecidableEq, Repr

/-- Modelled from the spec: `BufferRequestConfig` is declared in
`surface_type.h`, which is missing; its fields are the ones the queue reads,
and `config == config` of the spec is equality of all fields. -/
structure BufferRequestConfig where
  width : Int
  height : Int
  strideAlignment : Int
  format : Int
  usage : Int
  timeout : Int
  colorGamut : Int
  transform : Int
  scalingMode : Int
  deriving DecidableEq, Repr

/-- Damage rectangle. -/
structure Rect where
  x : Int
  y : Int
  w : Int
  h : Int
  deriving DecidableEq, Repr

/-- Flush parameters: damage and timestamp. -/
structure BufferFlushConfig where
  damage : Rect
  timestamp : Int
  deriving DecidableEq, Repr

/-- Key-value extra data carried by a buffer. -/
abbrev BufferExtraData := List (String × Int)

/-- The attributes of a `SurfaceBuffer` that the queue reads or writes. -/
structure SurfaceBuffer where
  seqNum : Int
  width : Int
  height : Int
  format : Int
  usage : Int
  size : Nat
  extraData : Option BufferExtraData
  deriving DecidableEq, Repr

/-- Cache entry.  `fence` is `none` for a null `sptr<SyncFence>`; a fence
object is its descriptor, `-1` for `SyncFence::INVALID_FENCE`. -/
structure BufferElement where
  buffer : Option SurfaceBuffer
  state : BufferState
  isDeleting : Bool
  config : BufferRequestConfig
  fence : Option Int
  timestamp : Int
  damage : Rect
  deriving DecidableEq, Repr

/-- The descriptor of `SyncFence::INVALID_FENCE`. -/
def INVALID_FENCE : Int := -1

/-- A value-initialised `BufferRequestConfig`: zero fields, and the default
member initialisers for the three enumerations. -/
def defaultConfig (K : SurfaceConsts) : BufferRequestConfig :=
  { width := 0, height := 0, strideAlignment := 0, format := 0, usage := 0, timeout := 0,
    colorGamut := K.COLOR_GAMUT_SRGB, transform := K.ROTATE_NONE,
    scalingMode := K.SCALING_MODE_SCALE_TO_WINDOW }

/-- The element that `operator[]` creates for a missing key. -/
def defaultElement (K : SurfaceConsts) : BufferElement :=
  { buffer := none, state := BufferState.BUFFER_STATE_RELEASED, isDeleting := false,
    config := defaultConfig K, fence := none, timestamp := 0,
    damage := { x := 0, y := 0, w := 0, h := 0 } }

/-- The cache `std::map<int32_t, BufferElement>`, in key order. -/
abbrev Cache := List (Int × BufferElement)

/-- Keys of the cache, in iteration order. -/
def cacheKeys (c : Cache) : List Int := c.map Prod.fst

/-- The lookup `find(k)`. -/
def cacheFind : Cache → Int → Option BufferElement
  | [], _ => none
  | (k1, e) :: rest, k => if k1 = k then some e else cacheFind rest k

/-- Insertion of a key that is not present, at its place in key order. -/
def cacheInsertNew : Cache → Int → BufferElement → Cache
  | [], k, e => [(k, e)]
  | (k1, e1) :: rest, k, e =>
    if k < k1 then (k, e) :: (k1, e1) :: rest else (k1, e1) :: cacheInsertNew rest k e

/-- The update `c[k] = f(c[k])`: `operator[]` finds the element of `k`, or
inserts a value-initialised one, and the element is then assigned to. -/
def cacheModify (K : SurfaceConsts) (c : Cache) (k : Int) (f : BufferElement → BufferElement) :
    Cache :=
  match cacheFind c k with
  | some _ => c.map (fun p => if p.1 = k then (p.1, f p.2) else p)
  | none => cacheInsertNew c k (f (defaultElement K))

/-- The read `c[k]`: the element of `k` and the cache afterwards (a missing key
is inserted with a value-initialised element). -/
def cacheIndex (K : SurfaceConsts) (c : Cache) (k : Int) : BufferElement × Cache :=
  match cacheFind c k with
  | some e => (e, c)
  | none => (defaultElement K, cacheInsertNew c k (defaultElement K))

/-- The assignment `c[k] = e`. -/
def cacheInsert (K : SurfaceConsts) (c : Cache) (k : Int) (e : BufferElement) : Cache :=
  cacheModify K c k (fun _ => e)

/-- The removal `erase(k)`. -/
def cacheErase (c : Cache) (k : Int) : Cache :=
  c.filter (fun p => decide (p.1 ≠ k))

/-- Conversion of a 32-bit unsigned value to `int32_t`. -/
def toInt32 (x : Nat) : Int :=
  if x % 2 ^ 32 < 2 ^ 31 then ((x % 2 ^ 32 : Nat) : Int) else ((x % 2 ^ 32 : Nat) : Int) - 2 ^ 32

/-- The queue.  `listener_` and `listenerClazz_` hold the identity of the
installed sink; the two callbacks are recorded as installed or not. -/
structure BufferQueue where
  isShared_ : Bool
  queueSize_ : Nat
  bufferQueueCache_ : Cache
  freeList_ : List Int
  dirtyList_ : List Int
  deletingList_ : List Int
  listener_ : Option Nat
  listenerClazz_ : Option Nat
  onBufferRelease : Bool
  onBufferDelete_ : Bool
  mutex_ : Bool
  deleteCalls : List Int
  availableCalls : Nat
  deriving DecidableEq, Repr

/-- The constructor `BufferQueue(name, isShared)`; `queueSize_` starts at the
default of the class declaration unless the queue is shared. -/
def BufferQueue.ctor (K : SurfaceConsts) (isShared : Bool) : BufferQueue :=
  { isShared_ := isShared,
    queueSize_ := if isShared = true then 1 else K.SURFACE_DEFAULT_QUEUE_SIZE,
    bufferQueueCache_ := [], freeList_ := [], dirtyList_ := [], deletingList_ := [],
    listener_ := none, listenerClazz_ := none, onBufferRelease := false,
    onBufferDelete_ := false, mutex_ := false, deleteCalls := [], availableCalls := 0 }

/-- Acquisition of `mutex_` by `std::lock_guard` or `std::unique_lock`. -/
def lock (q : BufferQueue) : Except Fault BufferQueue :=
  if q.mutex_ = true then Except.error Fault.deadlock else Except.ok { q with mutex_ := true }

/-- Release of `mutex_` at the end of the guarded scope. -/
def unlock (q : BufferQueue) : BufferQueue := { q with mutex_ := false }

/-- The size `GetUsedSize()`. -/
def GetUsedSize (q : BufferQueue) : Nat := q.bufferQueueCache_.length

/-- The size `GetQueueSize()`. -/
def GetQueueSize (q : BufferQueue) : Nat := q.queueSize_

/-- The loop of `PopFromFreeList`: the first entry of the list whose cached
config equals `config` is taken out; the result is the buffer of that entry
with the remaining list, and the cache as the lookups leave it. -/
def popMatching (K : SurfaceConsts) (config : BufferRequestConfig) :
    List Int → Cache → Option (Option SurfaceBuffer × List Int) × Cache
  | [], c => (none, c)
  | s :: rest, c =>
    let r := cacheIndex K c s
    if r.1.config = config then (some (r.1.buffer, rest), r.2)
    else
      match popMatching K config rest r.2 with
      | (some (b, rest1), c1) => (some (b, s :: rest1), c1)
      | (none, c1) => (none, c1)

/-- The function `PopFromFreeList(buffer, config)`. -/
def PopFromFreeList (K : SurfaceConsts) (q : BufferQueue) (config : BufferRequestConfig) :
    GSError × Option SurfaceBuffer × BufferQueue :=
  if q.isShared_ = true ∧ GetUsedSize q > 0 then
    match q.bufferQueueCache_ with
    | (_, e) :: _ => (GSError.GSERROR_OK, e.buffer, q)
    | [] => (GSError.GSERROR_OK, none, q)
  else
    match popMatching K config q.freeList_ q.bufferQueueCache_ with
    | (some (b, rest), c) =>
      (GSError.GSERROR_OK, b, { q with freeList_ := rest, bufferQueueCache_ := c })
    | (none, c) =>
      match q.freeList_ with
      | [] => (GSError.GSERROR_NO_BUFFER, none, { q with bufferQueueCache_ := c })
      | s :: rest =>
        let r := cacheIndex K c s
        (GSError.GSERROR_OK, r.1.buffer, { q with freeList_ := rest, bufferQueueCache_ := r.2 })

/-- The function `PopFromDirtyList(buffer)`. -/
def PopFromDirtyList (K : SurfaceConsts) (q : BufferQueue) :
    GSError × Option SurfaceBuffer × BufferQueue :=
  if q.isShared_ = true ∧ GetUsedSize q > 0 then
    match q.bufferQueueCache_ with
    | (_, e) :: _ => (GSError.GSERROR_OK, e.buffer, q)
    | [] => (GSError.GSERROR_OK, none, q)
  else
    match q.dirtyList_ with
    | s :: rest =>
      let r := cacheIndex K q.bufferQueueCache_ s
      (GSError.GSERROR_OK, r.1.buffer, { q with dirtyList_ := rest, bufferQueueCache_ := r.2 })
    | [] => (GSError.GSERROR_NO_BUFFER, none, q)

/-- The function `CheckRequestConfig(config)`.  `align` is the `uint32_t`
copy of `strideAlignment`, and `align - 1` wraps. -/
def CheckRequestConfig (K : SurfaceConsts) (config : BufferRequestConfig) : GSError :=
  if config.width ≤ 0 ∨ config.height ≤ 0 then GSError.GSERROR_INVALID_ARGUMENTS
  else
    let align : Nat := (config.strideAlignment % 2 ^ 32).toNat
    if ¬ (K.SURFACE_MIN_STRIDE_ALIGNMENT ≤ align ∧ K.SURFACE_MAX_STRIDE_ALIGNMENT ≥ align) then
      GSError.GSERROR_INVALID_ARGUMENTS
    else if align &&& ((align + 2 ^ 32 - 1) % 2 ^ 32) ≠ 0 then GSError.GSERROR_INVALID_ARGUMENTS
    else if config.format < 0 ∨ config.format > K.PIXEL_FMT_BUTT then
      GSError.GSERROR_INVALID_ARGUMENTS
    else if config.colorGamut ≤ K.COLOR_GAMUT_INVALID ∨
        config.colorGamut > K.COLOR_GAMUT_DISPLAY_BT2020 + 1 then
      GSError.GSERROR_INVALID_ARGUMENTS
    else if config.transform < K.ROTATE_NONE ∨ config.transform ≥ K.ROTATE_BUTT then
      GSError.GSERROR_INVALID_ARGUMENTS
    else if config.scalingMode < K.SCALING_MODE_FREEZE ∨
        config.scalingMode > K.SCALING_MODE_NO_SCALE_CROP then
      GSError.GSERROR_INVALID_ARGUMENTS
    else GSError.GSERROR_OK

/-- The function `CheckFlushConfig(config)`. -/
def CheckFlushConfig (config : BufferFlushConfig) : GSError :=
  if config.damage.w < 0 then GSError.GSERROR_INVALID_ARGUMENTS
  else if config.damage.h < 0 then GSError.GSERROR_INVALID_ARGUMENTS
  else GSError.GSERROR_OK

/-- The function `DeleteBufferInCache(sequence)`. -/
def DeleteBufferInCache (q : BufferQueue) (sequence : Int) : BufferQueue :=
  match cacheFind q.bufferQueueCache_ sequence with
  | some _ =>
    { q with
      deleteCalls :=
        if q.onBufferDelete_ = true then q.deleteCalls ++ [sequence] else q.deleteCalls,
      bufferQueueCache_ := cacheErase q.bufferQueueCache_ sequence,
      deletingList_ := q.deletingList_ ++ [sequence] }
  | none => q

/-- What the allocator does during one `AllocBuffer`: the fresh
`SurfaceBufferImpl` (with the sequence number its constructor draws), and the
results of `Alloc(config)` and `Map()`. -/
structure AllocOutcome where
  buffer : SurfaceBuffer
  allocRet : GSError
  mapRet : GSError
  deriving DecidableEq, Repr

/-- The element that `AllocBuffer` stores for a fresh buffer. -/
def allocElement (config : BufferRequestConfig) (b : SurfaceBuffer) : BufferElement :=
  { buffer := some b, state := BufferState.BUFFER_STATE_REQUESTED, isDeleting := false,
    config := config, fence := some INVALID_FENCE, timestamp := 0,
    damage := { x := 0, y := 0, w := 0, h := 0 } }

/-- The function `AllocBuffer(buffer, config)`; `buffer` is the reference
parameter, returned as the second component. -/
def AllocBuffer (K : SurfaceConsts) (q : BufferQueue) (buffer : Option SurfaceBuffer)
    (config : BufferRequestConfig) (a : AllocOutcome) :
    GSError × Option SurfaceBuffer × BufferQueue :=
  if a.allocRet ≠ GSError.GSERROR_OK then (a.allocRet, buffer, q)
  else if a.mapRet = GSError.GSERROR_OK then
    (GSError.GSERROR_OK, some a.buffer,
      { q with bufferQueueCache_ :=
          cacheInsert K q.bufferQueueCache_ a.buffer.seqNum (allocElement config a.buffer) })
  else (a.mapRet, buffer, q)

/-- The out-parameter `RequestBufferReturnValue`. -/
structure RequestBufferReturnValue where
  buffer : Option SurfaceBuffer
  sequence : Int
  fence : Option Int
  deletingBuffers : List Int
  deriving DecidableEq, Repr

/-- Result of `RequestBuffer` and `ReuseBuffer`: the status, the two
out-parameters and the queue afterwards. -/
structure RequestResult where
  ret : GSError
  bedata : Option BufferExtraData
  retval : RequestBufferReturnValue
  queue : BufferQueue
  deriving DecidableEq, Repr

/-- The tail of `ReuseBuffer` after the reallocation branch: the entry becomes
Requested, its fence is returned, and `deletingList_` is drained into
`retval.deletingBuffers`. -/
def ReuseBuffer.finish (K : SurfaceConsts) (q : BufferQueue) (retval : RequestBufferReturnValue)
    (needRealloc : Bool) : Except Fault RequestResult :=
  let c1 := cacheModify K q.bufferQueueCache_ retval.sequence
    (fun e => { e with state := BufferState.BUFFER_STATE_REQUESTED })
  let r := cacheIndex K c1 retval.sequence
  match retval.buffer with
  | none => Except.error Fault.nullDeref
  | some b =>
    Except.ok
      { ret := GSError.GSERROR_OK,
        bedata := b.extraData,
        retval :=
          { buffer := if needRealloc = true then retval.buffer else none,
            sequence := retval.sequence,
            fence := r.1.fence,
            deletingBuffers := retval.deletingBuffers ++ q.deletingList_ },
        queue := { q with bufferQueueCache_ := r.2, deletingList_ := [] } }

/-- The function `ReuseBuffer(config, bedata, retval)`. -/
def ReuseBuffer (K : SurfaceConsts) (q : BufferQueue) (config : BufferRequestConfig)
    (bedata : Option BufferExtraData) (retval : RequestBufferReturnValue) (a : AllocOutcome) :
    Except Fault RequestResult :=
  match retval.buffer with
  | none => Except.error Fault.nullDeref
  | some b =>
    let r := cacheIndex K q.bufferQueueCache_ b.seqNum
    let q1 : BufferQueue := { q with bufferQueueCache_ := r.2 }
    let retval1 : RequestBufferReturnValue := { retval with sequence := b.seqNum }
    if config ≠ r.1.config then
      if q.isShared_ = true then
        Except.ok { ret := GSError.GSERROR_INVALID_ARGUMENTS, bedata := bedata,
                    retval := retval1, queue := q1 }
      else
        let q2 := DeleteBufferInCache q1 b.seqNum
        let al := AllocBuffer K q2 none config a
        if al.1 ≠ GSError.GSERROR_OK then
          Except.ok { ret := al.1, bedata := bedata, retval := retval1, queue := al.2.2 }
        else
          match al.2.1 with
          | none => Except.error Fault.nullDeref
          | some nb =>
            let qa : BufferQueue := al.2.2
            let c3 : Cache := cacheModify K qa.bufferQueueCache_ nb.seqNum
              (fun e => { e with config := config })
            let q3 : BufferQueue := { qa with bufferQueueCache_ := c3 }
            ReuseBuffer.finish K q3 { retval1 with buffer := some nb, sequence := nb.seqNum } true
    else ReuseBuffer.finish K q1 retval1 false

/-- The last part of `RequestBuffer`: a fresh buffer is allocated. -/
def RequestBuffer.alloc (K : SurfaceConsts) (q : BufferQueue) (config : BufferRequestConfig)
    (bedata : Option BufferExtraData) (retval : RequestBufferReturnValue) (a : AllocOutcome) :
    Except Fault RequestResult :=
  let al := AllocBuffer K q retval.buffer config a
  if al.1 = GSError.GSERROR_OK then
    match al.2.1 with
    | none => Except.error Fault.nullDeref
    | some b =>
      Except.ok { ret := GSError.GSERROR_OK, bedata := b.extraData,
                  retval := { retval with buffer := some b, sequence := b.seqNum,
                                          fence := some INVALID_FENCE },
                  queue := al.2.2 }
  else Except.ok { ret := al.1, bedata := bedata, retval := { retval with buffer := al.2.1 },
                   queue := al.2.2 }

/-- The part of `RequestBuffer` that runs with `mutex_` held.  No other thread
runs during `waitReqCon_.wait_for`, so the wait leaves the queue as it is. -/
def RequestBuffer.locked (K : SurfaceConsts) (q : BufferQueue) (config : BufferRequestConfig)
    (bedata : Option BufferExtraData) (retval : RequestBufferReturnValue) (a : AllocOutcome) :
    Except Fault RequestResult :=
  let p := PopFromFreeList K q config
  let retval1 : RequestBufferReturnValue := { retval with buffer := p.2.1 }
  if p.1 = GSError.GSERROR_OK then ReuseBuffer K p.2.2 config bedata retval1 a
  else if GetUsedSize p.2.2 ≥ GetQueueSize p.2.2 then
    let p2 := PopFromFreeList K p.2.2 config
    let retval2 : RequestBufferReturnValue := { retval1 with buffer := p2.2.1 }
    if p2.1 = GSError.GSERROR_OK then ReuseBuffer K p2.2.2 config bedata retval2 a
    else if GetUsedSize p2.2.2 ≥ GetQueueSize p2.2.2 then
      Except.ok { ret := GSError.GSERROR_NO_BUFFER, bedata := bedata, retval := retval2,
                  queue := p2.2.2 }
    else RequestBuffer.alloc K p2.2.2 config bedata retval2 a
  else RequestBuffer.alloc K p.2.2 config bedata retval1 a

/-- The value of `retval` that the caller passes in. -/
def emptyRetval : RequestBufferReturnValue :=
  { buffer := none, sequence := 0, fence := none, deletingBuffers := [] }

/-- The function `RequestBuffer(config, bedata, retval)`, called with a fresh
`retval` and a null `bedata`. -/
def RequestBuffer (K : SurfaceConsts) (q : BufferQueue) (config : BufferRequestConfig)
    (a : AllocOutcome) : Except Fault RequestResult :=
  if q.listener_ = none ∧ q.listenerClazz_ = none then
    Except.ok { ret := GSError.GSERROR_NO_CONSUMER, bedata := none, retval := emptyRetval,
                queue := q }
  else if CheckRequestConfig K config ≠ GSError.GSERROR_OK then
    Except.ok { ret := CheckRequestConfig K config, bedata := none, retval := emptyRetval,
                queue := q }
  else
    match lock q with
    | Except.error f => Except.error f
    | Except.ok q1 =>
      match RequestBuffer.locked K q1 config none emptyRetval a with
      | Except.error f => Except.error f
      | Except.ok r => Except.ok { r with queue := unlock r.queue }

/-- The function `CancelBuffer(sequence, bedata)`. -/
def CancelBuffer (K : SurfaceConsts) (q : BufferQueue) (sequence : Int)
    (bedata : Option BufferExtraData) : Except Fault (GSError × BufferQueue) :=
  if q.isShared_ = true then Except.ok (GSError.GSERROR_INVALID_OPERATING, q)
  else
    match lock q with
    | Except.error f => Except.error f
    | Except.ok q1 =>
      match cacheFind q1.bufferQueueCache_ sequence with
      | none => Except.ok (GSError.GSERROR_NO_ENTRY, unlock q1)
      | some e =>
        if e.state ≠ BufferState.BUFFER_STATE_REQUESTED then
          Except.ok (GSError.GSERROR_INVALID_OPERATING, unlock q1)
        else
          match e.buffer with
          | none => Except.error Fault.nullDeref
          | some b =>
            Except.ok (GSError.GSERROR_OK, unlock
              { q1 with
                bufferQueueCache_ := cacheModify K q1.bufferQueueCache_ sequence
                  (fun e1 => { e1 with state := BufferState.BUFFER_STATE_RELEASED,
                                       buffer := some { b with extraData := bedata } }),
                freeList_ := q1.freeList_ ++ [sequence] })

/-- The function `DoFlushBuffer(sequence, bedata, fence, config)`;
`flushCacheRet` is what `FlushCache()` returns when it is called and `now` is
the reading of `gettimeofday` in microseconds. -/
def DoFlushBuffer (K : SurfaceConsts) (q : BufferQueue) (sequence : Int)
    (bedata : Option BufferExtraData) (fence : Int) (config : BufferFlushConfig)
    (flushCacheRet : GSError) (now : Int) : Except Fault (GSError × BufferQueue) :=
  match lock q with
  | Except.error f => Except.error f
  | Except.ok q1 =>
    let r := cacheIndex K q1.bufferQueueCache_ sequence
    if r.1.isDeleting = true then
      Except.ok (GSError.GSERROR_OK,
        unlock (DeleteBufferInCache { q1 with bufferQueueCache_ := r.2 } sequence))
    else
      match r.1.buffer with
      | none => Except.error Fault.nullDeref
      | some b =>
        let c1 := cacheModify K r.2 sequence
          (fun e => { e with state := BufferState.BUFFER_STATE_FLUSHED,
                             buffer := some { b with extraData := bedata },
                             fence := some fence, damage := config.damage })
        let q2 : BufferQueue :=
          { q1 with bufferQueueCache_ := c1, dirtyList_ := q1.dirtyList_ ++ [sequence] }
        let usage : Nat := (r.1.config.usage % 2 ^ 32).toNat
        if usage &&& K.HBM_USE_CPU_WRITE ≠ 0 ∧ flushCacheRet ≠ GSError.GSERROR_OK then
          Except.ok (flushCacheRet, unlock q2)
        else
          let ts := if config.timestamp = 0 then now else config.timestamp
          Except.ok (GSError.GSERROR_OK, unlock
            { q2 with bufferQueueCache_ :=
                cacheModify K c1 sequence (fun e => { e with timestamp := ts }) })

/-- The function `FlushBuffer(sequence, bedata, fence, config)`. -/
def FlushBuffer (K : SurfaceConsts) (q : BufferQueue) (sequence : Int)
    (bedata : Option BufferExtraData) (fence : Int) (config : BufferFlushConfig)
    (flushCacheRet : GSError) (now : Int) : Except Fault (GSError × BufferQueue) :=
  if CheckFlushConfig config ≠ GSError.GSERROR_OK then Except.ok (CheckFlushConfig config, q)
  else
    match lock q with
    | Except.error f => Except.error f
    | Except.ok q1 =>
      match cacheFind q1.bufferQueueCache_ sequence with
      | none => Except.ok (GSError.GSERROR_NO_ENTRY, unlock q1)
      | some e =>
        if q1.isShared_ = false ∧ e.state ≠ BufferState.BUFFER_STATE_REQUESTED ∧
            e.state ≠ BufferState.BUFFER_STATE_ATTACHED then
          Except.ok (GSError.GSERROR_NO_ENTRY, unlock q1)
        else
          let q2 := unlock q1
          if q2.listener_ = none ∧ q2.listenerClazz_ = none then
            match CancelBuffer K q2 sequence bedata with
            | Except.error f => Except.error f
            | Except.ok r => Except.ok (GSError.GSERROR_NO_CONSUMER, r.2)
          else
            match DoFlushBuffer K q2 sequence bedata fence config flushCacheRet now with
            | Except.error f => Except.error f
            | Except.ok r =>
              if r.1 ≠ GSError.GSERROR_OK then Except.ok r
              else Except.ok (GSError.GSERROR_OK,
                { r.2 with availableCalls := r.2.availableCalls + 1 })

/-- Result of `AcquireBuffer`: the status, the four out-parameters and the
queue afterwards. -/
structure AcquireResult where
  ret : GSError
  buffer : Option SurfaceBuffer
  fence : Option Int
  timestamp : Int
  damage : Rect
  queue : BufferQueue
  deriving DecidableEq, Repr

/-- The function `AcquireBuffer(buffer, fence, timestamp, damage)`. -/
def AcquireBuffer (K : SurfaceConsts) (q : BufferQueue) : Except Fault AcquireResult :=
  match lock q with
  | Except.error f => Except.error f
  | Except.ok q1 =>
    let p := PopFromDirtyList K q1
    if p.1 = GSError.GSERROR_OK then
      match p.2.1 with
      | none => Except.error Fault.nullDeref
      | some b =>
        let c1 := cacheModify K p.2.2.bufferQueueCache_ b.seqNum
          (fun e => { e with state := BufferState.BUFFER_STATE_ACQUIRED })
        let r := cacheIndex K c1 b.seqNum
        Except.ok { ret := GSError.GSERROR_OK, buffer := some b, fence := r.1.fence,
                    timestamp := r.1.timestamp, damage := r.1.damage,
                    queue := unlock { p.2.2 with bufferQueueCache_ := r.2 } }
    else
      Except.ok { ret := p.1, buffer := p.2.1, fence := none, timestamp := 0,
                  damage := { x := 0, y := 0, w := 0, h := 0 }, queue := unlock p.2.2 }

/-- The function `ReleaseBuffer(buffer, fence)`; `cbRet` is what the
`onBufferRelease` callback returns when it is installed and called. -/
def ReleaseBuffer (K : SurfaceConsts) (q : BufferQueue) (buffer : Option SurfaceBuffer)
    (fence : Int) (cbRet : GSError) : Except Fault (GSError × BufferQueue) :=
  match buffer with
  | none => Except.ok (GSError.GSERROR_INVALID_ARGUMENTS, q)
  | some b =>
    match lock q with
    | Except.error f => Except.error f
    | Except.ok q1 =>
      match cacheFind q1.bufferQueueCache_ b.seqNum with
      | none => Except.ok (GSError.GSERROR_NO_ENTRY, unlock q1)
      | some e =>
        if q1.isShared_ = false ∧ e.state ≠ BufferState.BUFFER_STATE_ACQUIRED ∧
            e.state ≠ BufferState.BUFFER_STATE_ATTACHED then
          Except.ok (GSError.GSERROR_NO_ENTRY, unlock q1)
        else
          let q2 := unlock q1
          if q2.onBufferRelease = true ∧ cbRet = GSError.GSERROR_OK then
            Except.ok (GSError.GSERROR_OK, q2)
          else
            match lock q2 with
            | Except.error f => Except.error f
            | Except.ok q3 =>
              let c1 := cacheModify K q3.bufferQueueCache_ b.seqNum
                (fun e1 => { e1 with state := BufferState.BUFFER_STATE_RELEASED,
                                     fence := some fence })
              let r := cacheIndex K c1 b.seqNum
              if r.1.isDeleting = true then
                Except.ok (GSError.GSERROR_OK,
                  unlock (DeleteBufferInCache { q3 with bufferQueueCache_ := r.2 } b.seqNum))
              else
                Except.ok (GSError.GSERROR_OK,
                  unlock { q3 with bufferQueueCache_ := r.2,
                                   freeList_ := q3.freeList_ ++ [b.seqNum] })

/-- The first two loops of `DeleteBuffers`, run over the list `l` (`freeList_`,
then `dirtyList_`): the front is deleted from the cache and popped, until the
list is empty or `count` reaches zero.  The result is the queue, what is left
of the list, the count, and whether the function has returned. -/
def DeleteBuffers.drain : BufferQueue → List Int → Int → BufferQueue × List Int × Int × Bool
  | q, [], count => (q, [], count, false)
  | q, s :: rest, count =>
    if count - 1 ≤ 0 then (DeleteBufferInCache q s, rest, count - 1, true)
    else DeleteBuffers.drain (DeleteBufferInCache q s) rest (count - 1)

/-- The last loop of `DeleteBuffers`: entries are flagged in key order until
`count` reaches zero. -/
def DeleteBuffers.mark : Cache → Int → Cache
  | [], _ => []
  | (k, e) :: rest, count =>
    (k, { e with isDeleting := true }) ::
      (if count - 1 ≤ 0 then rest else DeleteBuffers.mark rest (count - 1))

/-- The part of `DeleteBuffers(count)` that runs with `mutex_` held. -/
def DeleteBuffers.locked (q : BufferQueue) (count : Int) : BufferQueue :=
  let d1 := DeleteBuffers.drain q q.freeList_ count
  let q1 : BufferQueue := { d1.1 with freeList_ := d1.2.1 }
  if d1.2.2.2 = true then q1
  else
    let d2 := DeleteBuffers.drain q1 q1.dirtyList_ d1.2.2.1
    let q2 : BufferQueue := { d2.1 with dirtyList_ := d2.2.1 }
    if d2.2.2.2 = true then q2
    else { q2 with bufferQueueCache_ := DeleteBuffers.mark q2.bufferQueueCache_ d2.2.2.1 }

/-- The function `DeleteBuffers(count)`. -/
def DeleteBuffers (q : BufferQueue) (count : Int) : Except Fault BufferQueue :=
  if count ≤ 0 then Except.ok q
  else
    match lock q with
    | Except.error f => Except.error f
    | Except.ok q1 => Except.ok (unlock (DeleteBuffers.locked q1 count))

/-- The element that `AttachBuffer` stores for `buffer`; the three
enumerations of the config keep their default member initialisers. -/
def attachElement (K : SurfaceConsts) (b : SurfaceBuffer) : BufferElement :=
  { buffer := some b, state := BufferState.BUFFER_STATE_ATTACHED, isDeleting := false,
    config := { width := b.width, height := b.height, strideAlignment := 8, format := b.format,
                usage := b.usage, timeout := 0, colorGamut := K.COLOR_GAMUT_SRGB,
                transform := K.ROTATE_NONE, scalingMode := K.SCALING_MODE_SCALE_TO_WINDOW },
    fence := none, timestamp := 0,
    damage := { x := 0, y := 0, w := b.width, h := b.height } }

/-- The function `AttachBuffer(buffer)`. -/
def AttachBuffer (K : SurfaceConsts) (q : BufferQueue) (buffer : Option SurfaceBuffer) :
    Except Fault (GSError × BufferQueue) :=
  if q.isShared_ = true then Except.ok (GSError.GSERROR_INVALID_OPERATING, q)
  else
    match buffer with
    | none => Except.ok (GSError.GSERROR_INVALID_ARGUMENTS, q)
    | some b =>
      match lock q with
      | Except.error f => Except.error f
      | Except.ok q1 =>
        let usedSize : Int := (GetUsedSize q1 : Int)
        let queueSize : Int := toInt32 (GetQueueSize q1)
        if usedSize ≥ queueSize then
          let freeSize : Int := ((q1.dirtyList_.length + q1.freeList_.length : Nat) : Int)
          if freeSize ≥ usedSize - queueSize + 1 then
            match DeleteBuffers q1 (usedSize - queueSize + 1) with
            | Except.error f => Except.error f
            | Except.ok q2 =>
              Except.ok (GSError.GSERROR_OK, unlock
                { q2 with bufferQueueCache_ :=
                    cacheInsert K q2.bufferQueueCache_ b.seqNum (attachElement K b) })
          else Except.ok (GSError.GSERROR_OUT_OF_RANGE, unlock q1)
        else
          Except.ok (GSError.GSERROR_OK, unlock
            { q1 with bufferQueueCache_ :=
                cacheInsert K q1.bufferQueueCache_ b.seqNum (attachElement K b) })

/-- The function `DetachBuffer(buffer)`. -/
def DetachBuffer (q : BufferQueue) (buffer : Option SurfaceBuffer) :
    Except Fault (GSError × BufferQueue) :=
  if q.isShared_ = true then Except.ok (GSError.GSERROR_INVALID_OPERATING, q)
  else
    match buffer with
    | none => Except.ok (GSError.GSERROR_INVALID_ARGUMENTS, q)
    | some b =>
      match lock q with
      | Except.error f => Except.error f
      | Except.ok q1 =>
        match cacheFind q1.bufferQueueCache_ b.seqNum with
        | none => Except.ok (GSError.GSERROR_NO_ENTRY, unlock q1)
        | some e =>
          if e.state = BufferState.BUFFER_STATE_REQUESTED ∨
              e.state = BufferState.BUFFER_STATE_ACQUIRED then
            Except.ok (GSError.GSERROR_OK, unlock
              { q1 with
                deleteCalls :=
                  if q1.onBufferDelete_ = true then q1.deleteCalls ++ [b.seqNum]
                  else q1.deleteCalls,
                bufferQueueCache_ := cacheErase q1.bufferQueueCache_ b.seqNum })
          else Except.ok (GSError.GSERROR_NO_ENTRY, unlock q1)

/-- The function `SetQueueSize(queueSize)`; the argument of `DeleteBuffers` is
the `uint32_t` difference converted to `int32_t`. -/
def SetQueueSize (K : SurfaceConsts) (q : BufferQueue) (queueSize : Nat) :
    Except Fault (GSError × BufferQueue) :=
  if q.isShared_ = true ∧ queueSize ≠ 1 then Except.ok (GSError.GSERROR_INVALID_ARGUMENTS, q)
  else if queueSize ≤ 0 then Except.ok (GSError.GSERROR_INVALID_ARGUMENTS, q)
  else if queueSize > K.SURFACE_MAX_QUEUE_SIZE then
    Except.ok (GSError.GSERROR_INVALID_ARGUMENTS, q)
  else
    match DeleteBuffers q (toInt32 (q.queueSize_ % 2 ^ 32 + 2 ^ 32 - queueSize % 2 ^ 32)) with
    | Except.error f => Except.error f
    | Except.ok q1 => Except.ok (GSError.GSERROR_OK, { q1 with queueSize_ := queueSize })

/-- The overload `RegisterConsumerListener(sptr<IBufferConsumerListener>&)`. -/
def RegisterConsumerListener (q : BufferQueue) (listener : Option Nat) : GSError × BufferQueue :=
  (GSError.GSERROR_OK, { q with listener_ := listener })

/-- The overload `RegisterConsumerListener(IBufferConsumerListenerClazz*)`. -/
def RegisterConsumerListenerClazz (q : BufferQueue) (listener : Option Nat) :
    GSError × BufferQueue :=
  (GSError.GSERROR_OK, { q with listenerClazz_ := listener })

/-- The function `UnregisterConsumerListener()`. -/
def UnregisterConsumerListener (q : BufferQueue) : GSError × BufferQueue :=
  (GSError.GSERROR_OK, { q with listener_ := none, listenerClazz_ := none })

/-- The function `RegisterReleaseListener(func)`; `func` is null or not. -/
def RegisterReleaseListener (q : BufferQueue) (func : Bool) : GSError × BufferQueue :=
  (GSError.GSERROR_OK, { q with onBufferRelease := func })

/-- The function `RegisterDeleteBufferListener(func)`. -/
def RegisterDeleteBufferListener (q : BufferQueue) (func : Bool) :
    Except Fault (GSError × BufferQueue) :=
  match lock q with
  | Except.error f => Except.error f
  | Except.ok q1 =>
    if q1.onBufferDelete_ = true then Except.ok (GSError.GSERROR_OK, unlock q1)
    else Except.ok (GSError.GSERROR_OK, unlock { q1 with onBufferDelete_ := func })

/-- The function `CleanCache()`. -/
def CleanCache (q : BufferQueue) : Except Fault (GSError × BufferQueue) :=
  match lock q with
  | Except.error f => Except.error f
  | Except.ok q1 =>
    Except.ok (GSError.GSERROR_OK, unlock
      { q1 with
        deleteCalls :=
          if q1.onBufferDelete_ = true then q1.deleteCalls ++ cacheKeys q1.bufferQueueCache_
          else q1.deleteCalls,
        bufferQueueCache_ := [], freeList_ := [], dirtyList_ := [], deletingList_ := [] })

/-- A call of a public operation, with its arguments and with the answers of
the external collaborators it consults. -/
inductive Op where
  | requestBuffer (config : BufferRequestConfig) (a : AllocOutcome)
  | cancelBuffer (sequence : Int) (bedata : Option BufferExtraData)
  | flushBuffer (sequence : Int) (bedata : Option BufferExtraData) (fence : Int)
      (config : BufferFlushConfig) (flushCacheRet : GSError) (now : Int)
  | acquireBuffer
  | releaseBuffer (buffer : Option SurfaceBuffer) (fence : Int) (cbRet : GSError)
  | attachBuffer (buffer : Option SurfaceBuffer)
  | detachBuffer (buffer : Option SurfaceBuffer)
  | setQueueSize (queueSize : Nat)
  | cleanCache
  | registerConsumerListener (listener : Option Nat)
  | registerConsumerListenerClazz (listener : Option Nat)
  | unregisterConsumerListener
  | registerReleaseListener (func : Bool)
  | registerDeleteBufferListener (func : Bool)
  deriving DecidableEq, Repr

/-- The queue after one call, when the call returns. -/
def step (K : SurfaceConsts) (q : BufferQueue) : Op → Except Fault BufferQueue
  | Op.requestBuffer config a => (RequestBuffer K q config a).map (fun r => r.queue)
  | Op.cancelBuffer sequence bedata => (CancelBuffer K q sequence bedata).map (fun r => r.2)
  | Op.flushBuffer sequence bedata fence config flushCacheRet now =>
    (FlushBuffer K q sequence bedata fence config flushCacheRet now).map (fun r => r.2)
  | Op.acquireBuffer => (AcquireBuffer K q).map (fun r => r.queue)
  | Op.releaseBuffer buffer fence cbRet =>
    (ReleaseBuffer K q buffer fence cbRet).map (fun r => r.2)
  | Op.attachBuffer buffer => (AttachBuffer K q buffer).map (fun r => r.2)
  | Op.detachBuffer buffer => (DetachBuffer q buffer).map (fun r => r.2)
  | Op.setQueueSize queueSize => (SetQueueSize K q queueSize).map (fun r => r.2)
  | Op.cleanCache => (CleanCache q).map (fun r => r.2)
  | Op.registerConsumerListener listener => Except.ok (RegisterConsumerListener q listener).2
  | Op.registerConsumerListenerClazz listener =>
    Except.ok (RegisterConsumerListenerClazz q listener).2
  | Op.unregisterConsumerListener => Except.ok (UnregisterConsumerListener q).2
  | Op.registerReleaseListener func => Except.ok (RegisterReleaseListener q func).2
  | Op.registerDeleteBufferListener func =>
    (RegisterDeleteBufferListener q func).map (fun r => r.2)

/-- The queue after a sequence of calls, when all of them return. -/
def run (K : SurfaceConsts) : BufferQueue → List Op → Except Fault BufferQueue
  | q, [] => Except.ok q
  | q, op :: ops =>
    match step K q op with
    | Except.error f => Except.error f
    | Except.ok q1 => run K q1 ops

/-- Sample values of the header constants, for evaluation. -/
def sampleConsts : SurfaceConsts :=
  { SURFACE_DEFAULT_QUEUE_SIZE := 3, SURFACE_MAX_QUEUE_SIZE := 10,
    SURFACE_MIN_STRIDE_ALIGNMENT := 4, SURFACE_MAX_STRIDE_ALIGNMENT := 32,
    PIXEL_FMT_BUTT := 36, COLOR_GAMUT_INVALID := -1, COLOR_GAMUT_SRGB := 4,
    COLOR_GAMUT_DISPLAY_BT2020 := 10, ROTATE_NONE := 0, ROTATE_BUTT := 4,
    SCALING_MODE_FREEZE := 0, SCALING_MODE_SCALE_TO_WINDOW := 1,
    SCALING_MODE_NO_SCALE_CROP := 3, HBM_USE_CPU_WRITE := 2 }

/-- Sample request: 800x600, format 12, with the given usage. -/
def sampleConfig (w h : Int) : BufferRequestConfig :=
  { width := w, height := h, strideAlignment := 8, format := 12, usage := 0, timeout := 0,
    colorGamut := 4, transform := 0, scalingMode := 1 }

/-- Sample buffer with sequence number `s`. -/
def sampleBuffer (s : Int) (w h : Int) : SurfaceBuffer :=
  { seqNum := s, width := w, height := h, format := 12, usage := 0, size := 0,
    extraData := none }

/-- Sample allocator answer: success with sequence number `s`. -/
def sampleAlloc (s : Int) (w h : Int) : AllocOutcome :=
  { buffer := sampleBuffer s w h, allocRet := GSError.GSERROR_OK,
    mapRet := GSError.GSERROR_OK }

/-- Well-formedness of cache and lists in a non-shared queue: every cache
entry holds the buffer whose sequence number is its key, the entries of the
free list are cached in state Released and those of the dirty list in state
Flushed, and neither list repeats an entry. -/
structure CoreN (c : Cache) (free dirty : List Int) : Prop where
  buf : ∀ k e, cacheFind c k = some e → ∃ b, e.buffer = some b ∧ b.seqNum = k
  free_in : ∀ s ∈ free, ∃ e, cacheFind c s = some e ∧
    e.state = BufferState.BUFFER_STATE_RELEASED
  dirty_in : ∀ s ∈ dirty, ∃ e, cacheFind c s = some e ∧
    e.state = BufferState.BUFFER_STATE_FLUSHED
  free_nodup : free.Nodup
  dirty_nodup : dirty.Nodup

/-- Well-formedness of a non-shared queue between calls: the mutex is free
and cache and lists are well-formed. -/
structure InvN (q : BufferQueue) : Prop where
  notShared : q.isShared_ = false
  unlocked : q.mutex_ = false
  core : CoreN q.bufferQueueCache_ q.freeList_ q.dirtyList_

/-- Well-formedness of cache and lists in a shared queue: the cache holds at
most one entry, every cache entry holds the buffer whose sequence number is
its key and is not flagged for deletion, and the entries of both lists are
cached. -/
structure CoreS (c : Cache) (free dirty : List Int) : Prop where
  buf : ∀ k e, cacheFind c k = some e → ∃ b, e.buffer = some b ∧ b.seqNum = k
  free_in : ∀ s ∈ free, ∃ e, cacheFind c s = some e
  dirty_in : ∀ s ∈ dirty, ∃ e, cacheFind c s = some e
  len : c.length ≤ 1
  noDel : ∀ k e, cacheFind c k = some e → e.isDeleting = false

/-- Well-formedness of a shared queue between calls: the mutex is free, the
queue size is one, and cache and lists are well-formed. -/
structure InvS (q : BufferQueue) : Prop where
  shared : q.isShared_ = true
  unlocked : q.mutex_ = false
  size : q.queueSize_ = 1
  core : CoreS q.bufferQueueCache_ q.freeList_ q.dirtyList_

/-- A call that brings no sequence number into the cache that is already
there: the buffer the allocator constructs, and the buffer given to
`AttachBuffer`, carry sequence numbers that are not keys of the cache. -/
def Op.fresh (q : BufferQueue) : Op → Bool
  | Op.requestBuffer _ a => (cacheFind q.bufferQueueCache_ a.buffer.seqNum).isNone
  | Op.attachBuffer (some b) => (cacheFind q.bufferQueueCache_ b.seqNum).isNone
  | _ => true

/-- Every call of the sequence is `Op.fresh` in the state it is made in. -/
def freshRun (K : SurfaceConsts) : BufferQueue → List Op → Bool
  | _, [] => true
  | q, op :: ops =>
    Op.fresh q op &&
      (match step K q op with
       | Except.ok q1 => freshRun K q1 ops
       | Except.error _ => true)

/-- The largest queue size among the states that a sequence of calls passes
through, the first and the last included. -/
def peakQueueSize (K : SurfaceConsts) : BufferQueue → List Op → Nat
  | q, [] => q.queueSize_
  | q, op :: ops =>
    max q.queueSize_
      (match step K q op with
       | Except.ok q1 => peakQueueSize K q1 ops
       | Except.error _ => 0)

/-- The queue after a sequence of calls, or the initial queue when a call
does not return. -/
def runOr (K : SurfaceConsts) (q : BufferQueue) (ops : List Op) : BufferQueue :=
  match run K q ops with
  | Except.ok q1 => q1
  | Except.error _ => q

/-- Sample flush parameters: full damage of an 800x600 buffer, timestamp 5. -/
def sampleFlush : BufferFlushConfig :=
  { damage := { x := 0, y := 0, w := 800, h := 600 }, timestamp := 5 }

/-- Sample calls on a non-shared queue: two buffers are requested, the first
is cancelled and the second is flushed. -/
def sampleOps : List Op :=
  [Op.registerConsumerListener (some 1),
   Op.requestBuffer (sampleConfig 800 600) (sampleAlloc 0 800 600),
   Op.requestBuffer (sampleConfig 800 600) (sampleAlloc 1 800 600),
   Op.cancelBuffer 0 none,
   Op.flushBuffer 1 none (-1) sampleFlush GSError.GSERROR_OK 7]

/-- Sample calls on a non-shared queue that attach a buffer the queue already
holds: the buffer is requested, cancelled (so it sits in `freeList_`),
attached, flushed, acquired and detached. -/
def reattachOps : List Op :=
  [Op.registerConsumerListener (some 1),
   Op.requestBuffer (sampleConfig 800 600) (sampleAlloc 0 800 600),
   Op.cancelBuffer 0 none,
   Op.attachBuffer (some (sampleBuffer 0 800 600)),
   Op.flushBuffer 0 none (-1) sampleFlush GSError.GSERROR_OK 7,
   Op.acquireBuffer,
   Op.detachBuffer (some (sampleBuffer 0 800 600))]

/-- Sample calls on a non-shared queue: two buffers are requested and the
queue size is then set to one. -/
def shrinkOps : List Op :=
  [Op.registerConsumerListener (some 1),
   Op.requestBuffer (sampleConfig 800 600) (sampleAlloc 0 800 600),
   Op.requestBuffer (sampleConfig 800 600) (sampleAlloc 1 800 600),
   Op.setQueueSize 1]

/-- Sample calls on a shared queue: the single buffer is requested, flushed
twice, acquired and released, requests with another config and a failing
allocator are made, and attach, detach, cancel and resize are attempted. -/
def sharedOps : List Op :=
  [Op.registerConsumerListener (some 1),
   Op.requestBuffer (sampleConfig 800 600)
     { buffer := sampleBuffer 7 800 600, allocRet := GSError.GSERROR_NO_MEM,
       mapRet := GSError.GSERROR_OK },
   Op.requestBuffer (sampleConfig 800 600) (sampleAlloc 0 800 600),
   Op.requestBuffer (sampleConfig 1024 768) (sampleAlloc 1 1024 768),
   Op.flushBuffer 0 none (-1) sampleFlush GSError.GSERROR_OK 7,
   Op.flushBuffer 0 none (-1) sampleFlush GSError.GSERROR_OK 7,
   Op.acquireBuffer,
   Op.releaseBuffer (some (sampleBuffer 0 800 600)) (-1) GSError.GSERROR_OK,
   Op.attachBuffer (some (sampleBuffer 5 800 600)),
   Op.detachBuffer (some (sampleBuffer 0 800 600)),
   Op.cancelBuffer 0 none,
   Op.setQueueSize 2,
   Op.setQueueSize 1,
   Op.requestBuffer (sampleConfig 800 600) (sampleAlloc 2 800 600)]

/-- Sample calls on a non-shared queue: a 640x480 and an 800x600 buffer are
requested and both are cancelled, so that `freeList_` is `[0, 1]`. -/
def twoFreeOps : List Op :=
  [Op.registerConsumerListener (some 1),
   Op.registerDeleteBufferListener true,
   Op.requestBuffer (sampleConfig 640 480) (sampleAlloc 0 640 480),
   Op.requestBuffer (sampleConfig 800 600) (sampleAlloc 1 800 600),
   Op.cancelBuffer 0 none,
   Op.cancelBuffer 1 none]

/-- Sample calls on a non-shared queue, the single-buffer round trip: request,
flush, acquire, release of buffer `0`. -/
def roundTripOps : List Op :=
  [Op.registerConsumerListener (some 1),
   Op.requestBuffer (sampleConfig 800 600) (sampleAlloc 0 800 600),
   Op.flushBuffer 0 none (-1) sampleFlush GSError.GSERROR_OK 7,
   Op.acquireBuffer,
   Op.releaseBuffer (some (sampleBuffer 0 800 600)) (-1) GSError.GSERROR_OK]

/-- Sample calls on a non-shared queue of size one whose only buffer is held
by the producer. -/
def heldOps : List Op :=
  [Op.registerConsumerListener (some 1),
   Op.setQueueSize 1,
   Op.requestBuffer (sampleConfig 800 600) (sampleAlloc 0 800 600)]

/-- Sample calls on a shared queue: the single buffer is requested. -/
def sharedHeldOps : List Op :=
  [Op.registerConsumerListener (some 1),
   Op.requestBuffer (sampleConfig 800 600) (sampleAlloc 0 800 600)]

/-- What a request reports: status, sequence number and `deletingBuffers`. -/
def RequestResult.report (r : RequestResult) : GSError × Int × List Int :=
  (r.ret, r.retval.sequence, r.retval.deletingBuffers)

/-- What the caller of one call sees: the status, and the sequence number
of the buffer handed out by `RequestBuffer` or `AcquireBuffer`. -/
def opReport (K : SurfaceConsts) (q : BufferQueue) : Op → Except Fault (GSError × Option Int)
  | Op.requestBuffer config a =>
    (RequestBuffer K q config a).map (fun r => (r.ret, some r.retval.sequence))
  | Op.cancelBuffer sequence bedata =>
    (CancelBuffer K q sequence bedata).map (fun r => (r.1, none))
  | Op.flushBuffer sequence bedata fence config flushCacheRet now =>
    (FlushBuffer K q sequence bedata fence config flushCacheRet now).map (fun r => (r.1, none))
  | Op.acquireBuffer =>
    (AcquireBuffer K q).map (fun r => (r.ret, r.buffer.map (fun b => b.seqNum)))
  | Op.releaseBuffer buffer fence cbRet =>
    (ReleaseBuffer K q buffer fence cbRet).map (fun r => (r.1, none))
  | Op.attachBuffer buffer => (AttachBuffer K q buffer).map (fun r => (r.1, none))
  | Op.detachBuffer buffer => (DetachBuffer q buffer).map (fun r => (r.1, none))
  | Op.setQueueSize queueSize => (SetQueueSize K q queueSize).map (fun r => (r.1, none))
  | Op.cleanCache => (CleanCache q).map (fun r => (r.1, none))
  | Op.registerConsumerListener listener =>
    Except.ok ((RegisterConsumerListener q listener).1, none)
  | Op.registerConsumerListenerClazz listener =>
    Except.ok ((RegisterConsumerListenerClazz q listener).1, none)
  | Op.unregisterConsumerListener => Except.ok ((UnregisterConsumerListener q).1, none)
  | Op.registerReleaseListener func => Except.ok ((RegisterReleaseListener q func).1, none)
  | Op.registerDeleteBufferListener func =>
    (RegisterDeleteBufferListener q func).map (fun r => (r.1, none))

/-- What the caller sees of each call of a sequence. -/
def runReports (K : SurfaceConsts) :
    BufferQueue → List Op → Except Fault (List (GSError × Option Int))
  | _, [] => Except.ok []
  | q, op :: ops =>
    match opReport K q op, step K q op with
    | Except.ok rep, Except.ok q1 => (runReports K q1 ops).map (fun reps => rep :: reps)
    | Except.error f, _ => Except.error f
    | _, Except.error f => Except.error f

/-- Sample calls on a non-shared queue: two 800x600 buffers are requested and
cancelled (so that `freeList_` is `[0, 1]`); then the round trip of the buffer
that the next request hands out, and one more request with the same config. -/
def sameConfigRoundTripOps : List Op :=
  [Op.registerConsumerListener (some 1),
   Op.requestBuffer (sampleConfig 800 600) (sampleAlloc 0 800 600),
   Op.requestBuffer (sampleConfig 800 600) (sampleAlloc 1 800 600),
   Op.cancelBuffer 0 none,
   Op.cancelBuffer 1 none,
   Op.requestBuffer (sampleConfig 800 600) (sampleAlloc 2 800 600),
   Op.flushBuffer 0 none (-1) sampleFlush GSError.GSERROR_OK 7,
   Op.acquireBuffer,
   Op.releaseBuffer (some (sampleBuffer 0 800 600)) (-1) GSError.GSERROR_OK,
   Op.requestBuffer (sampleConfig 800 600) (sampleAlloc 3 800 600)]

/-- Sample calls: the round trip of buffer `1` after `twoFreeOps`. -/
def cycleOneOps : List Op :=
  [Op.requestBuffer (sampleConfig 800 600) (sampleAlloc 2 800 600),
   Op.flushBuffer 1 none (-1) sampleFlush GSError.GSERROR_OK 7,
   Op.acquireBuffer,
   Op.releaseBuffer (some (sampleBuffer 1 800 600)) (-1) GSError.GSERROR_OK]

/-- What `AcquireBuffer` hands to the consumer: status, sequence number of
the buffer, fence, timestamp and damage. -/
def AcquireResult.report (r : AcquireResult) : GSError × Option Int × Option Int × Int × Rect :=
  (r.ret, r.buffer.map (fun b => b.seqNum), r.fence, r.timestamp, r.damage)

/-- Sample calls on a non-shared queue: two 800x600 buffers are requested. -/
def twoRequestedOps : List Op :=
  [Op.registerConsumerListener (some 1),
   Op.requestBuffer (sampleConfig 800 600) (sampleAlloc 0 800 600),
   Op.requestBuffer (sampleConfig 800 600) (sampleAlloc 1 800 600)]

/-- Sample calls on a non-shared queue of size five: buffer `0` is attached,
buffer `1` is requested, buffer `2` is requested, flushed and acquired, and
the queue size is then set to one, which flags the three entries for
deletion. -/
def flaggedOps : List Op :=
  [Op.registerConsumerListener (some 1),
   Op.setQueueSize 5,
   Op.attachBuffer (some (sampleBuffer 0 800 600)),
   Op.requestBuffer (sampleConfig 800 600) (sampleAlloc 1 800 600),
   Op.requestBuffer (sampleConfig 800 600) (sampleAlloc 2 800 600),
   Op.flushBuffer 2 none (-1) sampleFlush GSError.GSERROR_OK 7,
   Op.acquireBuffer,
   Op.setQueueSize 1]

/-- Sample allocator answer: `Alloc` fails with `GSERROR_NO_MEM`. -/
def failedAlloc (s : Int) (w h : Int) : AllocOutcome :=
  { buffer := sampleBuffer s w h, allocRet := GSError.GSERROR_NO_MEM,
    mapRet := GSError.GSERROR_OK }

/-- The status of `AllocBuffer` when the allocator refuses: the result of
`Alloc(config)` if it is not Ok, else the result of `Map()`. -/
def allocError (a : AllocOutcome) : GSError :=
  if a.allocRet ≠ GSError.GSERROR_OK then a.allocRet else a.mapRet

/-- Sample calls on a non-shared queue: buffer `0` is requested and the
consumer listener is then unregistered. -/
def noListenerOps : List Op :=
  [Op.registerConsumerListener (some 1),
   Op.requestBuffer (sampleConfig 800 600) (sampleAlloc 0 800 600),
   Op.unregisterConsumerListener]

/-- Sample calls on a non-shared queue of size one whose only buffer sits in
`freeList_`. -/
def fullQueueOps : List Op :=
  [Op.registerConsumerListener (some 1),
   Op.setQueueSize 1,
   Op.requestBuffer (sampleConfig 800 600) (sampleAlloc 0 800 600),
   Op.cancelBuffer 0 none]

/-- Sample calls on a non-shared queue: buffer `0` is requested, flushed and
acquired, so that the consumer holds it. -/
def acquiredOps : List Op :=
  [Op.registerConsumerListener (some 1),
   Op.requestBuffer (sampleConfig 800 600) (sampleAlloc 0 800 600),
   Op.flushBuffer 0 none (-1) sampleFlush GSError.GSERROR_OK 7,
   Op.acquireBuffer]

/-- The cache after `erase(s)` for every `s` of the list, in order. -/
def eraseAll (c : Cache) (l : List Int) : Cache := l.foldl cacheErase c

/-- The cache with `isDeleting` set on its first `m` entries in key order. -/
def flagFirst (m : Nat) (c : Cache) : Cache :=
  (c.take m).map (fun p => (p.1, { p.2 with isDeleting := true })) ++ c.drop m

/-- The call registers or unregisters through the owned-interface overload. -/
def Op.isOwnedListenerCall : Op → Bool
  | Op.registerConsumerListener _ => true
  | Op.unregisterConsumerListener => true
  | _ => false

/-- The call registers or unregisters through the raw-capability overload. -/
def Op.isRawListenerCall : Op → Bool
  | Op.registerConsumerListenerClazz _ => true
  | Op.unregisterConsumerListener => true
  | _ => false

/-- The call is `AttachBuffer`. -/
def Op.isAttach : Op → Bool
  | Op.attachBuffer _ => true
  | _ => false

/-- Sample calls on a non-shared queue of size five: three buffers are
requested and the queue size is set to four, which flags buffer `0`. -/
def reflagOps : List Op :=
  [Op.registerConsumerListener (some 1),
   Op.setQueueSize 5,
   Op.requestBuffer (sampleConfig 800 600) (sampleAlloc 0 800 600),
   Op.requestBuffer (sampleConfig 800 600) (sampleAlloc 1 800 600),
   Op.requestBuffer (sampleConfig 800 600) (sampleAlloc 2 800 600),
   Op.setQueueSize 4]

/-- Sample calls on a non-shared queue of size five: buffers `0` to `3` are
requested, `0` and `1` are cancelled into `freeList_`, `2` is flushed into
`dirtyList_`, and `3` stays with the producer. -/
def mixedOps : List Op :=
  [Op.registerConsumerListener (some 1),
   Op.registerDeleteBufferListener true,
   Op.setQueueSize 5,
   Op.requestBuffer (sampleConfig 800 600) (sampleAlloc 0 800 600),
   Op.requestBuffer (sampleConfig 800 600) (sampleAlloc 1 800 600),
   Op.requestBuffer (sampleConfig 800 600) (sampleAlloc 2 800 600),
   Op.requestBuffer (sampleConfig 800 600) (sampleAlloc 3 800 600),
   Op.cancelBuffer 0 none,
   Op.cancelBuffer 1 none,
   Op.flushBuffer 2 none (-1) sampleFlush GSError.GSERROR_OK 7]

/-- Sample request for a buffer that the CPU writes: usage `HBM_USE_CPU_WRITE`. -/
def cpuWriteConfig : BufferRequestConfig :=
  { sampleConfig 800 600 with usage := 2 }

/-- Sample calls on a non-shared queue: a buffer with usage `HBM_USE_CPU_WRITE`
is requested. -/
def cpuWriteOps : List Op :=
  [Op.registerConsumerListener (some 1),
   Op.requestBuffer cpuWriteConfig
     { buffer := { sampleBuffer 0 800 600 with usage := 2 }, allocRet := GSError.GSERROR_OK,
       mapRet := GSError.GSERROR_OK }]

/-- Sample calls on a non-shared queue: buffer `0` is attached. -/
def attachedOps : List Op :=
  [Op.attachBuffer (some (sampleBuffer 0 800 600))]

/-- A `std::string`. -/
abbrev StdString := List Char

/-- The table `BufferStateStrs`: it has no entry for `BUFFER_STATE_ATTACHED`. -/
def BufferStateStrs : BufferState → Option StdString
  | BufferState.BUFFER_STATE_RELEASED => some "0 <released>".toList
  | BufferState.BUFFER_STATE_REQUESTED => some "1 <requested>".toList
  | BufferState.BUFFER_STATE_FLUSHED => some "2 <flushed>".toList
  | BufferState.BUFFER_STATE_ACQUIRED => some "3 <acquired>".toList
  | BufferState.BUFFER_STATE_ATTACHED => none

/-- The function `std::to_string` on an integer. -/
def to_string (n : Int) : StdString := (toString n).toList

/-- The text that one iteration of the loop of `DumpCache` appends for the
entry `element` of `sequence`.  `BufferStateStrs.at` throws for a state
without entry, before the buffer is dereferenced.  `fixed2 n` is the text
that the stream, set to fixed notation with precision two, produces for the
double `n / 1024`. -/
def DumpCache.line (fixed2 : Nat → StdString) (sequence : Int) (element : BufferElement) :
    Except Fault StdString :=
  match BufferStateStrs element.state with
  | none => Except.error Fault.outOfRange
  | some stateStr =>
    match element.buffer with
    | none => Except.error Fault.nullDeref
    | some b =>
      Except.ok
        ("        sequence = ".toList ++ to_string sequence ++
          ", state = ".toList ++ stateStr ++
          ", timestamp = ".toList ++ to_string element.timestamp ++
          ", damageRect = [".toList ++ to_string element.damage.x ++ ", ".toList ++
          to_string element.damage.y ++ ", ".toList ++
          to_string element.damage.w ++ ", ".toList ++
          to_string element.damage.h ++ "],".toList ++
          " config = [".toList ++ to_string element.config.width ++ "x".toList ++
          to_string element.config.height ++ ", ".toList ++
          to_string element.config.strideAlignment ++ ", ".toList ++
          to_string element.config.format ++ ", ".toList ++
          to_string element.config.usage ++ ", ".toList ++
          to_string element.config.timeout ++ "],".toList ++
          " bufferWith = ".toList ++ to_string b.width ++
          ", bufferHeight = ".toList ++ to_string b.height ++
          ", bufferMemSize = ".toList ++ fixed2 b.size ++ "(KiB).\n".toList)

/-- The function `DumpCache(result)`, as a loop over the entries of the
cache that are still to be visited. -/
def DumpCache (fixed2 : Nat → StdString) : Cache → StdString → Except Fault StdString
  | [], result => Except.ok result
  | (sequence, element) :: rest, result =>
    match DumpCache.line fixed2 sequence element with
    | Except.error f => Except.error f
    | Except.ok line => DumpCache fixed2 rest (result ++ line)

/-- The first loop of `Dump`: the `uint32_t` sum of the buffer sizes. -/
def Dump.total : Cache → Nat → Except Fault Nat
  | [], totalBufferListSize => Except.ok totalBufferListSize
  | (_, element) :: rest, totalBufferListSize =>
    match element.buffer with
    | none => Except.error Fault.nullDeref
    | some b => Dump.total rest ((totalBufferListSize + b.size) % 2 ^ 32)

/-- The function `Dump(result)`.  The members `defaultWidth`, `defaultHeight`,
`name_` and `uniqueId_`, which no other function of the embedding uses, and
the static `allSurfacesMemSize` are arguments; the doubles, which are
multiples of `1 / 1024`, are kept as numbers of bytes.  The result is the
string, the static variable and the queue afterwards.  `resultLen` is a
`uint32_t`; the start position `resultLen - dumpEndFlag.size()` is computed
in `size_t` and the length `resultLen - 1` in `uint32_t`, and the substring
constructor throws when the start position is beyond the end of `result`. -/
def Dump (fixed2 : Nat → StdString) (defaultWidth defaultHeight : Int) (name_ : StdString)
    (uniqueId_ : Nat) (q : BufferQueue) (allSurfacesMemSize : Nat) (result : StdString) :
    Except Fault (StdString × Nat × BufferQueue) :=
  match lock q with
  | Except.error f => Except.error f
  | Except.ok q1 =>
    match Dump.total q1.bufferQueueCache_ 0 with
    | Except.error f => Except.error f
    | Except.ok totalBufferListSize =>
      let allSurfaces := allSurfacesMemSize + totalBufferListSize
      let resultLen : Nat := result.length % 2 ^ 32
      let dumpEndFlag : StdString := "dumpend".toList
      let pos : Nat := (resultLen + 2 ^ 64 - dumpEndFlag.length) % 2 ^ 64
      let len : Nat := (resultLen + 2 ^ 32 - 1) % 2 ^ 32
      if pos > result.length then Except.error Fault.outOfRange
      else
        let dumpEndIn : StdString := (result.drop pos).take len
        if dumpEndIn = dumpEndFlag then
          Except.ok
            (result.take pos ++ (result.drop pos).drop len ++ fixed2 allSurfaces ++
              " KiB.\n".toList, 0, unlock q1)
        else
          let head : StdString :=
            result ++ "    BufferQueue:\n".toList ++
            "      default-size = [".toList ++ to_string defaultWidth ++ "x".toList ++
            to_string defaultHeight ++ "]".toList ++
            ", FIFO = ".toList ++ to_string q1.queueSize_ ++
            ", name = ".toList ++ name_ ++
            ", uniqueId = ".toList ++ to_string uniqueId_ ++
            ", usedBufferListLen = ".toList ++ to_string (GetUsedSize q1) ++
            ", freeBufferListLen = ".toList ++ to_string q1.freeList_.length ++
            ", dirtyBufferListLen = ".toList ++ to_string q1.dirtyList_.length ++
            ", totalBuffersMemSize = ".toList ++ fixed2 totalBufferListSize ++
            "(KiB).\n".toList ++
            "      bufferQueueCache:\n".toList
          match DumpCache fixed2 q1.bufferQueueCache_ head with
          | Except.error f => Except.error f
          | Except.ok text => Except.ok (text, allSurfaces, unlock q1)

/-- Sample formatting of a size: the whole kibibytes, with `.00`. -/
def sampleFixed2 (n : Nat) : StdString := (toString (n / 1024)).toList ++ ".00".toList

namespace Rosen

/-- Status codes of the vsync functions (the enumerators used in this file). -/
inductive VsyncError where
  | VSYNC_ERROR_OK
  | VSYNC_ERROR_NULLPTR
  | VSYNC_ERROR_INVALID_ARGUMENTS
  deriving DecidableEq, Repr

/-- The constant `ERRNO_EAGAIN`. -/
def ERRNO_EAGAIN : Int := -1

/-- The constant `ERRNO_OTHER`. -/
def ERRNO_OTHER : Int := -2

/-- The members of a `VSyncConnection` object that the distributor reads or
writes, with the address `addr` of the object; `postVSyncCount_` is the
member of `info_`. -/
structure VSyncConnection where
  addr : Nat
  rate_ : Int
  highPriorityRate_ : Int
  highPriorityState_ : Bool
  postVSyncCount_ : Nat
  deriving DecidableEq, Repr

/-- The member `event_`. -/
structure VSyncEvent where
  timestamp : Int
  vsyncCount : Int
  deriving DecidableEq, Repr

/-- The distributor: the registered connections, the latest event, and
whether vsync is enabled. -/
structure VSyncDistributor where
  connections_ : List VSyncConnection
  event_ : VSyncEvent
  vsyncEnabled_ : Bool
  deriving DecidableEq, Repr

/-- The function `VSyncConnection::PostEvent(now)`; `sendRet` is what
`SendData` returns. -/
def VSyncConnection.PostEvent (c : VSyncConnection) (sendRet : Int) : Int × VSyncConnection :=
  if sendRet > -1 then (sendRet, { c with postVSyncCount_ := c.postVSyncCount_ + 1 })
  else (sendRet, c)

/-- The search `find(connections_.begin(), connections_.end(), connection)`:
whether the object at `addr` is registered. -/
def isRegistered (connections_ : List VSyncConnection) (addr : Nat) : Bool :=
  connections_.any (fun c => decide (c.addr = addr))

/-- An assignment through a pointer to the object at `addr`. -/
def updateAt (connections_ : List VSyncConnection) (addr : Nat)
    (f : VSyncConnection → VSyncConnection) : List VSyncConnection :=
  connections_.map (fun c => if c.addr = addr then f c else c)

/-- The function `AddConnection(connection)`. -/
def AddConnection (d : VSyncDistributor) (connection : Option VSyncConnection) :
    VsyncError × VSyncDistributor :=
  match connection with
  | none => (VsyncError.VSYNC_ERROR_NULLPTR, d)
  | some c =>
    if isRegistered d.connections_ c.addr = true then
      (VsyncError.VSYNC_ERROR_INVALID_ARGUMENTS, d)
    else (VsyncError.VSYNC_ERROR_OK, { d with connections_ := d.connections_ ++ [c] })

/-- The removal `connections_.erase(it)` of the first occurrence. -/
def eraseFirst : List VSyncConnection → Nat → List VSyncConnection
  | [], _ => []
  | c :: rest, addr => if c.addr = addr then rest else c :: eraseFirst rest addr

/-- The function `RemoveConnection(connection)`. -/
def RemoveConnection (d : VSyncDistributor) (connection : Option Nat) :
    VsyncError × VSyncDistributor :=
  match connection with
  | none => (VsyncError.VSYNC_ERROR_NULLPTR, d)
  | some addr =>
    if isRegistered d.connections_ addr = true then
      (VsyncError.VSYNC_ERROR_OK, { d with connections_ := eraseFirst d.connections_ addr })
    else (VsyncError.VSYNC_ERROR_INVALID_ARGUMENTS, d)

/-- The function `OnVSyncEvent(now)`. -/
def OnVSyncEvent (d : VSyncDistributor) (now : Int) : VSyncDistributor :=
  { d with event_ := { timestamp := now, vsyncCount := d.event_.vsyncCount + 1 } }

/-- The body of the loop of `CollectConnections` for the connection `c`: the
connection afterwards, `waitForVSync` and `conns`.  The remainder
`vsyncCount % rate` of C++ truncates towards zero. -/
def CollectConnections.visit (timestamp vsyncCount : Int) (c : VSyncConnection)
    (waitForVSync : Bool) (conns : List Nat) : VSyncConnection × Bool × List Nat :=
  let rate : Int := if c.highPriorityState_ = true then c.highPriorityRate_ else c.rate_
  if rate = 0 then
    if timestamp > 0 then ({ c with rate_ := -1 }, true, conns ++ [c.addr])
    else (c, true, conns)
  else if rate > 0 ∧ vsyncCount.tmod rate = 0 then
    if c.rate_ = 0 then
      if timestamp > 0 then ({ c with rate_ := -1 }, true, conns ++ [c.addr])
      else (c, true, conns)
    else if c.rate_ > 0 then
      if timestamp > 0 then (c, true, conns ++ [c.addr])
      else (c, true, conns)
    else (c, waitForVSync, conns)
  else (c, waitForVSync, conns)

/-- The loop of `CollectConnections` over the connections that are still to
be visited: the connections afterwards, `waitForVSync` and `conns`. -/
def CollectConnections.loop (timestamp vsyncCount : Int) :
    List VSyncConnection → Bool → List Nat → List VSyncConnection × Bool × List Nat
  | [], waitForVSync, conns => ([], waitForVSync, conns)
  | c :: rest, waitForVSync, conns =>
    let v := CollectConnections.visit timestamp vsyncCount c waitForVSync conns
    let r := CollectConnections.loop timestamp vsyncCount rest v.2.1 v.2.2
    (v.1 :: r.1, r.2.1, r.2.2)

/-- The function `CollectConnections(waitForVSync, timestamp, conns,
vsyncCount)`: the two reference parameters and the distributor afterwards;
`conns` holds the addresses of the selected connections. -/
def CollectConnections (d : VSyncDistributor) (waitForVSync : Bool) (timestamp : Int)
    (conns : List Nat) (vsyncCount : Int) : Bool × List Nat × VSyncDistributor :=
  let r := CollectConnections.loop timestamp vsyncCount d.connections_ waitForVSync conns
  (r.2.1, r.2.2, { d with connections_ := r.1 })

/-- The function `RequestNextVSync(connection)`. -/
def RequestNextVSync (d : VSyncDistributor) (connection : Option Nat) :
    VsyncError × VSyncDistributor :=
  match connection with
  | none => (VsyncError.VSYNC_ERROR_NULLPTR, d)
  | some addr =>
    if isRegistered d.connections_ addr = true then
      let connections1 := updateAt d.connections_ addr
        (fun c => if c.rate_ < 0 then { c with rate_ := 0 } else c)
      (VsyncError.VSYNC_ERROR_OK, { d with connections_ := connections1 })
    else (VsyncError.VSYNC_ERROR_INVALID_ARGUMENTS, d)

/-- The function `SetVSyncRate(rate, connection)`. -/
def SetVSyncRate (d : VSyncDistributor) (rate : Int) (connection : Option Nat) :
    VsyncError × VSyncDistributor :=
  match connection with
  | none => (VsyncError.VSYNC_ERROR_INVALID_ARGUMENTS, d)
  | some addr =>
    if rate ≤ 0 then (VsyncError.VSYNC_ERROR_INVALID_ARGUMENTS, d)
    else if isRegistered d.connections_ addr = true then
      if d.connections_.any (fun c => decide (c.addr = addr ∧ c.rate_ = rate)) = true then
        (VsyncError.VSYNC_ERROR_INVALID_ARGUMENTS, d)
      else
        let connections1 := updateAt d.connections_ addr (fun c => { c with rate_ := rate })
        (VsyncError.VSYNC_ERROR_OK, { d with connections_ := connections1 })
    else (VsyncError.VSYNC_ERROR_INVALID_ARGUMENTS, d)

/-- The function `SetHighPriorityVSyncRate(highPriorityRate, connection)`. -/
def SetHighPriorityVSyncRate (d : VSyncDistributor) (highPriorityRate : Int)
    (connection : Option Nat) : VsyncError × VSyncDistributor :=
  match connection with
  | none => (VsyncError.VSYNC_ERROR_INVALID_ARGUMENTS, d)
  | some addr =>
    if highPriorityRate ≤ 0 then (VsyncError.VSYNC_ERROR_INVALID_ARGUMENTS, d)
    else if isRegistered d.connections_ addr = true then
      if d.connections_.any
          (fun c => decide (c.addr = addr ∧ c.highPriorityRate_ = highPriorityRate)) = true then
        (VsyncError.VSYNC_ERROR_INVALID_ARGUMENTS, d)
      else
        let connections1 := updateAt d.connections_ addr
          (fun c => { c with highPriorityRate_ := highPriorityRate, highPriorityState_ := true })
        (VsyncError.VSYNC_ERROR_OK, { d with connections_ := connections1 })
    else (VsyncError.VSYNC_ERROR_INVALID_ARGUMENTS, d)

/-- The body of the sending loop of `ThreadMain` for the selected connection
at `addr`; `sendRet` is what `SendData` returns for it. -/
def ThreadMain.post (d : VSyncDistributor) (addr : Nat) (sendRet : Int) : VSyncDistributor :=
  let posted := updateAt d.connections_ addr (fun c => (c.PostEvent sendRet).2)
  let d1 : VSyncDistributor := { d with connections_ := posted }
  let ret := sendRet
  if ret = 0 ∨ ret = ERRNO_OTHER then (RemoveConnection d1 (some addr)).2
  else if ret = ERRNO_EAGAIN then
    let demoted := updateAt d1.connections_ addr
      (fun c => if c.rate_ < 0 then { c with rate_ := 0 } else c)
    { d1 with connections_ := demoted }
  else d1

/-- The sending loop of `ThreadMain` over the selected connections `conns`;
`sendRet addr` is what `SendData` returns for the connection at `addr`. -/
def ThreadMain.send (sendRet : Nat → Int) : VSyncDistributor → List Nat → VSyncDistributor
  | d, [] => d
  | d, addr :: conns => ThreadMain.send sendRet (ThreadMain.post d addr (sendRet addr)) conns

/-- The function `EnableVSync()`; `controller_` is null or not. -/
def EnableVSync (d : VSyncDistributor) (controller_ : Bool) : VSyncDistributor :=
  if controller_ = true ∧ d.vsyncEnabled_ = false then { d with vsyncEnabled_ := true } else d

/-- One iteration of the loop of `ThreadMain`: the distributor afterwards and
the addresses of the connections that `PostEvent` was called on, with the
timestamp.  `softNow` is the clock reading when the timed wait ends by
timeout, and `none` when a wait is ended by a notification. -/
def ThreadMain.iteration (d : VSyncDistributor) (controller_ : Bool) (softNow : Option Int)
    (sendRet : Nat → Int) : VSyncDistributor × List (Nat × Int) :=
  let timestamp := d.event_.timestamp
  let vsyncCount := d.event_.vsyncCount
  let d1 : VSyncDistributor := { d with event_ := { d.event_ with timestamp := 0 } }
  let r := CollectConnections d1 false timestamp [] vsyncCount
  if timestamp = 0 then
    if r.1 = true ∧ r.2.2.vsyncEnabled_ = false then
      let d2 := EnableVSync r.2.2 controller_
      match softNow with
      | some now =>
        ({ d2 with event_ := { timestamp := now, vsyncCount := d2.event_.vsyncCount + 1 } }, [])
      | none => (d2, [])
    else (r.2.2, [])
  else if timestamp > 0 ∧ r.1 = false then (r.2.2, [])
  else (ThreadMain.send sendRet r.2.2 r.2.1, r.2.1.map (fun addr => (addr, timestamp)))

/-- The selections of a series of `CollectConnections` calls, one for each
pair of timestamp and vsyncCount, each with `waitForVSync = false` and empty
`conns` as in `ThreadMain`; and the distributor afterwards. -/
def collectAll : VSyncDistributor → List (Int × Int) → List (List Nat) × VSyncDistributor
  | d, [] => ([], d)
  | d, (timestamp, vsyncCount) :: evs =>
    let r := CollectConnections d false timestamp [] vsyncCount
    let rs := collectAll r.2.2 evs
    (r.2.1 :: rs.1, rs.2)

/-- Sample connection at address `addr` with the given rate and no
high-priority override. -/
def sampleConnection (addr : Nat) (rate : Int) : VSyncConnection :=
  { addr := addr, rate_ := rate, highPriorityRate_ := 0, highPriorityState_ := false,
    postVSyncCount_ := 0 }

/-- Sample distributor with the given connections and no event. -/
def sampleDistributor (connections_ : List VSyncConnection) : VSyncDistributor :=
  { connections_ := connections_, event_ := { timestamp := 0, vsyncCount := 0 },
    vsyncEnabled_ := false }

/-- A series of iterations of the loop of `ThreadMain`.  Each iteration starts
with the event `(timestamp, vsyncCount)` pending, as `OnVSyncEvent` or the
software vsync leaves it (timestamp 0 when the loop was only notified), and
`sendRet addr` is what `SendData` returns for the connection at `addr` in that
iteration.  The result lists, for each iteration, the addresses of the
connections that `PostEvent` was called on, and the distributor afterwards. -/
def ThreadMain.iterations (controller_ : Bool) :
    VSyncDistributor → List (Int × Int × (Nat → Int)) → List (List Nat) × VSyncDistributor
  | d, [] => ([], d)
  | d, (timestamp, vsyncCount, sendRet) :: evs =>
    let r := ThreadMain.iteration
      { d with event_ := { timestamp := timestamp, vsyncCount := vsyncCount } }
      controller_ none sendRet
    let rs := ThreadMain.iterations controller_ r.1 evs
    (r.2.map Prod.fst :: rs.1, rs.2)

end Rosen

/-! ## Theorems -/

theorem cacheFind_insertNew (c : Cache) (k : Int) (e : BufferElement) (k2 : Int)
    (h : cacheFind c k = none) :
    cacheFind (cacheInsertNew c k e) k2 = if k2 = k then some e else cacheFind c k2 := by
  induction c with
  | nil => simp [cacheInsertNew, cacheFind, eq_comm]
  | cons p rest ih =>
    obtain ⟨k1, e1⟩ := p
    simp only [cacheFind] at h
    by_cases hk : k1 = k
    · simp [hk] at h
    · simp only [hk, if_false] at h
      simp only [cacheInsertNew]
      by_cases hlt : k < k1
      · simp only [hlt, if_true, cacheFind]
        by_cases h2 : k2 = k
        · simp [h2]
        · have : ¬ k = k2 := fun h => h2 h.symm
          simp [h2, this]
      · simp only [hlt, if_false, cacheFind, ih h]
        by_cases h1 : k1 = k2
        · have : ¬ k2 = k := by rw [← h1]; exact hk
          simp [h1, this]
        · simp [h1]

theorem cacheFind_map (c : Cache) (k : Int) (f : BufferElement → BufferElement) (k2 : Int) :
    cacheFind (c.map (fun p => if p.1 = k then (p.1, f p.2) else p)) k2 =
      if k2 = k then (cacheFind c k).map f else cacheFind c k2 := by
  induction c with
  | nil => simp [cacheFind]
  | cons p rest ih =>
    obtain ⟨k1, e1⟩ := p
    simp only [List.map_cons]
    by_cases hk : k1 = k
    · rw [if_pos hk]
      simp only [cacheFind, ih]
      subst hk
      by_cases h2 : k2 = k1
      · subst h2; simp
      · have h3 : ¬ k1 = k2 := fun h => h2 h.symm
        simp [h2, h3]
    · rw [if_neg hk]
      simp only [cacheFind, ih, hk, if_false]
      by_cases h2 : k2 = k
      · subst h2
        have h3 : ¬ k1 = k2 := hk
        simp [h3]
      · simp [h2]

theorem cacheFind_modify (K : SurfaceConsts) (c : Cache) (k : Int)
    (f : BufferElement → BufferElement) (k2 : Int) :
    cacheFind (cacheModify K c k f) k2 =
      if k2 = k then some (f ((cacheFind c k).getD (defaultElement K))) else cacheFind c k2 := by
  unfold cacheModify
  cases h : cacheFind c k with
  | none => simp [cacheFind_insertNew _ _ _ _ h]
  | some e =>
    simp only [cacheFind_map, h]
    by_cases h2 : k2 = k <;> simp [h2]

theorem cacheFind_insert (K : SurfaceConsts) (c : Cache) (k : Int) (e : BufferElement)
    (k2 : Int) :
    cacheFind (cacheInsert K c k e) k2 = if k2 = k then some e else cacheFind c k2 := by
  simp [cacheInsert, cacheFind_modify]

theorem cacheFind_erase (c : Cache) (k k2 : Int) :
    cacheFind (cacheErase c k) k2 = if k2 = k then none else cacheFind c k2 := by
  induction c with
  | nil => simp [cacheErase, cacheFind]
  | cons p rest ih =>
    obtain ⟨k1, e1⟩ := p
    unfold cacheErase at ih ⊢
    by_cases hk : k1 = k
    · have hd : decide ((k1, e1).1 ≠ k) = false := by simp [hk]
      rw [List.filter_cons_of_neg (by simp [hk])]
      rw [ih]
      subst hk
      by_cases h2 : k2 = k1
      · simp [h2]
      · have h3 : ¬ k1 = k2 := fun h => h2 h.symm
        simp [h2, h3, cacheFind]
    · rw [List.filter_cons_of_pos (by simp [hk])]
      simp only [cacheFind, ih]
      by_cases h2 : k2 = k
      · subst h2
        have h3 : ¬ k1 = k2 := hk
        simp [h3]
      · simp [h2]

theorem cacheIndex_fst (K : SurfaceConsts) (c : Cache) (k : Int) :
    (cacheIndex K c k).1 = (cacheFind c k).getD (defaultElement K) := by
  unfold cacheIndex
  cases h : cacheFind c k <;> simp

theorem cacheIndex_of_find (K : SurfaceConsts) (c : Cache) (k : Int) (e : BufferElement)
    (h : cacheFind c k = some e) : cacheIndex K c k = (e, c) := by
  simp [cacheIndex, h]

theorem cacheFind_index (K : SurfaceConsts) (c : Cache) (k k2 : Int) :
    cacheFind (cacheIndex K c k).2 k2 =
      if k2 = k then some ((cacheFind c k).getD (defaultElement K)) else cacheFind c k2 := by
  unfold cacheIndex
  cases h : cacheFind c k with
  | none => simp [cacheFind_insertNew _ _ _ _ h]
  | some e =>
    by_cases h2 : k2 = k <;> simp [h2, h]

theorem length_insertNew (c : Cache) (k : Int) (e : BufferElement) :
    (cacheInsertNew c k e).length = c.length + 1 := by
  induction c with
  | nil => simp [cacheInsertNew]
  | cons p rest ih =>
    obtain ⟨k1, e1⟩ := p
    simp only [cacheInsertNew]
    split <;> simp [ih]

theorem length_modify (K : SurfaceConsts) (c : Cache) (k : Int)
    (f : BufferElement → BufferElement) :
    (cacheModify K c k f).length = if (cacheFind c k).isSome then c.length else c.length + 1 := by
  unfold cacheModify
  cases h : cacheFind c k <;> simp [length_insertNew]

theorem length_erase_le (c : Cache) (k : Int) : (cacheErase c k).length ≤ c.length := by
  unfold cacheErase; exact List.length_filter_le _ _

theorem length_erase_lt (c : Cache) (k : Int) (h : (cacheFind c k).isSome) :
    (cacheErase c k).length < c.length := by
  induction c with
  | nil => simp [cacheFind] at h
  | cons p rest ih =>
    obtain ⟨k1, e1⟩ := p
    unfold cacheErase at ih ⊢
    by_cases hk : k1 = k
    · rw [List.filter_cons_of_neg (by simp [hk])]
      have := List.length_filter_le (fun p : Int × BufferElement => decide (p.1 ≠ k)) rest
      simp only [List.length_cons]
      omega
    · simp only [cacheFind, hk, if_false] at h
      have := ih h
      rw [List.filter_cons_of_pos (by simp [hk])]
      simp only [List.length_cons]
      omega

theorem lock_of_unlocked (q : BufferQueue) (h : q.mutex_ = false) :
    lock q = Except.ok { q with mutex_ := true } := by
  simp [lock, h]

theorem CoreN.not_free_of_state {c : Cache} {free dirty : List Int} (h : CoreN c free dirty)
    {k : Int} {e : BufferElement} (hf : cacheFind c k = some e)
    (hs : e.state ≠ BufferState.BUFFER_STATE_RELEASED) : k ∉ free := by
  intro hk
  obtain ⟨e1, h1, h2⟩ := h.free_in k hk
  rw [hf] at h1
  cases h1
  exact hs h2

theorem CoreN.not_dirty_of_state {c : Cache} {free dirty : List Int} (h : CoreN c free dirty)
    {k : Int} {e : BufferElement} (hf : cacheFind c k = some e)
    (hs : e.state ≠ BufferState.BUFFER_STATE_FLUSHED) : k ∉ dirty := by
  intro hk
  obtain ⟨e1, h1, h2⟩ := h.dirty_in k hk
  rw [hf] at h1
  cases h1
  exact hs h2

theorem CoreN.not_mem_of_none {c : Cache} {free dirty : List Int} (h : CoreN c free dirty)
    {k : Int} (hf : cacheFind c k = none) : k ∉ free ∧ k ∉ dirty := by
  constructor
  · intro hk
    obtain ⟨e1, h1, _⟩ := h.free_in k hk
    rw [hf] at h1; cases h1
  · intro hk
    obtain ⟨e1, h1, _⟩ := h.dirty_in k hk
    rw [hf] at h1; cases h1

/-- modification of a cached entry that keeps its buffer identity -/
theorem CoreN.modify (K : SurfaceConsts) {c : Cache} {free dirty : List Int}
    (h : CoreN c free dirty) {k : Int} {e : BufferElement} (hf : cacheFind c k = some e)
    (f : BufferElement → BufferElement)
    (hb : ∃ b, (f e).buffer = some b ∧ b.seqNum = k)
    (free2 dirty2 : List Int) (hfn : free2.Nodup) (hdn : dirty2.Nodup)
    (hfin : ∀ s ∈ free2, (s = k ∧ (f e).state = BufferState.BUFFER_STATE_RELEASED) ∨
      (s ≠ k ∧ s ∈ free))
    (hdin : ∀ s ∈ dirty2, (s = k ∧ (f e).state = BufferState.BUFFER_STATE_FLUSHED) ∨
      (s ≠ k ∧ s ∈ dirty)) :
    CoreN (cacheModify K c k f) free2 dirty2 := by
  refine ⟨?_, ?_, ?_, hfn, hdn⟩
  · intro k2 e2 h2
    rw [cacheFind_modify] at h2
    by_cases hk : k2 = k
    · simp only [hk, if_true, hf, Option.getD_some] at h2
      cases h2
      rw [hk]; exact hb
    · simp only [hk, if_false] at h2
      exact h.buf k2 e2 h2
  · intro s hs
    rw [cacheFind_modify]
    rcases hfin s hs with ⟨h1, h2⟩ | ⟨h1, h2⟩
    · exact ⟨f e, by simp [h1, hf], h2⟩
    · obtain ⟨e1, h3, h4⟩ := h.free_in s h2
      exact ⟨e1, by simp [h1, h3], h4⟩
  · intro s hs
    rw [cacheFind_modify]
    rcases hdin s hs with ⟨h1, h2⟩ | ⟨h1, h2⟩
    · exact ⟨f e, by simp [h1, hf], h2⟩
    · obtain ⟨e1, h3, h4⟩ := h.dirty_in s h2
      exact ⟨e1, by simp [h1, h3], h4⟩

theorem CoreN.erase {c : Cache} {free dirty : List Int}
    (h : CoreN c free dirty) (k : Int)
    (free2 dirty2 : List Int) (hfn : free2.Nodup) (hdn : dirty2.Nodup)
    (hfin : ∀ s ∈ free2, s ≠ k ∧ s ∈ free)
    (hdin : ∀ s ∈ dirty2, s ≠ k ∧ s ∈ dirty) :
    CoreN (cacheErase c k) free2 dirty2 := by
  refine ⟨?_, ?_, ?_, hfn, hdn⟩
  · intro k2 e2 h2
    rw [cacheFind_erase] at h2
    by_cases hk : k2 = k
    · simp [hk] at h2
    · simp only [hk, if_false] at h2
      exact h.buf k2 e2 h2
  · intro s hs
    rw [cacheFind_erase]
    obtain ⟨h1, h2⟩ := hfin s hs
    obtain ⟨e1, h3, h4⟩ := h.free_in s h2
    exact ⟨e1, by simp [h1, h3], h4⟩
  · intro s hs
    rw [cacheFind_erase]
    obtain ⟨h1, h2⟩ := hdin s hs
    obtain ⟨e1, h3, h4⟩ := h.dirty_in s h2
    exact ⟨e1, by simp [h1, h3], h4⟩

theorem CoreN.insert (K : SurfaceConsts) {c : Cache} {free dirty : List Int}
    (h : CoreN c free dirty) {k : Int} (hf : cacheFind c k = none) (e : BufferElement)
    (hb : ∃ b, e.buffer = some b ∧ b.seqNum = k) :
    CoreN (cacheInsert K c k e) free dirty := by
  obtain ⟨hnf, hnd⟩ := h.not_mem_of_none hf
  refine ⟨?_, ?_, ?_, h.free_nodup, h.dirty_nodup⟩
  · intro k2 e2 h2
    rw [cacheFind_insert] at h2
    by_cases hk : k2 = k
    · simp only [hk, if_true] at h2
      cases h2
      rw [hk]; exact hb
    · simp only [hk, if_false] at h2
      exact h.buf k2 e2 h2
  · intro s hs
    rw [cacheFind_insert]
    have h1 : s ≠ k := fun hh => hnf (hh ▸ hs)
    obtain ⟨e1, h3, h4⟩ := h.free_in s hs
    exact ⟨e1, by simp [h1, h3], h4⟩
  · intro s hs
    rw [cacheFind_insert]
    have h1 : s ≠ k := fun hh => hnd (hh ▸ hs)
    obtain ⟨e1, h3, h4⟩ := h.dirty_in s hs
    exact ⟨e1, by simp [h1, h3], h4⟩

theorem CoreN.sublists {c : Cache} {free dirty : List Int}
    (h : CoreN c free dirty) (free2 dirty2 : List Int) (hfn : free2.Nodup) (hdn : dirty2.Nodup)
    (hfin : ∀ s ∈ free2, s ∈ free) (hdin : ∀ s ∈ dirty2, s ∈ dirty) :
    CoreN c free2 dirty2 :=
  ⟨h.buf, fun s hs => h.free_in s (hfin s hs), fun s hs => h.dirty_in s (hdin s hs), hfn, hdn⟩

theorem popMatching_spec (K : SurfaceConsts) (config : BufferRequestConfig) (c : Cache)
    (l : List Int) (hl : ∀ s ∈ l, ∃ e, cacheFind c s = some e) :
    (popMatching K config l c = (none, c) ∧
        ∀ s ∈ l, ∀ e, cacheFind c s = some e → e.config ≠ config) ∨
      ∃ pre s post e, l = pre ++ s :: post ∧ cacheFind c s = some e ∧ e.config = config ∧
        (∀ x ∈ pre, ∀ ex, cacheFind c x = some ex → ex.config ≠ config) ∧
        popMatching K config l c = (some (e.buffer, pre ++ post), c) := by
  induction l with
  | nil => left; simp [popMatching]
  | cons s rest ih =>
    obtain ⟨e, he⟩ := hl s (List.mem_cons_self _ _)
    have hrest : ∀ x ∈ rest, ∃ e, cacheFind c x = some e :=
      fun x hx => hl x (List.mem_cons_of_mem _ hx)
    by_cases hm : e.config = config
    · right
      refine ⟨[], s, rest, e, rfl, he, hm, ?_, ?_⟩
      · intro x hx; cases hx
      · simp [popMatching, cacheIndex_of_find K c s e he, hm]
    · rcases ih hrest with ⟨h1, h2⟩ | ⟨pre, t, post, et, h1, h2, h3, h4, h5⟩
      · left
        constructor
        · simp [popMatching, cacheIndex_of_find K c s e he, hm, h1]
        · intro x hx ex hex
          rcases List.mem_cons.1 hx with hxs | hxr
          · subst hxs; rw [he] at hex; cases hex; exact hm
          · exact h2 x hxr ex hex
      · right
        refine ⟨s :: pre, t, post, et, by simp [h1], h2, h3, ?_, ?_⟩
        · intro x hx ex hex
          rcases List.mem_cons.1 hx with hxs | hxr
          · subst hxs; rw [he] at hex; cases hex; exact hm
          · exact h4 x hxr ex hex
        · simp [popMatching, cacheIndex_of_find K c s e he, hm, h5]

theorem PopFromFreeList_nonShared (K : SurfaceConsts) (q : BufferQueue)
    (config : BufferRequestConfig) (hs : q.isShared_ = false)
    (hl : ∀ s ∈ q.freeList_, ∃ e, cacheFind q.bufferQueueCache_ s = some e) :
    (q.freeList_ = [] ∧ PopFromFreeList K q config = (GSError.GSERROR_NO_BUFFER, none, q)) ∨
      ∃ pre s post e, q.freeList_ = pre ++ s :: post ∧
        cacheFind q.bufferQueueCache_ s = some e ∧
        (∀ x ∈ pre, ∀ ex, cacheFind q.bufferQueueCache_ x = some ex → ex.config ≠ config) ∧
        (e.config = config ∨ (pre = [] ∧ ∀ x ∈ q.freeList_, ∀ ex,
          cacheFind q.bufferQueueCache_ x = some ex → ex.config ≠ config)) ∧
        PopFromFreeList K q config =
          (GSError.GSERROR_OK, e.buffer, { q with freeList_ := pre ++ post }) := by
  unfold PopFromFreeList
  simp only [hs, Bool.false_eq_true, false_and, if_false]
  rcases popMatching_spec K config q.bufferQueueCache_ q.freeList_ hl with
    ⟨h1, h2⟩ | ⟨pre, t, post, et, h1, h2, h3, h4, h5⟩
  · rw [h1]
    cases hfl : q.freeList_ with
    | nil =>
      left
      refine ⟨rfl, ?_⟩
      cases q
      simp_all
    | cons s rest =>
      right
      obtain ⟨e, he⟩ := hl s (by rw [hfl]; exact List.mem_cons_self _ _)
      refine ⟨[], s, rest, e, rfl, he, ?_, Or.inr ⟨rfl, ?_⟩, ?_⟩
      · intro x hx; cases hx
      · rw [← hfl]; exact h2
      · simp [cacheIndex_of_find K _ s e he]
  · right
    rw [h5]
    exact ⟨pre, t, post, et, h1, h2, h4, Or.inl h3, by simp⟩

theorem mem_key_of_find_none (c : Cache) (k : Int) (h : cacheFind c k = none) :
    ∀ p ∈ c, p.1 ≠ k := by
  induction c with
  | nil => intro p hp; cases hp
  | cons p0 rest ih =>
    obtain ⟨k1, e1⟩ := p0
    simp only [cacheFind] at h
    by_cases hk : k1 = k
    · simp [hk] at h
    · simp only [hk, if_false] at h
      intro p hp
      rcases List.mem_cons.1 hp with h1 | h1
      · subst h1; exact hk
      · exact ih h p h1

theorem mem_insertNew (c : Cache) (k : Int) (e : BufferElement) (p : Int × BufferElement) :
    p ∈ cacheInsertNew c k e ↔ p = (k, e) ∨ p ∈ c := by
  induction c with
  | nil => simp [cacheInsertNew]
  | cons p0 rest ih =>
    obtain ⟨k1, e1⟩ := p0
    simp only [cacheInsertNew]
    split
    · simp
    · simp only [List.mem_cons, ih]
      tauto

theorem mem_insert_key (K : SurfaceConsts) (c : Cache) (k : Int) (e : BufferElement) :
    ∀ p ∈ cacheInsert K c k e, p.1 = k → p.2 = e := by
  intro p hp hk
  unfold cacheInsert cacheModify at hp
  cases hf : cacheFind c k with
  | none =>
    rw [hf] at hp
    simp only at hp
    rcases (mem_insertNew c k e p).1 hp with h1 | h1
    · rw [h1]
    · exact absurd hk (mem_key_of_find_none c k hf p h1)
  | some e0 =>
    rw [hf] at hp
    simp only [List.mem_map] at hp
    obtain ⟨p0, _, h2⟩ := hp
    by_cases h3 : p0.1 = k
    · rw [if_pos h3] at h2; rw [← h2]
    · rw [if_neg h3] at h2; rw [← h2] at hk; exact absurd hk h3

theorem cacheModify_id (K : SurfaceConsts) (c : Cache) (k : Int)
    (f : BufferElement → BufferElement) (hs : (cacheFind c k).isSome)
    (hid : ∀ p ∈ c, p.1 = k → f p.2 = p.2) : cacheModify K c k f = c := by
  unfold cacheModify
  cases hf : cacheFind c k with
  | none => rw [hf] at hs; cases hs
  | some e0 =>
    simp only
    conv_rhs => rw [← List.map_id c]
    apply List.map_congr_left
    intro p hp
    by_cases h3 : p.1 = k
    · rw [if_pos h3, hid p hp h3]; rfl
    · rw [if_neg h3]; rfl

theorem cacheModify_insert_id (K : SurfaceConsts) (c : Cache) (k : Int) (e : BufferElement)
    (f : BufferElement → BufferElement) (hid : f e = e) :
    cacheModify K (cacheInsert K c k e) k f = cacheInsert K c k e := by
  apply cacheModify_id
  · rw [cacheFind_insert]; simp
  · intro p hp hk
    rw [mem_insert_key K c k e p hp hk, hid]

theorem ReuseBuffer.finish_eq (K : SurfaceConsts) (q : BufferQueue)
    (retval : RequestBufferReturnValue) (needRealloc : Bool) (e : BufferElement)
    (b : SurfaceBuffer) (hf : cacheFind q.bufferQueueCache_ retval.sequence = some e)
    (hb : retval.buffer = some b) :
    ReuseBuffer.finish K q retval needRealloc =
      Except.ok
        { ret := GSError.GSERROR_OK, bedata := b.extraData,
          retval :=
            { buffer := if needRealloc = true then some b else none,
              sequence := retval.sequence, fence := e.fence,
              deletingBuffers := retval.deletingBuffers ++ q.deletingList_ },
          queue :=
            { q with
              bufferQueueCache_ := cacheModify K q.bufferQueueCache_ retval.sequence
                (fun e1 => { e1 with state := BufferState.BUFFER_STATE_REQUESTED }),
              deletingList_ := [] } } := by
  unfold ReuseBuffer.finish
  have h1 := cacheIndex_of_find K
    (cacheModify K q.bufferQueueCache_ retval.sequence
      (fun e1 => { e1 with state := BufferState.BUFFER_STATE_REQUESTED }))
    retval.sequence { e with state := BufferState.BUFFER_STATE_REQUESTED }
    (by rw [cacheFind_modify]; simp [hf])
  simp only [h1, hb]

theorem DeleteBufferInCache_of_find (q : BufferQueue) (s : Int) (e : BufferElement)
    (hf : cacheFind q.bufferQueueCache_ s = some e) :
    DeleteBufferInCache q s =
      { q with
        deleteCalls := if q.onBufferDelete_ = true then q.deleteCalls ++ [s] else q.deleteCalls,
        bufferQueueCache_ := cacheErase q.bufferQueueCache_ s,
        deletingList_ := q.deletingList_ ++ [s] } := by
  simp [DeleteBufferInCache, hf]

theorem DeleteBufferInCache_of_none (q : BufferQueue) (s : Int)
    (hf : cacheFind q.bufferQueueCache_ s = none) : DeleteBufferInCache q s = q := by
  simp [DeleteBufferInCache, hf]

theorem AllocBuffer_ok (K : SurfaceConsts) (q : BufferQueue) (buffer : Option SurfaceBuffer)
    (config : BufferRequestConfig) (a : AllocOutcome) (h1 : a.allocRet = GSError.GSERROR_OK)
    (h2 : a.mapRet = GSError.GSERROR_OK) :
    AllocBuffer K q buffer config a =
      (GSError.GSERROR_OK, some a.buffer,
        { q with bufferQueueCache_ :=
            cacheInsert K q.bufferQueueCache_ a.buffer.seqNum (allocElement config a.buffer) }) := by
  simp [AllocBuffer, h1, h2]

/-- The status that a failing allocator hands back. -/
theorem AllocBuffer_fail (K : SurfaceConsts) (q : BufferQueue) (buffer : Option SurfaceBuffer)
    (config : BufferRequestConfig) (a : AllocOutcome)
    (h : ¬ (a.allocRet = GSError.GSERROR_OK ∧ a.mapRet = GSError.GSERROR_OK)) :
    AllocBuffer K q buffer config a =
      (if a.allocRet ≠ GSError.GSERROR_OK then a.allocRet else a.mapRet, buffer, q) ∧
    (if a.allocRet ≠ GSError.GSERROR_OK then a.allocRet else a.mapRet) ≠ GSError.GSERROR_OK := by
  unfold AllocBuffer
  by_cases h1 : a.allocRet = GSError.GSERROR_OK
  · have h2 : ¬ a.mapRet = GSError.GSERROR_OK := fun h2 => h ⟨h1, h2⟩
    simp [h1, h2]
  · simp [h1]

theorem ReuseBuffer_same (K : SurfaceConsts) (q : BufferQueue) (config : BufferRequestConfig)
    (bedata : Option BufferExtraData) (retval : RequestBufferReturnValue) (a : AllocOutcome)
    (b : SurfaceBuffer) (e : BufferElement) (hb : retval.buffer = some b)
    (hf : cacheFind q.bufferQueueCache_ b.seqNum = some e) (hc : e.config = config) :
    ReuseBuffer K q config bedata retval a =
      Except.ok
        { ret := GSError.GSERROR_OK, bedata := b.extraData,
          retval :=
            { buffer := none, sequence := b.seqNum, fence := e.fence,
              deletingBuffers := retval.deletingBuffers ++ q.deletingList_ },
          queue :=
            { q with
              bufferQueueCache_ := cacheModify K q.bufferQueueCache_ b.seqNum
                (fun e1 => { e1 with state := BufferState.BUFFER_STATE_REQUESTED }),
              deletingList_ := [] } } := by
  unfold ReuseBuffer
  simp only [hb, cacheIndex_of_find K _ _ e hf, hc, ne_eq, not_true_eq_false, if_false]
  rw [ReuseBuffer.finish_eq K _ _ false e b (by simpa using hf) (by simp [hb])]
  simp

theorem ReuseBuffer_realloc_fail (K : SurfaceConsts) (q : BufferQueue)
    (config : BufferRequestConfig)
    (bedata : Option BufferExtraData) (retval : RequestBufferReturnValue) (a : AllocOutcome)
    (b : SurfaceBuffer) (e : BufferElement) (hs : q.isShared_ = false)
    (hb : retval.buffer = some b)
    (hf : cacheFind q.bufferQueueCache_ b.seqNum = some e) (hc : e.config ≠ config)
    (ha : ¬ (a.allocRet = GSError.GSERROR_OK ∧ a.mapRet = GSError.GSERROR_OK)) :
    ReuseBuffer K q config bedata retval a =
      Except.ok
        { ret := if a.allocRet ≠ GSError.GSERROR_OK then a.allocRet else a.mapRet,
          bedata := bedata,
          retval := { retval with sequence := b.seqNum },
          queue := DeleteBufferInCache q b.seqNum } := by
  obtain ⟨sh, qs, c, fl, dl, del, l1, l2, obr, obd, mu, dc, ac⟩ := q
  simp only at hs hf
  subst hs
  unfold ReuseBuffer
  have hc2 : ¬ config = e.config := fun h => hc h.symm
  obtain ⟨h1, h2⟩ := AllocBuffer_fail K (DeleteBufferInCache
    ⟨false, qs, c, fl, dl, del, l1, l2, obr, obd, mu, dc, ac⟩ b.seqNum) none config a ha
  simp only [hb, cacheIndex_of_find K _ _ e hf, ne_eq, hc2, not_false_eq_true, if_true,
    Bool.false_eq_true, if_false, h1]
  simp only [ne_eq] at h2
  simp only [h2, not_false_eq_true, if_true]

theorem ReuseBuffer_realloc_ok (K : SurfaceConsts) (q : BufferQueue)
    (config : BufferRequestConfig)
    (bedata : Option BufferExtraData) (retval : RequestBufferReturnValue) (a : AllocOutcome)
    (b : SurfaceBuffer) (e : BufferElement) (hs : q.isShared_ = false)
    (hb : retval.buffer = some b)
    (hf : cacheFind q.bufferQueueCache_ b.seqNum = some e) (hc : e.config ≠ config)
    (h1 : a.allocRet = GSError.GSERROR_OK) (h2 : a.mapRet = GSError.GSERROR_OK) :
    ReuseBuffer K q config bedata retval a =
      Except.ok
        { ret := GSError.GSERROR_OK, bedata := a.buffer.extraData,
          retval :=
            { buffer := some a.buffer, sequence := a.buffer.seqNum, fence := some INVALID_FENCE,
              deletingBuffers := retval.deletingBuffers ++ (q.deletingList_ ++ [b.seqNum]) },
          queue :=
            { q with
              deleteCalls :=
                if q.onBufferDelete_ = true then q.deleteCalls ++ [b.seqNum] else q.deleteCalls,
              bufferQueueCache_ := cacheInsert K (cacheErase q.bufferQueueCache_ b.seqNum)
                a.buffer.seqNum (allocElement config a.buffer),
              deletingList_ := [] } } := by
  obtain ⟨sh, qs, c, fl, dl, del, l1, l2, obr, obd, mu, dc, ac⟩ := q
  simp only at hs hf
  subst hs
  unfold ReuseBuffer
  have hc2 : ¬ config = e.config := fun h => hc h.symm
  have hd := DeleteBufferInCache_of_find
    ⟨false, qs, c, fl, dl, del, l1, l2, obr, obd, mu, dc, ac⟩ b.seqNum e hf
  simp only [hb, cacheIndex_of_find K _ _ e hf, ne_eq, hc2, not_false_eq_true, if_true,
    Bool.false_eq_true, if_false, AllocBuffer_ok K _ _ _ _ h1 h2, hd, not_true_eq_false]
  rw [cacheModify_insert_id K _ _ _ _ (by simp [allocElement])]
  rw [ReuseBuffer.finish_eq K _ _ true (allocElement config a.buffer) a.buffer
    (by simp [cacheFind_insert]) (by simp)]
  simp only
  rw [cacheModify_insert_id K _ _ _ _ (by simp [allocElement])]
  simp [allocElement]

/-- With the mutex free, a listener installed and a valid config, `RequestBuffer`
is its locked part followed by the release of the mutex. -/
theorem RequestBuffer_eq_locked (K : SurfaceConsts) (q : BufferQueue)
    (config : BufferRequestConfig) (a : AllocOutcome) (hu : q.mutex_ = false)
    (hl : ¬ (q.listener_ = none ∧ q.listenerClazz_ = none))
    (hcfg : CheckRequestConfig K config = GSError.GSERROR_OK) :
    RequestBuffer K q config a =
      (RequestBuffer.locked K { q with mutex_ := true } config none emptyRetval a).map
        (fun r => { r with queue := unlock r.queue }) := by
  unfold RequestBuffer
  rw [if_neg hl, lock_of_unlocked q hu]
  simp only [hcfg, ne_eq, not_true_eq_false, if_false]
  cases RequestBuffer.locked K { q with mutex_ := true } config none emptyRetval a <;> rfl

theorem RequestBuffer.locked_noBuffer (K : SurfaceConsts) (q : BufferQueue)
    (config : BufferRequestConfig) (bedata : Option BufferExtraData)
    (retval : RequestBufferReturnValue) (a : AllocOutcome)
    (hs : q.isShared_ = false) (hfree : q.freeList_ = [])
    (hfull : q.queueSize_ ≤ q.bufferQueueCache_.length) :
    RequestBuffer.locked K q config bedata retval a =
      Except.ok { ret := GSError.GSERROR_NO_BUFFER, bedata := bedata,
                  retval := { retval with buffer := none }, queue := q } := by
  have hp : PopFromFreeList K q config = (GSError.GSERROR_NO_BUFFER, none, q) := by
    rcases PopFromFreeList_nonShared K q config hs (by simp [hfree]) with ⟨_, h⟩ | ⟨pre, s, post, e, h, _⟩
    · exact h
    · rw [hfree] at h; simp at h
  unfold RequestBuffer.locked
  simp only [hp]
  simp [GetUsedSize, GetQueueSize, hfull]

theorem RequestBuffer.locked_alloc (K : SurfaceConsts) (q : BufferQueue)
    (config : BufferRequestConfig) (bedata : Option BufferExtraData)
    (retval : RequestBufferReturnValue) (a : AllocOutcome)
    (hs : q.isShared_ = false) (hfree : q.freeList_ = [])
    (hroom : q.bufferQueueCache_.length < q.queueSize_) :
    RequestBuffer.locked K q config bedata retval a =
      RequestBuffer.alloc K q config bedata { retval with buffer := none } a := by
  have hp : PopFromFreeList K q config = (GSError.GSERROR_NO_BUFFER, none, q) := by
    rcases PopFromFreeList_nonShared K q config hs (by simp [hfree]) with ⟨_, h⟩ | ⟨pre, s, post, e, h, _⟩
    · exact h
    · rw [hfree] at h; simp at h
  unfold RequestBuffer.locked
  simp only [hp]
  have : ¬ (GetUsedSize q ≥ GetQueueSize q) := by simp [GetUsedSize, GetQueueSize, hroom]
  simp [this]

theorem RequestBuffer.locked_reuse (K : SurfaceConsts) (q : BufferQueue)
    (config : BufferRequestConfig) (bedata : Option BufferExtraData)
    (retval : RequestBufferReturnValue) (a : AllocOutcome) (b : Option SurfaceBuffer)
    (q1 : BufferQueue)
    (hp : PopFromFreeList K q config = (GSError.GSERROR_OK, b, q1)) :
    RequestBuffer.locked K q config bedata retval a =
      ReuseBuffer K q1 config bedata { retval with buffer := b } a := by
  unfold RequestBuffer.locked
  simp [hp]

theorem RequestBuffer.alloc_ok (K : SurfaceConsts) (q : BufferQueue)
    (config : BufferRequestConfig) (bedata : Option BufferExtraData)
    (retval : RequestBufferReturnValue) (a : AllocOutcome)
    (h1 : a.allocRet = GSError.GSERROR_OK) (h2 : a.mapRet = GSError.GSERROR_OK) :
    RequestBuffer.alloc K q config bedata retval a =
      Except.ok
        { ret := GSError.GSERROR_OK, bedata := a.buffer.extraData,
          retval := { retval with buffer := some a.buffer, sequence := a.buffer.seqNum,
                                  fence := some INVALID_FENCE },
          queue :=
            { q with
              bufferQueueCache_ :=
                cacheInsert K q.bufferQueueCache_ a.buffer.seqNum
                  (allocElement config a.buffer) } } := by
  unfold RequestBuffer.alloc
  simp [AllocBuffer_ok K _ _ _ _ h1 h2]

theorem RequestBuffer.alloc_fail (K : SurfaceConsts) (q : BufferQueue)
    (config : BufferRequestConfig) (bedata : Option BufferExtraData)
    (retval : RequestBufferReturnValue) (a : AllocOutcome)
    (h : ¬ (a.allocRet = GSError.GSERROR_OK ∧ a.mapRet = GSError.GSERROR_OK)) :
    RequestBuffer.alloc K q config bedata retval a =
      Except.ok
        { ret := if a.allocRet ≠ GSError.GSERROR_OK then a.allocRet else a.mapRet,
          bedata := bedata, retval := retval, queue := q } := by
  unfold RequestBuffer.alloc
  obtain ⟨h1, h2⟩ := AllocBuffer_fail K q retval.buffer config a h
  rw [h1]
  show (if (if a.allocRet ≠ GSError.GSERROR_OK then a.allocRet else a.mapRet) =
    GSError.GSERROR_OK then _ else _) = _
  rw [if_neg h2]

theorem CoreN.reuse (K : SurfaceConsts) {c : Cache} {pre post dirty : List Int} {s : Int}
    (h : CoreN c (pre ++ s :: post) dirty) {e : BufferElement} (hf : cacheFind c s = some e) :
    CoreN (cacheModify K c s (fun e1 => { e1 with state := BufferState.BUFFER_STATE_REQUESTED }))
      (pre ++ post) dirty := by
  have hnd := h.free_nodup
  have hs_in : s ∈ pre ++ s :: post := by simp
  obtain ⟨e1, h1, h2⟩ := h.free_in s hs_in
  rw [hf] at h1; cases h1
  have hnotin : s ∉ pre ++ post := by
    intro hm
    have := List.nodup_middle.1 hnd
    exact (List.nodup_cons.1 this).1 hm
  apply CoreN.modify K h hf
  · exact h.buf s e hf
  · exact (List.nodup_cons.1 (List.nodup_middle.1 hnd)).2
  · exact h.dirty_nodup
  · intro x hx
    right
    refine ⟨fun hxs => hnotin (hxs ▸ hx), ?_⟩
    rcases List.mem_append.1 hx with h3 | h3
    · exact List.mem_append_left _ h3
    · exact List.mem_append_right _ (List.mem_cons_of_mem _ h3)
  · intro x hx
    right
    refine ⟨fun hxs => ?_, hx⟩
    subst hxs
    exact h.not_dirty_of_state hf (by rw [h2]; decide) hx

theorem CoreN.drop (c : Cache) {pre post dirty : List Int} {s : Int}
    (h : CoreN c (pre ++ s :: post) dirty) {e : BufferElement} (hf : cacheFind c s = some e) :
    CoreN (cacheErase c s) (pre ++ post) dirty := by
  have hnd := h.free_nodup
  have hs_in : s ∈ pre ++ s :: post := by simp
  obtain ⟨e1, h1, h2⟩ := h.free_in s hs_in
  rw [hf] at h1; cases h1
  have hnotin : s ∉ pre ++ post := by
    intro hm
    have := List.nodup_middle.1 hnd
    exact (List.nodup_cons.1 this).1 hm
  apply CoreN.erase h
  · exact (List.nodup_cons.1 (List.nodup_middle.1 hnd)).2
  · exact h.dirty_nodup
  · intro x hx
    refine ⟨fun hxs => hnotin (hxs ▸ hx), ?_⟩
    rcases List.mem_append.1 hx with h3 | h3
    · exact List.mem_append_left _ h3
    · exact List.mem_append_right _ (List.mem_cons_of_mem _ h3)
  · intro x hx
    refine ⟨fun hxs => ?_, hx⟩
    subst hxs
    exact h.not_dirty_of_state hf (by rw [h2]; decide) hx

theorem length_insert_le (K : SurfaceConsts) (c : Cache) (k : Int) (e : BufferElement) :
    (cacheInsert K c k e).length ≤ c.length + 1 := by
  unfold cacheInsert
  rw [length_modify]
  split <;> omega

theorem length_modify_of_find (K : SurfaceConsts) (c : Cache) (k : Int)
    (f : BufferElement → BufferElement) (e : BufferElement) (h : cacheFind c k = some e) :
    (cacheModify K c k f).length = c.length := by
  rw [length_modify, h]; simp

theorem RequestBuffer_InvN (K : SurfaceConsts) (q : BufferQueue) (config : BufferRequestConfig)
    (a : AllocOutcome) (r : RequestResult) (h : InvN q)
    (hfresh : cacheFind q.bufferQueueCache_ a.buffer.seqNum = none)
    (hr : RequestBuffer K q config a = Except.ok r) :
    InvN r.queue ∧ r.queue.bufferQueueCache_.length ≤ max q.bufferQueueCache_.length q.queueSize_ ∧
      r.queue.queueSize_ = q.queueSize_ := by
  obtain ⟨hs, hu, hcore⟩ := h
  by_cases hl : q.listener_ = none ∧ q.listenerClazz_ = none
  · unfold RequestBuffer at hr
    rw [if_pos hl] at hr
    cases hr
    exact ⟨⟨hs, hu, hcore⟩, le_max_left _ _, rfl⟩
  by_cases hcfg : CheckRequestConfig K config = GSError.GSERROR_OK
  swap
  · unfold RequestBuffer at hr
    rw [if_neg hl, if_pos hcfg] at hr
    cases hr
    exact ⟨⟨hs, hu, hcore⟩, le_max_left _ _, rfl⟩
  rw [RequestBuffer_eq_locked K q config a hu hl hcfg] at hr
  obtain ⟨sh, qs, c, fl, dl, del, l1, l2, obr, obd, mu, dc, ac⟩ := q
  simp only at hs hu hcore hfresh
  subst hs hu
  rcases PopFromFreeList_nonShared K ⟨false, qs, c, fl, dl, del, l1, l2, obr, obd, true, dc, ac⟩
    config rfl (fun s hs => (hcore.free_in s hs).imp fun e he => he.1) with
    ⟨h1, -⟩ | ⟨pre, s, post, e, h1, h2, -, -, h5⟩
  · simp only at h1
    subst h1
    by_cases hfull : qs ≤ c.length
    · rw [RequestBuffer.locked_noBuffer K _ _ _ _ _ rfl rfl hfull] at hr
      cases hr
      exact ⟨⟨rfl, rfl, hcore⟩, le_max_left _ _, rfl⟩
    · rw [RequestBuffer.locked_alloc K _ _ _ _ _ rfl rfl (by simpa using hfull)] at hr
      by_cases ha : a.allocRet = GSError.GSERROR_OK ∧ a.mapRet = GSError.GSERROR_OK
      · rw [RequestBuffer.alloc_ok K _ _ _ _ _ ha.1 ha.2] at hr
        cases hr
        refine ⟨⟨rfl, rfl, ?_⟩, ?_, rfl⟩
        · exact CoreN.insert K hcore hfresh _ ⟨a.buffer, rfl, rfl⟩
        · have := length_insert_le K c a.buffer.seqNum (allocElement config a.buffer)
          simp only [unlock]
          have h2 : c.length < qs := by omega
          omega
      · rw [RequestBuffer.alloc_fail K _ _ _ _ _ ha] at hr
        cases hr
        exact ⟨⟨rfl, rfl, hcore⟩, le_max_left _ _, rfl⟩
  · simp only at h1 h2
    subst h1
    obtain ⟨b, hb1, hb2⟩ := hcore.buf s e h2
    rw [hb1] at h5
    rw [RequestBuffer.locked_reuse K _ _ _ _ _ _ _ h5] at hr
    subst hb2
    by_cases hc : e.config = config
    · rw [ReuseBuffer_same K _ _ _ _ _ b e rfl h2 hc] at hr
      cases hr
      refine ⟨⟨rfl, rfl, ?_⟩, ?_, rfl⟩
      · exact CoreN.reuse K hcore h2
      · simp only [unlock]
        rw [length_modify_of_find K c _ _ e h2]
        exact le_max_left _ _
    · by_cases ha : a.allocRet = GSError.GSERROR_OK ∧ a.mapRet = GSError.GSERROR_OK
      · rw [ReuseBuffer_realloc_ok K _ _ _ _ _ b e rfl rfl h2 hc ha.1 ha.2] at hr
        cases hr
        refine ⟨⟨rfl, rfl, ?_⟩, ?_, rfl⟩
        · apply CoreN.insert K (CoreN.drop c hcore h2)
          · rw [cacheFind_erase, hfresh]; simp
          · exact ⟨a.buffer, rfl, rfl⟩
        · simp only [unlock]
          have h3 := length_insert_le K (cacheErase c b.seqNum) a.buffer.seqNum
            (allocElement config a.buffer)
          have h4 := length_erase_lt c b.seqNum (by rw [h2]; rfl)
          have : (cacheInsert K (cacheErase c b.seqNum) a.buffer.seqNum
            (allocElement config a.buffer)).length ≤ c.length := by omega
          exact le_trans this (le_max_left _ _)
      · rw [ReuseBuffer_realloc_fail K _ _ _ _ _ b e rfl rfl h2 hc ha] at hr
        cases hr
        have hd := DeleteBufferInCache_of_find
          ⟨false, qs, c, pre ++ post, dl, del, l1, l2, obr, obd, true, dc, ac⟩ b.seqNum e h2
        simp only [hd]
        refine ⟨⟨rfl, rfl, ?_⟩, ?_, rfl⟩
        · exact CoreN.drop c hcore h2
        · simp only [unlock]
          exact le_trans (length_erase_le c b.seqNum) (le_max_left _ _)

theorem cacheModify_modify (K : SurfaceConsts) (c : Cache) (k : Int)
    (f g : BufferElement → BufferElement) (e : BufferElement) (h : cacheFind c k = some e) :
    cacheModify K (cacheModify K c k f) k g = cacheModify K c k (fun x => g (f x)) := by
  have h2 : cacheFind (cacheModify K c k f) k = some (f e) := by
    rw [cacheFind_modify]; simp [h]
  unfold cacheModify at h2 ⊢
  rw [h] at h2 ⊢
  simp only at h2 ⊢
  rw [h2]
  simp only [List.map_map]
  apply List.map_congr_left
  intro p _
  by_cases hp : p.1 = k
  · simp [hp]
  · simp [hp]

theorem CancelBuffer_ok (K : SurfaceConsts) (q : BufferQueue) (sequence : Int)
    (bedata : Option BufferExtraData) (e : BufferElement) (b : SurfaceBuffer)
    (hs : q.isShared_ = false) (hu : q.mutex_ = false)
    (hf : cacheFind q.bufferQueueCache_ sequence = some e)
    (hst : e.state = BufferState.BUFFER_STATE_REQUESTED) (hb : e.buffer = some b) :
    CancelBuffer K q sequence bedata =
      Except.ok (GSError.GSERROR_OK,
        { q with
          bufferQueueCache_ := cacheModify K q.bufferQueueCache_ sequence
            (fun e1 => { e1 with state := BufferState.BUFFER_STATE_RELEASED,
                                 buffer := some { b with extraData := bedata } }),
          freeList_ := q.freeList_ ++ [sequence] }) := by
  obtain ⟨sh, qs, c, fl, dl, del, l1, l2, obr, obd, mu, dc, ac⟩ := q
  simp only at hs hu hf
  subst hs hu
  simp [CancelBuffer, lock, unlock, hf, hst, hb]

theorem CancelBuffer_refused (K : SurfaceConsts) (q : BufferQueue) (sequence : Int)
    (bedata : Option BufferExtraData) (hu : q.mutex_ = false)
    (h : q.isShared_ = true ∨ cacheFind q.bufferQueueCache_ sequence = none ∨
      ∃ e, cacheFind q.bufferQueueCache_ sequence = some e ∧
        e.state ≠ BufferState.BUFFER_STATE_REQUESTED) :
    ∃ ret, ret ≠ GSError.GSERROR_OK ∧ CancelBuffer K q sequence bedata = Except.ok (ret, q) := by
  obtain ⟨sh, qs, c, fl, dl, del, l1, l2, obr, obd, mu, dc, ac⟩ := q
  simp only at hu h
  subst hu
  by_cases hs : sh = true
  · exact ⟨GSError.GSERROR_INVALID_OPERATING, by decide, by simp [CancelBuffer, hs]⟩
  · rcases h with h | h | ⟨e, h1, h2⟩
    · exact absurd h hs
    · exact ⟨GSError.GSERROR_NO_ENTRY, by decide, by simp [CancelBuffer, hs, lock, unlock, h]⟩
    · exact ⟨GSError.GSERROR_INVALID_OPERATING, by decide,
        by simp [CancelBuffer, hs, lock, unlock, h1, h2]⟩

theorem DoFlushBuffer_ok (K : SurfaceConsts) (q : BufferQueue) (sequence : Int)
    (bedata : Option BufferExtraData) (fence : Int) (config : BufferFlushConfig)
    (flushCacheRet : GSError) (now : Int) (e : BufferElement) (b : SurfaceBuffer)
    (hu : q.mutex_ = false)
    (hf : cacheFind q.bufferQueueCache_ sequence = some e)
    (hdel : e.isDeleting = false) (hb : e.buffer = some b)
    (hfc : ¬ ((e.config.usage % 2 ^ 32).toNat &&& K.HBM_USE_CPU_WRITE ≠ 0 ∧
      flushCacheRet ≠ GSError.GSERROR_OK)) :
    DoFlushBuffer K q sequence bedata fence config flushCacheRet now =
      Except.ok (GSError.GSERROR_OK,
        { q with
          bufferQueueCache_ := cacheModify K q.bufferQueueCache_ sequence
            (fun e1 => { e1 with state := BufferState.BUFFER_STATE_FLUSHED,
                                 buffer := some { b with extraData := bedata },
                                 fence := some fence, damage := config.damage,
                                 timestamp := if config.timestamp = 0 then now
                                   else config.timestamp }),
          dirtyList_ := q.dirtyList_ ++ [sequence] }) := by
  obtain ⟨sh, qs, c, fl, dl, del, l1, l2, obr, obd, mu, dc, ac⟩ := q
  simp only at hu hf
  subst hu
  unfold DoFlushBuffer
  simp only [lock, Bool.false_eq_true, if_false, cacheIndex_of_find K c sequence e hf, hdel, hb,
    hfc, unlock, cacheModify_modify K c sequence _ _ e hf]

theorem DoFlushBuffer_failed (K : SurfaceConsts) (q : BufferQueue) (sequence : Int)
    (bedata : Option BufferExtraData) (fence : Int) (config : BufferFlushConfig)
    (flushCacheRet : GSError) (now : Int) (e : BufferElement) (b : SurfaceBuffer)
    (hu : q.mutex_ = false)
    (hf : cacheFind q.bufferQueueCache_ sequence = some e)
    (hdel : e.isDeleting = false) (hb : e.buffer = some b)
    (hfc : (e.config.usage % 2 ^ 32).toNat &&& K.HBM_USE_CPU_WRITE ≠ 0 ∧
      flushCacheRet ≠ GSError.GSERROR_OK) :
    DoFlushBuffer K q sequence bedata fence config flushCacheRet now =
      Except.ok (flushCacheRet,
        { q with
          bufferQueueCache_ := cacheModify K q.bufferQueueCache_ sequence
            (fun e1 => { e1 with state := BufferState.BUFFER_STATE_FLUSHED,
                                 buffer := some { b with extraData := bedata },
                                 fence := some fence, damage := config.damage }),
          dirtyList_ := q.dirtyList_ ++ [sequence] }) := by
  obtain ⟨sh, qs, c, fl, dl, del, l1, l2, obr, obd, mu, dc, ac⟩ := q
  simp only at hu hf
  subst hu
  unfold DoFlushBuffer
  simp only [lock, Bool.false_eq_true, if_false, cacheIndex_of_find K c sequence e hf, hdel, hb]
  rw [if_pos hfc]
  rfl

theorem DoFlushBuffer_deleting (K : SurfaceConsts) (q : BufferQueue) (sequence : Int)
    (bedata : Option BufferExtraData) (fence : Int) (config : BufferFlushConfig)
    (flushCacheRet : GSError) (now : Int) (e : BufferElement)
    (hu : q.mutex_ = false)
    (hf : cacheFind q.bufferQueueCache_ sequence = some e)
    (hdel : e.isDeleting = true) :
    DoFlushBuffer K q sequence bedata fence config flushCacheRet now =
      Except.ok (GSError.GSERROR_OK,
        { q with
          deleteCalls :=
            if q.onBufferDelete_ = true then q.deleteCalls ++ [sequence] else q.deleteCalls,
          bufferQueueCache_ := cacheErase q.bufferQueueCache_ sequence,
          deletingList_ := q.deletingList_ ++ [sequence] }) := by
  obtain ⟨sh, qs, c, fl, dl, del, l1, l2, obr, obd, mu, dc, ac⟩ := q
  simp only at hu hf
  subst hu
  unfold DoFlushBuffer
  have hd := DeleteBufferInCache_of_find
    ⟨sh, qs, c, fl, dl, del, l1, l2, obr, obd, true, dc, ac⟩ sequence e hf
  simp only [lock, Bool.false_eq_true, if_false, cacheIndex_of_find K c sequence e hf, hdel,
    if_true, unlock, hd]

theorem cacheErase_map (c : Cache) (k : Int) (f : BufferElement → BufferElement) :
    cacheErase (c.map (fun p => if p.1 = k then (p.1, f p.2) else p)) k = cacheErase c k := by
  induction c with
  | nil => rfl
  | cons p rest ih =>
    unfold cacheErase at ih ⊢
    simp only [List.map_cons]
    by_cases hp : p.1 = k
    · rw [if_pos hp, List.filter_cons_of_neg (by simp [hp]),
        List.filter_cons_of_neg (by simp [hp]), ih]
    · rw [if_neg hp, List.filter_cons_of_pos (by simp [hp]),
        List.filter_cons_of_pos (by simp [hp]), ih]

theorem cacheErase_modify (K : SurfaceConsts) (c : Cache) (k : Int)
    (f : BufferElement → BufferElement) (e : BufferElement) (h : cacheFind c k = some e) :
    cacheErase (cacheModify K c k f) k = cacheErase c k := by
  unfold cacheModify
  rw [h]
  exact cacheErase_map c k f

theorem FlushBuffer_refused (K : SurfaceConsts) (q : BufferQueue) (sequence : Int)
    (bedata : Option BufferExtraData) (fence : Int) (config : BufferFlushConfig)
    (flushCacheRet : GSError) (now : Int) (hu : q.mutex_ = false)
    (h : CheckFlushConfig config ≠ GSError.GSERROR_OK ∨
      cacheFind q.bufferQueueCache_ sequence = none ∨
      (q.isShared_ = false ∧ ∃ e, cacheFind q.bufferQueueCache_ sequence = some e ∧
        e.state ≠ BufferState.BUFFER_STATE_REQUESTED ∧
        e.state ≠ BufferState.BUFFER_STATE_ATTACHED)) :
    ∃ ret, ret ≠ GSError.GSERROR_OK ∧ ret ≠ GSError.GSERROR_NO_CONSUMER ∧
      FlushBuffer K q sequence bedata fence config flushCacheRet now = Except.ok (ret, q) := by
  obtain ⟨sh, qs, c, fl, dl, del, l1, l2, obr, obd, mu, dc, ac⟩ := q
  simp only at hu h
  subst hu
  by_cases hck : CheckFlushConfig config = GSError.GSERROR_OK
  · rcases h with h | h | ⟨h0, e, h1, h2, h3⟩
    · exact absurd hck h
    · exact ⟨GSError.GSERROR_NO_ENTRY, by decide, by decide,
        by simp [FlushBuffer, hck, lock, unlock, h]⟩
    · exact ⟨GSError.GSERROR_NO_ENTRY, by decide, by decide,
        by simp [FlushBuffer, hck, lock, unlock, h0, h1, h2, h3]⟩
  · refine ⟨CheckFlushConfig config, hck, ?_, by simp [FlushBuffer, hck]⟩
    unfold CheckFlushConfig
    split
    · decide
    · split <;> decide

theorem FlushBuffer_accepted (K : SurfaceConsts) (q : BufferQueue) (sequence : Int)
    (bedata : Option BufferExtraData) (fence : Int) (config : BufferFlushConfig)
    (flushCacheRet : GSError) (now : Int) (e : BufferElement) (hu : q.mutex_ = false)
    (hck : CheckFlushConfig config = GSError.GSERROR_OK)
    (hf : cacheFind q.bufferQueueCache_ sequence = some e)
    (hst : q.isShared_ = true ∨ e.state = BufferState.BUFFER_STATE_REQUESTED ∨
      e.state = BufferState.BUFFER_STATE_ATTACHED) :
    FlushBuffer K q sequence bedata fence config flushCacheRet now =
      if q.listener_ = none ∧ q.listenerClazz_ = none then
        (CancelBuffer K q sequence bedata).map (fun r => (GSError.GSERROR_NO_CONSUMER, r.2))
      else
        (DoFlushBuffer K q sequence bedata fence config flushCacheRet now).map
          (fun r => if r.1 ≠ GSError.GSERROR_OK then r
            else (GSError.GSERROR_OK, { r.2 with availableCalls := r.2.availableCalls + 1 })) := by
  obtain ⟨sh, qs, c, fl, dl, del, l1, l2, obr, obd, mu, dc, ac⟩ := q
  simp only at hu hf hst
  subst hu
  have hg : ¬ (sh = false ∧ e.state ≠ BufferState.BUFFER_STATE_REQUESTED ∧
      e.state ≠ BufferState.BUFFER_STATE_ATTACHED) := by
    rintro ⟨h1, h2, h3⟩
    rcases hst with h | h | h
    · rw [h1] at h; cases h
    · exact h2 h
    · exact h3 h
  unfold FlushBuffer
  simp only [hck, ne_eq, not_true_eq_false, if_false, lock, Bool.false_eq_true, hf, hg, unlock]
  split
  · cases CancelBuffer K _ sequence bedata <;> rfl
  · cases hd : DoFlushBuffer K _ sequence bedata fence config flushCacheRet now with
    | error f => rfl
    | ok r =>
      simp only [Except.map]
      split <;> rfl

theorem AcquireBuffer_nonShared_ok (K : SurfaceConsts) (q : BufferQueue) (s : Int)
    (rest : List Int) (e : BufferElement) (b : SurfaceBuffer)
    (hs : q.isShared_ = false) (hu : q.mutex_ = false) (hd : q.dirtyList_ = s :: rest)
    (hf : cacheFind q.bufferQueueCache_ s = some e) (hb : e.buffer = some b)
    (hseq : b.seqNum = s) :
    AcquireBuffer K q =
      Except.ok
        { ret := GSError.GSERROR_OK, buffer := some b, fence := e.fence,
          timestamp := e.timestamp, damage := e.damage,
          queue :=
            { q with
              dirtyList_ := rest,
              bufferQueueCache_ := cacheModify K q.bufferQueueCache_ s
                (fun e1 => { e1 with state := BufferState.BUFFER_STATE_ACQUIRED }) } } := by
  obtain ⟨sh, qs, c, fl, dl, del, l1, l2, obr, obd, mu, dc, ac⟩ := q
  simp only at hs hu hd hf
  subst hs hu hd hseq
  have h1 := cacheIndex_of_find K
    (cacheModify K c b.seqNum (fun e1 => { e1 with state := BufferState.BUFFER_STATE_ACQUIRED }))
    b.seqNum { e with state := BufferState.BUFFER_STATE_ACQUIRED }
    (by rw [cacheFind_modify]; simp [hf])
  simp only [AcquireBuffer, lock, Bool.false_eq_true, if_false, PopFromDirtyList, false_and,
    cacheIndex_of_find K c b.seqNum e hf, hb, if_true, h1, unlock]

theorem AcquireBuffer_nonShared_empty (K : SurfaceConsts) (q : BufferQueue)
    (hs : q.isShared_ = false) (hu : q.mutex_ = false) (hd : q.dirtyList_ = []) :
    AcquireBuffer K q =
      Except.ok
        { ret := GSError.GSERROR_NO_BUFFER, buffer := none, fence := none, timestamp := 0,
          damage := { x := 0, y := 0, w := 0, h := 0 }, queue := q } := by
  obtain ⟨sh, qs, c, fl, dl, del, l1, l2, obr, obd, mu, dc, ac⟩ := q
  simp only at hs hu hd
  subst hs hu hd
  simp [AcquireBuffer, lock, PopFromDirtyList, unlock]

theorem ReleaseBuffer_refused (K : SurfaceConsts) (q : BufferQueue)
    (buffer : Option SurfaceBuffer) (fence : Int) (cbRet : GSError) (hu : q.mutex_ = false)
    (h : buffer = none ∨ ∃ b, buffer = some b ∧
      (cacheFind q.bufferQueueCache_ b.seqNum = none ∨
        (q.isShared_ = false ∧ ∃ e, cacheFind q.bufferQueueCache_ b.seqNum = some e ∧
          e.state ≠ BufferState.BUFFER_STATE_ACQUIRED ∧
          e.state ≠ BufferState.BUFFER_STATE_ATTACHED))) :
    ∃ ret, ret ≠ GSError.GSERROR_OK ∧
      ReleaseBuffer K q buffer fence cbRet = Except.ok (ret, q) := by
  obtain ⟨sh, qs, c, fl, dl, del, l1, l2, obr, obd, mu, dc, ac⟩ := q
  simp only at hu h
  subst hu
  rcases h with h | ⟨b, hb, h | ⟨h0, e, h1, h2, h3⟩⟩
  · exact ⟨GSError.GSERROR_INVALID_ARGUMENTS, by decide, by simp [ReleaseBuffer, h]⟩
  · exact ⟨GSError.GSERROR_NO_ENTRY, by decide, by simp [ReleaseBuffer, hb, lock, unlock, h]⟩
  · exact ⟨GSError.GSERROR_NO_ENTRY, by decide,
      by simp [ReleaseBuffer, hb, lock, unlock, h0, h1, h2, h3]⟩

theorem ReleaseBuffer_accepted (K : SurfaceConsts) (q : BufferQueue) (b : SurfaceBuffer)
    (fence : Int) (cbRet : GSError) (e : BufferElement) (hu : q.mutex_ = false)
    (hf : cacheFind q.bufferQueueCache_ b.seqNum = some e)
    (hst : q.isShared_ = true ∨ e.state = BufferState.BUFFER_STATE_ACQUIRED ∨
      e.state = BufferState.BUFFER_STATE_ATTACHED) :
    ReleaseBuffer K q (some b) fence cbRet =
      if q.onBufferRelease = true ∧ cbRet = GSError.GSERROR_OK then
        Except.ok (GSError.GSERROR_OK, q)
      else if e.isDeleting = true then
        Except.ok (GSError.GSERROR_OK,
          { q with
            deleteCalls :=
              if q.onBufferDelete_ = true then q.deleteCalls ++ [b.seqNum] else q.deleteCalls,
            bufferQueueCache_ := cacheErase q.bufferQueueCache_ b.seqNum,
            deletingList_ := q.deletingList_ ++ [b.seqNum] })
      else
        Except.ok (GSError.GSERROR_OK,
          { q with
            bufferQueueCache_ := cacheModify K q.bufferQueueCache_ b.seqNum
              (fun e1 => { e1 with state := BufferState.BUFFER_STATE_RELEASED,
                                   fence := some fence }),
            freeList_ := q.freeList_ ++ [b.seqNum] }) := by
  obtain ⟨sh, qs, c, fl, dl, del, l1, l2, obr, obd, mu, dc, ac⟩ := q
  simp only at hu hf hst
  subst hu
  have hg : ¬ (sh = false ∧ e.state ≠ BufferState.BUFFER_STATE_ACQUIRED ∧
      e.state ≠ BufferState.BUFFER_STATE_ATTACHED) := by
    rintro ⟨h1, h2, h3⟩
    rcases hst with h | h | h
    · rw [h1] at h; cases h
    · exact h2 h
    · exact h3 h
  have h1 := cacheIndex_of_find K
    (cacheModify K c b.seqNum (fun e1 => { e1 with state := BufferState.BUFFER_STATE_RELEASED,
                                                   fence := some fence }))
    b.seqNum { e with state := BufferState.BUFFER_STATE_RELEASED, fence := some fence }
    (by rw [cacheFind_modify]; simp [hf])
  unfold ReleaseBuffer
  simp only [lock, Bool.false_eq_true, if_false, hf, hg, unlock, h1]
  split
  · rfl
  · by_cases hdel : e.isDeleting = true
    · have h2 : cacheFind (cacheModify K c b.seqNum
          (fun e1 => { e1 with state := BufferState.BUFFER_STATE_RELEASED,
                               fence := some fence })) b.seqNum =
          some { e with state := BufferState.BUFFER_STATE_RELEASED, fence := some fence } := by
        rw [cacheFind_modify]; simp [hf]
      have hd := DeleteBufferInCache_of_find
        ⟨sh, qs, cacheModify K c b.seqNum
          (fun e1 => { e1 with state := BufferState.BUFFER_STATE_RELEASED,
                               fence := some fence }), fl, dl, del, l1, l2, obr, obd, true, dc, ac⟩
        b.seqNum _ h2
      simp only [hdel, if_true, hd, cacheErase_modify K c b.seqNum _ e hf]
    · simp only [hdel, Bool.false_eq_true, if_false]

theorem CoreN.toFree (K : SurfaceConsts) {c : Cache} {free dirty : List Int}
    (h : CoreN c free dirty) {k : Int} {e : BufferElement} (hf : cacheFind c k = some e)
    (h1 : e.state ≠ BufferState.BUFFER_STATE_RELEASED)
    (h2 : e.state ≠ BufferState.BUFFER_STATE_FLUSHED)
    (f : BufferElement → BufferElement)
    (hb : ∃ b, (f e).buffer = some b ∧ b.seqNum = k)
    (hst : (f e).state = BufferState.BUFFER_STATE_RELEASED) :
    CoreN (cacheModify K c k f) (free ++ [k]) dirty := by
  have hnf := h.not_free_of_state hf h1
  have hnd := h.not_dirty_of_state hf h2
  apply CoreN.modify K h hf f hb
  · rw [List.nodup_append]
    refine ⟨h.free_nodup, List.nodup_singleton k, ?_⟩
    intro x hx hx2
    rw [List.mem_singleton] at hx2
    exact hnf (hx2 ▸ hx)
  · exact h.dirty_nodup
  · intro s hs
    rcases List.mem_append.1 hs with h3 | h3
    · right; exact ⟨fun hh => hnf (hh ▸ h3), h3⟩
    · left; exact ⟨List.mem_singleton.1 h3, hst⟩
  · intro s hs
    right; exact ⟨fun hh => hnd (hh ▸ hs), hs⟩

theorem CoreN.toDirty (K : SurfaceConsts) {c : Cache} {free dirty : List Int}
    (h : CoreN c free dirty) {k : Int} {e : BufferElement} (hf : cacheFind c k = some e)
    (h1 : e.state ≠ BufferState.BUFFER_STATE_RELEASED)
    (h2 : e.state ≠ BufferState.BUFFER_STATE_FLUSHED)
    (f : BufferElement → BufferElement)
    (hb : ∃ b, (f e).buffer = some b ∧ b.seqNum = k)
    (hst : (f e).state = BufferState.BUFFER_STATE_FLUSHED) :
    CoreN (cacheModify K c k f) free (dirty ++ [k]) := by
  have hnf := h.not_free_of_state hf h1
  have hnd := h.not_dirty_of_state hf h2
  apply CoreN.modify K h hf f hb
  · exact h.free_nodup
  · rw [List.nodup_append]
    refine ⟨h.dirty_nodup, List.nodup_singleton k, ?_⟩
    intro x hx hx2
    rw [List.mem_singleton] at hx2
    exact hnd (hx2 ▸ hx)
  · intro s hs
    right; exact ⟨fun hh => hnf (hh ▸ hs), hs⟩
  · intro s hs
    rcases List.mem_append.1 hs with h3 | h3
    · right; exact ⟨fun hh => hnd (hh ▸ h3), h3⟩
    · left; exact ⟨List.mem_singleton.1 h3, hst⟩

theorem CoreN.acquire (K : SurfaceConsts) {c : Cache} {free rest : List Int} {s : Int}
    (h : CoreN c free (s :: rest)) {e : BufferElement} (hf : cacheFind c s = some e) :
    CoreN (cacheModify K c s (fun e1 => { e1 with state := BufferState.BUFFER_STATE_ACQUIRED }))
      free rest := by
  obtain ⟨e1, h1, h2⟩ := h.dirty_in s (List.mem_cons_self _ _)
  rw [hf] at h1; cases h1
  have hnd := List.nodup_cons.1 h.dirty_nodup
  apply CoreN.modify K h hf
  · exact h.buf s e hf
  · exact h.free_nodup
  · exact hnd.2
  · intro x hx
    right
    refine ⟨fun hxs => ?_, hx⟩
    subst hxs
    exact h.not_free_of_state hf (by rw [h2]; decide) hx
  · intro x hx
    right
    exact ⟨fun hxs => hnd.1 (hxs ▸ hx), List.mem_cons_of_mem _ hx⟩

theorem CoreN.erase_out {c : Cache} {free dirty : List Int}
    (h : CoreN c free dirty) {k : Int} (hnf : k ∉ free) (hnd : k ∉ dirty) :
    CoreN (cacheErase c k) free dirty :=
  CoreN.erase h k free dirty h.free_nodup h.dirty_nodup
    (fun _ hs => ⟨fun hh => hnf (hh ▸ hs), hs⟩) (fun _ hs => ⟨fun hh => hnd (hh ▸ hs), hs⟩)

theorem CancelBuffer_InvN (K : SurfaceConsts) (q : BufferQueue) (sequence : Int)
    (bedata : Option BufferExtraData) (r : GSError × BufferQueue) (h : InvN q)
    (hr : CancelBuffer K q sequence bedata = Except.ok r) :
    InvN r.2 ∧ r.2.bufferQueueCache_.length ≤ q.bufferQueueCache_.length ∧
      r.2.queueSize_ = q.queueSize_ := by
  have hkeep : ∀ ret, CancelBuffer K q sequence bedata = Except.ok (ret, q) →
      InvN r.2 ∧ r.2.bufferQueueCache_.length ≤ q.bufferQueueCache_.length ∧
        r.2.queueSize_ = q.queueSize_ := by
    intro ret h1
    rw [h1] at hr; cases hr
    exact ⟨h, le_refl _, rfl⟩
  cases hf : cacheFind q.bufferQueueCache_ sequence with
  | none =>
    obtain ⟨ret, -, h1⟩ := CancelBuffer_refused K q sequence bedata h.unlocked (Or.inr (Or.inl hf))
    exact hkeep ret h1
  | some e =>
    by_cases hst : e.state = BufferState.BUFFER_STATE_REQUESTED
    · obtain ⟨b, hb1, hb2⟩ := h.core.buf sequence e hf
      rw [CancelBuffer_ok K q sequence bedata e b h.notShared h.unlocked hf hst hb1] at hr
      cases hr
      refine ⟨⟨h.notShared, h.unlocked, ?_⟩, ?_, rfl⟩
      · dsimp only
        apply CoreN.toFree K h.core hf (by rw [hst]; decide) (by rw [hst]; decide)
        · exact ⟨_, rfl, hb2⟩
        · rfl
      · dsimp only
        rw [length_modify_of_find K _ _ _ e hf]
    · obtain ⟨ret, -, h1⟩ := CancelBuffer_refused K q sequence bedata h.unlocked
        (Or.inr (Or.inr ⟨e, hf, hst⟩))
      exact hkeep ret h1

theorem FlushBuffer_InvN (K : SurfaceConsts) (q : BufferQueue) (sequence : Int)
    (bedata : Option BufferExtraData) (fence : Int) (config : BufferFlushConfig)
    (flushCacheRet : GSError) (now : Int) (r : GSError × BufferQueue) (h : InvN q)
    (hr : FlushBuffer K q sequence bedata fence config flushCacheRet now = Except.ok r) :
    InvN r.2 ∧ r.2.bufferQueueCache_.length ≤ q.bufferQueueCache_.length ∧
      r.2.queueSize_ = q.queueSize_ := by
  have hkeep : ∀ ret, FlushBuffer K q sequence bedata fence config flushCacheRet now =
      Except.ok (ret, q) →
      InvN r.2 ∧ r.2.bufferQueueCache_.length ≤ q.bufferQueueCache_.length ∧
        r.2.queueSize_ = q.queueSize_ := by
    intro ret h1
    rw [h1] at hr; cases hr
    exact ⟨h, le_refl _, rfl⟩
  by_cases hck : CheckFlushConfig config = GSError.GSERROR_OK
  swap
  · obtain ⟨ret, -, -, h1⟩ := FlushBuffer_refused K q sequence bedata fence config flushCacheRet
      now h.unlocked (Or.inl hck)
    exact hkeep ret h1
  cases hf : cacheFind q.bufferQueueCache_ sequence with
  | none =>
    obtain ⟨ret, -, -, h1⟩ := FlushBuffer_refused K q sequence bedata fence config flushCacheRet
      now h.unlocked (Or.inr (Or.inl hf))
    exact hkeep ret h1
  | some e =>
    by_cases hst : e.state = BufferState.BUFFER_STATE_REQUESTED ∨
        e.state = BufferState.BUFFER_STATE_ATTACHED
    swap
    · obtain ⟨ret, -, -, h1⟩ := FlushBuffer_refused K q sequence bedata fence config
        flushCacheRet now h.unlocked
        (Or.inr (Or.inr ⟨h.notShared, e, hf, fun h1 => hst (Or.inl h1),
          fun h1 => hst (Or.inr h1)⟩))
      exact hkeep ret h1
    have hne1 : e.state ≠ BufferState.BUFFER_STATE_RELEASED := by
      rcases hst with h1 | h1 <;> rw [h1] <;> decide
    have hne2 : e.state ≠ BufferState.BUFFER_STATE_FLUSHED := by
      rcases hst with h1 | h1 <;> rw [h1] <;> decide
    rw [FlushBuffer_accepted K q sequence bedata fence config flushCacheRet now e h.unlocked hck
      hf (Or.inr hst)] at hr
    split at hr
    · cases hc : CancelBuffer K q sequence bedata with
      | error f => rw [hc] at hr; cases hr
      | ok rc =>
        rw [hc] at hr
        cases hr
        exact CancelBuffer_InvN K q sequence bedata rc h hc
    · obtain ⟨b, hb1, hb2⟩ := h.core.buf sequence e hf
      by_cases hdel : e.isDeleting = true
      · rw [DoFlushBuffer_deleting K q sequence bedata fence config flushCacheRet now e
          h.unlocked hf hdel] at hr
        cases hr
        refine ⟨⟨h.notShared, h.unlocked, ?_⟩, ?_, rfl⟩
        · exact CoreN.erase_out h.core (h.core.not_free_of_state hf hne1)
            (h.core.not_dirty_of_state hf hne2)
        · exact length_erase_le _ _
      · have hdel2 : e.isDeleting = false := by simpa using hdel
        by_cases hfc : (e.config.usage % 2 ^ 32).toNat &&& K.HBM_USE_CPU_WRITE ≠ 0 ∧
            flushCacheRet ≠ GSError.GSERROR_OK
        · rw [DoFlushBuffer_failed K q sequence bedata fence config flushCacheRet now e b
            h.unlocked hf hdel2 hb1 hfc] at hr
          simp only [Except.map, ne_eq, hfc.2, not_false_eq_true, if_true] at hr
          cases hr
          refine ⟨⟨h.notShared, h.unlocked, ?_⟩, ?_, rfl⟩
          · dsimp only
            apply CoreN.toDirty K h.core hf hne1 hne2
            · exact ⟨_, rfl, hb2⟩
            · rfl
          · dsimp only
            rw [length_modify_of_find K _ _ _ e hf]
        · rw [DoFlushBuffer_ok K q sequence bedata fence config flushCacheRet now e b
            h.unlocked hf hdel2 hb1 hfc] at hr
          simp only [Except.map, ne_eq, not_true_eq_false, if_false] at hr
          cases hr
          refine ⟨⟨h.notShared, h.unlocked, ?_⟩, ?_, rfl⟩
          · dsimp only
            apply CoreN.toDirty K h.core hf hne1 hne2
            · exact ⟨_, rfl, hb2⟩
            · rfl
          · dsimp only
            rw [length_modify_of_find K _ _ _ e hf]

theorem AcquireBuffer_InvN (K : SurfaceConsts) (q : BufferQueue) (r : AcquireResult)
    (h : InvN q) (hr : AcquireBuffer K q = Except.ok r) :
    InvN r.queue ∧ r.queue.bufferQueueCache_.length ≤ q.bufferQueueCache_.length ∧
      r.queue.queueSize_ = q.queueSize_ := by
  cases hd : q.dirtyList_ with
  | nil =>
    rw [AcquireBuffer_nonShared_empty K q h.notShared h.unlocked hd] at hr
    cases hr
    exact ⟨h, le_refl _, rfl⟩
  | cons s rest =>
    obtain ⟨e, hf, -⟩ := h.core.dirty_in s (by rw [hd]; exact List.mem_cons_self _ _)
    obtain ⟨b, hb1, hb2⟩ := h.core.buf s e hf
    rw [AcquireBuffer_nonShared_ok K q s rest e b h.notShared h.unlocked hd hf hb1 hb2] at hr
    cases hr
    refine ⟨⟨h.notShared, h.unlocked, ?_⟩, ?_, rfl⟩
    · have hc := h.core
      rw [hd] at hc
      exact CoreN.acquire K hc hf
    · dsimp only
      rw [length_modify_of_find K _ _ _ e hf]

theorem ReleaseBuffer_InvN (K : SurfaceConsts) (q : BufferQueue)
    (buffer : Option SurfaceBuffer) (fence : Int) (cbRet : GSError)
    (r : GSError × BufferQueue) (h : InvN q)
    (hr : ReleaseBuffer K q buffer fence cbRet = Except.ok r) :
    InvN r.2 ∧ r.2.bufferQueueCache_.length ≤ q.bufferQueueCache_.length ∧
      r.2.queueSize_ = q.queueSize_ := by
  have hkeep : ∀ ret, ReleaseBuffer K q buffer fence cbRet = Except.ok (ret, q) →
      InvN r.2 ∧ r.2.bufferQueueCache_.length ≤ q.bufferQueueCache_.length ∧
        r.2.queueSize_ = q.queueSize_ := by
    intro ret h1
    rw [h1] at hr; cases hr
    exact ⟨h, le_refl _, rfl⟩
  cases buffer with
  | none =>
    obtain ⟨ret, -, h1⟩ := ReleaseBuffer_refused K q none fence cbRet h.unlocked (Or.inl rfl)
    exact hkeep ret h1
  | some b =>
    cases hf : cacheFind q.bufferQueueCache_ b.seqNum with
    | none =>
      obtain ⟨ret, -, h1⟩ := ReleaseBuffer_refused K q (some b) fence cbRet h.unlocked
        (Or.inr ⟨b, rfl, Or.inl hf⟩)
      exact hkeep ret h1
    | some e =>
      by_cases hst : e.state = BufferState.BUFFER_STATE_ACQUIRED ∨
          e.state = BufferState.BUFFER_STATE_ATTACHED
      swap
      · obtain ⟨ret, -, h1⟩ := ReleaseBuffer_refused K q (some b) fence cbRet h.unlocked
          (Or.inr ⟨b, rfl, Or.inr ⟨h.notShared, e, hf, fun h1 => hst (Or.inl h1),
            fun h1 => hst (Or.inr h1)⟩⟩)
        exact hkeep ret h1
      have hne1 : e.state ≠ BufferState.BUFFER_STATE_RELEASED := by
        rcases hst with h1 | h1 <;> rw [h1] <;> decide
      have hne2 : e.state ≠ BufferState.BUFFER_STATE_FLUSHED := by
        rcases hst with h1 | h1 <;> rw [h1] <;> decide
      rw [ReleaseBuffer_accepted K q b fence cbRet e h.unlocked hf (Or.inr hst)] at hr
      split at hr
      · cases hr; exact ⟨h, le_refl _, rfl⟩
      · split at hr
        · cases hr
          refine ⟨⟨h.notShared, h.unlocked, ?_⟩, ?_, rfl⟩
          · exact CoreN.erase_out h.core (h.core.not_free_of_state hf hne1)
              (h.core.not_dirty_of_state hf hne2)
          · exact length_erase_le _ _
        · cases hr
          refine ⟨⟨h.notShared, h.unlocked, ?_⟩, ?_, rfl⟩
          · dsimp only
            apply CoreN.toFree K h.core hf hne1 hne2
            · exact h.core.buf _ e hf
            · rfl
          · dsimp only
            rw [length_modify_of_find K _ _ _ e hf]

theorem CoreN.dropDirty (c : Cache) {free rest : List Int} {s : Int}
    (h : CoreN c free (s :: rest)) : CoreN (cacheErase c s) free rest := by
  obtain ⟨e, hf, h2⟩ := h.dirty_in s (List.mem_cons_self _ _)
  have hnd := List.nodup_cons.1 h.dirty_nodup
  apply CoreN.erase h
  · exact h.free_nodup
  · exact hnd.2
  · intro x hx
    refine ⟨fun hxs => ?_, hx⟩
    subst hxs
    exact h.not_free_of_state hf (by rw [h2]; decide) hx
  · intro x hx
    exact ⟨fun hxs => hnd.1 (hxs ▸ hx), List.mem_cons_of_mem _ hx⟩

theorem DeleteBufferInCache_frame (q : BufferQueue) (s : Int) :
    (DeleteBufferInCache q s).isShared_ = q.isShared_ ∧
    (DeleteBufferInCache q s).mutex_ = q.mutex_ ∧
    (DeleteBufferInCache q s).queueSize_ = q.queueSize_ ∧
    (DeleteBufferInCache q s).freeList_ = q.freeList_ ∧
    (DeleteBufferInCache q s).dirtyList_ = q.dirtyList_ ∧
    (DeleteBufferInCache q s).bufferQueueCache_ = cacheErase q.bufferQueueCache_ s ∧
    (DeleteBufferInCache q s).listener_ = q.listener_ ∧
    (DeleteBufferInCache q s).listenerClazz_ = q.listenerClazz_ := by
  unfold DeleteBufferInCache
  cases hf : cacheFind q.bufferQueueCache_ s with
  | some e => simp
  | none =>
    refine ⟨rfl, rfl, rfl, rfl, rfl, ?_, rfl, rfl⟩
    unfold cacheErase
    symm
    rw [List.filter_eq_self]
    intro p hp
    simpa using mem_key_of_find_none _ _ hf p hp

theorem drain_free_CoreN (q : BufferQueue) (l : List Int) (count : Int) (dirty : List Int)
    (h : CoreN q.bufferQueueCache_ l dirty) :
    CoreN (DeleteBuffers.drain q l count).1.bufferQueueCache_
        (DeleteBuffers.drain q l count).2.1 dirty ∧
      (DeleteBuffers.drain q l count).1.bufferQueueCache_.length ≤ q.bufferQueueCache_.length ∧
      (DeleteBuffers.drain q l count).1.isShared_ = q.isShared_ ∧
      (DeleteBuffers.drain q l count).1.mutex_ = q.mutex_ ∧
      (DeleteBuffers.drain q l count).1.queueSize_ = q.queueSize_ ∧
      (DeleteBuffers.drain q l count).1.freeList_ = q.freeList_ ∧
      (DeleteBuffers.drain q l count).1.dirtyList_ = q.dirtyList_ := by
  induction l generalizing q count with
  | nil =>
    exact ⟨h, le_refl _, rfl, rfl, rfl, rfl, rfl⟩
  | cons s rest ih =>
    obtain ⟨f1, f2, f3, f4, f5, f6, -, -⟩ := DeleteBufferInCache_frame q s
    have hstep : CoreN (DeleteBufferInCache q s).bufferQueueCache_ rest dirty := by
      rw [f6]
      obtain ⟨e, hf, -⟩ := h.free_in s (List.mem_cons_self _ _)
      exact @CoreN.drop q.bufferQueueCache_ [] rest dirty s h e hf
    have hlen : (DeleteBufferInCache q s).bufferQueueCache_.length ≤
        q.bufferQueueCache_.length := by
      rw [f6]; exact length_erase_le _ _
    simp only [DeleteBuffers.drain]
    split
    · exact ⟨hstep, hlen, f1, f2, f3, f4, f5⟩
    · obtain ⟨g1, g2, g3, g4, g5, g6, g7⟩ := ih (DeleteBufferInCache q s) (count - 1) hstep
      exact ⟨g1, le_trans g2 hlen, g3.trans f1, g4.trans f2, g5.trans f3, g6.trans f4,
        g7.trans f5⟩

theorem drain_dirty_CoreN (q : BufferQueue) (l : List Int) (count : Int) (free : List Int)
    (h : CoreN q.bufferQueueCache_ free l) :
    CoreN (DeleteBuffers.drain q l count).1.bufferQueueCache_ free
        (DeleteBuffers.drain q l count).2.1 ∧
      (DeleteBuffers.drain q l count).1.bufferQueueCache_.length ≤ q.bufferQueueCache_.length ∧
      (DeleteBuffers.drain q l count).1.isShared_ = q.isShared_ ∧
      (DeleteBuffers.drain q l count).1.mutex_ = q.mutex_ ∧
      (DeleteBuffers.drain q l count).1.queueSize_ = q.queueSize_ ∧
      (DeleteBuffers.drain q l count).1.freeList_ = q.freeList_ ∧
      (DeleteBuffers.drain q l count).1.dirtyList_ = q.dirtyList_ := by
  induction l generalizing q count with
  | nil =>
    exact ⟨h, le_refl _, rfl, rfl, rfl, rfl, rfl⟩
  | cons s rest ih =>
    obtain ⟨f1, f2, f3, f4, f5, f6, -, -⟩ := DeleteBufferInCache_frame q s
    have hstep : CoreN (DeleteBufferInCache q s).bufferQueueCache_ free rest := by
      rw [f6]
      exact CoreN.dropDirty q.bufferQueueCache_ h
    have hlen : (DeleteBufferInCache q s).bufferQueueCache_.length ≤
        q.bufferQueueCache_.length := by
      rw [f6]; exact length_erase_le _ _
    simp only [DeleteBuffers.drain]
    split
    · exact ⟨hstep, hlen, f1, f2, f3, f4, f5⟩
    · obtain ⟨g1, g2, g3, g4, g5, g6, g7⟩ := ih (DeleteBufferInCache q s) (count - 1) hstep
      exact ⟨g1, le_trans g2 hlen, g3.trans f1, g4.trans f2, g5.trans f3, g6.trans f4,
        g7.trans f5⟩

theorem cacheFind_mark (c : Cache) (count : Int) (k : Int) :
    (cacheFind (DeleteBuffers.mark c count) k).map (fun e => (e.buffer, e.state)) =
      (cacheFind c k).map (fun e => (e.buffer, e.state)) := by
  induction c generalizing count with
  | nil => simp [DeleteBuffers.mark, cacheFind]
  | cons p rest ih =>
    obtain ⟨k1, e1⟩ := p
    simp only [DeleteBuffers.mark, cacheFind]
    by_cases hk : k1 = k
    · simp [hk]
    · simp only [hk, if_false]
      split
      · rfl
      · exact ih (count - 1)

theorem length_mark (c : Cache) (count : Int) :
    (DeleteBuffers.mark c count).length = c.length := by
  induction c generalizing count with
  | nil => simp [DeleteBuffers.mark]
  | cons p rest ih =>
    obtain ⟨k1, e1⟩ := p
    simp only [DeleteBuffers.mark, List.length_cons]
    split
    · rfl
    · rw [ih]

theorem CoreN.of_similar {c c2 : Cache} {free dirty : List Int} (h : CoreN c free dirty)
    (hsim : ∀ k, (cacheFind c2 k).map (fun e => (e.buffer, e.state)) =
      (cacheFind c k).map (fun e => (e.buffer, e.state))) : CoreN c2 free dirty := by
  have key : ∀ k e, cacheFind c k = some e →
      ∃ e2, cacheFind c2 k = some e2 ∧ e2.buffer = e.buffer ∧ e2.state = e.state := by
    intro k e he
    have := hsim k
    rw [he] at this
    cases h2 : cacheFind c2 k with
    | none => rw [h2] at this; cases this
    | some e2 =>
      rw [h2] at this
      simp only [Option.map_some', Option.some.injEq, Prod.mk.injEq] at this
      exact ⟨e2, rfl, this.1, this.2⟩
  refine ⟨?_, ?_, ?_, h.free_nodup, h.dirty_nodup⟩
  · intro k e2 he2
    have := hsim k
    rw [he2] at this
    cases h1 : cacheFind c k with
    | none => rw [h1] at this; cases this
    | some e =>
      rw [h1] at this
      simp only [Option.map_some', Option.some.injEq, Prod.mk.injEq] at this
      rw [this.1]
      exact h.buf k e h1
  · intro s hs
    obtain ⟨e, h1, h2⟩ := h.free_in s hs
    obtain ⟨e2, h3, -, h5⟩ := key s e h1
    exact ⟨e2, h3, h5.trans h2⟩
  · intro s hs
    obtain ⟨e, h1, h2⟩ := h.dirty_in s hs
    obtain ⟨e2, h3, -, h5⟩ := key s e h1
    exact ⟨e2, h3, h5.trans h2⟩

theorem DeleteBuffers_locked_CoreN (q : BufferQueue) (count : Int)
    (h : CoreN q.bufferQueueCache_ q.freeList_ q.dirtyList_) :
    CoreN (DeleteBuffers.locked q count).bufferQueueCache_
        (DeleteBuffers.locked q count).freeList_ (DeleteBuffers.locked q count).dirtyList_ ∧
      (DeleteBuffers.locked q count).bufferQueueCache_.length ≤ q.bufferQueueCache_.length ∧
      (DeleteBuffers.locked q count).isShared_ = q.isShared_ ∧
      (DeleteBuffers.locked q count).mutex_ = q.mutex_ ∧
      (DeleteBuffers.locked q count).queueSize_ = q.queueSize_ := by
  obtain ⟨a1, a2, a3, a4, a5, a6, a7⟩ := drain_free_CoreN q q.freeList_ count q.dirtyList_ h
  unfold DeleteBuffers.locked
  simp only
  split
  · exact ⟨by rw [a7]; exact a1, a2, a3, a4, a5⟩
  · have hq1 : CoreN
        ({ (DeleteBuffers.drain q q.freeList_ count).1 with
            freeList_ := (DeleteBuffers.drain q q.freeList_ count).2.1 } :
          BufferQueue).bufferQueueCache_
        (DeleteBuffers.drain q q.freeList_ count).2.1
        ({ (DeleteBuffers.drain q q.freeList_ count).1 with
            freeList_ := (DeleteBuffers.drain q q.freeList_ count).2.1 } :
          BufferQueue).dirtyList_ := by
      dsimp only
      rw [a7]; exact a1
    obtain ⟨b1, b2, b3, b4, b5, b6, b7⟩ := drain_dirty_CoreN _ _
      (DeleteBuffers.drain q q.freeList_ count).2.2.1 _ hq1
    dsimp only at b1 b2 b3 b4 b5 b6 b7 ⊢
    split
    · exact ⟨by rw [b6]; exact b1, le_trans b2 a2, b3.trans a3, b4.trans a4, b5.trans a5⟩
    · dsimp only
      refine ⟨?_, ?_, b3.trans a3, b4.trans a4, b5.trans a5⟩
      · rw [b6]
        exact CoreN.of_similar b1 (fun k => cacheFind_mark _ _ k)
      · rw [length_mark]; exact le_trans b2 a2

theorem DeleteBuffers_InvN (q : BufferQueue) (count : Int) (q1 : BufferQueue) (h : InvN q)
    (hr : DeleteBuffers q count = Except.ok q1) :
    InvN q1 ∧ q1.bufferQueueCache_.length ≤ q.bufferQueueCache_.length ∧
      q1.queueSize_ = q.queueSize_ := by
  unfold DeleteBuffers at hr
  split at hr
  · cases hr; exact ⟨h, le_refl _, rfl⟩
  · rw [lock_of_unlocked q h.unlocked] at hr
    simp only [Except.ok.injEq] at hr
    subst hr
    obtain ⟨a1, a2, a3, a4, a5⟩ := DeleteBuffers_locked_CoreN { q with mutex_ := true } count h.core
    exact ⟨⟨a3.trans h.notShared, rfl, a1⟩, a2, a5⟩

theorem DeleteBuffers_deadlock (q : BufferQueue) (count : Int) (hm : q.mutex_ = true)
    (hc : 0 < count) : DeleteBuffers q count = Except.error Fault.deadlock := by
  unfold DeleteBuffers
  rw [if_neg (by omega)]
  simp [lock, hm]

theorem SetQueueSize_InvN (K : SurfaceConsts) (q : BufferQueue) (n : Nat)
    (r : GSError × BufferQueue) (h : InvN q) (hr : SetQueueSize K q n = Except.ok r) :
    InvN r.2 ∧ r.2.bufferQueueCache_.length ≤ q.bufferQueueCache_.length := by
  unfold SetQueueSize at hr
  split at hr
  · cases hr; exact ⟨h, le_refl _⟩
  · split at hr
    · cases hr; exact ⟨h, le_refl _⟩
    · split at hr
      · cases hr; exact ⟨h, le_refl _⟩
      · cases hd : DeleteBuffers q (toInt32 (q.queueSize_ % 2 ^ 32 + 2 ^ 32 - n % 2 ^ 32)) with
        | error f => rw [hd] at hr; cases hr
        | ok q1 =>
          rw [hd] at hr
          cases hr
          obtain ⟨a1, a2, -⟩ := DeleteBuffers_InvN q _ q1 h hd
          exact ⟨⟨a1.notShared, a1.unlocked, a1.core⟩, a2⟩

theorem toInt32_le (x : Nat) : toInt32 x ≤ (x : Int) := by
  unfold toInt32
  have := Nat.mod_le x (2 ^ 32)
  split <;> omega

theorem AttachBuffer_InvN (K : SurfaceConsts) (q : BufferQueue) (buffer : Option SurfaceBuffer)
    (r : GSError × BufferQueue) (h : InvN q)
    (hfresh : ∀ b, buffer = some b → cacheFind q.bufferQueueCache_ b.seqNum = none)
    (hr : AttachBuffer K q buffer = Except.ok r) :
    InvN r.2 ∧ r.2.bufferQueueCache_.length ≤ max q.bufferQueueCache_.length q.queueSize_ ∧
      r.2.queueSize_ = q.queueSize_ := by
  obtain ⟨hs, hu, hcore⟩ := h
  obtain ⟨sh, qs, c, fl, dl, del, l1, l2, obr, obd, mu, dc, ac⟩ := q
  simp only at hs hu hcore hfresh
  subst hs hu
  cases buffer with
  | none =>
    simp only [AttachBuffer, Bool.false_eq_true, if_false, Except.ok.injEq] at hr
    subst hr
    exact ⟨⟨rfl, rfl, hcore⟩, le_max_left _ _, rfl⟩
  | some b =>
    have hf := hfresh b rfl
    simp only [AttachBuffer, Bool.false_eq_true, if_false, lock, GetUsedSize, GetQueueSize] at hr
    split at hr
    · rename_i hfull
      split at hr
      · rw [DeleteBuffers_deadlock _ _ rfl (by omega)] at hr
        cases hr
      · cases hr
        exact ⟨⟨rfl, rfl, hcore⟩, le_max_left _ _, rfl⟩
    · rename_i hroom
      cases hr
      refine ⟨⟨rfl, rfl, ?_⟩, ?_, rfl⟩
      · exact CoreN.insert K hcore hf _ ⟨b, rfl, rfl⟩
      · dsimp only [unlock]
        have h1 := length_insert_le K c b.seqNum (attachElement K b)
        have h2 := toInt32_le qs
        have h3 : c.length < qs := by omega
        omega

theorem DetachBuffer_InvN (q : BufferQueue) (buffer : Option SurfaceBuffer)
    (r : GSError × BufferQueue) (h : InvN q) (hr : DetachBuffer q buffer = Except.ok r) :
    InvN r.2 ∧ r.2.bufferQueueCache_.length ≤ q.bufferQueueCache_.length ∧
      r.2.queueSize_ = q.queueSize_ := by
  obtain ⟨hs, hu, hcore⟩ := h
  obtain ⟨sh, qs, c, fl, dl, del, l1, l2, obr, obd, mu, dc, ac⟩ := q
  simp only at hs hu hcore
  subst hs hu
  cases buffer with
  | none =>
    simp only [DetachBuffer, Bool.false_eq_true, if_false, Except.ok.injEq] at hr
    subst hr
    exact ⟨⟨rfl, rfl, hcore⟩, le_refl _, rfl⟩
  | some b =>
    simp only [DetachBuffer, Bool.false_eq_true, if_false, lock] at hr
    cases hf : cacheFind c b.seqNum with
    | none =>
      rw [hf] at hr
      cases hr
      exact ⟨⟨rfl, rfl, hcore⟩, le_refl _, rfl⟩
    | some e =>
      rw [hf] at hr
      simp only at hr
      split at hr
      · rename_i hst
        cases hr
        have hne1 : e.state ≠ BufferState.BUFFER_STATE_RELEASED := by
          rcases hst with h1 | h1 <;> rw [h1] <;> decide
        have hne2 : e.state ≠ BufferState.BUFFER_STATE_FLUSHED := by
          rcases hst with h1 | h1 <;> rw [h1] <;> decide
        refine ⟨⟨rfl, rfl, ?_⟩, ?_, rfl⟩
        · exact CoreN.erase_out hcore (hcore.not_free_of_state hf hne1)
            (hcore.not_dirty_of_state hf hne2)
        · exact length_erase_le _ _
      · cases hr
        exact ⟨⟨rfl, rfl, hcore⟩, le_refl _, rfl⟩

theorem CoreN.empty : CoreN [] [] [] :=
  ⟨fun _ _ h => (by simp [cacheFind] at h), fun _ h => (by cases h), fun _ h => (by cases h),
    List.nodup_nil, List.nodup_nil⟩

theorem CleanCache_InvN (q : BufferQueue) (r : GSError × BufferQueue) (h : InvN q)
    (hr : CleanCache q = Except.ok r) :
    InvN r.2 ∧ r.2.bufferQueueCache_.length ≤ q.bufferQueueCache_.length ∧
      r.2.queueSize_ = q.queueSize_ := by
  unfold CleanCache at hr
  rw [lock_of_unlocked q h.unlocked] at hr
  cases hr
  exact ⟨⟨h.notShared, rfl, CoreN.empty⟩, Nat.zero_le _, rfl⟩

theorem RegisterDeleteBufferListener_InvN (q : BufferQueue) (func : Bool)
    (r : GSError × BufferQueue) (h : InvN q)
    (hr : RegisterDeleteBufferListener q func = Except.ok r) :
    InvN r.2 ∧ r.2.bufferQueueCache_.length ≤ q.bufferQueueCache_.length ∧
      r.2.queueSize_ = q.queueSize_ := by
  unfold RegisterDeleteBufferListener at hr
  rw [lock_of_unlocked q h.unlocked] at hr
  dsimp only at hr
  split at hr <;> cases hr <;> exact ⟨⟨h.notShared, rfl, h.core⟩, le_refl _, rfl⟩

/-- Every call that returns on a well-formed non-shared queue, and brings no cached
sequence number in again, leaves the queue well-formed and does not let the cache grow
beyond the queue size. -/
theorem step_InvN (K : SurfaceConsts) (q q1 : BufferQueue) (op : Op) (h : InvN q)
    (hfresh : Op.fresh q op = true) (hr : step K q op = Except.ok q1) :
    InvN q1 ∧ q1.bufferQueueCache_.length ≤ max q.bufferQueueCache_.length q1.queueSize_ := by
  cases op with
  | requestBuffer config a =>
    simp only [step] at hr
    cases hq : RequestBuffer K q config a with
    | error f => rw [hq] at hr; cases hr
    | ok r =>
      rw [hq] at hr; cases hr
      obtain ⟨a1, a2, a3⟩ := RequestBuffer_InvN K q config a r h
        (Option.isNone_iff_eq_none.1 hfresh) hq
      exact ⟨a1, by rw [a3]; exact a2⟩
  | cancelBuffer sequence bedata =>
    simp only [step] at hr
    cases hq : CancelBuffer K q sequence bedata with
    | error f => rw [hq] at hr; cases hr
    | ok r =>
      rw [hq] at hr; cases hr
      obtain ⟨a1, a2, -⟩ := CancelBuffer_InvN K q sequence bedata r h hq
      exact ⟨a1, le_trans a2 (le_max_left _ _)⟩
  | flushBuffer sequence bedata fence config flushCacheRet now =>
    simp only [step] at hr
    cases hq : FlushBuffer K q sequence bedata fence config flushCacheRet now with
    | error f => rw [hq] at hr; cases hr
    | ok r =>
      rw [hq] at hr; cases hr
      obtain ⟨a1, a2, -⟩ := FlushBuffer_InvN K q sequence bedata fence config flushCacheRet now
        r h hq
      exact ⟨a1, le_trans a2 (le_max_left _ _)⟩
  | acquireBuffer =>
    simp only [step] at hr
    cases hq : AcquireBuffer K q with
    | error f => rw [hq] at hr; cases hr
    | ok r =>
      rw [hq] at hr; cases hr
      obtain ⟨a1, a2, -⟩ := AcquireBuffer_InvN K q r h hq
      exact ⟨a1, le_trans a2 (le_max_left _ _)⟩
  | releaseBuffer buffer fence cbRet =>
    simp only [step] at hr
    cases hq : ReleaseBuffer K q buffer fence cbRet with
    | error f => rw [hq] at hr; cases hr
    | ok r =>
      rw [hq] at hr; cases hr
      obtain ⟨a1, a2, -⟩ := ReleaseBuffer_InvN K q buffer fence cbRet r h hq
      exact ⟨a1, le_trans a2 (le_max_left _ _)⟩
  | attachBuffer buffer =>
    simp only [step] at hr
    cases hq : AttachBuffer K q buffer with
    | error f => rw [hq] at hr; cases hr
    | ok r =>
      rw [hq] at hr; cases hr
      have hf : ∀ b, buffer = some b → cacheFind q.bufferQueueCache_ b.seqNum = none := by
        intro b hb; subst hb; exact Option.isNone_iff_eq_none.1 hfresh
      obtain ⟨a1, a2, a3⟩ := AttachBuffer_InvN K q buffer r h hf hq
      exact ⟨a1, by rw [a3]; exact a2⟩
  | detachBuffer buffer =>
    simp only [step] at hr
    cases hq : DetachBuffer q buffer with
    | error f => rw [hq] at hr; cases hr
    | ok r =>
      rw [hq] at hr; cases hr
      obtain ⟨a1, a2, -⟩ := DetachBuffer_InvN q buffer r h hq
      exact ⟨a1, le_trans a2 (le_max_left _ _)⟩
  | setQueueSize n =>
    simp only [step] at hr
    cases hq : SetQueueSize K q n with
    | error f => rw [hq] at hr; cases hr
    | ok r =>
      rw [hq] at hr; cases hr
      obtain ⟨a1, a2⟩ := SetQueueSize_InvN K q n r h hq
      exact ⟨a1, le_trans a2 (le_max_left _ _)⟩
  | cleanCache =>
    simp only [step] at hr
    cases hq : CleanCache q with
    | error f => rw [hq] at hr; cases hr
    | ok r =>
      rw [hq] at hr; cases hr
      obtain ⟨a1, a2, -⟩ := CleanCache_InvN q r h hq
      exact ⟨a1, le_trans a2 (le_max_left _ _)⟩
  | registerConsumerListener l =>
    simp only [step, RegisterConsumerListener] at hr
    cases hr
    exact ⟨⟨h.notShared, h.unlocked, h.core⟩, le_max_left _ _⟩
  | registerConsumerListenerClazz l =>
    simp only [step, RegisterConsumerListenerClazz] at hr
    cases hr
    exact ⟨⟨h.notShared, h.unlocked, h.core⟩, le_max_left _ _⟩
  | unregisterConsumerListener =>
    simp only [step, UnregisterConsumerListener] at hr
    cases hr
    exact ⟨⟨h.notShared, h.unlocked, h.core⟩, le_max_left _ _⟩
  | registerReleaseListener f =>
    simp only [step, RegisterReleaseListener] at hr
    cases hr
    exact ⟨⟨h.notShared, h.unlocked, h.core⟩, le_max_left _ _⟩
  | registerDeleteBufferListener f =>
    simp only [step] at hr
    cases hq : RegisterDeleteBufferListener q f with
    | error f => rw [hq] at hr; cases hr
    | ok r =>
      rw [hq] at hr; cases hr
      obtain ⟨a1, a2, -⟩ := RegisterDeleteBufferListener_InvN q f r h hq
      exact ⟨a1, le_trans a2 (le_max_left _ _)⟩

theorem CoreS.modifyKept (K : SurfaceConsts) {c : Cache} {free dirty : List Int}
    (h : CoreS c free dirty) {k : Int} {e : BufferElement} (hf : cacheFind c k = some e)
    (f : BufferElement → BufferElement)
    (hb : ∃ b, (f e).buffer = some b ∧ b.seqNum = k) (hdel : (f e).isDeleting = false)
    (free2 dirty2 : List Int)
    (hfin : ∀ s ∈ free2, s = k ∨ s ∈ free) (hdin : ∀ s ∈ dirty2, s = k ∨ s ∈ dirty) :
    CoreS (cacheModify K c k f) free2 dirty2 := by
  have hfind : ∀ s, (s = k ∨ ∃ e1, cacheFind c s = some e1) →
      ∃ e2, cacheFind (cacheModify K c k f) s = some e2 := by
    intro s hs
    rw [cacheFind_modify]
    by_cases hk : s = k
    · exact ⟨_, by rw [if_pos hk]⟩
    · rcases hs with h1 | ⟨e1, h1⟩
      · exact absurd h1 hk
      · exact ⟨e1, by rw [if_neg hk]; exact h1⟩
  refine ⟨?_, ?_, ?_, ?_, ?_⟩
  · intro k2 e2 h2
    rw [cacheFind_modify] at h2
    by_cases hk : k2 = k
    · simp only [hk, if_true, hf, Option.getD_some] at h2
      cases h2
      rw [hk]; exact hb
    · simp only [hk, if_false] at h2
      exact h.buf k2 e2 h2
  · intro s hs
    exact hfind s ((hfin s hs).imp id (h.free_in s))
  · intro s hs
    exact hfind s ((hdin s hs).imp id (h.dirty_in s))
  · rw [length_modify_of_find K c k f e hf]; exact h.len
  · intro k2 e2 h2
    rw [cacheFind_modify] at h2
    by_cases hk : k2 = k
    · simp only [hk, if_true, hf, Option.getD_some] at h2
      cases h2
      exact hdel
    · simp only [hk, if_false] at h2
      exact h.noDel k2 e2 h2

theorem CoreS.lists_nil {free dirty : List Int} (h : CoreS [] free dirty) :
    free = [] ∧ dirty = [] := by
  constructor
  · cases free with
    | nil => rfl
    | cons s rest =>
      obtain ⟨e, he⟩ := h.free_in s (List.mem_cons_self _ _)
      simp [cacheFind] at he
  · cases dirty with
    | nil => rfl
    | cons s rest =>
      obtain ⟨e, he⟩ := h.dirty_in s (List.mem_cons_self _ _)
      simp [cacheFind] at he

theorem CoreS.insert_nil (K : SurfaceConsts) (k : Int) (e : BufferElement)
    (hb : ∃ b, e.buffer = some b ∧ b.seqNum = k) (hdel : e.isDeleting = false) :
    CoreS (cacheInsert K [] k e) [] [] := by
  refine ⟨?_, fun _ h => (by cases h), fun _ h => (by cases h), ?_, ?_⟩
  · intro k2 e2 h2
    rw [cacheFind_insert] at h2
    by_cases hk : k2 = k
    · simp only [hk, if_true] at h2
      cases h2
      rw [hk]; exact hb
    · simp [hk, cacheFind] at h2
  · simp [cacheInsert, cacheModify, cacheFind, cacheInsertNew]
  · intro k2 e2 h2
    rw [cacheFind_insert] at h2
    by_cases hk : k2 = k
    · simp only [hk, if_true] at h2
      cases h2
      exact hdel
    · simp [hk, cacheFind] at h2

theorem CoreS.nil : CoreS [] [] [] :=
  ⟨fun _ _ h => (by simp [cacheFind] at h), fun _ h => (by cases h), fun _ h => (by cases h),
    Nat.zero_le _, fun _ _ h => (by simp [cacheFind] at h)⟩

theorem PopFromFreeList_shared_head (K : SurfaceConsts) (q : BufferQueue)
    (config : BufferRequestConfig) (k : Int) (e : BufferElement) (rest : Cache)
    (hs : q.isShared_ = true) (hc : q.bufferQueueCache_ = (k, e) :: rest) :
    PopFromFreeList K q config = (GSError.GSERROR_OK, e.buffer, q) := by
  unfold PopFromFreeList
  rw [if_pos ⟨hs, by simp [GetUsedSize, hc]⟩, hc]

theorem PopFromFreeList_nil (K : SurfaceConsts) (q : BufferQueue)
    (config : BufferRequestConfig) (hc : q.bufferQueueCache_ = []) (hf : q.freeList_ = []) :
    PopFromFreeList K q config = (GSError.GSERROR_NO_BUFFER, none, q) := by
  obtain ⟨sh, qs, c, fl, dl, del, l1, l2, obr, obd, mu, dc, ac⟩ := q
  simp only at hc hf
  subst hc hf
  simp [PopFromFreeList, GetUsedSize, popMatching]

theorem PopFromDirtyList_shared_head (K : SurfaceConsts) (q : BufferQueue)
    (k : Int) (e : BufferElement) (rest : Cache)
    (hs : q.isShared_ = true) (hc : q.bufferQueueCache_ = (k, e) :: rest) :
    PopFromDirtyList K q = (GSError.GSERROR_OK, e.buffer, q) := by
  unfold PopFromDirtyList
  rw [if_pos ⟨hs, by simp [GetUsedSize, hc]⟩, hc]

theorem PopFromDirtyList_nil (K : SurfaceConsts) (q : BufferQueue)
    (hc : q.bufferQueueCache_ = []) (hf : q.dirtyList_ = []) :
    PopFromDirtyList K q = (GSError.GSERROR_NO_BUFFER, none, q) := by
  obtain ⟨sh, qs, c, fl, dl, del, l1, l2, obr, obd, mu, dc, ac⟩ := q
  simp only at hc hf
  subst hc hf
  simp [PopFromDirtyList, GetUsedSize]

theorem RequestBuffer.locked_of_pop_fail (K : SurfaceConsts) (q : BufferQueue)
    (config : BufferRequestConfig) (bedata : Option BufferExtraData)
    (retval : RequestBufferReturnValue) (a : AllocOutcome)
    (hp : PopFromFreeList K q config = (GSError.GSERROR_NO_BUFFER, none, q))
    (hroom : q.bufferQueueCache_.length < q.queueSize_) :
    RequestBuffer.locked K q config bedata retval a =
      RequestBuffer.alloc K q config bedata { retval with buffer := none } a := by
  unfold RequestBuffer.locked
  simp only [hp]
  have : ¬ (GetUsedSize q ≥ GetQueueSize q) := by simp [GetUsedSize, GetQueueSize, hroom]
  simp [this]

theorem ReuseBuffer_shared_mismatch (K : SurfaceConsts) (q : BufferQueue)
    (config : BufferRequestConfig)
    (bedata : Option BufferExtraData) (retval : RequestBufferReturnValue) (a : AllocOutcome)
    (b : SurfaceBuffer) (e : BufferElement) (hs : q.isShared_ = true)
    (hb : retval.buffer = some b)
    (hf : cacheFind q.bufferQueueCache_ b.seqNum = some e) (hc : e.config ≠ config) :
    ReuseBuffer K q config bedata retval a =
      Except.ok
        { ret := GSError.GSERROR_INVALID_ARGUMENTS, bedata := bedata,
          retval := { retval with sequence := b.seqNum }, queue := q } := by
  obtain ⟨sh, qs, c, fl, dl, del, l1, l2, obr, obd, mu, dc, ac⟩ := q
  simp only at hs hf
  subst hs
  unfold ReuseBuffer
  have hc2 : ¬ config = e.config := fun h => hc h.symm
  simp only [hb, cacheIndex_of_find K _ _ e hf, ne_eq, hc2, not_false_eq_true, if_true]

theorem cacheFind_head (k : Int) (e : BufferElement) (rest : Cache) :
    cacheFind ((k, e) :: rest) k = some e := by
  simp [cacheFind]

theorem RequestBuffer_InvS (K : SurfaceConsts) (q : BufferQueue) (config : BufferRequestConfig)
    (a : AllocOutcome) (r : RequestResult) (h : InvS q)
    (hr : RequestBuffer K q config a = Except.ok r) : InvS r.queue := by
  obtain ⟨hs, hu, hsz, hcore⟩ := h
  by_cases hl : q.listener_ = none ∧ q.listenerClazz_ = none
  · unfold RequestBuffer at hr
    rw [if_pos hl] at hr
    cases hr
    exact ⟨hs, hu, hsz, hcore⟩
  by_cases hcfg : CheckRequestConfig K config = GSError.GSERROR_OK
  swap
  · unfold RequestBuffer at hr
    rw [if_neg hl, if_pos hcfg] at hr
    cases hr
    exact ⟨hs, hu, hsz, hcore⟩
  rw [RequestBuffer_eq_locked K q config a hu hl hcfg] at hr
  obtain ⟨sh, qs, c, fl, dl, del, l1, l2, obr, obd, mu, dc, ac⟩ := q
  simp only at hs hu hcore hsz
  subst hs hu hsz
  cases c with
  | nil =>
    obtain ⟨hf1, hf2⟩ := hcore.lists_nil
    subst hf1 hf2
    rw [RequestBuffer.locked_of_pop_fail K _ _ _ _ _ (PopFromFreeList_nil K _ _ rfl rfl)
      (by simp)] at hr
    by_cases ha : a.allocRet = GSError.GSERROR_OK ∧ a.mapRet = GSError.GSERROR_OK
    · rw [RequestBuffer.alloc_ok K _ _ _ _ _ ha.1 ha.2] at hr
      cases hr
      exact ⟨rfl, rfl, rfl, CoreS.insert_nil K _ _ ⟨a.buffer, rfl, rfl⟩ rfl⟩
    · rw [RequestBuffer.alloc_fail K _ _ _ _ _ ha] at hr
      cases hr
      exact ⟨rfl, rfl, rfl, hcore⟩
  | cons p rest =>
    obtain ⟨k, e⟩ := p
    have hfk := cacheFind_head k e rest
    obtain ⟨b, hb1, hb2⟩ := hcore.buf k e hfk
    subst hb2
    rw [RequestBuffer.locked_reuse K _ _ _ _ _ e.buffer _
      (PopFromFreeList_shared_head K _ _ b.seqNum e rest rfl rfl)] at hr
    by_cases hc : e.config = config
    · rw [ReuseBuffer_same K _ _ _ _ _ b e hb1 hfk hc] at hr
      cases hr
      refine ⟨rfl, rfl, rfl, ?_⟩
      dsimp only [unlock]
      apply CoreS.modifyKept K hcore hfk
      · exact ⟨b, hb1, rfl⟩
      · exact hcore.noDel _ e hfk
      · exact fun s hs => Or.inr hs
      · exact fun s hs => Or.inr hs
    · rw [ReuseBuffer_shared_mismatch K _ _ _ _ _ b e rfl hb1 hfk hc] at hr
      cases hr
      exact ⟨rfl, rfl, rfl, hcore⟩

theorem FlushBuffer_InvS (K : SurfaceConsts) (q : BufferQueue) (sequence : Int)
    (bedata : Option BufferExtraData) (fence : Int) (config : BufferFlushConfig)
    (flushCacheRet : GSError) (now : Int) (r : GSError × BufferQueue) (h : InvS q)
    (hr : FlushBuffer K q sequence bedata fence config flushCacheRet now = Except.ok r) :
    InvS r.2 := by
  have hkeep : ∀ ret, FlushBuffer K q sequence bedata fence config flushCacheRet now =
      Except.ok (ret, q) → InvS r.2 := by
    intro ret h1
    rw [h1] at hr; cases hr
    exact h
  by_cases hck : CheckFlushConfig config = GSError.GSERROR_OK
  swap
  · obtain ⟨ret, -, -, h1⟩ := FlushBuffer_refused K q sequence bedata fence config flushCacheRet
      now h.unlocked (Or.inl hck)
    exact hkeep ret h1
  cases hf : cacheFind q.bufferQueueCache_ sequence with
  | none =>
    obtain ⟨ret, -, -, h1⟩ := FlushBuffer_refused K q sequence bedata fence config flushCacheRet
      now h.unlocked (Or.inr (Or.inl hf))
    exact hkeep ret h1
  | some e =>
    rw [FlushBuffer_accepted K q sequence bedata fence config flushCacheRet now e h.unlocked hck
      hf (Or.inl h.shared)] at hr
    split at hr
    · obtain ⟨ret, -, h1⟩ := CancelBuffer_refused K q sequence bedata h.unlocked
        (Or.inl h.shared)
      rw [h1] at hr
      cases hr
      exact h
    · obtain ⟨b, hb1, hb2⟩ := h.core.buf sequence e hf
      have hdel := h.core.noDel sequence e hf
      by_cases hfc : (e.config.usage % 2 ^ 32).toNat &&& K.HBM_USE_CPU_WRITE ≠ 0 ∧
          flushCacheRet ≠ GSError.GSERROR_OK
      · rw [DoFlushBuffer_failed K q sequence bedata fence config flushCacheRet now e b
          h.unlocked hf hdel hb1 hfc] at hr
        simp only [Except.map, ne_eq, hfc.2, not_false_eq_true, if_true] at hr
        cases hr
        refine ⟨h.shared, h.unlocked, h.size, ?_⟩
        dsimp only
        apply CoreS.modifyKept K h.core hf
        · exact ⟨_, rfl, hb2⟩
        · exact hdel
        · exact fun s hs => Or.inr hs
        · intro s hs
          rcases List.mem_append.1 hs with h3 | h3
          · exact Or.inr h3
          · exact Or.inl (List.mem_singleton.1 h3)
      · rw [DoFlushBuffer_ok K q sequence bedata fence config flushCacheRet now e b
          h.unlocked hf hdel hb1 hfc] at hr
        simp only [Except.map, ne_eq, not_true_eq_false, if_false] at hr
        cases hr
        refine ⟨h.shared, h.unlocked, h.size, ?_⟩
        dsimp only
        apply CoreS.modifyKept K h.core hf
        · exact ⟨_, rfl, hb2⟩
        · exact hdel
        · exact fun s hs => Or.inr hs
        · intro s hs
          rcases List.mem_append.1 hs with h3 | h3
          · exact Or.inr h3
          · exact Or.inl (List.mem_singleton.1 h3)

theorem AcquireBuffer_InvS (K : SurfaceConsts) (q : BufferQueue) (r : AcquireResult)
    (h : InvS q) (hr : AcquireBuffer K q = Except.ok r) : InvS r.queue := by
  obtain ⟨hs, hu, hsz, hcore⟩ := h
  obtain ⟨sh, qs, c, fl, dl, del, l1, l2, obr, obd, mu, dc, ac⟩ := q
  simp only at hs hu hcore hsz
  subst hs hu hsz
  cases c with
  | nil =>
    obtain ⟨hf1, hf2⟩ := hcore.lists_nil
    subst hf1 hf2
    have hp := PopFromDirtyList_nil K
      ⟨true, 1, [], [], [], del, l1, l2, obr, obd, true, dc, ac⟩ rfl rfl
    simp only [AcquireBuffer, lock, Bool.false_eq_true, if_false, hp, reduceCtorEq,
      Except.ok.injEq] at hr
    subst hr
    exact ⟨rfl, rfl, rfl, hcore⟩
  | cons p rest =>
    obtain ⟨k, e⟩ := p
    have hfk := cacheFind_head k e rest
    obtain ⟨b, hb1, hb2⟩ := hcore.buf k e hfk
    subst hb2
    have h1 := cacheIndex_of_find K
      (cacheModify K ((b.seqNum, e) :: rest) b.seqNum
        (fun e1 => { e1 with state := BufferState.BUFFER_STATE_ACQUIRED }))
      b.seqNum { e with state := BufferState.BUFFER_STATE_ACQUIRED }
      (by rw [cacheFind_modify]; simp [hfk])
    have hp := PopFromDirtyList_shared_head K
      ⟨true, 1, (b.seqNum, e) :: rest, fl, dl, del, l1, l2, obr, obd, true, dc, ac⟩
      b.seqNum e rest rfl rfl
    simp only [AcquireBuffer, lock, Bool.false_eq_true, if_false, hp, if_true, hb1, h1,
      Except.ok.injEq] at hr
    subst hr
    refine ⟨rfl, rfl, rfl, ?_⟩
    dsimp only [unlock]
    apply CoreS.modifyKept K hcore hfk
    · exact ⟨b, hb1, rfl⟩
    · exact hcore.noDel _ e hfk
    · exact fun s hs => Or.inr hs
    · exact fun s hs => Or.inr hs

theorem ReleaseBuffer_InvS (K : SurfaceConsts) (q : BufferQueue)
    (buffer : Option SurfaceBuffer) (fence : Int) (cbRet : GSError)
    (r : GSError × BufferQueue) (h : InvS q)
    (hr : ReleaseBuffer K q buffer fence cbRet = Except.ok r) : InvS r.2 := by
  have hkeep : ∀ ret, ReleaseBuffer K q buffer fence cbRet = Except.ok (ret, q) →
      InvS r.2 := by
    intro ret h1
    rw [h1] at hr; cases hr
    exact h
  cases buffer with
  | none =>
    obtain ⟨ret, -, h1⟩ := ReleaseBuffer_refused K q none fence cbRet h.unlocked (Or.inl rfl)
    exact hkeep ret h1
  | some b =>
    cases hf : cacheFind q.bufferQueueCache_ b.seqNum with
    | none =>
      obtain ⟨ret, -, h1⟩ := ReleaseBuffer_refused K q (some b) fence cbRet h.unlocked
        (Or.inr ⟨b, rfl, Or.inl hf⟩)
      exact hkeep ret h1
    | some e =>
      rw [ReleaseBuffer_accepted K q b fence cbRet e h.unlocked hf (Or.inl h.shared)] at hr
      have hdel := h.core.noDel _ e hf
      split at hr
      · cases hr; exact h
      · rw [if_neg (by simp [hdel])] at hr
        cases hr
        refine ⟨h.shared, h.unlocked, h.size, ?_⟩
        dsimp only
        apply CoreS.modifyKept K h.core hf
        · exact h.core.buf _ e hf
        · exact hdel
        · intro s hs
          rcases List.mem_append.1 hs with h3 | h3
          · exact Or.inr h3
          · exact Or.inl (List.mem_singleton.1 h3)
        · exact fun s hs => Or.inr hs

theorem toInt32_pow : toInt32 (1 % 2 ^ 32 + 2 ^ 32 - 1 % 2 ^ 32) = 0 := by
  decide

theorem SetQueueSize_InvS (K : SurfaceConsts) (q : BufferQueue) (n : Nat)
    (r : GSError × BufferQueue) (h : InvS q) (hr : SetQueueSize K q n = Except.ok r) :
    InvS r.2 := by
  unfold SetQueueSize at hr
  split at hr
  · cases hr; exact h
  · rename_i hn
    have hn1 : n = 1 := by
      by_contra hne
      exact hn ⟨h.shared, hne⟩
    subst hn1
    split at hr
    · cases hr; exact h
    · split at hr
      · cases hr; exact h
      · rw [h.size, toInt32_pow] at hr
        simp only [DeleteBuffers, le_refl, if_true] at hr
        cases hr
        exact ⟨h.shared, h.unlocked, rfl, h.core⟩

/-- Every call that returns on a well-formed shared queue leaves the queue well-formed,
whatever its arguments and whatever the allocator answers. -/
theorem step_InvS (K : SurfaceConsts) (q q1 : BufferQueue) (op : Op) (h : InvS q)
    (hr : step K q op = Except.ok q1) : InvS q1 := by
  cases op with
  | requestBuffer config a =>
    simp only [step] at hr
    cases hq : RequestBuffer K q config a with
    | error f => rw [hq] at hr; cases hr
    | ok r =>
      rw [hq] at hr; cases hr
      exact RequestBuffer_InvS K q config a r h hq
  | cancelBuffer sequence bedata =>
    obtain ⟨ret, -, h1⟩ := CancelBuffer_refused K q sequence bedata h.unlocked (Or.inl h.shared)
    simp only [step, h1] at hr
    cases hr
    exact h
  | flushBuffer sequence bedata fence config flushCacheRet now =>
    simp only [step] at hr
    cases hq : FlushBuffer K q sequence bedata fence config flushCacheRet now with
    | error f => rw [hq] at hr; cases hr
    | ok r =>
      rw [hq] at hr; cases hr
      exact FlushBuffer_InvS K q sequence bedata fence config flushCacheRet now r h hq
  | acquireBuffer =>
    simp only [step] at hr
    cases hq : AcquireBuffer K q with
    | error f => rw [hq] at hr; cases hr
    | ok r =>
      rw [hq] at hr; cases hr
      exact AcquireBuffer_InvS K q r h hq
  | releaseBuffer buffer fence cbRet =>
    simp only [step] at hr
    cases hq : ReleaseBuffer K q buffer fence cbRet with
    | error f => rw [hq] at hr; cases hr
    | ok r =>
      rw [hq] at hr; cases hr
      exact ReleaseBuffer_InvS K q buffer fence cbRet r h hq
  | attachBuffer buffer =>
    simp only [step, AttachBuffer, h.shared, if_true] at hr
    cases hr
    exact h
  | detachBuffer buffer =>
    simp only [step, DetachBuffer, h.shared, if_true] at hr
    cases hr
    exact h
  | setQueueSize n =>
    simp only [step] at hr
    cases hq : SetQueueSize K q n with
    | error f => rw [hq] at hr; cases hr
    | ok r =>
      rw [hq] at hr; cases hr
      exact SetQueueSize_InvS K q n r h hq
  | cleanCache =>
    simp only [step, CleanCache, lock_of_unlocked q h.unlocked] at hr
    cases hr
    exact ⟨h.shared, rfl, h.size, CoreS.nil⟩
  | registerConsumerListener l =>
    simp only [step, RegisterConsumerListener] at hr
    cases hr
    exact ⟨h.shared, h.unlocked, h.size, h.core⟩
  | registerConsumerListenerClazz l =>
    simp only [step, RegisterConsumerListenerClazz] at hr
    cases hr
    exact ⟨h.shared, h.unlocked, h.size, h.core⟩
  | unregisterConsumerListener =>
    simp only [step, UnregisterConsumerListener] at hr
    cases hr
    exact ⟨h.shared, h.unlocked, h.size, h.core⟩
  | registerReleaseListener f =>
    simp only [step, RegisterReleaseListener] at hr
    cases hr
    exact ⟨h.shared, h.unlocked, h.size, h.core⟩
  | registerDeleteBufferListener f =>
    simp only [step, RegisterDeleteBufferListener, lock_of_unlocked q h.unlocked] at hr
    split at hr <;> cases hr <;> exact ⟨h.shared, rfl, h.size, h.core⟩

theorem peakQueueSize_ge (K : SurfaceConsts) (q : BufferQueue) (ops : List Op) :
    q.queueSize_ ≤ peakQueueSize K q ops := by
  cases ops with
  | nil => exact le_refl _
  | cons op ops => exact le_max_left _ _

theorem run_InvN (K : SurfaceConsts) (q q1 : BufferQueue) (ops : List Op) (h : InvN q)
    (hf : freshRun K q ops = true) (hr : run K q ops = Except.ok q1) :
    InvN q1 ∧ q1.bufferQueueCache_.length ≤
      max q.bufferQueueCache_.length (peakQueueSize K q ops) := by
  induction ops generalizing q with
  | nil =>
    simp only [run, Except.ok.injEq] at hr
    subst hr
    exact ⟨h, le_max_left _ _⟩
  | cons op ops ih =>
    simp only [run] at hr
    simp only [freshRun, Bool.and_eq_true] at hf
    cases hs : step K q op with
    | error f => rw [hs] at hr; cases hr
    | ok q2 =>
      rw [hs] at hr
      simp only [hs] at hf
      obtain ⟨a1, a2⟩ := step_InvN K q q2 op h hf.1 hs
      obtain ⟨b1, b2⟩ := ih q2 a1 hf.2 hr
      refine ⟨b1, ?_⟩
      simp only [peakQueueSize, hs]
      have := peakQueueSize_ge K q2 ops
      omega

theorem run_InvS (K : SurfaceConsts) (q q1 : BufferQueue) (ops : List Op) (h : InvS q)
    (hr : run K q ops = Except.ok q1) : InvS q1 := by
  induction ops generalizing q with
  | nil =>
    simp only [run, Except.ok.injEq] at hr
    subst hr
    exact h
  | cons op ops ih =>
    simp only [run] at hr
    cases hs : step K q op with
    | error f => rw [hs] at hr; cases hr
    | ok q2 =>
      rw [hs] at hr
      exact ih q2 (step_InvS K q q2 op h hs) hr

theorem ctor_InvN (K : SurfaceConsts) : InvN (BufferQueue.ctor K false) :=
  ⟨rfl, rfl, CoreN.empty⟩

theorem ctor_InvS (K : SurfaceConsts) : InvS (BufferQueue.ctor K true) :=
  ⟨rfl, rfl, rfl, CoreS.nil⟩

/-- C7 (as stated) fails: on a shared queue two flushes of the single buffer put its sequence
number into `dirtyList_` twice, and on a non-shared queue attaching a buffer that sits in
`freeList_` and flushing it puts its sequence number into both lists. -/
theorem free_dirty_disjoint_counterexample :
    (∃ q, run sampleConsts (BufferQueue.ctor sampleConsts true)
        [Op.registerConsumerListener (some 1),
         Op.requestBuffer (sampleConfig 800 600) (sampleAlloc 0 800 600),
         Op.flushBuffer 0 none (-1) sampleFlush GSError.GSERROR_OK 7,
         Op.flushBuffer 0 none (-1) sampleFlush GSError.GSERROR_OK 7] = Except.ok q ∧
        ¬ q.dirtyList_.Nodup) ∧
    (∃ q, run sampleConsts (BufferQueue.ctor sampleConsts false)
        [Op.registerConsumerListener (some 1),
         Op.requestBuffer (sampleConfig 800 600) (sampleAlloc 0 800 600),
         Op.cancelBuffer 0 none,
         Op.attachBuffer (some (sampleBuffer 0 800 600)),
         Op.flushBuffer 0 none (-1) sampleFlush GSError.GSERROR_OK 7] = Except.ok q ∧
        (0 : Int) ∈ q.freeList_ ∧ (0 : Int) ∈ q.dirtyList_) :=
  ⟨⟨_, rfl, by decide⟩, ⟨_, rfl, by decide, by decide⟩⟩

/-- C7 (amended): in every state reached from a newly constructed non-shared queue by calls
that return and bring no cached sequence number in again, neither `freeList_` nor
`dirtyList_` repeats a sequence number, and no sequence number is in both. -/
theorem free_dirty_disjoint_nodup (K : SurfaceConsts) (ops : List Op) (q : BufferQueue)
    (hf : freshRun K (BufferQueue.ctor K false) ops = true)
    (hr : run K (BufferQueue.ctor K false) ops = Except.ok q) :
    q.freeList_.Nodup ∧ q.dirtyList_.Nodup ∧ ∀ s, s ∈ q.freeList_ → s ∉ q.dirtyList_ := by
  obtain ⟨h, -⟩ := run_InvN K _ q ops (ctor_InvN K) hf hr
  refine ⟨h.core.free_nodup, h.core.dirty_nodup, ?_⟩
  intro s hs hd
  obtain ⟨e, h1, h2⟩ := h.core.free_in s hs
  exact h.core.not_dirty_of_state h1 (by rw [h2]; decide) hd

/-- C7 (amended), witness: after two requests, a cancel and a flush on a new non-shared
queue, `freeList_` is `[0]` and `dirtyList_` is `[1]`. -/
theorem free_dirty_disjoint_nodup_witness :
    run sampleConsts (BufferQueue.ctor sampleConsts false) sampleOps =
        Except.ok (runOr sampleConsts (BufferQueue.ctor sampleConsts false) sampleOps) ∧
      (runOr sampleConsts (BufferQueue.ctor sampleConsts false) sampleOps).freeList_ = [0] ∧
      (runOr sampleConsts (BufferQueue.ctor sampleConsts false) sampleOps).dirtyList_ = [1] ∧
      ((runOr sampleConsts (BufferQueue.ctor sampleConsts false) sampleOps).freeList_.Nodup ∧
        (runOr sampleConsts (BufferQueue.ctor sampleConsts false) sampleOps).dirtyList_.Nodup ∧
        ∀ s, s ∈ (runOr sampleConsts (BufferQueue.ctor sampleConsts false) sampleOps).freeList_ →
          s ∉ (runOr sampleConsts (BufferQueue.ctor sampleConsts false) sampleOps).dirtyList_) :=
  ⟨rfl, rfl, rfl, free_dirty_disjoint_nodup sampleConsts sampleOps _ (by decide) rfl⟩

/-- C8: the code breaks the invariant.  After a buffer that sits in `freeList_` is attached
again, flushed, acquired and detached, its sequence number `0` is still in `freeList_` but no
longer a key of the cache; the next `RequestBuffer` then reads `bufferQueueCache_[0]`, gets a
value-initialised entry with a null buffer and dereferences it. -/
theorem lists_within_cache_broken_by_reattach :
    run sampleConsts (BufferQueue.ctor sampleConsts false) reattachOps =
        Except.ok (runOr sampleConsts (BufferQueue.ctor sampleConsts false) reattachOps) ∧
      (runOr sampleConsts (BufferQueue.ctor sampleConsts false) reattachOps).freeList_ = [0] ∧
      cacheFind
        (runOr sampleConsts (BufferQueue.ctor sampleConsts false) reattachOps).bufferQueueCache_
        0 = none ∧
      RequestBuffer sampleConsts
        (runOr sampleConsts (BufferQueue.ctor sampleConsts false) reattachOps)
        (sampleConfig 800 600) (sampleAlloc 1 800 600) = Except.error Fault.nullDeref :=
  ⟨rfl, rfl, rfl, rfl⟩

/-- C9 (as stated) fails: after two requests on a new non-shared queue and `SetQueueSize(1)`
the cache holds two entries, the queue size is one and no buffer was ever attached. -/
theorem cache_size_bound_counterexample :
    run sampleConsts (BufferQueue.ctor sampleConsts false) shrinkOps =
        Except.ok (runOr sampleConsts (BufferQueue.ctor sampleConsts false) shrinkOps) ∧
      (runOr sampleConsts (BufferQueue.ctor sampleConsts false)
        shrinkOps).bufferQueueCache_.length = 2 ∧
      (runOr sampleConsts (BufferQueue.ctor sampleConsts false) shrinkOps).queueSize_ = 1 ∧
      ¬ (runOr sampleConsts (BufferQueue.ctor sampleConsts false)
          shrinkOps).bufferQueueCache_.length ≤
        max (runOr sampleConsts (BufferQueue.ctor sampleConsts false) shrinkOps).queueSize_ 0 :=
  ⟨rfl, rfl, rfl, by decide⟩

/-- C9 (amended): after every sequence of calls that return on a newly constructed non-shared
queue, and that bring no cached sequence number in again, the number of cache entries is at
most the largest queue size the queue has had since its construction. -/
theorem cache_size_le_peak_queue_size (K : SurfaceConsts) (ops : List Op) (q : BufferQueue)
    (hf : freshRun K (BufferQueue.ctor K false) ops = true)
    (hr : run K (BufferQueue.ctor K false) ops = Except.ok q) :
    q.bufferQueueCache_.length ≤ peakQueueSize K (BufferQueue.ctor K false) ops := by
  obtain ⟨-, h⟩ := run_InvN K _ q ops (ctor_InvN K) hf hr
  have h0 : (BufferQueue.ctor K false).bufferQueueCache_.length = 0 := rfl
  rw [h0] at h
  simpa using h

/-- C9 (amended), witness: two requests followed by `SetQueueSize(1)` leave two cache entries,
and the largest queue size on the way is three. -/
theorem cache_size_le_peak_queue_size_witness :
    peakQueueSize sampleConsts (BufferQueue.ctor sampleConsts false) shrinkOps = 3 ∧
      (runOr sampleConsts (BufferQueue.ctor sampleConsts false)
        shrinkOps).bufferQueueCache_.length ≤
        peakQueueSize sampleConsts (BufferQueue.ctor sampleConsts false) shrinkOps :=
  ⟨rfl, cache_size_le_peak_queue_size sampleConsts shrinkOps _ (by decide) rfl⟩

theorem length_erase_of_nodup (c : Cache) (k : Int) (e : BufferElement)
    (hk : (cacheKeys c).Nodup) (hf : cacheFind c k = some e) :
    (cacheErase c k).length + 1 = c.length := by
  induction c with
  | nil => simp [cacheFind] at hf
  | cons p rest ih =>
    obtain ⟨k1, e1⟩ := p
    simp only [cacheKeys, List.map_cons, List.nodup_cons] at hk
    unfold cacheErase at ih ⊢
    by_cases h1 : k1 = k
    · subst h1
      rw [List.filter_cons_of_neg (by simp)]
      have : List.filter (fun p : Int × BufferElement => decide (p.1 ≠ k1)) rest = rest := by
        rw [List.filter_eq_self]
        intro p hp
        have : p.1 ≠ k1 := fun hh => hk.1 (hh ▸ List.mem_map_of_mem Prod.fst hp)
        simpa using this
      rw [this]
      simp
    · simp only [cacheFind, h1, if_false] at hf
      rw [List.filter_cons_of_pos (by simp [h1])]
      simp only [List.length_cons]
      rw [ih hk.2 hf]

/-- C4: on a non-shared queue with the mutex free, a listener installed and a valid config,
when the head `s` of `freeList_` is popped because no free entry matches `config`, and the
allocator succeeds with a buffer whose sequence number is new, `RequestBuffer` returns Ok with
the new sequence number; afterwards `s` is not cached, `onBufferDelete_` (if installed) was
called once more, with `s`, the new sequence number is cached in state Requested with
`config`, the cache has as many entries as before, the returned `deletingBuffers` is the
previous `deletingList_` followed by `s`, and `deletingList_` is empty. -/
theorem RequestBuffer_realloc_on_config_change (K : SurfaceConsts) (q : BufferQueue)
    (config : BufferRequestConfig) (a : AllocOutcome) (s : Int) (rest : List Int)
    (e : BufferElement) (b : SurfaceBuffer)
    (hs : q.isShared_ = false) (hu : q.mutex_ = false)
    (hl : ¬ (q.listener_ = none ∧ q.listenerClazz_ = none))
    (hcfg : CheckRequestConfig K config = GSError.GSERROR_OK)
    (hfree : q.freeList_ = s :: rest)
    (hin : ∀ x ∈ q.freeList_, (cacheFind q.bufferQueueCache_ x).isSome = true)
    (hnomatch : ∀ x ∈ q.freeList_,
      (cacheFind q.bufferQueueCache_ x).map BufferElement.config ≠ some config)
    (hf : cacheFind q.bufferQueueCache_ s = some e) (hb : e.buffer = some b)
    (hseq : b.seqNum = s) (hkeys : (cacheKeys q.bufferQueueCache_).Nodup)
    (ha1 : a.allocRet = GSError.GSERROR_OK) (ha2 : a.mapRet = GSError.GSERROR_OK)
    (hfresh : cacheFind q.bufferQueueCache_ a.buffer.seqNum = none) :
    ∃ r, RequestBuffer K q config a = Except.ok r ∧ r.ret = GSError.GSERROR_OK ∧
      r.retval.sequence = a.buffer.seqNum ∧
      cacheFind r.queue.bufferQueueCache_ s = none ∧
      r.queue.deleteCalls =
        (if q.onBufferDelete_ = true then q.deleteCalls ++ [s] else q.deleteCalls) ∧
      (∃ e2, cacheFind r.queue.bufferQueueCache_ r.retval.sequence = some e2 ∧
        e2.state = BufferState.BUFFER_STATE_REQUESTED ∧ e2.config = config) ∧
      r.queue.bufferQueueCache_.length = q.bufferQueueCache_.length ∧
      r.retval.deletingBuffers = q.deletingList_ ++ [s] ∧
      r.queue.deletingList_ = [] := by
  rw [RequestBuffer_eq_locked K q config a hu hl hcfg]
  have hnm : ∀ x ∈ q.freeList_, ∀ ex,
      cacheFind q.bufferQueueCache_ x = some ex → ex.config ≠ config := by
    intro x hx ex hex hc
    exact hnomatch x hx (by rw [hex, Option.map_some', hc])
  clear hnomatch
  obtain ⟨sh, qs, c, fl, dl, del, l1, l2, obr, obd, mu, dc, ac⟩ := q
  simp only at hs hu hfree hin hnm hf hkeys hfresh
  subst hs hu hfree hseq
  have hne : a.buffer.seqNum ≠ b.seqNum := by
    intro hh; rw [hh, hf] at hfresh; cases hfresh
  rcases PopFromFreeList_nonShared K
    ⟨false, qs, c, b.seqNum :: rest, dl, del, l1, l2, obr, obd, true, dc, ac⟩ config rfl
    (fun x hx => Option.isSome_iff_exists.1 (hin x hx)) with
    ⟨h1, -⟩ | ⟨pre, t, post, et, h1, h2, -, h4, h5⟩
  · cases h1
  · simp only at h1 h2 h4
    have hpre : pre = [] := by
      rcases h4 with h4 | ⟨h4, -⟩
      · exact absurd h4 (hnm t (by rw [h1]; simp) et h2)
      · exact h4
    subst hpre
    simp only [List.nil_append, List.cons.injEq] at h1
    obtain ⟨h1a, h1b⟩ := h1
    subst h1a h1b
    rw [hf] at h2; cases h2
    rw [hb] at h5
    rw [RequestBuffer.locked_reuse K _ _ _ _ _ _ _ h5,
      ReuseBuffer_realloc_ok K _ _ _ _ _ b e rfl rfl hf (hnm _ (by simp) e hf) ha1 ha2]
    refine ⟨_, rfl, rfl, rfl, ?_, rfl, ?_, ?_, ?_, rfl⟩
    · simp only [Except.map, unlock]
      rw [cacheFind_insert, if_neg (Ne.symm hne), cacheFind_erase, if_pos rfl]
    · refine ⟨allocElement config a.buffer, ?_, rfl, rfl⟩
      simp only [Except.map, unlock]
      rw [cacheFind_insert, if_pos rfl]
    · simp only [Except.map, unlock, List.nil_append]
      unfold cacheInsert
      rw [length_modify, cacheFind_erase, if_neg hne, hfresh]
      simpa using length_erase_of_nodup c b.seqNum e hkeys hf
    · simp [emptyRetval]

/-- C4, witness: with `freeList_ = [0, 1]` (640x480 and 800x600) a request for 1024x768
deletes buffer `0` and returns the new buffer `5`. -/
theorem RequestBuffer_realloc_on_config_change_witness :
    ∃ r, RequestBuffer sampleConsts
        (runOr sampleConsts (BufferQueue.ctor sampleConsts false) twoFreeOps)
        (sampleConfig 1024 768) (sampleAlloc 5 1024 768) = Except.ok r ∧
      r.ret = GSError.GSERROR_OK ∧ r.retval.sequence = 5 ∧
      cacheFind r.queue.bufferQueueCache_ 0 = none ∧
      r.queue.deleteCalls =
        (if (runOr sampleConsts (BufferQueue.ctor sampleConsts false)
            twoFreeOps).onBufferDelete_ = true then
          (runOr sampleConsts (BufferQueue.ctor sampleConsts false) twoFreeOps).deleteCalls ++ [0]
        else (runOr sampleConsts (BufferQueue.ctor sampleConsts false) twoFreeOps).deleteCalls) ∧
      (∃ e2, cacheFind r.queue.bufferQueueCache_ r.retval.sequence = some e2 ∧
        e2.state = BufferState.BUFFER_STATE_REQUESTED ∧ e2.config = sampleConfig 1024 768) ∧
      r.queue.bufferQueueCache_.length =
        (runOr sampleConsts (BufferQueue.ctor sampleConsts false)
          twoFreeOps).bufferQueueCache_.length ∧
      r.retval.deletingBuffers =
        (runOr sampleConsts (BufferQueue.ctor sampleConsts false) twoFreeOps).deletingList_ ++
          [0] ∧
      r.queue.deletingList_ = [] :=
  RequestBuffer_realloc_on_config_change sampleConsts
    (runOr sampleConsts (BufferQueue.ctor sampleConsts false) twoFreeOps)
    (sampleConfig 1024 768) (sampleAlloc 5 1024 768) 0 [1]
    { buffer := some (sampleBuffer 0 640 480), state := BufferState.BUFFER_STATE_RELEASED,
      isDeleting := false, config := sampleConfig 640 480, fence := some INVALID_FENCE,
      timestamp := 0, damage := { x := 0, y := 0, w := 0, h := 0 } }
    (sampleBuffer 0 640 480) rfl rfl (by decide) (by decide) rfl (by decide) (by decide) rfl rfl
    rfl (by decide) rfl rfl rfl

/-- C5 (as stated) fails: after the round trip of buffer `0`, a request for 1024x768
reallocates it into buffer `1` and itself reports `deletingBuffers = [0]`; the next
successful request reports an empty `deletingBuffers`. -/
theorem stale_sequence_next_request_counterexample :
    (runOr sampleConsts (BufferQueue.ctor sampleConsts false) roundTripOps).freeList_ = [0] ∧
    (RequestBuffer sampleConsts
        (runOr sampleConsts (BufferQueue.ctor sampleConsts false) roundTripOps)
        (sampleConfig 1024 768) (sampleAlloc 1 1024 768)).toOption.map RequestResult.report =
      some (GSError.GSERROR_OK, 1, [0]) ∧
    run sampleConsts (BufferQueue.ctor sampleConsts false)
        (roundTripOps ++ [Op.requestBuffer (sampleConfig 1024 768) (sampleAlloc 1 1024 768)]) =
      Except.ok (runOr sampleConsts (BufferQueue.ctor sampleConsts false)
        (roundTripOps ++ [Op.requestBuffer (sampleConfig 1024 768) (sampleAlloc 1 1024 768)])) ∧
    (RequestBuffer sampleConsts
        (runOr sampleConsts (BufferQueue.ctor sampleConsts false)
          (roundTripOps ++ [Op.requestBuffer (sampleConfig 1024 768) (sampleAlloc 1 1024 768)]))
        (sampleConfig 1024 768) (sampleAlloc 2 1024 768)).toOption.map RequestResult.report =
      some (GSError.GSERROR_OK, 2, []) :=
  ⟨rfl, rfl, rfl, rfl⟩

/-- C5 (amended): the `RequestBuffer` that reallocates the released buffer `s` into a new
buffer, because no free entry has the requested config, returns a sequence number other than
`s`, reports `s` in its own `deletingBuffers`, and leaves `deletingList_` empty. -/
theorem stale_sequence_reported_by_reallocating_request (K : SurfaceConsts) (q : BufferQueue)
    (config : BufferRequestConfig) (a : AllocOutcome) (s : Int) (rest : List Int)
    (e : BufferElement) (b : SurfaceBuffer)
    (hs : q.isShared_ = false) (hu : q.mutex_ = false)
    (hl : ¬ (q.listener_ = none ∧ q.listenerClazz_ = none))
    (hcfg : CheckRequestConfig K config = GSError.GSERROR_OK)
    (hfree : q.freeList_ = s :: rest)
    (hin : ∀ x ∈ q.freeList_, (cacheFind q.bufferQueueCache_ x).isSome = true)
    (hnomatch : ∀ x ∈ q.freeList_,
      (cacheFind q.bufferQueueCache_ x).map BufferElement.config ≠ some config)
    (hf : cacheFind q.bufferQueueCache_ s = some e) (hb : e.buffer = some b)
    (hseq : b.seqNum = s)
    (ha1 : a.allocRet = GSError.GSERROR_OK) (ha2 : a.mapRet = GSError.GSERROR_OK)
    (hfresh : cacheFind q.bufferQueueCache_ a.buffer.seqNum = none) :
    ∃ r, RequestBuffer K q config a = Except.ok r ∧ r.ret = GSError.GSERROR_OK ∧
      r.retval.sequence ≠ s ∧ s ∈ r.retval.deletingBuffers ∧ r.queue.deletingList_ = [] := by
  rw [RequestBuffer_eq_locked K q config a hu hl hcfg]
  have hnm : ∀ x ∈ q.freeList_, ∀ ex,
      cacheFind q.bufferQueueCache_ x = some ex → ex.config ≠ config := by
    intro x hx ex hex hc
    exact hnomatch x hx (by rw [hex, Option.map_some', hc])
  clear hnomatch
  obtain ⟨sh, qs, c, fl, dl, del, l1, l2, obr, obd, mu, dc, ac⟩ := q
  simp only at hs hu hfree hin hnm hf hfresh
  subst hs hu hfree hseq
  have hne : a.buffer.seqNum ≠ b.seqNum := by
    intro hh; rw [hh, hf] at hfresh; cases hfresh
  rcases PopFromFreeList_nonShared K
    ⟨false, qs, c, b.seqNum :: rest, dl, del, l1, l2, obr, obd, true, dc, ac⟩ config rfl
    (fun x hx => Option.isSome_iff_exists.1 (hin x hx)) with
    ⟨h1, -⟩ | ⟨pre, t, post, et, h1, h2, -, h4, h5⟩
  · cases h1
  · simp only at h1 h2 h4
    have hpre : pre = [] := by
      rcases h4 with h4 | ⟨h4, -⟩
      · exact absurd h4 (hnm t (by rw [h1]; simp) et h2)
      · exact h4
    subst hpre
    simp only [List.nil_append, List.cons.injEq] at h1
    obtain ⟨h1a, h1b⟩ := h1
    subst h1a h1b
    rw [hf] at h2; cases h2
    rw [hb] at h5
    rw [RequestBuffer.locked_reuse K _ _ _ _ _ _ _ h5,
      ReuseBuffer_realloc_ok K _ _ _ _ _ b e rfl rfl hf (hnm _ (by simp) e hf) ha1 ha2]
    exact ⟨_, rfl, rfl, hne, by simp, rfl⟩

/-- C5 (amended), witness: after the round trip of buffer `0` a request for 1024x768 returns
buffer `1` and reports `0`. -/
theorem stale_sequence_reported_by_reallocating_request_witness :
    ∃ r, RequestBuffer sampleConsts
        (runOr sampleConsts (BufferQueue.ctor sampleConsts false) roundTripOps)
        (sampleConfig 1024 768) (sampleAlloc 1 1024 768) = Except.ok r ∧
      r.ret = GSError.GSERROR_OK ∧ r.retval.sequence ≠ 0 ∧ (0 : Int) ∈ r.retval.deletingBuffers ∧
      r.queue.deletingList_ = [] :=
  stale_sequence_reported_by_reallocating_request sampleConsts
    (runOr sampleConsts (BufferQueue.ctor sampleConsts false) roundTripOps)
    (sampleConfig 1024 768) (sampleAlloc 1 1024 768) 0 []
    { buffer := some (sampleBuffer 0 800 600), state := BufferState.BUFFER_STATE_RELEASED,
      isDeleting := false, config := sampleConfig 800 600, fence := some (-1),
      timestamp := 5, damage := { x := 0, y := 0, w := 800, h := 600 } }
    (sampleBuffer 0 800 600) rfl rfl (by decide) (by decide) rfl (by decide) (by decide) rfl rfl
    rfl rfl rfl rfl

/-- C6 (as stated) fails on a shared queue: with the single buffer held by the producer,
`freeList_` is empty and the cache holds as many entries as the queue size, yet a second
request with the same config returns Ok with the same buffer. -/
theorem exhaustion_counterexample :
    (runOr sampleConsts (BufferQueue.ctor sampleConsts true) sharedHeldOps).freeList_ = [] ∧
    (runOr sampleConsts (BufferQueue.ctor sampleConsts true) sharedHeldOps).queueSize_ ≤
      (runOr sampleConsts (BufferQueue.ctor sampleConsts true)
        sharedHeldOps).bufferQueueCache_.length ∧
    (runOr sampleConsts (BufferQueue.ctor sampleConsts true) sharedHeldOps).listener_ = some 1 ∧
    CheckRequestConfig sampleConsts (sampleConfig 800 600) = GSError.GSERROR_OK ∧
    (RequestBuffer sampleConsts
        (runOr sampleConsts (BufferQueue.ctor sampleConsts true) sharedHeldOps)
        (sampleConfig 800 600) (sampleAlloc 1 800 600)).toOption.map RequestResult.report =
      some (GSError.GSERROR_OK, 0, []) :=
  ⟨rfl, by decide, rfl, by decide, rfl⟩

/-- C6 (amended): on a non-shared queue with the mutex free, a listener installed and a valid
config, if `freeList_` is empty and the cache holds at least `queueSize_` entries, then
`RequestBuffer` returns NoBuffer and leaves the whole queue as it was. -/
theorem RequestBuffer_exhausted (K : SurfaceConsts) (q : BufferQueue)
    (config : BufferRequestConfig) (a : AllocOutcome)
    (hs : q.isShared_ = false) (hu : q.mutex_ = false)
    (hl : ¬ (q.listener_ = none ∧ q.listenerClazz_ = none))
    (hcfg : CheckRequestConfig K config = GSError.GSERROR_OK)
    (hfree : q.freeList_ = [])
    (hfull : q.queueSize_ ≤ q.bufferQueueCache_.length) :
    RequestBuffer K q config a =
      Except.ok { ret := GSError.GSERROR_NO_BUFFER, bedata := none, retval := emptyRetval,
                  queue := q } := by
  rw [RequestBuffer_eq_locked K q config a hu hl hcfg]
  obtain ⟨sh, qs, c, fl, dl, del, l1, l2, obr, obd, mu, dc, ac⟩ := q
  simp only at hs hu hfree hfull
  subst hs hu hfree
  rw [RequestBuffer.locked_noBuffer K _ _ _ _ _ rfl rfl hfull]
  rfl

/-- C6 (amended), witness: a non-shared queue of size one whose only buffer is held by the
producer answers a second request with NoBuffer. -/
theorem RequestBuffer_exhausted_witness :
    (runOr sampleConsts (BufferQueue.ctor sampleConsts false) heldOps).queueSize_ = 1 ∧
    (runOr sampleConsts (BufferQueue.ctor sampleConsts false) heldOps).bufferQueueCache_.length
      = 1 ∧
    RequestBuffer sampleConsts (runOr sampleConsts (BufferQueue.ctor sampleConsts false) heldOps)
        (sampleConfig 800 600) (sampleAlloc 1 800 600) =
      Except.ok { ret := GSError.GSERROR_NO_BUFFER, bedata := none, retval := emptyRetval,
                  queue := runOr sampleConsts (BufferQueue.ctor sampleConsts false) heldOps } :=
  ⟨rfl, rfl, RequestBuffer_exhausted sampleConsts _ (sampleConfig 800 600)
    (sampleAlloc 1 800 600) rfl rfl (by decide) (by decide) rfl (by decide)⟩

/-- What a successful `RequestBuffer` on a well-formed non-shared queue establishes. -/
theorem RequestBuffer_ok_entry (K : SurfaceConsts) (q : BufferQueue)
    (config : BufferRequestConfig) (a : AllocOutcome) (r : RequestResult) (h : InvN q)
    (hfresh : cacheFind q.bufferQueueCache_ a.buffer.seqNum = none)
    (hr : RequestBuffer K q config a = Except.ok r) (hok : r.ret = GSError.GSERROR_OK) :
    (∃ e, cacheFind r.queue.bufferQueueCache_ r.retval.sequence = some e ∧
      e.state = BufferState.BUFFER_STATE_REQUESTED ∧ e.config = config) ∧
    ¬ (r.queue.listener_ = none ∧ r.queue.listenerClazz_ = none) ∧
    r.queue.onBufferRelease = q.onBufferRelease ∧
    CheckRequestConfig K config = GSError.GSERROR_OK := by
  obtain ⟨hs, hu, hcore⟩ := h
  by_cases hl : q.listener_ = none ∧ q.listenerClazz_ = none
  · unfold RequestBuffer at hr
    rw [if_pos hl] at hr
    cases hr
    cases hok
  by_cases hcfg : CheckRequestConfig K config = GSError.GSERROR_OK
  swap
  · unfold RequestBuffer at hr
    rw [if_neg hl, if_pos hcfg] at hr
    cases hr
    exact absurd hok hcfg
  rw [RequestBuffer_eq_locked K q config a hu hl hcfg] at hr
  obtain ⟨sh, qs, c, fl, dl, del, l1, l2, obr, obd, mu, dc, ac⟩ := q
  simp only at hs hu hcore hfresh hl
  subst hs hu
  rcases PopFromFreeList_nonShared K ⟨false, qs, c, fl, dl, del, l1, l2, obr, obd, true, dc, ac⟩
    config rfl (fun s hs => (hcore.free_in s hs).imp fun e he => he.1) with
    ⟨h1, -⟩ | ⟨pre, s, post, e, h1, h2, -, -, h5⟩
  · simp only at h1
    subst h1
    by_cases hfull : qs ≤ c.length
    · rw [RequestBuffer.locked_noBuffer K _ _ _ _ _ rfl rfl hfull] at hr
      cases hr
      cases hok
    · rw [RequestBuffer.locked_alloc K _ _ _ _ _ rfl rfl (by simpa using hfull)] at hr
      by_cases ha : a.allocRet = GSError.GSERROR_OK ∧ a.mapRet = GSError.GSERROR_OK
      · rw [RequestBuffer.alloc_ok K _ _ _ _ _ ha.1 ha.2] at hr
        cases hr
        refine ⟨⟨allocElement config a.buffer, ?_, rfl, rfl⟩, hl, rfl, hcfg⟩
        simp only [unlock]
        rw [cacheFind_insert, if_pos rfl]
      · rw [RequestBuffer.alloc_fail K _ _ _ _ _ ha] at hr
        cases hr
        exact absurd hok (AllocBuffer_fail K
          ⟨false, qs, c, [], dl, del, l1, l2, obr, obd, true, dc, ac⟩ none config a ha).2
  · simp only at h1 h2
    subst h1
    obtain ⟨b, hb1, hb2⟩ := hcore.buf s e h2
    rw [hb1] at h5
    rw [RequestBuffer.locked_reuse K _ _ _ _ _ _ _ h5] at hr
    subst hb2
    by_cases hc : e.config = config
    · rw [ReuseBuffer_same K _ _ _ _ _ b e rfl h2 hc] at hr
      cases hr
      refine ⟨⟨{ e with state := BufferState.BUFFER_STATE_REQUESTED }, ?_, rfl, hc⟩, hl, rfl,
        hcfg⟩
      simp only [unlock]
      rw [cacheFind_modify, if_pos rfl, h2]
      rfl
    · by_cases ha : a.allocRet = GSError.GSERROR_OK ∧ a.mapRet = GSError.GSERROR_OK
      · rw [ReuseBuffer_realloc_ok K _ _ _ _ _ b e rfl rfl h2 hc ha.1 ha.2] at hr
        cases hr
        refine ⟨⟨allocElement config a.buffer, ?_, rfl, rfl⟩, hl, rfl, hcfg⟩
        simp only [unlock]
        rw [cacheFind_insert, if_pos rfl]
      · rw [ReuseBuffer_realloc_fail K _ _ _ _ _ b e rfl rfl h2 hc ha] at hr
        cases hr
        exact absurd hok (AllocBuffer_fail K
          ⟨false, qs, c, [], dl, del, l1, l2, obr, obd, true, dc, ac⟩ none config a ha).2

/-- A flush that returns Ok on a well-formed non-shared queue with a listener either drops an
entry flagged for deletion or moves the entry to the tail of `dirtyList_`. -/
theorem FlushBuffer_ok_cases (K : SurfaceConsts) (q : BufferQueue) (sequence : Int)
    (bedata : Option BufferExtraData) (fence : Int) (config : BufferFlushConfig)
    (flushCacheRet : GSError) (now : Int) (q2 : BufferQueue) (h : InvN q)
    (hl : ¬ (q.listener_ = none ∧ q.listenerClazz_ = none))
    (hr : FlushBuffer K q sequence bedata fence config flushCacheRet now =
      Except.ok (GSError.GSERROR_OK, q2)) :
    ∃ e b, cacheFind q.bufferQueueCache_ sequence = some e ∧ e.buffer = some b ∧
      b.seqNum = sequence ∧
      ((e.isDeleting = true ∧ cacheFind q2.bufferQueueCache_ sequence = none) ∨
        (e.isDeleting = false ∧
          q2 = { q with
            bufferQueueCache_ := cacheModify K q.bufferQueueCache_ sequence
              (fun e1 => { e1 with state := BufferState.BUFFER_STATE_FLUSHED,
                                   buffer := some { b with extraData := bedata },
                                   fence := some fence, damage := config.damage,
                                   timestamp := if config.timestamp = 0 then now
                                     else config.timestamp }),
            dirtyList_ := q.dirtyList_ ++ [sequence],
            availableCalls := q.availableCalls + 1 })) := by
  have hrefuse : ∀ ret, ret ≠ GSError.GSERROR_OK →
      FlushBuffer K q sequence bedata fence config flushCacheRet now = Except.ok (ret, q) →
      False := by
    intro ret h1 h2
    rw [h2] at hr
    simp only [Except.ok.injEq, Prod.mk.injEq] at hr
    exact h1 hr.1
  by_cases hck : CheckFlushConfig config = GSError.GSERROR_OK
  swap
  · obtain ⟨ret, h0, -, h1⟩ := FlushBuffer_refused K q sequence bedata fence config
      flushCacheRet now h.unlocked (Or.inl hck)
    exact (hrefuse ret h0 h1).elim
  cases hf : cacheFind q.bufferQueueCache_ sequence with
  | none =>
    obtain ⟨ret, h0, -, h1⟩ := FlushBuffer_refused K q sequence bedata fence config
      flushCacheRet now h.unlocked (Or.inr (Or.inl hf))
    exact (hrefuse ret h0 h1).elim
  | some e =>
    by_cases hst : e.state = BufferState.BUFFER_STATE_REQUESTED ∨
        e.state = BufferState.BUFFER_STATE_ATTACHED
    swap
    · obtain ⟨ret, h0, -, h1⟩ := FlushBuffer_refused K q sequence bedata fence config
        flushCacheRet now h.unlocked
        (Or.inr (Or.inr ⟨h.notShared, e, hf, fun h1 => hst (Or.inl h1),
          fun h1 => hst (Or.inr h1)⟩))
      exact (hrefuse ret h0 h1).elim
    rw [FlushBuffer_accepted K q sequence bedata fence config flushCacheRet now e h.unlocked hck
      hf (Or.inr hst), if_neg hl] at hr
    obtain ⟨b, hb1, hb2⟩ := h.core.buf sequence e hf
    refine ⟨e, b, rfl, hb1, hb2, ?_⟩
    by_cases hdel : e.isDeleting = true
    · left
      rw [DoFlushBuffer_deleting K q sequence bedata fence config flushCacheRet now e
        h.unlocked hf hdel] at hr
      simp only [Except.map, ne_eq, not_true_eq_false, if_false, Except.ok.injEq,
        Prod.mk.injEq, true_and] at hr
      subst hr
      refine ⟨hdel, ?_⟩
      dsimp only
      rw [cacheFind_erase, if_pos rfl]
    · right
      have hdel2 : e.isDeleting = false := by simpa using hdel
      by_cases hfc : (e.config.usage % 2 ^ 32).toNat &&& K.HBM_USE_CPU_WRITE ≠ 0 ∧
          flushCacheRet ≠ GSError.GSERROR_OK
      · rw [DoFlushBuffer_failed K q sequence bedata fence config flushCacheRet now e b
          h.unlocked hf hdel2 hb1 hfc] at hr
        simp only [Except.map, ne_eq, hfc.2, not_false_eq_true, if_true, Except.ok.injEq,
          Prod.mk.injEq] at hr
        exact hr.1.elim
      · rw [DoFlushBuffer_ok K q sequence bedata fence config flushCacheRet now e b
          h.unlocked hf hdel2 hb1 hfc] at hr
        simp only [Except.map, ne_eq, not_true_eq_false, if_false, Except.ok.injEq,
          Prod.mk.injEq, true_and] at hr
        exact ⟨hdel2, hr.symm⟩

/-- A request whose config is matched by the last entry of `freeList_` and by no entry before
it returns that entry. -/
theorem RequestBuffer_takes_last_free (K : SurfaceConsts) (q : BufferQueue)
    (config : BufferRequestConfig) (a : AllocOutcome) (free1 : List Int) (t : Int)
    (e : BufferElement) (h : InvN q)
    (hl : ¬ (q.listener_ = none ∧ q.listenerClazz_ = none))
    (hcfg : CheckRequestConfig K config = GSError.GSERROR_OK)
    (hfree : q.freeList_ = free1 ++ [t])
    (hf : cacheFind q.bufferQueueCache_ t = some e) (hc : e.config = config)
    (hno : ∀ x ∈ free1, ∀ ex, cacheFind q.bufferQueueCache_ x = some ex → ex.config ≠ config) :
    ∃ r, RequestBuffer K q config a = Except.ok r ∧ r.ret = GSError.GSERROR_OK ∧
      r.retval.sequence = t := by
  obtain ⟨hs, hu, hcore⟩ := h
  rw [RequestBuffer_eq_locked K q config a hu hl hcfg]
  obtain ⟨sh, qs, c, fl, dl, del, l1, l2, obr, obd, mu, dc, ac⟩ := q
  simp only at hs hu hcore hfree hf hno
  subst hs hu hfree
  obtain ⟨b, hb, hbs⟩ := hcore.buf t e hf
  rcases PopFromFreeList_nonShared K
    ⟨false, qs, c, free1 ++ [t], dl, del, l1, l2, obr, obd, true, dc, ac⟩ config rfl
    (fun s hs => (hcore.free_in s hs).imp fun e he => he.1) with
    ⟨h1, -⟩ | ⟨pre, s, post, es, h1, h2s, -, h4m, h5⟩
  · simp at h1
  · simp only at h1 h2s h4m
    have hsmem : s ∈ free1 ++ [t] := by rw [h1]; simp
    have hst : s = t := by
      by_contra hne
      have hsin : s ∈ free1 := by
        rcases List.mem_append.1 hsmem with h | h
        · exact h
        · exact absurd (List.mem_singleton.1 h) hne
      rcases h4m with h | ⟨-, h⟩
      · exact hno s hsin es h2s h
      · exact h t (by simp) e hf hc
    subst hst
    rw [hf] at h2s; cases h2s
    rw [hb] at h5
    rw [RequestBuffer.locked_reuse K _ _ _ _ _ _ _ h5,
      ReuseBuffer_same K _ _ _ _ _ b e rfl (by rw [hbs]; exact hf) hc]
    exact ⟨_, rfl, rfl, hbs⟩

/-- The round trip on a well-formed queue, from the state after the first request: when the
entry `S` is Requested with config `config`, no free entry has that config, and flush,
acquire and release of `S` succeed, the next request with `config` returns `S`. -/
theorem round_trip_from_requested (K : SurfaceConsts) (q1 : BufferQueue)
    (config : BufferRequestConfig) (a2 : AllocOutcome) (S : Int) (e1 : BufferElement)
    (bedata : Option BufferExtraData) (fence : Int) (fc : BufferFlushConfig) (fcr : GSError)
    (now : Int) (rfence : Int) (cbRet : GSError)
    (q2 : BufferQueue) (r3 : AcquireResult) (b3 : SurfaceBuffer) (q4 : BufferQueue)
    (hI1 : InvN q1) (hrel : q1.onBufferRelease = false)
    (hl1 : ¬ (q1.listener_ = none ∧ q1.listenerClazz_ = none))
    (hcfg : CheckRequestConfig K config = GSError.GSERROR_OK)
    (he1 : cacheFind q1.bufferQueueCache_ S = some e1) (hc1 : e1.config = config)
    (hnomatch : ∀ x ∈ q1.freeList_,
      (cacheFind q1.bufferQueueCache_ x).map BufferElement.config ≠ some config)
    (h2 : FlushBuffer K q1 S bedata fence fc fcr now = Except.ok (GSError.GSERROR_OK, q2))
    (h3 : AcquireBuffer K q2 = Except.ok r3) (h3ok : r3.ret = GSError.GSERROR_OK)
    (h3b : r3.buffer = some b3) (h3s : b3.seqNum = S)
    (h4 : ReleaseBuffer K r3.queue r3.buffer rfence cbRet =
      Except.ok (GSError.GSERROR_OK, q4)) :
    ∃ r5, RequestBuffer K q4 config a2 = Except.ok r5 ∧ r5.ret = GSError.GSERROR_OK ∧
      r5.retval.sequence = S := by
  obtain ⟨e, b, hf, hb, hbs, hcase⟩ := FlushBuffer_ok_cases K q1 S bedata fence fc fcr now q2
    hI1 hl1 h2
  rw [he1] at hf; cases hf
  have hI2 := (FlushBuffer_InvN K q1 S bedata fence fc fcr now _ hI1 h2).1
  dsimp only at hI2
  cases hd : q2.dirtyList_ with
  | nil =>
    rw [AcquireBuffer_nonShared_empty K q2 hI2.notShared hI2.unlocked hd] at h3
    cases h3
    cases h3ok
  | cons t rest =>
    obtain ⟨e2, hf2, -⟩ := hI2.core.dirty_in t (by rw [hd]; exact List.mem_cons_self _ _)
    obtain ⟨b2, hb2, hb2s⟩ := hI2.core.buf t e2 hf2
    have hI3 := (AcquireBuffer_InvN K q2 r3 hI2 h3).1
    rw [AcquireBuffer_nonShared_ok K q2 t rest e2 b2 hI2.notShared hI2.unlocked hd hf2 hb2
      hb2s] at h3
    cases h3
    simp only [Option.some.injEq] at h3b
    subst h3b
    have htS : t = S := by rw [← hb2s, h3s]
    subst htS
    rcases hcase with ⟨-, hnone⟩ | ⟨hdel, hq2⟩
    · rw [hnone] at hf2; cases hf2
    subst hq2
    dsimp only at hd hf2 hI3 h4
    have hf3 : cacheFind (cacheModify K
        (cacheModify K q1.bufferQueueCache_ t
          (fun e1 => { e1 with state := BufferState.BUFFER_STATE_FLUSHED,
                               buffer := some { b with extraData := bedata },
                               fence := some fence, damage := fc.damage,
                               timestamp := if fc.timestamp = 0 then now else fc.timestamp }))
        t (fun e1 => { e1 with state := BufferState.BUFFER_STATE_ACQUIRED })) t =
        some { e2 with state := BufferState.BUFFER_STATE_ACQUIRED } := by
      rw [cacheFind_modify, if_pos rfl, hf2]; rfl
    have he2 : e2 =
        { e1 with
          state := BufferState.BUFFER_STATE_FLUSHED,
          buffer := some { b with extraData := bedata },
          fence := some fence, damage := fc.damage,
          timestamp := if fc.timestamp = 0 then now else fc.timestamp } := by
      rw [cacheFind_modify, if_pos rfl, he1] at hf2
      simpa using hf2.symm
    have hI4 := (ReleaseBuffer_InvN K _ _ rfence cbRet _ hI3 h4).1
    rw [ReleaseBuffer_accepted K _ b2 rfence cbRet _ hI3.unlocked (by rw [h3s]; exact hf3)
      (Or.inr (Or.inl rfl))] at h4
    dsimp only at h4 hI4
    rw [if_neg (by rw [hrel]; simp), if_neg (by rw [he2]; simp [hdel])] at h4
    simp only [Except.ok.injEq, Prod.mk.injEq, true_and] at h4
    subst h4
    rw [h3s] at hI4 ⊢
    -- the entry of `t` after release, and the entries of the other free buffers
    have hf4 : ∃ e4, cacheFind (cacheModify K (cacheModify K
        (cacheModify K q1.bufferQueueCache_ t
          (fun e1 => { e1 with state := BufferState.BUFFER_STATE_FLUSHED,
                               buffer := some { b with extraData := bedata },
                               fence := some fence, damage := fc.damage,
                               timestamp := if fc.timestamp = 0 then now else fc.timestamp }))
        t (fun e1 => { e1 with state := BufferState.BUFFER_STATE_ACQUIRED }))
        t (fun e1 => { e1 with state := BufferState.BUFFER_STATE_RELEASED,
                               fence := some rfence })) t = some e4 ∧ e4.config = config := by
      refine ⟨_, by rw [cacheFind_modify, if_pos rfl], ?_⟩
      rw [hf3]
      simp only [Option.getD_some]
      rw [he2]
      exact hc1
    obtain ⟨e4, hf4, hc4⟩ := hf4
    have hother : ∀ x, x ≠ t → cacheFind (cacheModify K (cacheModify K
        (cacheModify K q1.bufferQueueCache_ t
          (fun e1 => { e1 with state := BufferState.BUFFER_STATE_FLUSHED,
                               buffer := some { b with extraData := bedata },
                               fence := some fence, damage := fc.damage,
                               timestamp := if fc.timestamp = 0 then now else fc.timestamp }))
        t (fun e1 => { e1 with state := BufferState.BUFFER_STATE_ACQUIRED }))
        t (fun e1 => { e1 with state := BufferState.BUFFER_STATE_RELEASED,
                               fence := some rfence })) x = cacheFind q1.bufferQueueCache_ x := by
      intro x hx
      rw [cacheFind_modify, if_neg hx, cacheFind_modify, if_neg hx, cacheFind_modify, if_neg hx]
    have hnd4 := hI4.core.free_nodup
    dsimp only at hnd4
    have htnot : t ∉ q1.freeList_ := by
      intro hm
      rw [List.nodup_append] at hnd4
      exact hnd4.2.2 hm (List.mem_singleton_self t)
    obtain ⟨b4, hb4, hb4s⟩ := hI4.core.buf t e4 hf4
    apply RequestBuffer_takes_last_free K _ config a2 q1.freeList_ t e4 hI4 hl1 hcfg rfl hf4 hc4
    intro x hx ex hex
    have hxt : x ≠ t := fun hh => htnot (hh ▸ hx)
    have hfx : cacheFind q1.bufferQueueCache_ x = some ex := by
      rw [← hother x hxt]; exact hex
    intro hh
    exact hnomatch x hx (by rw [hfx, Option.map_some', hh])

/-- C1 (as stated) fails: with two free buffers `0` and `1` of the same config, the request
returns buffer `0`; flush, acquire (which returns buffer `0`) and release succeed and put `0`
behind `1` in `freeList_`, so the next request with the identical config returns `1`. -/
theorem round_trip_counterexample :
    runReports sampleConsts (BufferQueue.ctor sampleConsts false) sameConfigRoundTripOps =
      Except.ok
        [(GSError.GSERROR_OK, none), (GSError.GSERROR_OK, some 0), (GSError.GSERROR_OK, some 1),
         (GSError.GSERROR_OK, none), (GSError.GSERROR_OK, none),
         (GSError.GSERROR_OK, some 0), (GSError.GSERROR_OK, none),
         (GSError.GSERROR_OK, some 0), (GSError.GSERROR_OK, none),
         (GSError.GSERROR_OK, some 1)] :=
  rfl

/-- C1 (amended): on a well-formed non-shared queue without release callback, if
`RequestBuffer(config)` succeeds with sequence `S1` (the allocator not reusing a cached
sequence number), no other entry left in `freeList_` has `config` cached, `FlushBuffer(S1)`
succeeds, `AcquireBuffer` returns the buffer `S1` and `ReleaseBuffer` of it succeeds, then the
next `RequestBuffer` with the same config returns Ok with sequence `S1`. -/
theorem round_trip_reuses_buffer (K : SurfaceConsts) (q : BufferQueue)
    (config : BufferRequestConfig) (a1 a2 : AllocOutcome)
    (bedata : Option BufferExtraData) (fence : Int) (fc : BufferFlushConfig) (fcr : GSError)
    (now : Int) (rfence : Int) (cbRet : GSError)
    (r1 : RequestResult) (q2 : BufferQueue) (r3 : AcquireResult) (b3 : SurfaceBuffer)
    (q4 : BufferQueue)
    (hinv : InvN q) (hrel : q.onBufferRelease = false)
    (hfresh : cacheFind q.bufferQueueCache_ a1.buffer.seqNum = none)
    (h1 : RequestBuffer K q config a1 = Except.ok r1) (h1ok : r1.ret = GSError.GSERROR_OK)
    (hnomatch : ∀ x ∈ r1.queue.freeList_,
      (cacheFind r1.queue.bufferQueueCache_ x).map BufferElement.config ≠ some config)
    (h2 : FlushBuffer K r1.queue r1.retval.sequence bedata fence fc fcr now =
      Except.ok (GSError.GSERROR_OK, q2))
    (h3 : AcquireBuffer K q2 = Except.ok r3) (h3ok : r3.ret = GSError.GSERROR_OK)
    (h3b : r3.buffer = some b3) (h3s : b3.seqNum = r1.retval.sequence)
    (h4 : ReleaseBuffer K r3.queue r3.buffer rfence cbRet =
      Except.ok (GSError.GSERROR_OK, q4)) :
    ∃ r5, RequestBuffer K q4 config a2 = Except.ok r5 ∧ r5.ret = GSError.GSERROR_OK ∧
      r5.retval.sequence = r1.retval.sequence := by
  obtain ⟨hI1, -, -⟩ := RequestBuffer_InvN K q config a1 r1 hinv hfresh h1
  obtain ⟨⟨e1, he1, -, hc1⟩, hl1, hrel1, hcfg⟩ :=
    RequestBuffer_ok_entry K q config a1 r1 hinv hfresh h1 h1ok
  exact round_trip_from_requested K r1.queue config a2 r1.retval.sequence e1 bedata fence fc
    fcr now rfence cbRet q2 r3 b3 q4 hI1 (hrel1.trans hrel) hl1 hcfg he1 hc1 hnomatch h2 h3 h3ok
    h3b h3s h4

/-- C1 (amended), witness: with `freeList_ = [0, 1]`, where only buffer `1` is cached with
800x600, the request for 800x600 returns `1`, and after flush, acquire and release the next
request for 800x600 returns `1` again. -/
theorem round_trip_reuses_buffer_witness :
    (RequestBuffer sampleConsts
        (runOr sampleConsts (BufferQueue.ctor sampleConsts false) twoFreeOps)
        (sampleConfig 800 600) (sampleAlloc 2 800 600)).toOption.map RequestResult.report =
      some (GSError.GSERROR_OK, 1, []) ∧
    ∃ r5, RequestBuffer sampleConsts
        (runOr sampleConsts (BufferQueue.ctor sampleConsts false) (twoFreeOps ++ cycleOneOps))
        (sampleConfig 800 600) (sampleAlloc 3 800 600) = Except.ok r5 ∧
      r5.ret = GSError.GSERROR_OK ∧ r5.retval.sequence = 1 :=
  ⟨rfl, round_trip_reuses_buffer sampleConsts
    (runOr sampleConsts (BufferQueue.ctor sampleConsts false) twoFreeOps)
    (sampleConfig 800 600) (sampleAlloc 2 800 600) (sampleAlloc 3 800 600) none (-1) sampleFlush
    GSError.GSERROR_OK 7 (-1) GSError.GSERROR_OK _ _ _ (sampleBuffer 1 800 600)
    (runOr sampleConsts (BufferQueue.ctor sampleConsts false) (twoFreeOps ++ cycleOneOps))
    (run_InvN sampleConsts _ _ twoFreeOps (ctor_InvN sampleConsts) (by decide) rfl).1
    rfl rfl rfl rfl (by decide) rfl rfl rfl rfl rfl rfl⟩

theorem RequestBuffer_shared_returns (K : SurfaceConsts) (q : BufferQueue)
    (config : BufferRequestConfig) (a : AllocOutcome) (h : InvS q) :
    ∃ r, RequestBuffer K q config a = Except.ok r := by
  obtain ⟨hs, hu, hsz, hcore⟩ := h
  by_cases hl : q.listener_ = none ∧ q.listenerClazz_ = none
  · unfold RequestBuffer
    rw [if_pos hl]
    exact ⟨_, rfl⟩
  by_cases hcfg : CheckRequestConfig K config = GSError.GSERROR_OK
  swap
  · unfold RequestBuffer
    rw [if_neg hl, if_pos hcfg]
    exact ⟨_, rfl⟩
  rw [RequestBuffer_eq_locked K q config a hu hl hcfg]
  obtain ⟨sh, qs, c, fl, dl, del, l1, l2, obr, obd, mu, dc, ac⟩ := q
  simp only at hs hu hcore hsz
  subst hs hu hsz
  cases c with
  | nil =>
    obtain ⟨hf1, hf2⟩ := hcore.lists_nil
    subst hf1 hf2
    rw [RequestBuffer.locked_of_pop_fail K _ _ _ _ _ (PopFromFreeList_nil K _ _ rfl rfl)
      (by simp)]
    by_cases ha : a.allocRet = GSError.GSERROR_OK ∧ a.mapRet = GSError.GSERROR_OK
    · rw [RequestBuffer.alloc_ok K _ _ _ _ _ ha.1 ha.2]
      exact ⟨_, rfl⟩
    · rw [RequestBuffer.alloc_fail K _ _ _ _ _ ha]
      exact ⟨_, rfl⟩
  | cons p rest =>
    obtain ⟨k, e⟩ := p
    have hfk := cacheFind_head k e rest
    obtain ⟨b, hb1, hb2⟩ := hcore.buf k e hfk
    subst hb2
    rw [RequestBuffer.locked_reuse K _ _ _ _ _ e.buffer _
      (PopFromFreeList_shared_head K _ _ b.seqNum e rest rfl rfl)]
    by_cases hc : e.config = config
    · rw [ReuseBuffer_same K _ _ _ _ _ b e hb1 hfk hc]
      exact ⟨_, rfl⟩
    · rw [ReuseBuffer_shared_mismatch K _ _ _ _ _ b e rfl hb1 hfk hc]
      exact ⟨_, rfl⟩

theorem FlushBuffer_shared_returns (K : SurfaceConsts) (q : BufferQueue) (sequence : Int)
    (bedata : Option BufferExtraData) (fence : Int) (config : BufferFlushConfig)
    (flushCacheRet : GSError) (now : Int) (h : InvS q) :
    ∃ r, FlushBuffer K q sequence bedata fence config flushCacheRet now = Except.ok r := by
  by_cases hck : CheckFlushConfig config = GSError.GSERROR_OK
  swap
  · obtain ⟨ret, -, -, h1⟩ := FlushBuffer_refused K q sequence bedata fence config flushCacheRet
      now h.unlocked (Or.inl hck)
    exact ⟨_, h1⟩
  cases hf : cacheFind q.bufferQueueCache_ sequence with
  | none =>
    obtain ⟨ret, -, -, h1⟩ := FlushBuffer_refused K q sequence bedata fence config flushCacheRet
      now h.unlocked (Or.inr (Or.inl hf))
    exact ⟨_, h1⟩
  | some e =>
    rw [FlushBuffer_accepted K q sequence bedata fence config flushCacheRet now e h.unlocked hck
      hf (Or.inl h.shared)]
    split
    · obtain ⟨ret, -, h1⟩ := CancelBuffer_refused K q sequence bedata h.unlocked
        (Or.inl h.shared)
      rw [h1]
      exact ⟨_, rfl⟩
    · obtain ⟨b, hb1, hb2⟩ := h.core.buf sequence e hf
      have hdel := h.core.noDel sequence e hf
      by_cases hfc : (e.config.usage % 2 ^ 32).toNat &&& K.HBM_USE_CPU_WRITE ≠ 0 ∧
          flushCacheRet ≠ GSError.GSERROR_OK
      · rw [DoFlushBuffer_failed K q sequence bedata fence config flushCacheRet now e b
          h.unlocked hf hdel hb1 hfc]
        exact ⟨_, rfl⟩
      · rw [DoFlushBuffer_ok K q sequence bedata fence config flushCacheRet now e b
          h.unlocked hf hdel hb1 hfc]
        exact ⟨_, rfl⟩

theorem AcquireBuffer_shared_returns (K : SurfaceConsts) (q : BufferQueue) (h : InvS q) :
    ∃ r, AcquireBuffer K q = Except.ok r := by
  obtain ⟨hs, hu, hsz, hcore⟩ := h
  obtain ⟨sh, qs, c, fl, dl, del, l1, l2, obr, obd, mu, dc, ac⟩ := q
  simp only at hs hu hcore hsz
  subst hs hu hsz
  cases c with
  | nil =>
    obtain ⟨hf1, hf2⟩ := hcore.lists_nil
    subst hf1 hf2
    have hp := PopFromDirtyList_nil K
      ⟨true, 1, [], [], [], del, l1, l2, obr, obd, true, dc, ac⟩ rfl rfl
    simp only [AcquireBuffer, lock, Bool.false_eq_true, if_false, hp, reduceCtorEq]
    exact ⟨_, rfl⟩
  | cons p rest =>
    obtain ⟨k, e⟩ := p
    have hfk := cacheFind_head k e rest
    obtain ⟨b, hb1, hb2⟩ := hcore.buf k e hfk
    subst hb2
    have hp := PopFromDirtyList_shared_head K
      ⟨true, 1, (b.seqNum, e) :: rest, fl, dl, del, l1, l2, obr, obd, true, dc, ac⟩
      b.seqNum e rest rfl rfl
    simp only [AcquireBuffer, lock, Bool.false_eq_true, if_false, hp, if_true, hb1]
    exact ⟨_, rfl⟩

theorem ReleaseBuffer_shared_returns (K : SurfaceConsts) (q : BufferQueue)
    (buffer : Option SurfaceBuffer) (fence : Int) (cbRet : GSError) (h : InvS q) :
    ∃ r, ReleaseBuffer K q buffer fence cbRet = Except.ok r := by
  cases buffer with
  | none =>
    obtain ⟨ret, -, h1⟩ := ReleaseBuffer_refused K q none fence cbRet h.unlocked (Or.inl rfl)
    exact ⟨_, h1⟩
  | some b =>
    cases hf : cacheFind q.bufferQueueCache_ b.seqNum with
    | none =>
      obtain ⟨ret, -, h1⟩ := ReleaseBuffer_refused K q (some b) fence cbRet h.unlocked
        (Or.inr ⟨b, rfl, Or.inl hf⟩)
      exact ⟨_, h1⟩
    | some e =>
      rw [ReleaseBuffer_accepted K q b fence cbRet e h.unlocked hf (Or.inl h.shared)]
      have hdel := h.core.noDel _ e hf
      split
      · exact ⟨_, rfl⟩
      · rw [if_neg (by simp [hdel])]
        exact ⟨_, rfl⟩

theorem SetQueueSize_shared_returns (K : SurfaceConsts) (q : BufferQueue) (n : Nat)
    (h : InvS q) : ∃ r, SetQueueSize K q n = Except.ok r := by
  unfold SetQueueSize
  split
  · exact ⟨_, rfl⟩
  · rename_i hn
    have hn1 : n = 1 := by
      by_contra hne
      exact hn ⟨h.shared, hne⟩
    subst hn1
    split
    · exact ⟨_, rfl⟩
    · split
      · exact ⟨_, rfl⟩
      · rw [h.size, toInt32_pow]
        simp only [DeleteBuffers, le_refl, if_true]
        exact ⟨_, rfl⟩

/-- Every call on a well-formed shared queue returns, whatever its arguments and whatever
the allocator answers. -/
theorem step_shared_returns (K : SurfaceConsts) (q : BufferQueue) (op : Op) (h : InvS q) :
    ∃ q1, step K q op = Except.ok q1 := by
  cases op with
  | requestBuffer config a =>
    obtain ⟨r, hr⟩ := RequestBuffer_shared_returns K q config a h
    exact ⟨r.queue, by simp only [step, hr]; rfl⟩
  | cancelBuffer sequence bedata =>
    obtain ⟨ret, -, h1⟩ := CancelBuffer_refused K q sequence bedata h.unlocked (Or.inl h.shared)
    exact ⟨q, by simp only [step, h1]; rfl⟩
  | flushBuffer sequence bedata fence config flushCacheRet now =>
    obtain ⟨r, hr⟩ := FlushBuffer_shared_returns K q sequence bedata fence config
      flushCacheRet now h
    exact ⟨r.2, by simp only [step, hr]; rfl⟩
  | acquireBuffer =>
    obtain ⟨r, hr⟩ := AcquireBuffer_shared_returns K q h
    exact ⟨r.queue, by simp only [step, hr]; rfl⟩
  | releaseBuffer buffer fence cbRet =>
    obtain ⟨r, hr⟩ := ReleaseBuffer_shared_returns K q buffer fence cbRet h
    exact ⟨r.2, by simp only [step, hr]; rfl⟩
  | attachBuffer buffer =>
    exact ⟨q, by simp only [step, AttachBuffer, h.shared, if_true]; rfl⟩
  | detachBuffer buffer =>
    exact ⟨q, by simp only [step, DetachBuffer, h.shared, if_true]; rfl⟩
  | setQueueSize n =>
    obtain ⟨r, hr⟩ := SetQueueSize_shared_returns K q n h
    exact ⟨r.2, by simp only [step, hr]; rfl⟩
  | cleanCache =>
    exact ⟨_, by simp only [step, CleanCache, lock_of_unlocked q h.unlocked]; rfl⟩
  | registerConsumerListener l => exact ⟨_, rfl⟩
  | registerConsumerListenerClazz l => exact ⟨_, rfl⟩
  | unregisterConsumerListener => exact ⟨_, rfl⟩
  | registerReleaseListener f => exact ⟨_, rfl⟩
  | registerDeleteBufferListener f =>
    simp only [step, RegisterDeleteBufferListener, lock_of_unlocked q h.unlocked]
    split <;> exact ⟨_, rfl⟩

/-- Every sequence of calls on a well-formed shared queue returns and leaves the queue
well-formed. -/
theorem run_shared_returns (K : SurfaceConsts) (q : BufferQueue) (ops : List Op) (h : InvS q) :
    ∃ q1, run K q ops = Except.ok q1 ∧ InvS q1 := by
  induction ops generalizing q with
  | nil => exact ⟨q, rfl, h⟩
  | cons op ops ih =>
    obtain ⟨q2, hs⟩ := step_shared_returns K q op h
    obtain ⟨q1, h1, h2⟩ := ih q2 (step_InvS K q q2 op h hs)
    exact ⟨q1, by simp only [run, hs, h1], h2⟩

/-- C10: every sequence of calls on a queue constructed with `isShared = true` returns,
whatever the arguments and whatever the allocator answers, and afterwards the queue size is
one and the cache holds at most one entry. -/
theorem shared_queue_single_buffer (K : SurfaceConsts) (ops : List Op) :
    ∃ q, run K (BufferQueue.ctor K true) ops = Except.ok q ∧
      q.isShared_ = true ∧ q.queueSize_ = 1 ∧ q.bufferQueueCache_.length ≤ 1 := by
  obtain ⟨q, hr, h⟩ := run_shared_returns K (BufferQueue.ctor K true) ops (ctor_InvS K)
  exact ⟨q, hr, h.shared, h.size, h.core.len⟩

/-- C10, witness: a run on a shared queue with a failing allocation, requests with two
configs, two flushes, acquire, release, refused attach, detach, cancel and resize ends with
one cache entry. -/
theorem shared_queue_single_buffer_witness :
    run sampleConsts (BufferQueue.ctor sampleConsts true) sharedOps =
        Except.ok (runOr sampleConsts (BufferQueue.ctor sampleConsts true) sharedOps) ∧
      (runOr sampleConsts (BufferQueue.ctor sampleConsts true)
        sharedOps).bufferQueueCache_.length = 1 ∧
      ∃ q, run sampleConsts (BufferQueue.ctor sampleConsts true) sharedOps = Except.ok q ∧
        q.isShared_ = true ∧ q.queueSize_ = 1 ∧ q.bufferQueueCache_.length ≤ 1 :=
  ⟨rfl, rfl, shared_queue_single_buffer sampleConsts sharedOps⟩

theorem cacheIndex_index (K : SurfaceConsts) (c : Cache) (k k2 : Int) :
    (cacheIndex K (cacheIndex K c k).2 k2).1 = (cacheIndex K c k2).1 := by
  rw [cacheIndex_fst, cacheIndex_fst, cacheFind_index]
  by_cases h : k2 = k
  · subst h; simp
  · simp [h]

theorem cacheFind_index_of_find (K : SurfaceConsts) (c : Cache) (k k2 : Int)
    (e : BufferElement) (h : cacheFind c k2 = some e) :
    cacheFind (cacheIndex K c k).2 k2 = some e := by
  rw [cacheFind_index]
  by_cases h2 : k2 = k
  · subst h2; simp [h]
  · simp [h2, h]

theorem cacheIndex_index_of (K : SurfaceConsts) (c1 c : Cache)
    (h : ∀ k, (cacheIndex K c1 k).1 = (cacheIndex K c k).1) (s : Int) :
    (cacheIndex K c1 s).1.buffer = (cacheIndex K c s).1.buffer := by
  rw [h s]

/-- The loop of `PopFromFreeList` on any cache: it stops at the first entry `s` for which
`bufferQueueCache_[s].config` equals `config`; the lookups leave every element as it reads. -/
theorem popMatching_general (K : SurfaceConsts) (config : BufferRequestConfig) (l : List Int)
    (c : Cache) :
    ((∀ k, (cacheIndex K (popMatching K config l c).2 k).1 = (cacheIndex K c k).1) ∧
      ∀ k e, cacheFind c k = some e → cacheFind (popMatching K config l c).2 k = some e) ∧
    (((popMatching K config l c).1 = none ∧
        ∀ s ∈ l, (cacheIndex K c s).1.config ≠ config) ∨
      ∃ pre s post, l = pre ++ s :: post ∧ (cacheIndex K c s).1.config = config ∧
        (∀ x ∈ pre, (cacheIndex K c x).1.config ≠ config) ∧
        (popMatching K config l c).1 = some ((cacheIndex K c s).1.buffer, pre ++ post)) := by
  induction l generalizing c with
  | nil =>
    exact ⟨⟨fun k => rfl, fun k e h => h⟩, Or.inl ⟨rfl, fun s hs => (by cases hs)⟩⟩
  | cons s rest ih =>
    by_cases hm : (cacheIndex K c s).1.config = config
    · have hp : popMatching K config (s :: rest) c =
          (some ((cacheIndex K c s).1.buffer, rest), (cacheIndex K c s).2) := by
        simp only [popMatching, hm, if_true]
      rw [hp]
      refine ⟨⟨fun k => cacheIndex_index K c s k,
        fun k e h => cacheFind_index_of_find K c s k e h⟩, Or.inr ⟨[], s, rest, rfl, hm, ?_, rfl⟩⟩
      intro x hx; cases hx
    · obtain ⟨⟨f1, f2⟩, hcase⟩ := ih (cacheIndex K c s).2
      rcases hcase with ⟨h1, h2⟩ | ⟨pre, t, post, h1, h2, h3, h4⟩
      · have hp : popMatching K config (s :: rest) c =
            (none, (popMatching K config rest (cacheIndex K c s).2).2) := by
          simp only [popMatching, hm, if_false]
          cases hq : popMatching K config rest (cacheIndex K c s).2 with
          | mk o c1 =>
            rw [hq] at h1
            simp only at h1
            subst h1
            rfl
        rw [hp]
        refine ⟨⟨fun k => ?_, fun k e h => ?_⟩, Or.inl ⟨rfl, ?_⟩⟩
        · rw [f1 k, cacheIndex_index]
        · exact f2 k e (cacheFind_index_of_find K c s k e h)
        · intro x hx
          rcases List.mem_cons.1 hx with hxs | hxr
          · subst hxs; exact hm
          · have := h2 x hxr
            rwa [cacheIndex_index] at this
      · have hp : popMatching K config (s :: rest) c =
            (some ((cacheIndex K c t).1.buffer, s :: (pre ++ post)),
              (popMatching K config rest (cacheIndex K c s).2).2) := by
          simp only [popMatching, hm, if_false]
          cases hq : popMatching K config rest (cacheIndex K c s).2 with
          | mk o c1 =>
            rw [hq] at h4
            simp only at h4
            subst h4
            simp only [cacheIndex_index]
        rw [hp]
        refine ⟨⟨fun k => ?_, fun k e h => ?_⟩,
          Or.inr ⟨s :: pre, t, post, by simp [h1], ?_, ?_, rfl⟩⟩
        · rw [f1 k, cacheIndex_index]
        · exact f2 k e (cacheFind_index_of_find K c s k e h)
        · rwa [cacheIndex_index] at h2
        · intro x hx
          rcases List.mem_cons.1 hx with hxs | hxr
          · subst hxs; exact hm
          · have := h3 x hxr
            rwa [cacheIndex_index] at this

/-- C3: on a non-shared queue whose `freeList_` is non-empty, `PopFromFreeList(config)`
splits `freeList_` as `pre ++ s :: post`, where `s` is the first entry for which
`bufferQueueCache_[s].config` equals `config`, or the head when no entry matches; it returns
Ok with the buffer of `bufferQueueCache_[s]` and leaves `pre ++ post` as `freeList_`.  No
other field changes but the cache, where present entries stay as they are, and which is
unchanged when every entry of `freeList_` is cached. -/
theorem PopFromFreeList_selects (K : SurfaceConsts) (q : BufferQueue)
    (config : BufferRequestConfig) (hs : q.isShared_ = false) (hne : q.freeList_ ≠ []) :
    ∃ pre s post, q.freeList_ = pre ++ s :: post ∧
      (∀ x ∈ pre, (cacheIndex K q.bufferQueueCache_ x).1.config ≠ config) ∧
      ((cacheIndex K q.bufferQueueCache_ s).1.config = config ∨
        (pre = [] ∧ ∀ x ∈ q.freeList_, (cacheIndex K q.bufferQueueCache_ x).1.config ≠ config)) ∧
      (PopFromFreeList K q config).1 = GSError.GSERROR_OK ∧
      (PopFromFreeList K q config).2.1 = (cacheIndex K q.bufferQueueCache_ s).1.buffer ∧
      (PopFromFreeList K q config).2.2 =
        { q with freeList_ := pre ++ post,
                 bufferQueueCache_ := (PopFromFreeList K q config).2.2.bufferQueueCache_ } ∧
      (∀ k e, cacheFind q.bufferQueueCache_ k = some e →
        cacheFind (PopFromFreeList K q config).2.2.bufferQueueCache_ k = some e) ∧
      ((∀ x ∈ q.freeList_, (cacheFind q.bufferQueueCache_ x).isSome = true) →
        (PopFromFreeList K q config).2.2.bufferQueueCache_ = q.bufferQueueCache_) := by
  have hcached : (∀ x ∈ q.freeList_, (cacheFind q.bufferQueueCache_ x).isSome = true) →
      (PopFromFreeList K q config).2.2.bufferQueueCache_ = q.bufferQueueCache_ := by
    intro hl
    rcases PopFromFreeList_nonShared K q config hs
      (fun s hs => Option.isSome_iff_exists.1 (hl s hs)) with ⟨h1, -⟩ | ⟨_, _, _, _, _, _, _, _, h⟩
    · exact absurd h1 hne
    · rw [h]
  revert hcached
  obtain ⟨⟨f1, f2⟩, hcase⟩ := popMatching_general K config q.freeList_ q.bufferQueueCache_
  unfold PopFromFreeList
  simp only [hs, Bool.false_eq_true, false_and, if_false]
  intro hcached
  rcases hcase with ⟨h1, h2⟩ | ⟨pre, t, post, h1, h2, h3, h4⟩
  · cases hq : popMatching K config q.freeList_ q.bufferQueueCache_ with
    | mk o c1 =>
      rw [hq] at h1 f1 f2 hcached
      simp only at h1 f1 f2
      subst h1
      cases hfl : q.freeList_ with
      | nil => exact absurd hfl hne
      | cons s rest =>
        simp only [hfl] at hcached
        refine ⟨[], s, rest, rfl, fun x hx => (by cases hx), Or.inr ⟨rfl, ?_⟩, rfl, ?_, rfl, ?_,
          ?_⟩
        · rw [← hfl]; exact h2
        · dsimp only
          rw [cacheIndex_index_of K c1 q.bufferQueueCache_ f1]
        · intro k e h
          exact cacheFind_index_of_find K c1 s k e (f2 k e h)
        · simpa using hcached
  · cases hq : popMatching K config q.freeList_ q.bufferQueueCache_ with
    | mk o c1 =>
      rw [hq] at h4 f1 f2 hcached
      simp only at h4 f1 f2
      subst h4
      refine ⟨pre, t, post, h1, h3, Or.inl h2, rfl, rfl, rfl, f2, ?_⟩
      simpa using hcached

/-- C3, witness: with `freeList_ = [0, 1]`, where buffer `0` is cached with 640x480 and buffer
`1` with 800x600, a pop for 800x600 returns buffer `1` and leaves `[0]`, and a pop for
1024x768, which no entry matches, returns the head `0` and leaves `[1]`. -/
theorem PopFromFreeList_selects_witness :
    (runOr sampleConsts (BufferQueue.ctor sampleConsts false) twoFreeOps).freeList_ = [0, 1] ∧
    PopFromFreeList sampleConsts
        (runOr sampleConsts (BufferQueue.ctor sampleConsts false) twoFreeOps)
        (sampleConfig 800 600) =
      (GSError.GSERROR_OK, some (sampleBuffer 1 800 600),
        { runOr sampleConsts (BufferQueue.ctor sampleConsts false) twoFreeOps with
          freeList_ := [0] }) ∧
    PopFromFreeList sampleConsts
        (runOr sampleConsts (BufferQueue.ctor sampleConsts false) twoFreeOps)
        (sampleConfig 1024 768) =
      (GSError.GSERROR_OK, some (sampleBuffer 0 640 480),
        { runOr sampleConsts (BufferQueue.ctor sampleConsts false) twoFreeOps with
          freeList_ := [1] }) ∧
    ∃ pre s post,
      (runOr sampleConsts (BufferQueue.ctor sampleConsts false) twoFreeOps).freeList_ =
        pre ++ s :: post ∧
      (∀ x ∈ pre, (cacheIndex sampleConsts (runOr sampleConsts
        (BufferQueue.ctor sampleConsts false) twoFreeOps).bufferQueueCache_ x).1.config ≠
          sampleConfig 800 600) ∧
      ((cacheIndex sampleConsts (runOr sampleConsts (BufferQueue.ctor sampleConsts false)
          twoFreeOps).bufferQueueCache_ s).1.config = sampleConfig 800 600 ∨
        (pre = [] ∧
          ∀ x ∈ (runOr sampleConsts (BufferQueue.ctor sampleConsts false) twoFreeOps).freeList_,
            (cacheIndex sampleConsts (runOr sampleConsts (BufferQueue.ctor sampleConsts false)
              twoFreeOps).bufferQueueCache_ x).1.config ≠ sampleConfig 800 600)) ∧
      (PopFromFreeList sampleConsts
          (runOr sampleConsts (BufferQueue.ctor sampleConsts false) twoFreeOps)
          (sampleConfig 800 600)).1 = GSError.GSERROR_OK ∧
      (PopFromFreeList sampleConsts
          (runOr sampleConsts (BufferQueue.ctor sampleConsts false) twoFreeOps)
          (sampleConfig 800 600)).2.1 =
        (cacheIndex sampleConsts (runOr sampleConsts (BufferQueue.ctor sampleConsts false)
          twoFreeOps).bufferQueueCache_ s).1.buffer ∧
      (PopFromFreeList sampleConsts
          (runOr sampleConsts (BufferQueue.ctor sampleConsts false) twoFreeOps)
          (sampleConfig 800 600)).2.2 =
        { runOr sampleConsts (BufferQueue.ctor sampleConsts false) twoFreeOps with
          freeList_ := pre ++ post,
          bufferQueueCache_ := (PopFromFreeList sampleConsts
            (runOr sampleConsts (BufferQueue.ctor sampleConsts false) twoFreeOps)
            (sampleConfig 800 600)).2.2.bufferQueueCache_ } ∧
      (∀ k e, cacheFind (runOr sampleConsts (BufferQueue.ctor sampleConsts false)
          twoFreeOps).bufferQueueCache_ k = some e →
        cacheFind (PopFromFreeList sampleConsts
          (runOr sampleConsts (BufferQueue.ctor sampleConsts false) twoFreeOps)
          (sampleConfig 800 600)).2.2.bufferQueueCache_ k = some e) ∧
      ((∀ x ∈ (runOr sampleConsts (BufferQueue.ctor sampleConsts false) twoFreeOps).freeList_,
          (cacheFind (runOr sampleConsts (BufferQueue.ctor sampleConsts false)
            twoFreeOps).bufferQueueCache_ x).isSome = true) →
        (PopFromFreeList sampleConsts
          (runOr sampleConsts (BufferQueue.ctor sampleConsts false) twoFreeOps)
          (sampleConfig 800 600)).2.2.bufferQueueCache_ =
          (runOr sampleConsts (BufferQueue.ctor sampleConsts false)
            twoFreeOps).bufferQueueCache_) :=
  ⟨rfl, rfl, rfl,
    PopFromFreeList_selects sampleConsts _ (sampleConfig 800 600) rfl (by decide)⟩

/-- C11: on a queue with the mutex free, for a cached entry `e` of `s` that is flagged
`isDeleting` and is in neither list: every `FlushBuffer` of `s` that is accepted (valid flush
config, a listener installed, and the queue shared or `e` Requested or Attached), and every
`ReleaseBuffer` of the buffer `s` that is accepted (the queue shared or `e` Acquired or
Attached) and not taken over by a release callback that returns Ok, returns Ok and leaves
`s` absent from the cache, from `freeList_` and from `dirtyList_`, which are unchanged, with
`s` appended to `deletingList_`. -/
theorem deleting_entry_dropped_on_flush_and_release (K : SurfaceConsts) (q : BufferQueue)
    (s : Int) (e : BufferElement) (hu : q.mutex_ = false)
    (hf : cacheFind q.bufferQueueCache_ s = some e) (hdel : e.isDeleting = true)
    (hfree : s ∉ q.freeList_) (hdirty : s ∉ q.dirtyList_) :
    (∀ bedata fence config flushCacheRet now,
      CheckFlushConfig config = GSError.GSERROR_OK →
      ¬ (q.listener_ = none ∧ q.listenerClazz_ = none) →
      (q.isShared_ = true ∨ e.state = BufferState.BUFFER_STATE_REQUESTED ∨
        e.state = BufferState.BUFFER_STATE_ATTACHED) →
      ∃ q1, FlushBuffer K q s bedata fence config flushCacheRet now =
          Except.ok (GSError.GSERROR_OK, q1) ∧
        cacheFind q1.bufferQueueCache_ s = none ∧
        q1.freeList_ = q.freeList_ ∧ q1.dirtyList_ = q.dirtyList_ ∧
        s ∉ q1.freeList_ ∧ s ∉ q1.dirtyList_ ∧
        q1.deletingList_ = q.deletingList_ ++ [s]) ∧
    (∀ b fence cbRet, b.seqNum = s →
      (q.isShared_ = true ∨ e.state = BufferState.BUFFER_STATE_ACQUIRED ∨
        e.state = BufferState.BUFFER_STATE_ATTACHED) →
      ¬ (q.onBufferRelease = true ∧ cbRet = GSError.GSERROR_OK) →
      ∃ q1, ReleaseBuffer K q (some b) fence cbRet = Except.ok (GSError.GSERROR_OK, q1) ∧
        cacheFind q1.bufferQueueCache_ s = none ∧
        q1.freeList_ = q.freeList_ ∧ q1.dirtyList_ = q.dirtyList_ ∧
        s ∉ q1.freeList_ ∧ s ∉ q1.dirtyList_ ∧
        q1.deletingList_ = q.deletingList_ ++ [s]) := by
  constructor
  · intro bedata fence config flushCacheRet now hck hl hst
    rw [FlushBuffer_accepted K q s bedata fence config flushCacheRet now e hu hck hf hst,
      if_neg hl, DoFlushBuffer_deleting K q s bedata fence config flushCacheRet now e hu hf hdel]
    refine ⟨_, rfl, ?_, rfl, rfl, hfree, hdirty, rfl⟩
    dsimp only
    rw [cacheFind_erase, if_pos rfl]
  · intro b fence cbRet hb hst hcb
    subst hb
    rw [ReleaseBuffer_accepted K q b fence cbRet e hu hf hst, if_neg hcb, if_pos hdel]
    refine ⟨_, rfl, ?_, rfl, rfl, hfree, hdirty, rfl⟩
    dsimp only
    rw [cacheFind_erase, if_pos rfl]

/-- C11, witness: after `flaggedOps` the three entries are flagged; flushing the Requested
buffer `1` and releasing the Acquired buffer `2` both return Ok and drop the entry, and the
theorem applies to the Attached buffer `0`, which may be flushed or released. -/
theorem deleting_entry_dropped_on_flush_and_release_witness :
    ((FlushBuffer sampleConsts
        (runOr sampleConsts (BufferQueue.ctor sampleConsts false) flaggedOps)
        1 none (-1) sampleFlush GSError.GSERROR_OK 7).toOption.map
      (fun r => (r.1, cacheKeys r.2.bufferQueueCache_, r.2.freeList_, r.2.dirtyList_,
        r.2.deletingList_))) = some (GSError.GSERROR_OK, [0, 2], [], [], [1]) ∧
    ((ReleaseBuffer sampleConsts
        (runOr sampleConsts (BufferQueue.ctor sampleConsts false) flaggedOps)
        (some (sampleBuffer 2 800 600)) (-1) GSError.GSERROR_OK).toOption.map
      (fun r => (r.1, cacheKeys r.2.bufferQueueCache_, r.2.freeList_, r.2.dirtyList_,
        r.2.deletingList_))) = some (GSError.GSERROR_OK, [0, 1], [], [], [2]) ∧
    ∃ q1, FlushBuffer sampleConsts
        (runOr sampleConsts (BufferQueue.ctor sampleConsts false) flaggedOps)
        0 none (-1) sampleFlush GSError.GSERROR_OK 7 = Except.ok (GSError.GSERROR_OK, q1) ∧
      cacheFind q1.bufferQueueCache_ 0 = none ∧
      q1.freeList_ =
        (runOr sampleConsts (BufferQueue.ctor sampleConsts false) flaggedOps).freeList_ ∧
      q1.dirtyList_ =
        (runOr sampleConsts (BufferQueue.ctor sampleConsts false) flaggedOps).dirtyList_ ∧
      (0 : Int) ∉ q1.freeList_ ∧ (0 : Int) ∉ q1.dirtyList_ ∧
      q1.deletingList_ =
        (runOr sampleConsts (BufferQueue.ctor sampleConsts false) flaggedOps).deletingList_ ++
          [0] :=
  ⟨rfl, rfl,
    (deleting_entry_dropped_on_flush_and_release sampleConsts
      (runOr sampleConsts (BufferQueue.ctor sampleConsts false) flaggedOps) 0
      { attachElement sampleConsts (sampleBuffer 0 800 600) with isDeleting := true }
      rfl rfl rfl (by decide) (by decide)).1 none (-1) sampleFlush GSError.GSERROR_OK 7
      (by decide) (by decide) (Or.inr (Or.inr rfl))⟩

/-- C12: with the mutex free and the entry of `sequence`, if cached, holding a buffer,
`CancelBuffer(sequence, bedata)` returns; the status is Ok exactly when the queue is not
shared and `sequence` is cached in state Requested.  In that case the entry becomes Released
with `bedata` stored on its buffer and nothing else of it changed, `sequence` is appended at
the tail of `freeList_`, and no other cache entry and no other field of the queue changes.
In every other case the queue is unchanged; the status is InvalidOperating on a shared
queue, NoEntry for a sequence that is not cached, InvalidOperating for another state. -/
theorem CancelBuffer_contract (K : SurfaceConsts) (q : BufferQueue) (sequence : Int)
    (bedata : Option BufferExtraData) (hu : q.mutex_ = false)
    (hbuf : (cacheFind q.bufferQueueCache_ sequence).map BufferElement.buffer ≠ some none) :
    ∃ ret q1, CancelBuffer K q sequence bedata = Except.ok (ret, q1) ∧
      (ret = GSError.GSERROR_OK ↔
        (q.isShared_ = false ∧ ∃ e, cacheFind q.bufferQueueCache_ sequence = some e ∧
          e.state = BufferState.BUFFER_STATE_REQUESTED)) ∧
      (ret = GSError.GSERROR_OK →
        ∃ e b, cacheFind q.bufferQueueCache_ sequence = some e ∧ e.buffer = some b ∧
          cacheFind q1.bufferQueueCache_ sequence =
            some { e with state := BufferState.BUFFER_STATE_RELEASED,
                          buffer := some { b with extraData := bedata } } ∧
          (∀ k, k ≠ sequence →
            cacheFind q1.bufferQueueCache_ k = cacheFind q.bufferQueueCache_ k) ∧
          q1.bufferQueueCache_.length = q.bufferQueueCache_.length ∧
          q1.freeList_ = q.freeList_ ++ [sequence] ∧
          q1.dirtyList_ = q.dirtyList_ ∧ q1.deletingList_ = q.deletingList_ ∧
          q1 = { q with bufferQueueCache_ := q1.bufferQueueCache_,
                        freeList_ := q1.freeList_ }) ∧
      (ret ≠ GSError.GSERROR_OK → q1 = q) ∧
      (q.isShared_ = true → ret = GSError.GSERROR_INVALID_OPERATING) ∧
      (q.isShared_ = false → cacheFind q.bufferQueueCache_ sequence = none →
        ret = GSError.GSERROR_NO_ENTRY) ∧
      (q.isShared_ = false → ∀ e, cacheFind q.bufferQueueCache_ sequence = some e →
        e.state ≠ BufferState.BUFFER_STATE_REQUESTED →
        ret = GSError.GSERROR_INVALID_OPERATING) := by
  obtain ⟨sh, qs, c, fl, dl, del, l1, l2, obr, obd, mu, dc, ac⟩ := q
  simp only at hu hbuf
  subst hu
  cases sh with
  | true =>
    refine ⟨GSError.GSERROR_INVALID_OPERATING,
      ⟨true, qs, c, fl, dl, del, l1, l2, obr, obd, false, dc, ac⟩, by simp [CancelBuffer],
      ?_, ?_, ?_, ?_, ?_, ?_⟩
    · constructor
      · intro h; cases h
      · rintro ⟨h, -⟩; cases h
    · intro h; cases h
    · intro _; rfl
    · intro _; rfl
    · intro h; cases h
    · intro h; cases h
  | false =>
    cases hf : cacheFind c sequence with
    | none =>
      refine ⟨GSError.GSERROR_NO_ENTRY,
        ⟨false, qs, c, fl, dl, del, l1, l2, obr, obd, false, dc, ac⟩,
        by simp [CancelBuffer, lock, unlock, hf], ?_, ?_, ?_, ?_, ?_, ?_⟩
      · constructor
        · intro h; cases h
        · rintro ⟨-, e, h, -⟩; cases h
      · intro h; cases h
      · intro _; rfl
      · intro h; cases h
      · intro _ _; rfl
      · intro _ e h; cases h
    | some e =>
      by_cases hst : e.state = BufferState.BUFFER_STATE_REQUESTED
      · cases hb : e.buffer with
        | none =>
          exfalso
          apply hbuf
          rw [hf, Option.map_some', hb]
        | some b =>
          have hc := CancelBuffer_ok K
            ⟨false, qs, c, fl, dl, del, l1, l2, obr, obd, false, dc, ac⟩ sequence bedata e b
            rfl rfl hf hst hb
          refine ⟨GSError.GSERROR_OK, _, hc, ?_, ?_, ?_, ?_, ?_, ?_⟩
          · exact ⟨fun _ => ⟨rfl, e, rfl, hst⟩, fun _ => rfl⟩
          · intro _
            refine ⟨e, b, rfl, hb, ?_, ?_, ?_, rfl, rfl, rfl, rfl⟩
            · dsimp only
              rw [cacheFind_modify, if_pos rfl, hf]
              rfl
            · intro k hk
              dsimp only
              rw [cacheFind_modify, if_neg hk]
            · dsimp only
              exact length_modify_of_find K c sequence _ e hf
          · intro h; exact absurd rfl h
          · intro h; cases h
          · intro _ h; cases h
          · intro _ e2 h2 h3
            cases h2
            exact absurd hst h3
      · refine ⟨GSError.GSERROR_INVALID_OPERATING,
          ⟨false, qs, c, fl, dl, del, l1, l2, obr, obd, false, dc, ac⟩,
          by simp [CancelBuffer, lock, unlock, hf, hst], ?_, ?_, ?_, ?_, ?_, ?_⟩
        · constructor
          · intro h; cases h
          · rintro ⟨-, e2, h2, h3⟩
            cases h2
            exact absurd h3 hst
        · intro h; cases h
        · intro _; rfl
        · intro h; cases h
        · intro _ h; cases h
        · intro _ _ _ _; rfl

/-- C12, witness: with buffers `0` and `1` held by the producer, `CancelBuffer(0)` returns
Ok and leaves `freeList_ = [0]`; the theorem applies to this call. -/
theorem CancelBuffer_contract_witness :
    ((CancelBuffer sampleConsts
        (runOr sampleConsts (BufferQueue.ctor sampleConsts false) twoRequestedOps)
        0 (some [("k", 3)])).toOption.map (fun r => (r.1, r.2.freeList_))) =
      some (GSError.GSERROR_OK, [0]) ∧
    ((CancelBuffer sampleConsts
        (runOr sampleConsts (BufferQueue.ctor sampleConsts true) sharedHeldOps)
        0 none).toOption.map (fun r => r.1)) = some GSError.GSERROR_INVALID_OPERATING ∧
    ∃ ret q1, CancelBuffer sampleConsts
        (runOr sampleConsts (BufferQueue.ctor sampleConsts false) twoRequestedOps)
        0 (some [("k", 3)]) = Except.ok (ret, q1) ∧ ret = GSError.GSERROR_OK ∧
      q1.freeList_ = [0] :=
  ⟨rfl, rfl,
    match CancelBuffer_contract sampleConsts
      (runOr sampleConsts (BufferQueue.ctor sampleConsts false) twoRequestedOps)
      0 (some [("k", 3)]) rfl (by decide) with
    | ⟨ret, q1, h1, h2, h3, _⟩ =>
      ⟨ret, q1, h1, h2.2 ⟨rfl, _, rfl, rfl⟩,
        match h3 (h2.2 ⟨rfl, _, rfl, rfl⟩) with
        | ⟨_, _, _, _, _, _, _, h4, _⟩ => h4⟩⟩

/-- C13: on a non-shared queue with the mutex free, `ReleaseBuffer(buffer, fence)` returns.
For a null buffer the status is InvalidArguments, and for a buffer whose sequence is not
cached, or cached in a state other than Acquired and Attached, it is NoEntry; the queue is
then unchanged.  For an accepted buffer the status is Ok: if a release callback is installed
and returns Ok, the queue is unchanged; otherwise the entry is made Released with the given
fence, and then, if it is not flagged `isDeleting`, its sequence is appended at the tail of
`freeList_`, and if it is flagged, the entry is deleted from the cache. -/
theorem ReleaseBuffer_contract (K : SurfaceConsts) (q : BufferQueue)
    (buffer : Option SurfaceBuffer) (fence : Int) (cbRet : GSError)
    (hs : q.isShared_ = false) (hu : q.mutex_ = false) :
    ∃ ret q1, ReleaseBuffer K q buffer fence cbRet = Except.ok (ret, q1) ∧
      (buffer = none → ret = GSError.GSERROR_INVALID_ARGUMENTS ∧ q1 = q) ∧
      (∀ b, buffer = some b →
        (cacheFind q.bufferQueueCache_ b.seqNum = none →
          ret = GSError.GSERROR_NO_ENTRY ∧ q1 = q) ∧
        (∀ e, cacheFind q.bufferQueueCache_ b.seqNum = some e →
          (e.state ≠ BufferState.BUFFER_STATE_ACQUIRED →
            e.state ≠ BufferState.BUFFER_STATE_ATTACHED →
            ret = GSError.GSERROR_NO_ENTRY ∧ q1 = q) ∧
          (e.state = BufferState.BUFFER_STATE_ACQUIRED ∨
              e.state = BufferState.BUFFER_STATE_ATTACHED →
            ret = GSError.GSERROR_OK ∧
            (q.onBufferRelease = true ∧ cbRet = GSError.GSERROR_OK → q1 = q) ∧
            (¬ (q.onBufferRelease = true ∧ cbRet = GSError.GSERROR_OK) →
              (e.isDeleting = false →
                q1 = { q with
                       bufferQueueCache_ := cacheModify K q.bufferQueueCache_ b.seqNum
                         (fun e1 => { e1 with state := BufferState.BUFFER_STATE_RELEASED,
                                              fence := some fence }),
                       freeList_ := q.freeList_ ++ [b.seqNum] } ∧
                cacheFind q1.bufferQueueCache_ b.seqNum =
                  some { e with state := BufferState.BUFFER_STATE_RELEASED,
                                fence := some fence } ∧
                (∀ k, k ≠ b.seqNum →
                  cacheFind q1.bufferQueueCache_ k = cacheFind q.bufferQueueCache_ k)) ∧
              (e.isDeleting = true →
                q1 = DeleteBufferInCache
                  { q with
                    bufferQueueCache_ := cacheModify K q.bufferQueueCache_ b.seqNum
                      (fun e1 => { e1 with state := BufferState.BUFFER_STATE_RELEASED,
                                           fence := some fence }) } b.seqNum ∧
                cacheFind q1.bufferQueueCache_ b.seqNum = none ∧
                q1.freeList_ = q.freeList_ ∧
                q1.deletingList_ = q.deletingList_ ++ [b.seqNum]))))) := by
  cases buffer with
  | none =>
    refine ⟨GSError.GSERROR_INVALID_ARGUMENTS, q, rfl, fun _ => ⟨rfl, rfl⟩, ?_⟩
    intro b hb; cases hb
  | some b =>
    cases hf : cacheFind q.bufferQueueCache_ b.seqNum with
    | none =>
      have h1 : ReleaseBuffer K q (some b) fence cbRet =
          Except.ok (GSError.GSERROR_NO_ENTRY, q) := by
        obtain ⟨sh, qs, c, fl, dl, del, l1, l2, obr, obd, mu, dc, ac⟩ := q
        simp only at hu hf
        subst hu
        simp [ReleaseBuffer, lock, unlock, hf]
      refine ⟨_, _, h1, fun h => (by cases h), ?_⟩
      intro b2 hb2
      cases hb2
      refine ⟨fun _ => ⟨rfl, rfl⟩, ?_⟩
      intro e he
      rw [hf] at he; cases he
    | some e =>
      by_cases hst : e.state = BufferState.BUFFER_STATE_ACQUIRED ∨
          e.state = BufferState.BUFFER_STATE_ATTACHED
      · have hacc := ReleaseBuffer_accepted K q b fence cbRet e hu hf (Or.inr hst)
        by_cases hcb : q.onBufferRelease = true ∧ cbRet = GSError.GSERROR_OK
        · rw [if_pos hcb] at hacc
          refine ⟨_, _, hacc, fun h => (by cases h), ?_⟩
          intro b2 hb2
          cases hb2
          refine ⟨fun h => (by rw [hf] at h; cases h), ?_⟩
          intro e2 he2
          rw [hf] at he2; cases he2
          refine ⟨fun h1 h2 => ?_, fun _ => ⟨rfl, fun _ => rfl, fun h => absurd hcb h⟩⟩
          rcases hst with h | h
          · exact absurd h h1
          · exact absurd h h2
        · rw [if_neg hcb] at hacc
          by_cases hdel : e.isDeleting = true
          · rw [if_pos hdel] at hacc
            refine ⟨_, _, hacc, fun h => (by cases h), ?_⟩
            intro b2 hb2
            cases hb2
            refine ⟨fun h => (by rw [hf] at h; cases h), ?_⟩
            intro e2 he2
            rw [hf] at he2; cases he2
            refine ⟨fun h1 h2 => ?_, fun _ => ⟨rfl, fun h => absurd h hcb, fun _ => ⟨?_, ?_⟩⟩⟩
            · rcases hst with h | h
              · exact absurd h h1
              · exact absurd h h2
            · intro h; rw [hdel] at h; cases h
            · intro _
              have h2 : cacheFind (cacheModify K q.bufferQueueCache_ b.seqNum
                  (fun e1 => { e1 with state := BufferState.BUFFER_STATE_RELEASED,
                                       fence := some fence })) b.seqNum =
                  some { e with state := BufferState.BUFFER_STATE_RELEASED,
                                fence := some fence } := by
                rw [cacheFind_modify]; simp [hf]
              refine ⟨?_, ?_, rfl, rfl⟩
              · rw [DeleteBufferInCache_of_find _ b.seqNum _ h2]
                dsimp only
                rw [cacheErase_modify K q.bufferQueueCache_ b.seqNum _ e hf]
              · dsimp only
                rw [cacheFind_erase, if_pos rfl]
          · rw [if_neg hdel] at hacc
            refine ⟨_, _, hacc, fun h => (by cases h), ?_⟩
            intro b2 hb2
            cases hb2
            refine ⟨fun h => (by rw [hf] at h; cases h), ?_⟩
            intro e2 he2
            rw [hf] at he2; cases he2
            refine ⟨fun h1 h2 => ?_, fun _ => ⟨rfl, fun h => absurd h hcb, fun _ => ⟨?_, ?_⟩⟩⟩
            · rcases hst with h | h
              · exact absurd h h1
              · exact absurd h h2
            · intro _
              refine ⟨rfl, ?_, ?_⟩
              · dsimp only
                rw [cacheFind_modify, if_pos rfl, hf]
                rfl
              · intro k hk
                dsimp only
                rw [cacheFind_modify, if_neg hk]
            · intro h; exact absurd h hdel
      · have hst2 : e.state ≠ BufferState.BUFFER_STATE_ACQUIRED ∧
            e.state ≠ BufferState.BUFFER_STATE_ATTACHED :=
          ⟨fun h => hst (Or.inl h), fun h => hst (Or.inr h)⟩
        have h1 : ReleaseBuffer K q (some b) fence cbRet =
            Except.ok (GSError.GSERROR_NO_ENTRY, q) := by
          obtain ⟨sh, qs, c, fl, dl, del, l1, l2, obr, obd, mu, dc, ac⟩ := q
          simp only at hu hf hs
          subst hu hs
          simp [ReleaseBuffer, lock, unlock, hf, hst2.1, hst2.2]
        refine ⟨_, _, h1, fun h => (by cases h), ?_⟩
        intro b2 hb2
        cases hb2
        refine ⟨fun h => (by rw [hf] at h; cases h), ?_⟩
        intro e2 he2
        rw [hf] at he2; cases he2
        exact ⟨fun _ _ => ⟨rfl, rfl⟩, fun h => absurd h hst⟩

/-- C13, witness: a null buffer is refused with InvalidArguments and buffer `5`, which is
not cached, with NoEntry; with a release callback that returns Ok the queue is unchanged;
releasing the flagged buffer `2` of `flaggedOps` deletes it; and releasing the Acquired
buffer `0`, to which the theorem is applied, returns Ok and leaves `freeList_ = [0]`. -/
theorem ReleaseBuffer_contract_witness :
    ReleaseBuffer sampleConsts
        (runOr sampleConsts (BufferQueue.ctor sampleConsts false) acquiredOps) none 9
        GSError.GSERROR_OK =
      Except.ok (GSError.GSERROR_INVALID_ARGUMENTS,
        runOr sampleConsts (BufferQueue.ctor sampleConsts false) acquiredOps) ∧
    ReleaseBuffer sampleConsts
        (runOr sampleConsts (BufferQueue.ctor sampleConsts false) acquiredOps)
        (some (sampleBuffer 5 800 600)) 9 GSError.GSERROR_OK =
      Except.ok (GSError.GSERROR_NO_ENTRY,
        runOr sampleConsts (BufferQueue.ctor sampleConsts false) acquiredOps) ∧
    ReleaseBuffer sampleConsts
        (runOr sampleConsts (BufferQueue.ctor sampleConsts false)
          (acquiredOps ++ [Op.registerReleaseListener true]))
        (some (sampleBuffer 0 800 600)) 9 GSError.GSERROR_OK =
      Except.ok (GSError.GSERROR_OK,
        runOr sampleConsts (BufferQueue.ctor sampleConsts false)
          (acquiredOps ++ [Op.registerReleaseListener true])) ∧
    ((ReleaseBuffer sampleConsts
        (runOr sampleConsts (BufferQueue.ctor sampleConsts false) flaggedOps)
        (some (sampleBuffer 2 800 600)) 9 GSError.GSERROR_API_FAILED).toOption.map
      (fun r => (r.1, cacheKeys r.2.bufferQueueCache_, r.2.freeList_, r.2.deletingList_))) =
      some (GSError.GSERROR_OK, [0, 1], [], [2]) ∧
    ∃ ret q1, ReleaseBuffer sampleConsts
        (runOr sampleConsts (BufferQueue.ctor sampleConsts false) acquiredOps)
        (some (sampleBuffer 0 800 600)) 9 GSError.GSERROR_OK = Except.ok (ret, q1) ∧
      ret = GSError.GSERROR_OK ∧ q1.freeList_ = [0] ∧
      (cacheFind q1.bufferQueueCache_ 0).map (fun e => (e.state, e.fence)) =
        some (BufferState.BUFFER_STATE_RELEASED, some 9) :=
  ⟨rfl, rfl, rfl, rfl,
    match ReleaseBuffer_contract sampleConsts
      (runOr sampleConsts (BufferQueue.ctor sampleConsts false) acquiredOps)
      (some (sampleBuffer 0 800 600)) 9 GSError.GSERROR_OK rfl rfl with
    | ⟨ret, q1, h1, _, h3⟩ =>
      match ((h3 (sampleBuffer 0 800 600) rfl).2 _ rfl).2 (Or.inl rfl) with
      | ⟨h4, _, h5⟩ =>
        match (h5 (by decide)).1 rfl with
        | ⟨h6, h7, _⟩ =>
          ⟨ret, q1, h1, h4, (congrArg BufferQueue.freeList_ h6).trans rfl,
            (congrArg (Option.map (fun e => (e.state, e.fence))) h7).trans rfl⟩⟩

/-- C14: on a non-shared queue with the mutex free and neither listener installed,
`FlushBuffer` with a valid flush config on a cached sequence in state Requested, whose entry
holds a buffer, returns NoConsumer; afterwards the entry is Released, with fence, damage,
timestamp, config and flag unchanged, the sequence is at the tail of `freeList_`, and
`dirtyList_`, `deletingList_` and the other cache entries are unchanged. -/
theorem FlushBuffer_without_consumer_is_undone (K : SurfaceConsts) (q : BufferQueue)
    (sequence : Int) (bedata : Option BufferExtraData) (fence : Int)
    (config : BufferFlushConfig) (flushCacheRet : GSError) (now : Int)
    (e : BufferElement) (b : SurfaceBuffer)
    (hs : q.isShared_ = false) (hu : q.mutex_ = false)
    (hl : q.listener_ = none ∧ q.listenerClazz_ = none)
    (hck : CheckFlushConfig config = GSError.GSERROR_OK)
    (hf : cacheFind q.bufferQueueCache_ sequence = some e)
    (hst : e.state = BufferState.BUFFER_STATE_REQUESTED) (hb : e.buffer = some b) :
    ∃ q1 e1, FlushBuffer K q sequence bedata fence config flushCacheRet now =
        Except.ok (GSError.GSERROR_NO_CONSUMER, q1) ∧
      cacheFind q1.bufferQueueCache_ sequence = some e1 ∧
      e1.state = BufferState.BUFFER_STATE_RELEASED ∧
      e1.fence = e.fence ∧ e1.damage = e.damage ∧ e1.timestamp = e.timestamp ∧
      e1.config = e.config ∧ e1.isDeleting = e.isDeleting ∧
      e1.buffer = some { b with extraData := bedata } ∧
      q1.freeList_ = q.freeList_ ++ [sequence] ∧
      q1.dirtyList_ = q.dirtyList_ ∧ q1.deletingList_ = q.deletingList_ ∧
      (∀ k, k ≠ sequence →
        cacheFind q1.bufferQueueCache_ k = cacheFind q.bufferQueueCache_ k) := by
  rw [FlushBuffer_accepted K q sequence bedata fence config flushCacheRet now e hu hck hf
    (Or.inr (Or.inl hst)), if_pos hl, CancelBuffer_ok K q sequence bedata e b hs hu hf hst hb]
  refine ⟨_, { e with state := BufferState.BUFFER_STATE_RELEASED,
                      buffer := some { b with extraData := bedata } }, rfl, ?_,
    rfl, rfl, rfl, rfl, rfl, rfl, rfl, rfl, rfl, rfl, ?_⟩
  · dsimp only
    rw [cacheFind_modify, if_pos rfl, hf]
    rfl
  · intro k hk
    dsimp only
    rw [cacheFind_modify, if_neg hk]

/-- C14, witness: after buffer `0` is requested and the listener unregistered, flushing `0`
returns NoConsumer and leaves the entry Released with `freeList_ = [0]`. -/
theorem FlushBuffer_without_consumer_is_undone_witness :
    ((FlushBuffer sampleConsts
        (runOr sampleConsts (BufferQueue.ctor sampleConsts false) noListenerOps)
        0 none 9 sampleFlush GSError.GSERROR_OK 7).toOption.map
      (fun r => (r.1, r.2.freeList_, r.2.dirtyList_))) =
      some (GSError.GSERROR_NO_CONSUMER, [0], []) ∧
    ∃ q1 e1, FlushBuffer sampleConsts
        (runOr sampleConsts (BufferQueue.ctor sampleConsts false) noListenerOps)
        0 none 9 sampleFlush GSError.GSERROR_OK 7 =
        Except.ok (GSError.GSERROR_NO_CONSUMER, q1) ∧
      cacheFind q1.bufferQueueCache_ 0 = some e1 ∧
      e1.state = BufferState.BUFFER_STATE_RELEASED ∧
      e1.fence = some (-1) ∧ e1.damage = { x := 0, y := 0, w := 0, h := 0 } ∧
      e1.timestamp = 0 ∧ q1.freeList_ = [0] ∧ q1.dirtyList_ = [] :=
  ⟨rfl,
    match FlushBuffer_without_consumer_is_undone sampleConsts
      (runOr sampleConsts (BufferQueue.ctor sampleConsts false) noListenerOps)
      0 none 9 sampleFlush GSError.GSERROR_OK 7
      (allocElement (sampleConfig 800 600) (sampleBuffer 0 800 600)) (sampleBuffer 0 800 600)
      rfl rfl (by decide) (by decide) rfl rfl rfl with
    | ⟨q1, e1, h1, h2, h3, h4, h5, h6, _, _, _, h7, h8, _⟩ =>
      ⟨q1, e1, h1, h2, h3, h4, h5, h6, h7, h8⟩⟩

/-- C15: whenever neither consumer listener is installed, `RequestBuffer` returns NoConsumer
for every config, valid or not, and whatever the allocator would answer; it hands out no
buffer and leaves the whole queue unchanged.  This is the case for a newly constructed
queue and after `UnregisterConsumerListener`, which clears both listeners and changes
nothing else. -/
theorem RequestBuffer_without_consumer (K : SurfaceConsts) (q : BufferQueue)
    (config : BufferRequestConfig) (a : AllocOutcome)
    (hl : q.listener_ = none ∧ q.listenerClazz_ = none) :
    RequestBuffer K q config a =
        Except.ok { ret := GSError.GSERROR_NO_CONSUMER, bedata := none, retval := emptyRetval,
                    queue := q } ∧
      emptyRetval.buffer = none ∧
      (∀ isShared, RequestBuffer K (BufferQueue.ctor K isShared) config a =
        Except.ok { ret := GSError.GSERROR_NO_CONSUMER, bedata := none, retval := emptyRetval,
                    queue := BufferQueue.ctor K isShared }) ∧
      (∀ q0 : BufferQueue,
        (UnregisterConsumerListener q0).2 =
          { q0 with listener_ := none, listenerClazz_ := none } ∧
        RequestBuffer K (UnregisterConsumerListener q0).2 config a =
          Except.ok { ret := GSError.GSERROR_NO_CONSUMER, bedata := none,
                      retval := emptyRetval, queue := (UnregisterConsumerListener q0).2 }) := by
  have key : ∀ q2 : BufferQueue, q2.listener_ = none ∧ q2.listenerClazz_ = none →
      RequestBuffer K q2 config a =
        Except.ok { ret := GSError.GSERROR_NO_CONSUMER, bedata := none, retval := emptyRetval,
                    queue := q2 } := by
    intro q2 h2
    unfold RequestBuffer
    rw [if_pos h2]
  refine ⟨key q hl, rfl, fun isShared => key _ ⟨rfl, rfl⟩, fun q0 => ⟨rfl, key _ ⟨rfl, rfl⟩⟩⟩

/-- C15, witness: after buffer `0` is requested and the listener unregistered, a request
with a valid config and a request with width zero both return NoConsumer and leave the
queue as it was. -/
theorem RequestBuffer_without_consumer_witness :
    (RequestBuffer sampleConsts
        (runOr sampleConsts (BufferQueue.ctor sampleConsts false) noListenerOps)
        (sampleConfig 0 600) (sampleAlloc 1 0 600)).toOption.map (fun r => r.ret) =
      some GSError.GSERROR_NO_CONSUMER ∧
    RequestBuffer sampleConsts
        (runOr sampleConsts (BufferQueue.ctor sampleConsts false) noListenerOps)
        (sampleConfig 800 600) (sampleAlloc 1 800 600) =
      Except.ok { ret := GSError.GSERROR_NO_CONSUMER, bedata := none, retval := emptyRetval,
                  queue := runOr sampleConsts (BufferQueue.ctor sampleConsts false)
                    noListenerOps } :=
  ⟨rfl, (RequestBuffer_without_consumer sampleConsts
    (runOr sampleConsts (BufferQueue.ctor sampleConsts false) noListenerOps)
    (sampleConfig 800 600) (sampleAlloc 1 800 600) (by decide)).1⟩

theorem land_pred_eq_zero_iff (n : Nat) (hn : 0 < n) :
    n &&& (n - 1) = 0 ↔ ∃ k : Nat, n = 2 ^ k := by
  induction n using Nat.strong_induction_on with
  | _ n ih =>
    have hpar : (n &&& (n - 1)) % 2 = 0 := by
      rcases Nat.mod_two_eq_zero_or_one (n &&& (n - 1)) with h | h
      · exact h
      · rw [Nat.and_mod_two_eq_one] at h
        omega
    have hzero : n &&& (n - 1) = 0 ↔ (n / 2) &&& ((n - 1) / 2) = 0 := by
      rw [← Nat.and_div_two]
      omega
    rw [hzero]
    rcases Nat.mod_two_eq_zero_or_one n with he | ho
    · -- n even
      have h2 : (n - 1) / 2 = n / 2 - 1 := by omega
      rw [h2, ih (n / 2) (by omega) (by omega)]
      constructor
      · rintro ⟨k, hk⟩
        exact ⟨k + 1, by rw [pow_succ]; omega⟩
      · rintro ⟨k, hk⟩
        cases k with
        | zero => simp at hk; omega
        | succ k =>
          refine ⟨k, ?_⟩
          rw [pow_succ] at hk
          omega
    · -- n odd
      have h2 : (n - 1) / 2 = n / 2 := by omega
      rw [h2, Nat.and_self]
      constructor
      · intro h
        exact ⟨0, by simp; omega⟩
      · rintro ⟨k, hk⟩
        cases k with
        | zero => simp at hk; omega
        | succ k =>
          rw [pow_succ] at hk
          omega

theorem CheckRequestConfig_ok_or_invalid (K : SurfaceConsts) (config : BufferRequestConfig) :
    CheckRequestConfig K config = GSError.GSERROR_OK ∨
      CheckRequestConfig K config = GSError.GSERROR_INVALID_ARGUMENTS := by
  unfold CheckRequestConfig
  dsimp only
  split_ifs <;> simp

/-- The `uint32_t` copy of an `int32_t` stride alignment lies between the two bounds exactly
when the signed value does, and then both are the same positive number. -/
theorem align_in_range_iff (K : SurfaceConsts) (sa : Int)
    (hmax : K.SURFACE_MAX_STRIDE_ALIGNMENT < 2 ^ 31)
    (hmin : 1 ≤ K.SURFACE_MIN_STRIDE_ALIGNMENT)
    (hint : -2 ^ 31 ≤ sa ∧ sa < 2 ^ 31) :
    (K.SURFACE_MIN_STRIDE_ALIGNMENT ≤ (sa % 2 ^ 32).toNat ∧
        K.SURFACE_MAX_STRIDE_ALIGNMENT ≥ (sa % 2 ^ 32).toNat) ↔
      ((K.SURFACE_MIN_STRIDE_ALIGNMENT : Int) ≤ sa ∧
        sa ≤ (K.SURFACE_MAX_STRIDE_ALIGNMENT : Int)) := by
  omega

theorem align_of_in_range (K : SurfaceConsts) (sa : Int)
    (hmax : K.SURFACE_MAX_STRIDE_ALIGNMENT < 2 ^ 31)
    (hmin : 1 ≤ K.SURFACE_MIN_STRIDE_ALIGNMENT)
    (h : (K.SURFACE_MIN_STRIDE_ALIGNMENT : Int) ≤ sa ∧
      sa ≤ (K.SURFACE_MAX_STRIDE_ALIGNMENT : Int)) :
    0 < (sa % 2 ^ 32).toNat ∧ ((sa % 2 ^ 32).toNat : Int) = sa ∧
      ((sa % 2 ^ 32).toNat + 2 ^ 32 - 1) % 2 ^ 32 = (sa % 2 ^ 32).toNat - 1 := by
  omega

theorem pow_two_cast_iff (n : Nat) (sa : Int) (h : (n : Int) = sa) :
    (∃ k : Nat, n = 2 ^ k) ↔ ∃ k : Nat, sa = 2 ^ k := by
  constructor
  · rintro ⟨k, hk⟩
    exact ⟨k, by rw [← h, hk]; push_cast; rfl⟩
  · rintro ⟨k, hk⟩
    refine ⟨k, ?_⟩
    have : (n : Int) = ((2 ^ k : Nat) : Int) := by rw [h, hk]; push_cast; rfl
    exact_mod_cast this

/-- C16: with stride bounds `1 ≤ SURFACE_MIN_STRIDE_ALIGNMENT` and
`SURFACE_MAX_STRIDE_ALIGNMENT < 2^31`, for every config whose `strideAlignment` is an
`int32_t` value and whose colorGamut, transform and scalingMode are valid enumerators,
`CheckRequestConfig` returns Ok if and only if width and height are positive,
`strideAlignment` lies between the two bounds and is a power of two, and
`0 ≤ format ≤ PIXEL_FMT_BUTT`; otherwise it returns InvalidArguments. -/
theorem CheckRequestConfig_size_stride_format (K : SurfaceConsts)
    (config : BufferRequestConfig)
    (hmin : 1 ≤ K.SURFACE_MIN_STRIDE_ALIGNMENT)
    (hmax : K.SURFACE_MAX_STRIDE_ALIGNMENT < 2 ^ 31)
    (hint : -2 ^ 31 ≤ config.strideAlignment ∧ config.strideAlignment < 2 ^ 31)
    (hg : K.COLOR_GAMUT_INVALID < config.colorGamut ∧
      config.colorGamut ≤ K.COLOR_GAMUT_DISPLAY_BT2020)
    (ht : K.ROTATE_NONE ≤ config.transform ∧ config.transform < K.ROTATE_BUTT)
    (hsm : K.SCALING_MODE_FREEZE ≤ config.scalingMode ∧
      config.scalingMode ≤ K.SCALING_MODE_NO_SCALE_CROP) :
    (CheckRequestConfig K config = GSError.GSERROR_OK ↔
      (0 < config.width ∧ 0 < config.height ∧
        (K.SURFACE_MIN_STRIDE_ALIGNMENT : Int) ≤ config.strideAlignment ∧
        config.strideAlignment ≤ (K.SURFACE_MAX_STRIDE_ALIGNMENT : Int) ∧
        (∃ k : Nat, config.strideAlignment = 2 ^ k) ∧
        0 ≤ config.format ∧ config.format ≤ K.PIXEL_FMT_BUTT)) ∧
    (CheckRequestConfig K config ≠ GSError.GSERROR_OK →
      CheckRequestConfig K config = GSError.GSERROR_INVALID_ARGUMENTS) := by
  refine ⟨?_, fun h => (CheckRequestConfig_ok_or_invalid K config).resolve_left h⟩
  have hrange := align_in_range_iff K config.strideAlignment hmax hmin hint
  unfold CheckRequestConfig
  dsimp only
  by_cases h1 : config.width ≤ 0 ∨ config.height ≤ 0
  · rw [if_pos h1]
    constructor
    · intro h; cases h
    · rintro ⟨hw, hh, -⟩
      omega
  rw [if_neg h1]
  by_cases h2 : K.SURFACE_MIN_STRIDE_ALIGNMENT ≤ (config.strideAlignment % 2 ^ 32).toNat ∧
      K.SURFACE_MAX_STRIDE_ALIGNMENT ≥ (config.strideAlignment % 2 ^ 32).toNat
  swap
  · rw [if_pos h2]
    constructor
    · intro h; cases h
    · rintro ⟨-, -, h3, h4, -⟩
      exact absurd (hrange.2 ⟨h3, h4⟩) h2
  rw [if_neg (not_not.2 h2)]
  have h2i := hrange.1 h2
  obtain ⟨hpos, hcast, hpred⟩ := align_of_in_range K config.strideAlignment hmax hmin h2i
  rw [hpred]
  have hpow := (land_pred_eq_zero_iff _ hpos).trans (pow_two_cast_iff _ _ hcast)
  by_cases h3 : (config.strideAlignment % 2 ^ 32).toNat &&&
      ((config.strideAlignment % 2 ^ 32).toNat - 1) ≠ 0
  · rw [if_pos h3]
    constructor
    · intro h; cases h
    · rintro ⟨-, -, -, -, h5, -⟩
      exact absurd (hpow.2 h5) h3
  rw [if_neg h3]
  have h3p := hpow.1 (not_not.1 h3)
  by_cases h4 : config.format < 0 ∨ config.format > K.PIXEL_FMT_BUTT
  · rw [if_pos h4]
    constructor
    · intro h; cases h
    · rintro ⟨-, -, -, -, -, h6, h7⟩
      omega
  rw [if_neg h4]
  have h5 : ¬ (config.colorGamut ≤ K.COLOR_GAMUT_INVALID ∨
      config.colorGamut > K.COLOR_GAMUT_DISPLAY_BT2020 + 1) := by omega
  have h6 : ¬ (config.transform < K.ROTATE_NONE ∨ config.transform ≥ K.ROTATE_BUTT) := by omega
  have h7 : ¬ (config.scalingMode < K.SCALING_MODE_FREEZE ∨
      config.scalingMode > K.SCALING_MODE_NO_SCALE_CROP) := by omega
  rw [if_neg h5, if_neg h6, if_neg h7]
  constructor
  · intro _
    refine ⟨by omega, by omega, h2i.1, h2i.2, h3p, by omega, by omega⟩
  · intro _; rfl

/-- C16, witness: with the sample bounds 4 and 32, width 0 fails and width 1 succeeds,
stride alignment 3 fails and 4 succeeds; the theorem is applied to the config with stride
alignment 4. -/
theorem CheckRequestConfig_size_stride_format_witness :
    CheckRequestConfig sampleConsts { sampleConfig 0 600 with strideAlignment := 4 } =
      GSError.GSERROR_INVALID_ARGUMENTS ∧
    CheckRequestConfig sampleConsts { sampleConfig 1 600 with strideAlignment := 4 } =
      GSError.GSERROR_OK ∧
    CheckRequestConfig sampleConsts { sampleConfig 800 600 with strideAlignment := 3 } =
      GSError.GSERROR_INVALID_ARGUMENTS ∧
    CheckRequestConfig sampleConsts { sampleConfig 800 600 with strideAlignment := 4 } =
      GSError.GSERROR_OK ∧
    (CheckRequestConfig sampleConsts { sampleConfig 800 600 with strideAlignment := 4 } =
        GSError.GSERROR_OK ↔
      ((0 : Int) < 800 ∧ (0 : Int) < 600 ∧
        ((4 : Nat) : Int) ≤ 4 ∧ (4 : Int) ≤ ((32 : Nat) : Int) ∧
        (∃ k : Nat, (4 : Int) = 2 ^ k) ∧ (0 : Int) ≤ 12 ∧ (12 : Int) ≤ 36)) :=
  ⟨by decide, by decide, by decide, by decide,
    (CheckRequestConfig_size_stride_format sampleConsts
      { sampleConfig 800 600 with strideAlignment := 4 } (by decide) (by decide)
      (by decide) (by decide) (by decide) (by decide)).1⟩

/-- C17: `CheckRequestConfig` returns InvalidArguments for every config whose colorGamut is
at most `COLOR_GAMUT_INVALID` or greater than `COLOR_GAMUT_DISPLAY_BT2020 + 1`, whose
transform is outside `[ROTATE_NONE, ROTATE_BUTT)` or whose scalingMode is outside
`[SCALING_MODE_FREEZE, SCALING_MODE_NO_SCALE_CROP]`; but the colorGamut
`COLOR_GAMUT_DISPLAY_BT2020 + 1`, which is past the last enumerator, is accepted: every
config that passes the check still passes it with this colorGamut. -/
theorem CheckRequestConfig_accepts_gamut_past_last (K : SurfaceConsts)
    (config : BufferRequestConfig) :
    ((config.colorGamut ≤ K.COLOR_GAMUT_INVALID ∨
        config.colorGamut > K.COLOR_GAMUT_DISPLAY_BT2020 + 1 ∨
        config.transform < K.ROTATE_NONE ∨ config.transform ≥ K.ROTATE_BUTT ∨
        config.scalingMode < K.SCALING_MODE_FREEZE ∨
        config.scalingMode > K.SCALING_MODE_NO_SCALE_CROP) →
      CheckRequestConfig K config = GSError.GSERROR_INVALID_ARGUMENTS) ∧
    (K.COLOR_GAMUT_INVALID ≤ K.COLOR_GAMUT_DISPLAY_BT2020 →
      CheckRequestConfig K config = GSError.GSERROR_OK →
      CheckRequestConfig K
        { config with colorGamut := K.COLOR_GAMUT_DISPLAY_BT2020 + 1 } = GSError.GSERROR_OK) := by
  constructor
  · intro h
    rcases CheckRequestConfig_ok_or_invalid K config with hok | hinv
    · exfalso
      unfold CheckRequestConfig at hok
      dsimp only at hok
      split_ifs at hok
      omega
    · exact hinv
  · intro hord hok
    unfold CheckRequestConfig at hok ⊢
    dsimp only at hok ⊢
    split_ifs at hok with h1 h2 h3 h4 h5 h6 h7
    rw [if_neg h1, if_neg (not_not.2 h2), if_neg h3, if_neg h4, if_neg (by omega), if_neg h6,
      if_neg h7]

/-- C17, witness: with the sample enumerators (`COLOR_GAMUT_INVALID = -1`,
`COLOR_GAMUT_DISPLAY_BT2020 = 10`) the config with colorGamut 11 is accepted, while
colorGamut 12, transform 4 and scalingMode 4 are refused. -/
theorem CheckRequestConfig_accepts_gamut_past_last_witness :
    CheckRequestConfig sampleConsts { sampleConfig 800 600 with colorGamut := 12 } =
      GSError.GSERROR_INVALID_ARGUMENTS ∧
    CheckRequestConfig sampleConsts { sampleConfig 800 600 with transform := 4 } =
      GSError.GSERROR_INVALID_ARGUMENTS ∧
    CheckRequestConfig sampleConsts { sampleConfig 800 600 with scalingMode := 4 } =
      GSError.GSERROR_INVALID_ARGUMENTS ∧
    sampleConsts.COLOR_GAMUT_DISPLAY_BT2020 + 1 = 11 ∧
    CheckRequestConfig sampleConsts { sampleConfig 800 600 with colorGamut := 11 } =
      GSError.GSERROR_OK :=
  ⟨by decide, by decide, by decide, by decide,
    (CheckRequestConfig_accepts_gamut_past_last sampleConsts (sampleConfig 800 600)).2
      (by decide) (by decide)⟩

/-- C18 (as stated) fails: on a shared queue that holds buffer `0`, allocated for 800x600,
a request with the valid config 1024x768 returns InvalidArguments, not Ok. -/
theorem shared_request_other_config_counterexample :
    (runOr sampleConsts (BufferQueue.ctor sampleConsts true) sharedHeldOps).isShared_ = true ∧
    cacheKeys (runOr sampleConsts (BufferQueue.ctor sampleConsts true)
      sharedHeldOps).bufferQueueCache_ = [0] ∧
    (runOr sampleConsts (BufferQueue.ctor sampleConsts true) sharedHeldOps).listener_ = some 1 ∧
    CheckRequestConfig sampleConsts (sampleConfig 1024 768) = GSError.GSERROR_OK ∧
    (RequestBuffer sampleConsts
        (runOr sampleConsts (BufferQueue.ctor sampleConsts true) sharedHeldOps)
        (sampleConfig 1024 768) (sampleAlloc 1 1024 768)).toOption.map RequestResult.report =
      some (GSError.GSERROR_INVALID_ARGUMENTS, 0, []) :=
  ⟨rfl, rfl, rfl, by decide, rfl⟩

/-- C18 (amended): on a shared queue with the mutex free and a listener installed, whose
cache holds the single entry `e` of buffer `S`, `RequestBuffer` with a valid config returns,
with `retval.sequence = S`.  If the config equals the cached config, the status is Ok, the
entry becomes Requested and `deletingList_` is drained; if it differs, the status is
InvalidArguments and the queue is unchanged.  In both cases `S` stays the only cached
sequence, `onBufferDelete_` is not called, and the result does not depend on the
allocator. -/
theorem shared_request_returns_cached_buffer (K : SurfaceConsts) (q : BufferQueue)
    (config : BufferRequestConfig) (a : AllocOutcome) (S : Int) (e : BufferElement)
    (b : SurfaceBuffer)
    (hs : q.isShared_ = true) (hu : q.mutex_ = false)
    (hl : ¬ (q.listener_ = none ∧ q.listenerClazz_ = none))
    (hcfg : CheckRequestConfig K config = GSError.GSERROR_OK)
    (hc : q.bufferQueueCache_ = [(S, e)]) (hb : e.buffer = some b) (hseq : b.seqNum = S) :
    ∃ r, RequestBuffer K q config a = Except.ok r ∧ r.retval.sequence = S ∧
      (e.config = config →
        r.ret = GSError.GSERROR_OK ∧
        r.queue = { q with
          bufferQueueCache_ := [(S, { e with state := BufferState.BUFFER_STATE_REQUESTED })],
          deletingList_ := [] } ∧
        r.retval.deletingBuffers = q.deletingList_) ∧
      (e.config ≠ config → r.ret = GSError.GSERROR_INVALID_ARGUMENTS ∧ r.queue = q) ∧
      cacheKeys r.queue.bufferQueueCache_ = [S] ∧
      r.queue.deleteCalls = q.deleteCalls ∧
      ∀ a2, RequestBuffer K q config a2 = RequestBuffer K q config a := by
  have hshape : ∀ a1, RequestBuffer K q config a1 =
      if e.config = config then
        Except.ok
          { ret := GSError.GSERROR_OK, bedata := b.extraData,
            retval := { buffer := none, sequence := S, fence := e.fence,
                        deletingBuffers := q.deletingList_ },
            queue := { q with
              bufferQueueCache_ :=
                [(S, { e with state := BufferState.BUFFER_STATE_REQUESTED })],
              deletingList_ := [] } }
      else
        Except.ok
          { ret := GSError.GSERROR_INVALID_ARGUMENTS, bedata := none,
            retval := { buffer := some b, sequence := S, fence := none,
                        deletingBuffers := [] },
            queue := q } := by
    intro a1
    rw [RequestBuffer_eq_locked K q config a1 hu hl hcfg]
    obtain ⟨sh, qs, c, fl, dl, del, l1, l2, obr, obd, mu, dc, ac⟩ := q
    simp only at hs hu hc
    subst hs hu hc hseq
    have hfk := cacheFind_head b.seqNum e []
    rw [RequestBuffer.locked_reuse K _ _ _ _ _ e.buffer _
      (PopFromFreeList_shared_head K _ _ b.seqNum e [] rfl rfl)]
    by_cases hcc : e.config = config
    · rw [ReuseBuffer_same K _ _ _ _ _ b e hb hfk hcc, if_pos hcc]
      simp [Except.map, unlock, emptyRetval, cacheModify, cacheFind]
    · rw [ReuseBuffer_shared_mismatch K _ _ _ _ _ b e rfl hb hfk hcc, if_neg hcc]
      simp [Except.map, unlock, emptyRetval, hb]
  by_cases hcc : e.config = config
  · refine ⟨_, (hshape a).trans (if_pos hcc), rfl, fun _ => ⟨rfl, rfl, rfl⟩,
      fun h => absurd hcc h, rfl, rfl, fun a2 => (hshape a2).trans (hshape a).symm⟩
  · refine ⟨_, (hshape a).trans (if_neg hcc), rfl, fun h => absurd h hcc,
      fun _ => ⟨rfl, rfl⟩, ?_, rfl, fun a2 => (hshape a2).trans (hshape a).symm⟩
    dsimp only
    rw [hc]
    rfl

/-- C18 (amended), witness: on the shared queue that holds buffer `0`, allocated for 800x600,
a request for 800x600 returns Ok with sequence `0`. -/
theorem shared_request_returns_cached_buffer_witness :
    ∃ r, RequestBuffer sampleConsts
        (runOr sampleConsts (BufferQueue.ctor sampleConsts true) sharedHeldOps)
        (sampleConfig 800 600) (sampleAlloc 1 800 600) = Except.ok r ∧
      r.retval.sequence = 0 ∧ r.ret = GSError.GSERROR_OK ∧
      cacheKeys r.queue.bufferQueueCache_ = [0] :=
  match shared_request_returns_cached_buffer sampleConsts
    (runOr sampleConsts (BufferQueue.ctor sampleConsts true) sharedHeldOps)
    (sampleConfig 800 600) (sampleAlloc 1 800 600) 0
    (allocElement (sampleConfig 800 600) (sampleBuffer 0 800 600)) (sampleBuffer 0 800 600)
    rfl rfl (by decide) (by decide) rfl rfl rfl with
  | ⟨r, h1, h2, h3, _, h5, _⟩ => ⟨r, h1, h2, (h3 rfl).1, h5⟩

/-- C19 (as stated) fails: after the round trip of buffer `0` (800x600, now in `freeList_`),
a request for 1024x768 during which `Alloc` fails returns the allocator's error, but buffer
`0` has already been deleted: the cache, which held one entry, is empty. -/
theorem alloc_failure_not_atomic_counterexample :
    cacheKeys (runOr sampleConsts (BufferQueue.ctor sampleConsts false)
      roundTripOps).bufferQueueCache_ = [0] ∧
    (runOr sampleConsts (BufferQueue.ctor sampleConsts false) roundTripOps).freeList_ = [0] ∧
    (RequestBuffer sampleConsts
        (runOr sampleConsts (BufferQueue.ctor sampleConsts false) roundTripOps)
        (sampleConfig 1024 768) (failedAlloc 1 1024 768)).toOption.map
      (fun r => (r.ret, r.queue.bufferQueueCache_, r.queue.freeList_,
        r.queue.deletingList_)) =
      some (GSError.GSERROR_NO_MEM, [], [], [0]) :=
  ⟨rfl, rfl, rfl⟩

/-- C19 (amended): with the mutex free, a listener installed and a valid config, a
`RequestBuffer` during which the allocator refuses to allocate or map returns the
allocator's error.  When no free buffer is popped (`freeList_` empty, room in the queue,
and the queue not shared or its cache empty) the whole queue is unchanged.  When, on a
non-shared queue, the head `s` of `freeList_` is popped for reallocation because no free
entry has the requested config, `s` has been popped from `freeList_`, deleted from the cache
and appended to `deletingList_`, which is not reported by this call; every other cache entry
is unchanged. -/
theorem alloc_failure_effect (K : SurfaceConsts) (q : BufferQueue)
    (config : BufferRequestConfig) (a : AllocOutcome)
    (hu : q.mutex_ = false)
    (hl : ¬ (q.listener_ = none ∧ q.listenerClazz_ = none))
    (hcfg : CheckRequestConfig K config = GSError.GSERROR_OK)
    (hfail : ¬ (a.allocRet = GSError.GSERROR_OK ∧ a.mapRet = GSError.GSERROR_OK)) :
    allocError a ≠ GSError.GSERROR_OK ∧
    (q.freeList_ = [] → q.bufferQueueCache_.length < q.queueSize_ →
      (q.isShared_ = false ∨ q.bufferQueueCache_ = []) →
      RequestBuffer K q config a =
        Except.ok { ret := allocError a, bedata := none, retval := emptyRetval, queue := q }) ∧
    (∀ s rest e b, q.isShared_ = false → q.freeList_ = s :: rest →
      (∀ x ∈ q.freeList_, (cacheFind q.bufferQueueCache_ x).isSome = true) →
      (∀ x ∈ q.freeList_,
        (cacheFind q.bufferQueueCache_ x).map BufferElement.config ≠ some config) →
      cacheFind q.bufferQueueCache_ s = some e → e.buffer = some b → b.seqNum = s →
      ∃ r, RequestBuffer K q config a = Except.ok r ∧ r.ret = allocError a ∧
        r.queue =
          { q with
            freeList_ := rest,
            bufferQueueCache_ := cacheErase q.bufferQueueCache_ s,
            deletingList_ := q.deletingList_ ++ [s],
            deleteCalls :=
              if q.onBufferDelete_ = true then q.deleteCalls ++ [s] else q.deleteCalls } ∧
        cacheFind r.queue.bufferQueueCache_ s = none ∧
        (∀ k, k ≠ s → cacheFind r.queue.bufferQueueCache_ k = cacheFind q.bufferQueueCache_ k) ∧
        r.retval.deletingBuffers = []) := by
  refine ⟨(AllocBuffer_fail K q none config a hfail).2, ?_, ?_⟩
  · intro hfree hroom hpop
    rw [RequestBuffer_eq_locked K q config a hu hl hcfg]
    obtain ⟨sh, qs, c, fl, dl, del, l1, l2, obr, obd, mu, dc, ac⟩ := q
    simp only at hu hfree hroom hpop
    subst hu hfree
    rcases hpop with hsh | hc
    · subst hsh
      rw [RequestBuffer.locked_alloc K _ _ _ _ _ rfl rfl hroom,
        RequestBuffer.alloc_fail K _ _ _ _ _ hfail]
      rfl
    · subst hc
      rw [RequestBuffer.locked_of_pop_fail K _ _ _ _ _ (PopFromFreeList_nil K _ _ rfl rfl)
        hroom, RequestBuffer.alloc_fail K _ _ _ _ _ hfail]
      rfl
  · intro s rest e b hs hfree hin hnomatch hf hb hseq
    rw [RequestBuffer_eq_locked K q config a hu hl hcfg]
    have hnm : ∀ x ∈ q.freeList_, ∀ ex,
        cacheFind q.bufferQueueCache_ x = some ex → ex.config ≠ config := by
      intro x hx ex hex hc
      exact hnomatch x hx (by rw [hex, Option.map_some', hc])
    clear hnomatch
    obtain ⟨sh, qs, c, fl, dl, del, l1, l2, obr, obd, mu, dc, ac⟩ := q
    simp only at hs hu hfree hin hnm hf
    subst hs hu hfree hseq
    rcases PopFromFreeList_nonShared K
      ⟨false, qs, c, b.seqNum :: rest, dl, del, l1, l2, obr, obd, true, dc, ac⟩ config rfl
      (fun x hx => Option.isSome_iff_exists.1 (hin x hx)) with
      ⟨h1, -⟩ | ⟨pre, t, post, et, h1, h2, -, h4, h5⟩
    · cases h1
    · simp only at h1 h2 h4
      have hpre : pre = [] := by
        rcases h4 with h4 | ⟨h4, -⟩
        · exact absurd h4 (hnm t (by rw [h1]; simp) et h2)
        · exact h4
      subst hpre
      simp only [List.nil_append, List.cons.injEq] at h1
      obtain ⟨h1a, h1b⟩ := h1
      subst h1a h1b
      rw [hf] at h2; cases h2
      rw [hb] at h5
      rw [RequestBuffer.locked_reuse K _ _ _ _ _ _ _ h5,
        ReuseBuffer_realloc_fail K _ _ _ _ _ b e rfl rfl hf (hnm _ (by simp) e hf) hfail,
        DeleteBufferInCache_of_find _ b.seqNum e hf]
      refine ⟨_, rfl, rfl, rfl, ?_, ?_, rfl⟩
      · simp only [Except.map, unlock]
        rw [cacheFind_erase, if_pos rfl]
      · intro k hk
        simp only [Except.map, unlock]
        rw [cacheFind_erase, if_neg hk]

/-- C19 (amended), witness: on a new queue with a listener, a request during which `Alloc`
fails returns `GSERROR_NO_MEM` and leaves the queue unchanged; after the round trip of
buffer `0`, a request for 1024x768 during which `Alloc` fails returns `GSERROR_NO_MEM` and
leaves buffer `0` deleted. -/
theorem alloc_failure_effect_witness :
    allocError (failedAlloc 1 1024 768) = GSError.GSERROR_NO_MEM ∧
    RequestBuffer sampleConsts
        (runOr sampleConsts (BufferQueue.ctor sampleConsts false)
          [Op.registerConsumerListener (some 1)])
        (sampleConfig 800 600) (failedAlloc 0 800 600) =
      Except.ok { ret := allocError (failedAlloc 0 800 600), bedata := none,
                  retval := emptyRetval,
                  queue := runOr sampleConsts (BufferQueue.ctor sampleConsts false)
                    [Op.registerConsumerListener (some 1)] } ∧
    ∃ r, RequestBuffer sampleConsts
        (runOr sampleConsts (BufferQueue.ctor sampleConsts false) roundTripOps)
        (sampleConfig 1024 768) (failedAlloc 1 1024 768) = Except.ok r ∧
      r.ret = GSError.GSERROR_NO_MEM ∧ cacheFind r.queue.bufferQueueCache_ 0 = none ∧
      r.queue.deletingList_ = [0] ∧ r.retval.deletingBuffers = [] :=
  ⟨rfl,
    (alloc_failure_effect sampleConsts
      (runOr sampleConsts (BufferQueue.ctor sampleConsts false)
        [Op.registerConsumerListener (some 1)])
      (sampleConfig 800 600) (failedAlloc 0 800 600) rfl (by decide) (by decide)
      (by decide)).2.1 rfl (by decide) (Or.inl rfl),
    match (alloc_failure_effect sampleConsts
      (runOr sampleConsts (BufferQueue.ctor sampleConsts false) roundTripOps)
      (sampleConfig 1024 768) (failedAlloc 1 1024 768) rfl (by decide) (by decide)
      (by decide)).2.2 0 [] _ (sampleBuffer 0 800 600) rfl rfl (by decide) (by decide) rfl rfl
      rfl with
    | ⟨r, h1, h2, h3, h4, _, h6⟩ =>
      ⟨r, h1, h2, h4, (congrArg BufferQueue.deletingList_ h3).trans rfl, h6⟩⟩

theorem toInt32_of_lt (x : Nat) (h : x < 2 ^ 31) : toInt32 x = (x : Int) := by
  unfold toInt32
  have h1 : x % 2 ^ 32 = x := Nat.mod_eq_of_lt (by omega)
  rw [h1, if_pos h]

/-- C20: `AttachBuffer(buffer)` with the mutex free and a queue size below `2^31`.  On a
shared queue it returns InvalidOperating.  On a non-shared queue, for a non-null buffer `b`:
if the cache holds fewer than `queueSize_` entries, it returns Ok and stores the entry
`attachElement K b` (state Attached; config of the buffer's width, height, format and
usage, strideAlignment 8, timeout 0) under the sequence number of `b`, changing nothing
else; if the cache is full and `freeList_` and `dirtyList_` together hold fewer than
`used - queueSize + 1` entries, it returns OutOfRange and changes nothing; but if they hold
enough entries, the call does not return: `DeleteBuffers` locks `mutex_`, which
`AttachBuffer` already holds. -/
theorem AttachBuffer_cases (K : SurfaceConsts) (q : BufferQueue) (b : SurfaceBuffer)
    (hu : q.mutex_ = false) (hq : q.queueSize_ < 2 ^ 31) :
    (q.isShared_ = true → ∀ buffer,
      AttachBuffer K q buffer = Except.ok (GSError.GSERROR_INVALID_OPERATING, q)) ∧
    (q.isShared_ = false →
      ((attachElement K b).state = BufferState.BUFFER_STATE_ATTACHED ∧
        (attachElement K b).buffer = some b ∧
        (attachElement K b).config.width = b.width ∧
        (attachElement K b).config.height = b.height ∧
        (attachElement K b).config.strideAlignment = 8 ∧
        (attachElement K b).config.format = b.format ∧
        (attachElement K b).config.usage = b.usage ∧
        (attachElement K b).config.timeout = 0) ∧
      (q.bufferQueueCache_.length < q.queueSize_ →
        AttachBuffer K q (some b) =
          Except.ok (GSError.GSERROR_OK,
            { q with bufferQueueCache_ :=
                cacheInsert K q.bufferQueueCache_ b.seqNum (attachElement K b) }) ∧
        cacheFind (cacheInsert K q.bufferQueueCache_ b.seqNum (attachElement K b)) b.seqNum =
          some (attachElement K b) ∧
        (∀ k, k ≠ b.seqNum →
          cacheFind (cacheInsert K q.bufferQueueCache_ b.seqNum (attachElement K b)) k =
            cacheFind q.bufferQueueCache_ k) ∧
        (cacheFind q.bufferQueueCache_ b.seqNum = none →
          (cacheInsert K q.bufferQueueCache_ b.seqNum (attachElement K b)).length =
            q.bufferQueueCache_.length + 1)) ∧
      (q.queueSize_ ≤ q.bufferQueueCache_.length →
        q.freeList_.length + q.dirtyList_.length <
          q.bufferQueueCache_.length - q.queueSize_ + 1 →
        AttachBuffer K q (some b) = Except.ok (GSError.GSERROR_OUT_OF_RANGE, q)) ∧
      (q.queueSize_ ≤ q.bufferQueueCache_.length →
        q.bufferQueueCache_.length - q.queueSize_ + 1 ≤
          q.freeList_.length + q.dirtyList_.length →
        AttachBuffer K q (some b) = Except.error Fault.deadlock)) := by
  obtain ⟨sh, qs, c, fl, dl, del, l1, l2, obr, obd, mu, dc, ac⟩ := q
  simp only at hu hq
  subst hu
  have hqs := toInt32_of_lt qs hq
  constructor
  · intro hs buffer
    simp only at hs
    subst hs
    simp [AttachBuffer]
  · intro hs
    simp only at hs
    subst hs
    refine ⟨⟨rfl, rfl, rfl, rfl, rfl, rfl, rfl, rfl⟩, ?_, ?_, ?_⟩
    · intro hroom
      simp only at hroom
      refine ⟨?_, ?_, ?_, ?_⟩
      · have hlt : ¬ ((c.length : Int) ≥ toInt32 qs) := by rw [hqs]; omega
        simp only [AttachBuffer, lock, Bool.false_eq_true, if_false, GetUsedSize, GetQueueSize,
          hlt, unlock]
      · rw [cacheFind_insert, if_pos rfl]
      · intro k hk
        rw [cacheFind_insert, if_neg hk]
      · intro hnew
        simp only at hnew
        simp only [cacheInsert, cacheModify, hnew, length_insertNew]
    · intro hfull hfew
      simp only at hfull hfew
      have hge : (c.length : Int) ≥ toInt32 qs := by rw [hqs]; omega
      have hlt : ¬ (((dl.length + fl.length : Nat) : Int) ≥
          (c.length : Int) - toInt32 qs + 1) := by rw [hqs]; omega
      simp only [AttachBuffer, lock, Bool.false_eq_true, if_false, GetUsedSize, GetQueueSize,
        hge, if_true, hlt, unlock]
    · intro hfull henough
      simp only at hfull henough
      have hge : (c.length : Int) ≥ toInt32 qs := by rw [hqs]; omega
      have hok : ((dl.length + fl.length : Nat) : Int) ≥
          (c.length : Int) - toInt32 qs + 1 := by rw [hqs]; omega
      have hd := DeleteBuffers_deadlock
        ⟨false, qs, c, fl, dl, del, l1, l2, obr, obd, true, dc, ac⟩
        ((c.length : Int) - toInt32 qs + 1) rfl (by rw [hqs]; omega)
      simp only [AttachBuffer, lock, Bool.false_eq_true, if_false, GetUsedSize, GetQueueSize,
        hge, if_true, hok, hd]

/-- C20, witness: on a queue of size one whose only buffer `0` sits in `freeList_`
(`used = 1`, `need = 1`, one free entry), `AttachBuffer` of buffer `5` does not return; on a
new queue it returns Ok and stores the Attached entry. -/
theorem AttachBuffer_cases_witness :
    (runOr sampleConsts (BufferQueue.ctor sampleConsts false) fullQueueOps).queueSize_ = 1 ∧
    cacheKeys (runOr sampleConsts (BufferQueue.ctor sampleConsts false)
      fullQueueOps).bufferQueueCache_ = [0] ∧
    (runOr sampleConsts (BufferQueue.ctor sampleConsts false) fullQueueOps).freeList_ = [0] ∧
    (AttachBuffer sampleConsts (BufferQueue.ctor sampleConsts false)
        (some (sampleBuffer 5 800 600))).toOption.map
      (fun r => (r.1, cacheKeys r.2.bufferQueueCache_)) = some (GSError.GSERROR_OK, [5]) ∧
    AttachBuffer sampleConsts
        (runOr sampleConsts (BufferQueue.ctor sampleConsts false) fullQueueOps)
        (some (sampleBuffer 5 800 600)) = Except.error Fault.deadlock :=
  ⟨rfl, rfl, rfl, rfl,
    ((AttachBuffer_cases sampleConsts
      (runOr sampleConsts (BufferQueue.ctor sampleConsts false) fullQueueOps)
      (sampleBuffer 5 800 600) rfl (by decide)).2 rfl).2.2.2 (by decide) (by decide)⟩

theorem DeleteBuffers_returns (q : BufferQueue) (count : Int) (hu : q.mutex_ = false) :
    ∃ q1, DeleteBuffers q count = Except.ok q1 ∧
      (count ≤ 0 → q1 = q) ∧
      (0 < count → q1 = unlock (DeleteBuffers.locked { q with mutex_ := true } count)) := by
  unfold DeleteBuffers
  by_cases hc : count ≤ 0
  · rw [if_pos hc]
    exact ⟨q, rfl, fun _ => rfl, fun h => absurd hc (by omega)⟩
  · rw [if_neg hc, lock_of_unlocked q hu]
    exact ⟨_, rfl, fun h => absurd h hc, fun _ => rfl⟩

theorem SetQueueSize_shape (K : SurfaceConsts) (q : BufferQueue) (n : Nat)
    (hu : q.mutex_ = false) :
    if 1 ≤ n ∧ n ≤ K.SURFACE_MAX_QUEUE_SIZE ∧ (q.isShared_ = false ∨ n = 1) then
      ∃ q1, DeleteBuffers q (toInt32 (q.queueSize_ % 2 ^ 32 + 2 ^ 32 - n % 2 ^ 32)) =
          Except.ok q1 ∧
        SetQueueSize K q n = Except.ok (GSError.GSERROR_OK, { q1 with queueSize_ := n })
    else SetQueueSize K q n = Except.ok (GSError.GSERROR_INVALID_ARGUMENTS, q) := by
  unfold SetQueueSize
  by_cases h1 : q.isShared_ = true ∧ n ≠ 1
  · rw [if_pos h1, if_neg]
    rintro ⟨-, -, h | h⟩
    · rw [h1.1] at h; cases h
    · exact h1.2 h
  rw [if_neg h1]
  by_cases h2 : n ≤ 0
  · rw [if_pos h2, if_neg]
    rintro ⟨h, -⟩
    omega
  rw [if_neg h2]
  by_cases h3 : n > K.SURFACE_MAX_QUEUE_SIZE
  · rw [if_pos h3, if_neg]
    rintro ⟨-, h, -⟩
    omega
  rw [if_neg h3]
  have hsh : q.isShared_ = false ∨ n = 1 := by
    by_cases hn : n = 1
    · exact Or.inr hn
    · left
      cases hq : q.isShared_ with
      | false => rfl
      | true => exact absurd ⟨hq, hn⟩ h1
  rw [if_pos ⟨by omega, by omega, hsh⟩]
  obtain ⟨q1, hd, -⟩ := DeleteBuffers_returns q
    (toInt32 (q.queueSize_ % 2 ^ 32 + 2 ^ 32 - n % 2 ^ 32)) hu
  exact ⟨q1, hd, by rw [hd]⟩

/-- C21: with the mutex free, `SetQueueSize(n)` returns; the status is Ok if and only if
`1 ≤ n ≤ SURFACE_MAX_QUEUE_SIZE` and the queue is not shared or `n = 1`.  On Ok the queue
size is `n`; otherwise the status is InvalidArguments and the whole queue is unchanged.
So on a non-shared queue `SetQueueSize(SURFACE_MAX_QUEUE_SIZE)` succeeds (the maximum being
at least one) and `SetQueueSize(SURFACE_MAX_QUEUE_SIZE + 1)` fails. -/
theorem SetQueueSize_acceptance (K : SurfaceConsts) (q : BufferQueue) (n : Nat)
    (hu : q.mutex_ = false) :
    (∃ ret q1, SetQueueSize K q n = Except.ok (ret, q1) ∧
      (ret = GSError.GSERROR_OK ↔
        (1 ≤ n ∧ n ≤ K.SURFACE_MAX_QUEUE_SIZE ∧ (q.isShared_ = false ∨ n = 1))) ∧
      (ret = GSError.GSERROR_OK → q1.queueSize_ = n) ∧
      (ret ≠ GSError.GSERROR_OK → ret = GSError.GSERROR_INVALID_ARGUMENTS ∧ q1 = q)) ∧
    (q.isShared_ = false → 1 ≤ K.SURFACE_MAX_QUEUE_SIZE →
      ∃ q1, SetQueueSize K q K.SURFACE_MAX_QUEUE_SIZE = Except.ok (GSError.GSERROR_OK, q1) ∧
        q1.queueSize_ = K.SURFACE_MAX_QUEUE_SIZE) ∧
    SetQueueSize K q (K.SURFACE_MAX_QUEUE_SIZE + 1) =
      Except.ok (GSError.GSERROR_INVALID_ARGUMENTS, q) := by
  refine ⟨?_, ?_, ?_⟩
  · have h := SetQueueSize_shape K q n hu
    by_cases hc : 1 ≤ n ∧ n ≤ K.SURFACE_MAX_QUEUE_SIZE ∧ (q.isShared_ = false ∨ n = 1)
    · rw [if_pos hc] at h
      obtain ⟨q1, -, h2⟩ := h
      exact ⟨_, _, h2, ⟨fun _ => hc, fun _ => rfl⟩, fun _ => rfl, fun h3 => absurd rfl h3⟩
    · rw [if_neg hc] at h
      refine ⟨_, _, h, ⟨fun h3 => (by cases h3), fun h3 => absurd h3 hc⟩,
        fun h3 => (by cases h3), fun _ => ⟨rfl, rfl⟩⟩
  · intro hs hmax
    have h := SetQueueSize_shape K q K.SURFACE_MAX_QUEUE_SIZE hu
    rw [if_pos ⟨hmax, le_refl _, Or.inl hs⟩] at h
    obtain ⟨q1, -, h2⟩ := h
    exact ⟨_, h2, rfl⟩
  · have h := SetQueueSize_shape K q (K.SURFACE_MAX_QUEUE_SIZE + 1) hu
    rw [if_neg (by omega)] at h
    exact h

/-- C21, witness: with `SURFACE_MAX_QUEUE_SIZE = 10`, on a new non-shared queue
`SetQueueSize(10)` returns Ok and `SetQueueSize(11)` and `SetQueueSize(0)` return
InvalidArguments; on a shared queue `SetQueueSize(2)` returns InvalidArguments. -/
theorem SetQueueSize_acceptance_witness :
    (SetQueueSize sampleConsts (BufferQueue.ctor sampleConsts false) 10).toOption.map
      (fun r => (r.1, r.2.queueSize_)) = some (GSError.GSERROR_OK, 10) ∧
    SetQueueSize sampleConsts (BufferQueue.ctor sampleConsts false) 0 =
      Except.ok (GSError.GSERROR_INVALID_ARGUMENTS, BufferQueue.ctor sampleConsts false) ∧
    SetQueueSize sampleConsts (BufferQueue.ctor sampleConsts true) 2 =
      Except.ok (GSError.GSERROR_INVALID_ARGUMENTS, BufferQueue.ctor sampleConsts true) ∧
    SetQueueSize sampleConsts (BufferQueue.ctor sampleConsts false)
        (sampleConsts.SURFACE_MAX_QUEUE_SIZE + 1) =
      Except.ok (GSError.GSERROR_INVALID_ARGUMENTS, BufferQueue.ctor sampleConsts false) :=
  ⟨rfl, rfl, rfl,
    (SetQueueSize_acceptance sampleConsts (BufferQueue.ctor sampleConsts false) 10 rfl).2.2⟩

/-- C29: on a non-shared queue with the mutex free whose size is at least one, for every `n`
from the current size up to `SURFACE_MAX_QUEUE_SIZE` (a value below `2^31`),
`SetQueueSize(n)` returns Ok and changes nothing but the queue size, which becomes `n`; the
count that `DeleteBuffers` receives, the `uint32_t` difference converted to `int32_t`, is
not positive. -/
theorem SetQueueSize_grow (K : SurfaceConsts) (q : BufferQueue) (n : Nat)
    (hs : q.isShared_ = false) (hu : q.mutex_ = false)
    (hmax : K.SURFACE_MAX_QUEUE_SIZE < 2 ^ 31)
    (hq1 : 1 ≤ q.queueSize_) (hqn : q.queueSize_ ≤ n) (hn : n ≤ K.SURFACE_MAX_QUEUE_SIZE) :
    SetQueueSize K q n = Except.ok (GSError.GSERROR_OK, { q with queueSize_ := n }) ∧
      toInt32 (q.queueSize_ % 2 ^ 32 + 2 ^ 32 - n % 2 ^ 32) ≤ 0 := by
  have hcount : toInt32 (q.queueSize_ % 2 ^ 32 + 2 ^ 32 - n % 2 ^ 32) ≤ 0 := by
    unfold toInt32
    split_ifs with h
    · omega
    · omega
  refine ⟨?_, hcount⟩
  have h := SetQueueSize_shape K q n hu
  rw [if_pos ⟨by omega, hn, Or.inl hs⟩] at h
  obtain ⟨q1, h1, h2⟩ := h
  obtain ⟨q2, h3, h4, -⟩ := DeleteBuffers_returns q _ hu
  rw [h3] at h1
  cases h1
  rw [h4 hcount] at h2
  exact h2

/-- C29, witness: after `flaggedOps` (queue size one, three flagged entries),
`SetQueueSize(10)` changes the queue size only, and so does `SetQueueSize(1)`. -/
theorem SetQueueSize_grow_witness :
    SetQueueSize sampleConsts
        (runOr sampleConsts (BufferQueue.ctor sampleConsts false) flaggedOps) 1 =
      Except.ok (GSError.GSERROR_OK,
        runOr sampleConsts (BufferQueue.ctor sampleConsts false) flaggedOps) ∧
    (SetQueueSize sampleConsts
        (runOr sampleConsts (BufferQueue.ctor sampleConsts false) flaggedOps) 10 =
      Except.ok (GSError.GSERROR_OK,
        { runOr sampleConsts (BufferQueue.ctor sampleConsts false) flaggedOps with
          queueSize_ := 10 }) ∧
      toInt32 ((runOr sampleConsts (BufferQueue.ctor sampleConsts false)
        flaggedOps).queueSize_ % 2 ^ 32 + 2 ^ 32 - 10 % 2 ^ 32) ≤ 0) :=
  ⟨rfl, SetQueueSize_grow sampleConsts
    (runOr sampleConsts (BufferQueue.ctor sampleConsts false) flaggedOps) 10 rfl rfl
    (by decide) (by decide) (by decide) (by decide)⟩

/-- C23 (as stated) fails: after the owned-interface overload registers listener `1` and the
raw-capability overload registers listener `2`, both sinks are installed. -/
theorem both_sinks_installed_counterexample :
    run sampleConsts (BufferQueue.ctor sampleConsts false)
        [Op.registerConsumerListener (some 1), Op.registerConsumerListenerClazz (some 2)] =
      Except.ok (runOr sampleConsts (BufferQueue.ctor sampleConsts false)
        [Op.registerConsumerListener (some 1), Op.registerConsumerListenerClazz (some 2)]) ∧
    (runOr sampleConsts (BufferQueue.ctor sampleConsts false)
      [Op.registerConsumerListener (some 1),
       Op.registerConsumerListenerClazz (some 2)]).listener_ = some 1 ∧
    (runOr sampleConsts (BufferQueue.ctor sampleConsts false)
      [Op.registerConsumerListener (some 1),
       Op.registerConsumerListenerClazz (some 2)]).listenerClazz_ = some 2 :=
  ⟨rfl, rfl, rfl⟩

theorem run_owned_listener_calls (K : SurfaceConsts) (q : BufferQueue) (ops : List Op)
    (h0 : q.listenerClazz_ = none) (h : ops.all Op.isOwnedListenerCall = true) :
    ∃ q1, run K q ops = Except.ok q1 ∧ q1.listenerClazz_ = none := by
  induction ops generalizing q with
  | nil => exact ⟨q, rfl, h0⟩
  | cons op ops ih =>
    simp only [List.all_cons, Bool.and_eq_true] at h
    cases op with
    | registerConsumerListener l =>
      obtain ⟨q1, h1, h2⟩ := ih (RegisterConsumerListener q l).2 h0 h.2
      exact ⟨q1, by simp only [run, step, h1], h2⟩
    | unregisterConsumerListener =>
      obtain ⟨q1, h1, h2⟩ := ih (UnregisterConsumerListener q).2 rfl h.2
      exact ⟨q1, by simp only [run, step, h1], h2⟩
    | _ => exact absurd h.1 (by simp [Op.isOwnedListenerCall])

theorem run_raw_listener_calls (K : SurfaceConsts) (q : BufferQueue) (ops : List Op)
    (h0 : q.listener_ = none) (h : ops.all Op.isRawListenerCall = true) :
    ∃ q1, run K q ops = Except.ok q1 ∧ q1.listener_ = none := by
  induction ops generalizing q with
  | nil => exact ⟨q, rfl, h0⟩
  | cons op ops ih =>
    simp only [List.all_cons, Bool.and_eq_true] at h
    cases op with
    | registerConsumerListenerClazz l =>
      obtain ⟨q1, h1, h2⟩ := ih (RegisterConsumerListenerClazz q l).2 h0 h.2
      exact ⟨q1, by simp only [run, step, h1], h2⟩
    | unregisterConsumerListener =>
      obtain ⟨q1, h1, h2⟩ := ih (UnregisterConsumerListener q).2 rfl h.2
      exact ⟨q1, by simp only [run, step, h1], h2⟩
    | _ => exact absurd h.1 (by simp [Op.isRawListenerCall])

/-- C23 (amended): each `RegisterConsumerListener` overload assigns its own sink and leaves
the other as it is, and `UnregisterConsumerListener` clears both.  So, starting from a queue
with no sink installed (a new queue, or any queue after `UnregisterConsumerListener`), after
every sequence of calls of one overload and of `UnregisterConsumerListener` the sink of the
other overload is not installed: at most one sink is installed. -/
theorem one_overload_one_sink (K : SurfaceConsts) (q : BufferQueue) (ops : List Op)
    (h0 : q.listener_ = none ∧ q.listenerClazz_ = none) :
    (∀ l, (RegisterConsumerListener q l).2 = { q with listener_ := l }) ∧
    (∀ l, (RegisterConsumerListenerClazz q l).2 = { q with listenerClazz_ := l }) ∧
    (∀ q0 : BufferQueue, (UnregisterConsumerListener q0).2.listener_ = none ∧
      (UnregisterConsumerListener q0).2.listenerClazz_ = none) ∧
    (ops.all Op.isOwnedListenerCall = true →
      ∃ q1, run K q ops = Except.ok q1 ∧ q1.listenerClazz_ = none) ∧
    (ops.all Op.isRawListenerCall = true →
      ∃ q1, run K q ops = Except.ok q1 ∧ q1.listener_ = none) :=
  ⟨fun _ => rfl, fun _ => rfl, fun _ => ⟨rfl, rfl⟩,
    run_owned_listener_calls K q ops h0.2, run_raw_listener_calls K q ops h0.1⟩

/-- C23 (amended), witness: on a new queue, after the owned-interface overload registers
listener `1`, the listeners are unregistered and the overload registers listener `3`, only
`listener_` is installed. -/
theorem one_overload_one_sink_witness :
    (runOr sampleConsts (BufferQueue.ctor sampleConsts false)
      [Op.registerConsumerListener (some 1), Op.unregisterConsumerListener,
       Op.registerConsumerListener (some 3)]).listener_ = some 3 ∧
    ∃ q1, run sampleConsts (BufferQueue.ctor sampleConsts false)
        [Op.registerConsumerListener (some 1), Op.unregisterConsumerListener,
         Op.registerConsumerListener (some 3)] = Except.ok q1 ∧
      q1.listenerClazz_ = none :=
  ⟨rfl, (one_overload_one_sink sampleConsts (BufferQueue.ctor sampleConsts false)
    [Op.registerConsumerListener (some 1), Op.unregisterConsumerListener,
     Op.registerConsumerListener (some 3)] ⟨rfl, rfl⟩).2.2.2.1 (by decide)⟩

/-- C28: with the mutex free, a `FlushBuffer` that is refused for an invalid damage, an
unknown sequence or a wrong state returns a status other than Ok and NoConsumer and leaves
the whole queue unchanged.  But when `FlushCache` fails on an accepted buffer whose usage
has `HBM_USE_CPU_WRITE`, `FlushBuffer` returns the status of `FlushCache` after the entry
has been made Flushed, with the given fence and damage, and appended to `dirtyList_`; only
the timestamp is not written and `OnBufferAvailable` is not called. -/
theorem FlushBuffer_failure_effect (K : SurfaceConsts) (q : BufferQueue) (sequence : Int)
    (bedata : Option BufferExtraData) (fence : Int) (config : BufferFlushConfig)
    (flushCacheRet : GSError) (now : Int) (hu : q.mutex_ = false) :
    ((CheckFlushConfig config ≠ GSError.GSERROR_OK ∨
        cacheFind q.bufferQueueCache_ sequence = none ∨
        (q.isShared_ = false ∧ ∃ e, cacheFind q.bufferQueueCache_ sequence = some e ∧
          e.state ≠ BufferState.BUFFER_STATE_REQUESTED ∧
          e.state ≠ BufferState.BUFFER_STATE_ATTACHED)) →
      ∃ ret, ret ≠ GSError.GSERROR_OK ∧ ret ≠ GSError.GSERROR_NO_CONSUMER ∧
        FlushBuffer K q sequence bedata fence config flushCacheRet now = Except.ok (ret, q)) ∧
    (∀ e b, CheckFlushConfig config = GSError.GSERROR_OK →
      ¬ (q.listener_ = none ∧ q.listenerClazz_ = none) →
      cacheFind q.bufferQueueCache_ sequence = some e →
      (q.isShared_ = true ∨ e.state = BufferState.BUFFER_STATE_REQUESTED ∨
        e.state = BufferState.BUFFER_STATE_ATTACHED) →
      e.isDeleting = false → e.buffer = some b →
      (e.config.usage % 2 ^ 32).toNat &&& K.HBM_USE_CPU_WRITE ≠ 0 →
      flushCacheRet ≠ GSError.GSERROR_OK →
      ∃ q1 e1, FlushBuffer K q sequence bedata fence config flushCacheRet now =
          Except.ok (flushCacheRet, q1) ∧
        cacheFind q1.bufferQueueCache_ sequence = some e1 ∧
        e1.state = BufferState.BUFFER_STATE_FLUSHED ∧
        e1.fence = some fence ∧ e1.damage = config.damage ∧
        e1.timestamp = e.timestamp ∧
        q1.dirtyList_ = q.dirtyList_ ++ [sequence] ∧
        q1.freeList_ = q.freeList_ ∧
        q1.availableCalls = q.availableCalls) := by
  refine ⟨FlushBuffer_refused K q sequence bedata fence config flushCacheRet now hu, ?_⟩
  intro e b hck hl hf hst hdel hb husage hfail
  rw [FlushBuffer_accepted K q sequence bedata fence config flushCacheRet now e hu hck hf hst,
    if_neg hl, DoFlushBuffer_failed K q sequence bedata fence config flushCacheRet now e b hu
      hf hdel hb ⟨husage, hfail⟩]
  simp only [Except.map, ne_eq, hfail, not_false_eq_true, if_true]
  refine ⟨_, { e with state := BufferState.BUFFER_STATE_FLUSHED,
                      buffer := some { b with extraData := bedata },
                      fence := some fence, damage := config.damage }, rfl, ?_, rfl, rfl, rfl,
    rfl, rfl, rfl, rfl⟩
  dsimp only
  rw [cacheFind_modify, if_pos rfl, hf]
  rfl

/-- C28, witness: buffer `0`, requested with usage `HBM_USE_CPU_WRITE`, is flushed with fence
9 and `FlushCache` fails: `FlushBuffer` returns the failure, yet the entry is Flushed with
fence 9 and the damage of the flush, and `dirtyList_` is `[0]`. -/
theorem FlushBuffer_failure_effect_witness :
    (cacheFind (runOr sampleConsts (BufferQueue.ctor sampleConsts false)
      cpuWriteOps).bufferQueueCache_ 0).map (fun e => (e.state, e.fence, e.damage)) =
      some (BufferState.BUFFER_STATE_REQUESTED, some (-1), { x := 0, y := 0, w := 0, h := 0 }) ∧
    (runOr sampleConsts (BufferQueue.ctor sampleConsts false) cpuWriteOps).dirtyList_ = [] ∧
    ∃ q1 e1, FlushBuffer sampleConsts
        (runOr sampleConsts (BufferQueue.ctor sampleConsts false) cpuWriteOps)
        0 none 9 sampleFlush GSError.GSERROR_API_FAILED 7 =
        Except.ok (GSError.GSERROR_API_FAILED, q1) ∧
      cacheFind q1.bufferQueueCache_ 0 = some e1 ∧
      e1.state = BufferState.BUFFER_STATE_FLUSHED ∧
      e1.fence = some 9 ∧ e1.damage = { x := 0, y := 0, w := 800, h := 600 } ∧
      q1.dirtyList_ = [0] :=
  ⟨rfl, rfl,
    match (FlushBuffer_failure_effect sampleConsts
      (runOr sampleConsts (BufferQueue.ctor sampleConsts false) cpuWriteOps)
      0 none 9 sampleFlush GSError.GSERROR_API_FAILED 7 rfl).2
      (allocElement cpuWriteConfig { sampleBuffer 0 800 600 with usage := 2 })
      { sampleBuffer 0 800 600 with usage := 2 }
      (by decide) (by decide) rfl (Or.inr (Or.inl rfl)) rfl rfl (by decide) (by decide) with
    | ⟨q1, e1, h1, h2, h3, h4, h5, _, h7, _⟩ => ⟨q1, e1, h1, h2, h3, h4, h5, h7⟩⟩

theorem Dump.total_returns (c : Cache) (acc : Nat)
    (hb : c.all (fun p => p.2.buffer.isSome) = true) :
    ∃ t, Dump.total c acc = Except.ok t := by
  induction c generalizing acc with
  | nil => exact ⟨acc, rfl⟩
  | cons p rest ih =>
    obtain ⟨k, e⟩ := p
    simp only [List.all_cons, Bool.and_eq_true] at hb
    obtain ⟨b, hbe⟩ := Option.isSome_iff_exists.1 hb.1
    obtain ⟨t, ht⟩ := ih ((acc + b.size) % 2 ^ 32) hb.2
    exact ⟨t, by simp only [Dump.total, hbe, ht]⟩

theorem DumpCache_attached (fixed2 : Nat → StdString) (c : Cache) (result : StdString)
    (hb : c.all (fun p => p.2.buffer.isSome) = true)
    (ha : c.any (fun p => decide (p.2.state = BufferState.BUFFER_STATE_ATTACHED)) = true) :
    DumpCache fixed2 c result = Except.error Fault.outOfRange := by
  induction c generalizing result with
  | nil => simp at ha
  | cons p rest ih =>
    obtain ⟨k, e⟩ := p
    simp only [List.all_cons, Bool.and_eq_true] at hb
    simp only [List.any_cons, Bool.or_eq_true, decide_eq_true_eq] at ha
    by_cases hst : e.state = BufferState.BUFFER_STATE_ATTACHED
    · simp only [DumpCache, DumpCache.line, hst, BufferStateStrs]
    · have hrest := ha.resolve_left hst
      obtain ⟨b, hbe⟩ := Option.isSome_iff_exists.1 hb.1
      cases hs : BufferStateStrs e.state with
      | none =>
        simp only [DumpCache, DumpCache.line, hs]
      | some str =>
        simp only [DumpCache, DumpCache.line, hs, hbe]
        exact ih _ hb.2 hrest

theorem DumpCache_returns (fixed2 : Nat → StdString) (c : Cache) (result : StdString)
    (hb : c.all (fun p => p.2.buffer.isSome) = true)
    (ha : c.any (fun p => decide (p.2.state = BufferState.BUFFER_STATE_ATTACHED)) = false) :
    ∃ text, DumpCache fixed2 c result = Except.ok text := by
  induction c generalizing result with
  | nil => exact ⟨result, rfl⟩
  | cons p rest ih =>
    obtain ⟨k, e⟩ := p
    simp only [List.all_cons, Bool.and_eq_true] at hb
    simp only [List.any_cons, Bool.or_eq_false_iff, decide_eq_false_iff_not] at ha
    obtain ⟨b, hbe⟩ := Option.isSome_iff_exists.1 hb.1
    cases hs : BufferStateStrs e.state with
    | none =>
      exfalso
      apply ha.1
      cases hst : e.state <;> simp [hst, BufferStateStrs] at hs
      rfl
    | some str =>
      simp only [DumpCache, DumpCache.line, hs, hbe]
      exact ih _ hb.2 ha.2

/-- C27: `Dump(result)` with the mutex free on a queue whose cache entries all hold a
buffer.  For every `result` shorter than seven characters, the empty string included, the
start position `resultLen - 7` of the substring wraps around and the call throws
`std::out_of_range`.  For a longer `result` that does not end the dump, the call throws
`std::out_of_range` whenever the cache holds an entry in state Attached, for which
`BufferStateStrs` has no entry.  In the remaining cases (a `result` of seven characters or
more and below `2^32`, and either no Attached entry or a `result` that ends the dump) the
call completes normally. -/
theorem Dump_raises (fixed2 : Nat → StdString) (defaultWidth defaultHeight : Int)
    (name_ : StdString) (uniqueId_ : Nat) (q : BufferQueue) (allSurfacesMemSize : Nat)
    (result : StdString) (hu : q.mutex_ = false)
    (hb : q.bufferQueueCache_.all (fun p => p.2.buffer.isSome) = true) :
    (result.length < 7 →
      Dump fixed2 defaultWidth defaultHeight name_ uniqueId_ q allSurfacesMemSize result =
        Except.error Fault.outOfRange) ∧
    (7 ≤ result.length → result.length < 2 ^ 32 →
      (result.drop (result.length - 7)).take (result.length - 1) ≠ "dumpend".toList →
      q.bufferQueueCache_.any
        (fun p => decide (p.2.state = BufferState.BUFFER_STATE_ATTACHED)) = true →
      Dump fixed2 defaultWidth defaultHeight name_ uniqueId_ q allSurfacesMemSize result =
        Except.error Fault.outOfRange) ∧
    (7 ≤ result.length → result.length < 2 ^ 32 →
      ((result.drop (result.length - 7)).take (result.length - 1) = "dumpend".toList ∨
        q.bufferQueueCache_.any
          (fun p => decide (p.2.state = BufferState.BUFFER_STATE_ATTACHED)) = false) →
      ∃ r, Dump fixed2 defaultWidth defaultHeight name_ uniqueId_ q allSurfacesMemSize result =
        Except.ok r) := by
  obtain ⟨t, ht⟩ := Dump.total_returns q.bufferQueueCache_ 0 hb
  have hflag : "dumpend".toList.length = 7 := rfl
  refine ⟨?_, ?_, ?_⟩
  · intro hlen
    unfold Dump
    simp only [lock_of_unlocked q hu, ht, hflag]
    have hpos : (result.length % 2 ^ 32 + 2 ^ 64 - 7) % 2 ^ 64 > result.length := by omega
    rw [if_pos hpos]
  · intro h7 h32 hne hatt
    unfold Dump
    simp only [lock_of_unlocked q hu, ht, hflag]
    have hpos : (result.length % 2 ^ 32 + 2 ^ 64 - 7) % 2 ^ 64 = result.length - 7 := by omega
    have hl : (result.length % 2 ^ 32 + 2 ^ 32 - 1) % 2 ^ 32 = result.length - 1 := by omega
    rw [hpos, hl, if_neg (by omega), if_neg hne,
      DumpCache_attached fixed2 _ _ hb hatt]
  · intro h7 h32 hcase
    unfold Dump
    simp only [lock_of_unlocked q hu, ht, hflag]
    have hpos : (result.length % 2 ^ 32 + 2 ^ 64 - 7) % 2 ^ 64 = result.length - 7 := by omega
    have hl : (result.length % 2 ^ 32 + 2 ^ 32 - 1) % 2 ^ 32 = result.length - 1 := by omega
    rw [hpos, hl, if_neg (by omega)]
    by_cases hend : (result.drop (result.length - 7)).take (result.length - 1) =
        "dumpend".toList
    · rw [if_pos hend]
      exact ⟨_, rfl⟩
    · rw [if_neg hend]
      obtain ⟨text, htext⟩ := DumpCache_returns fixed2 q.bufferQueueCache_ _ hb
        (hcase.resolve_left hend)
      rw [htext]
      exact ⟨_, rfl⟩

/-- C27, witness: `Dump` with an empty `result` throws on a newly constructed queue, and
`Dump` with a `result` of ten characters throws after `AttachBuffer` of buffer `0`. -/
theorem Dump_raises_witness :
    cacheKeys (runOr sampleConsts (BufferQueue.ctor sampleConsts false)
      attachedOps).bufferQueueCache_ = [0] ∧
    Dump sampleFixed2 0 0 "queue".toList 7
        (runOr sampleConsts (BufferQueue.ctor sampleConsts false) attachedOps) 0
        "0123456789".toList = Except.error Fault.outOfRange ∧
    Dump sampleFixed2 0 0 "queue".toList 7 (BufferQueue.ctor sampleConsts false) 0 [] =
      Except.error Fault.outOfRange :=
  ⟨rfl,
    (Dump_raises sampleFixed2 0 0 "queue".toList 7
      (runOr sampleConsts (BufferQueue.ctor sampleConsts false) attachedOps) 0
      "0123456789".toList rfl (by decide)).2.1 (by decide) (by decide) (by decide) (by decide),
    (Dump_raises sampleFixed2 0 0 "queue".toList 7 (BufferQueue.ctor sampleConsts false) 0 []
      rfl (by decide)).1 (by decide)⟩

namespace Rosen

theorem visit_addr (timestamp vsyncCount : Int) (c : VSyncConnection) (w : Bool)
    (conns : List Nat) :
    (CollectConnections.visit timestamp vsyncCount c w conns).1.addr = c.addr := by
  unfold CollectConnections.visit
  dsimp only
  split_ifs <;> rfl

theorem visit_fst (timestamp vsyncCount : Int) (c : VSyncConnection) (w : Bool)
    (conns : List Nat) :
    (CollectConnections.visit timestamp vsyncCount c w conns).1 =
      (CollectConnections.visit timestamp vsyncCount c false []).1 := by
  unfold CollectConnections.visit
  dsimp only
  split_ifs <;> rfl

theorem visit_conns (timestamp vsyncCount : Int) (c : VSyncConnection) (w : Bool)
    (conns : List Nat) :
    (CollectConnections.visit timestamp vsyncCount c w conns).2.2 =
      conns ++ (CollectConnections.visit timestamp vsyncCount c false []).2.2 := by
  unfold CollectConnections.visit
  dsimp only
  split_ifs <;> simp

theorem visit_conns_cases (timestamp vsyncCount : Int) (c : VSyncConnection) :
    (CollectConnections.visit timestamp vsyncCount c false []).2.2 = [] ∨
      (CollectConnections.visit timestamp vsyncCount c false []).2.2 = [c.addr] := by
  unfold CollectConnections.visit
  dsimp only
  split_ifs <;> simp

theorem loop_fst (timestamp vsyncCount : Int) (cs : List VSyncConnection) (w : Bool)
    (conns : List Nat) :
    (CollectConnections.loop timestamp vsyncCount cs w conns).1 =
      cs.map (fun c => (CollectConnections.visit timestamp vsyncCount c false []).1) := by
  induction cs generalizing w conns with
  | nil => rfl
  | cons c rest ih =>
    simp only [CollectConnections.loop, List.map_cons, ih]
    rw [visit_fst]

theorem loop_conns (timestamp vsyncCount : Int) (cs : List VSyncConnection) (w : Bool)
    (conns : List Nat) :
    (CollectConnections.loop timestamp vsyncCount cs w conns).2.2 =
      conns ++ (CollectConnections.loop timestamp vsyncCount cs false []).2.2 := by
  induction cs generalizing w conns with
  | nil => simp [CollectConnections.loop]
  | cons c rest ih =>
    simp only [CollectConnections.loop]
    rw [ih, ih _ (CollectConnections.visit timestamp vsyncCount c false []).2.2, visit_conns,
      List.append_assoc]

theorem loop_mem_conns (timestamp vsyncCount : Int) (cs : List VSyncConnection) (a : Nat) :
    a ∈ (CollectConnections.loop timestamp vsyncCount cs false []).2.2 ↔
      ∃ c ∈ cs, a ∈ (CollectConnections.visit timestamp vsyncCount c false []).2.2 := by
  induction cs with
  | nil => simp [CollectConnections.loop]
  | cons c rest ih =>
    simp only [CollectConnections.loop]
    rw [loop_conns, List.mem_append, ih]
    simp

/-- Whether a pass of `CollectConnections` selects a registered connection depends on that
connection alone, when the registered addresses are distinct. -/
theorem loop_selects_iff (timestamp vsyncCount : Int) (cs : List VSyncConnection)
    (c : VSyncConnection) (hc : c ∈ cs) (hnd : (cs.map VSyncConnection.addr).Nodup) :
    c.addr ∈ (CollectConnections.loop timestamp vsyncCount cs false []).2.2 ↔
      (CollectConnections.visit timestamp vsyncCount c false []).2.2 = [c.addr] := by
  rw [loop_mem_conns]
  constructor
  · rintro ⟨c2, hc2, hmem⟩
    have hsame : c2 = c := by
      rcases visit_conns_cases timestamp vsyncCount c2 with h | h
      · rw [h] at hmem; cases hmem
      · rw [h, List.mem_singleton] at hmem
        exact List.inj_on_of_nodup_map hnd hc2 hc hmem.symm
    subst hsame
    rcases visit_conns_cases timestamp vsyncCount c2 with h | h
    · rw [h] at hmem; cases hmem
    · exact h
  · intro h
    exact ⟨c, hc, by rw [h]; exact List.mem_singleton_self _⟩

theorem loop_mem_fst (timestamp vsyncCount : Int) (cs : List VSyncConnection)
    (c : VSyncConnection) (hc : c ∈ cs) (w : Bool) (conns : List Nat) :
    (CollectConnections.visit timestamp vsyncCount c false []).1 ∈
      (CollectConnections.loop timestamp vsyncCount cs w conns).1 := by
  rw [loop_fst]
  exact List.mem_map.2 ⟨c, hc, rfl⟩

theorem loop_addrs (timestamp vsyncCount : Int) (cs : List VSyncConnection) (w : Bool)
    (conns : List Nat) :
    (CollectConnections.loop timestamp vsyncCount cs w conns).1.map VSyncConnection.addr =
      cs.map VSyncConnection.addr := by
  rw [loop_fst, List.map_map]
  apply List.map_congr_left
  intro c _
  exact visit_addr timestamp vsyncCount c false []

/-- C24: for every distributor whose registered connections have distinct addresses, every
timestamp above zero and every vsyncCount, `CollectConnections` (called as in `ThreadMain`)
selects a connection whose effective rate `r` is positive only if `vsyncCount % r == 0`;
and a connection without high-priority override whose rate `r` is positive is selected if
and only if `vsyncCount % r == 0`, and stays as it is. -/
theorem periodic_delivery (d : VSyncDistributor) (timestamp vsyncCount : Int)
    (hts : timestamp > 0)
    (hnd : (d.connections_.map VSyncConnection.addr).Nodup) :
    (∀ c ∈ d.connections_,
      c.addr ∈ (CollectConnections d false timestamp [] vsyncCount).2.1 →
      (if c.highPriorityState_ = true then c.highPriorityRate_ else c.rate_) > 0 →
      vsyncCount.tmod (if c.highPriorityState_ = true then c.highPriorityRate_
        else c.rate_) = 0) ∧
    (∀ c ∈ d.connections_, c.highPriorityState_ = false → c.rate_ > 0 →
      (c.addr ∈ (CollectConnections d false timestamp [] vsyncCount).2.1 ↔
        vsyncCount.tmod c.rate_ = 0) ∧
      c ∈ (CollectConnections d false timestamp [] vsyncCount).2.2.connections_) := by
  constructor
  · intro c hc hsel hrate
    have h := (loop_selects_iff timestamp vsyncCount d.connections_ c hc hnd).1 hsel
    unfold CollectConnections.visit at h
    dsimp only at h
    have hne : ¬ (if c.highPriorityState_ = true then c.highPriorityRate_ else c.rate_) = 0 := by
      omega
    rw [if_neg hne] at h
    by_contra hmod
    rw [if_neg (fun hh => hmod hh.2)] at h
    cases h
  · intro c hc hhp hrate
    have hv : CollectConnections.visit timestamp vsyncCount c false [] =
        if vsyncCount.tmod c.rate_ = 0 then (c, true, [c.addr]) else (c, false, []) := by
      unfold CollectConnections.visit
      dsimp only
      have h1 : ¬ c.rate_ = 0 := by omega
      simp only [hhp, Bool.false_eq_true, if_false, h1, hrate, true_and, hts, if_true,
        List.nil_append]
    constructor
    · show c.addr ∈ (CollectConnections.loop timestamp vsyncCount d.connections_ false []).2.2 ↔ _
      rw [loop_selects_iff timestamp vsyncCount d.connections_ c hc hnd, hv]
      by_cases hm : vsyncCount.tmod c.rate_ = 0
      · rw [if_pos hm]; exact ⟨fun _ => hm, fun _ => rfl⟩
      · rw [if_neg hm]
        exact ⟨fun h => (by cases h), fun h => absurd h hm⟩
    · show c ∈ (CollectConnections.loop timestamp vsyncCount d.connections_ false []).1
      have := loop_mem_fst timestamp vsyncCount d.connections_ c hc false []
      rw [hv] at this
      by_cases hm : vsyncCount.tmod c.rate_ = 0
      · rw [if_pos hm] at this; exact this
      · rw [if_neg hm] at this; exact this

/-- C24, witness: a connection with rate 2 is selected at vsyncCount 10 and 12 and not at 11
and 13. -/
theorem periodic_delivery_witness :
    [10, 11, 12, 13].map (fun vsyncCount =>
      (CollectConnections (sampleDistributor [sampleConnection 1 2]) false 5000 []
        vsyncCount).2.1) = [[1], [], [1], []] ∧
    ((sampleConnection 1 2).addr ∈
        (CollectConnections (sampleDistributor [sampleConnection 1 2]) false 5000 [] 10).2.1 ↔
      Int.tmod 10 (sampleConnection 1 2).rate_ = 0) ∧
    sampleConnection 1 2 ∈
      (CollectConnections (sampleDistributor [sampleConnection 1 2]) false 5000 []
        10).2.2.connections_ :=
  ⟨by decide,
    (periodic_delivery (sampleDistributor [sampleConnection 1 2]) 5000 10 (by decide)
      (by decide)).2 (sampleConnection 1 2) (by decide) rfl (by decide)⟩

end Rosen

namespace Rosen

theorem updateAt_mem (cs : List VSyncConnection) (c : VSyncConnection)
    (f : VSyncConnection → VSyncConnection) (hc : c ∈ cs) : f c ∈ updateAt cs c.addr f := by
  unfold updateAt
  exact List.mem_map.2 ⟨c, hc, by rw [if_pos rfl]⟩

theorem updateAt_addrs (cs : List VSyncConnection) (a : Nat)
    (f : VSyncConnection → VSyncConnection) (hf : ∀ c, (f c).addr = c.addr) :
    (updateAt cs a f).map VSyncConnection.addr = cs.map VSyncConnection.addr := by
  unfold updateAt
  rw [List.map_map]
  apply List.map_congr_left
  intro c _
  show (if c.addr = a then f c else c).addr = c.addr
  split_ifs
  · exact hf c
  · rfl

theorem isRegistered_of_mem (cs : List VSyncConnection) (c : VSyncConnection) (hc : c ∈ cs) :
    isRegistered cs c.addr = true := by
  unfold isRegistered
  exact List.any_eq_true.2 ⟨c, hc, by simp⟩

theorem collectAll_append (d : VSyncDistributor) (pre evs : List (Int × Int)) :
    collectAll d (pre ++ evs) =
      ((collectAll d pre).1 ++ (collectAll (collectAll d pre).2 evs).1,
        (collectAll (collectAll d pre).2 evs).2) := by
  induction pre generalizing d with
  | nil => simp [collectAll]
  | cons e pre ih =>
    obtain ⟨ts, vc⟩ := e
    show collectAll d ((ts, vc) :: (pre ++ evs)) = _
    simp only [collectAll, ih, List.cons_append]

/-- A connection that is not selected by a pass and is left as it is by it, is not selected
by any series of passes that satisfy the same condition. -/
theorem collectAll_unselected (P : Int × Int → Prop) (c : VSyncConnection)
    (hv : ∀ e, P e → CollectConnections.visit e.1 e.2 c false [] = (c,
      (CollectConnections.visit e.1 e.2 c false []).2.1, []))
    (d : VSyncDistributor) (hc : c ∈ d.connections_)
    (hnd : (d.connections_.map VSyncConnection.addr).Nodup)
    (evs : List (Int × Int)) (hevs : ∀ e ∈ evs, P e) :
    (collectAll d evs).1.map (fun sel => decide (c.addr ∈ sel)) =
        List.replicate evs.length false ∧
      c ∈ (collectAll d evs).2.connections_ ∧
      ((collectAll d evs).2.connections_.map VSyncConnection.addr).Nodup := by
  induction evs generalizing d with
  | nil => exact ⟨rfl, hc, hnd⟩
  | cons e evs ih =>
    obtain ⟨ts, vc⟩ := e
    have hP := hevs (ts, vc) (List.mem_cons_self _ _)
    have hve := hv (ts, vc) hP
    simp only at hve
    have hnot : c.addr ∉ (CollectConnections.loop ts vc d.connections_ false []).2.2 := by
      rw [loop_selects_iff ts vc d.connections_ c hc hnd, hve]
      intro h; cases h
    have hin : c ∈ (CollectConnections.loop ts vc d.connections_ false []).1 := by
      have := loop_mem_fst ts vc d.connections_ c hc false []
      rw [hve] at this
      exact this
    have hnd2 : ((CollectConnections.loop ts vc d.connections_ false []).1.map
        VSyncConnection.addr).Nodup := by
      rw [loop_addrs]; exact hnd
    obtain ⟨h1, h2, h3⟩ := ih (CollectConnections d false ts [] vc).2.2 hin hnd2
      (fun e he => hevs e (List.mem_cons_of_mem _ he))
    refine ⟨?_, h2, h3⟩
    simp only [collectAll, List.map_cons, List.length_cons, List.replicate_succ, h1]
    congr 1
    exact decide_eq_false hnot

theorem visit_idle (timestamp vsyncCount : Int) (c : VSyncConnection)
    (hhp : c.highPriorityState_ = false) (hr : c.rate_ < 0) :
    CollectConnections.visit timestamp vsyncCount c false [] = (c, false, []) := by
  unfold CollectConnections.visit
  dsimp only
  have h1 : ¬ c.rate_ = 0 := by omega
  have h2 : ¬ c.rate_ > 0 := by omega
  simp only [hhp, Bool.false_eq_true, if_false, h1, h2, false_and]

theorem visit_armed_wait (timestamp vsyncCount : Int) (c : VSyncConnection)
    (hhp : c.highPriorityState_ = false) (hr : c.rate_ = 0) (hts : timestamp ≤ 0) :
    CollectConnections.visit timestamp vsyncCount c false [] = (c, true, []) := by
  unfold CollectConnections.visit
  dsimp only
  have h1 : ¬ timestamp > 0 := by omega
  simp only [hhp, Bool.false_eq_true, if_false, hr, if_true, h1]

theorem visit_armed_tick (timestamp vsyncCount : Int) (c : VSyncConnection)
    (hhp : c.highPriorityState_ = false) (hr : c.rate_ = 0) (hts : timestamp > 0) :
    CollectConnections.visit timestamp vsyncCount c false [] =
      ({ c with rate_ := -1 }, true, [c.addr]) := by
  unfold CollectConnections.visit
  dsimp only
  simp only [hhp, Bool.false_eq_true, if_false, hr, if_true, hts, List.nil_append]

/-- The one-shot rate in a series of `CollectConnections` calls with nothing else in
between: after `RequestNextVSync` the first call with a timestamp above zero selects the
connection and sets its rate to `-1`, and no call before or after it selects it. -/
theorem one_shot_collect_series (d : VSyncDistributor) (c : VSyncConnection)
    (hc : c ∈ d.connections_)
    (hnd : (d.connections_.map VSyncConnection.addr).Nodup)
    (hhp : c.highPriorityState_ = false) :
    (RequestNextVSync d (some c.addr)).1 = VsyncError.VSYNC_ERROR_OK ∧
    (0 ≤ c.rate_ → c ∈ (RequestNextVSync d (some c.addr)).2.connections_) ∧
    (c.rate_ < 0 →
      { c with rate_ := 0 } ∈ (RequestNextVSync d (some c.addr)).2.connections_ ∧
      ∀ (pre : List (Int × Int)) (timestamp vsyncCount : Int) (post : List (Int × Int)),
        (∀ e ∈ pre, e.1 ≤ 0) → timestamp > 0 →
        (collectAll (RequestNextVSync d (some c.addr)).2
            (pre ++ (timestamp, vsyncCount) :: post)).1.map
          (fun sel => decide (c.addr ∈ sel)) =
          List.replicate pre.length false ++ true :: List.replicate post.length false ∧
        { c with rate_ := -1 } ∈
          (collectAll (RequestNextVSync d (some c.addr)).2
            (pre ++ (timestamp, vsyncCount) :: post)).2.connections_) := by
  have hreq : RequestNextVSync d (some c.addr) =
      (VsyncError.VSYNC_ERROR_OK,
        VSyncDistributor.mk (updateAt d.connections_ c.addr
            (fun c1 => if c1.rate_ < 0 then { c1 with rate_ := 0 } else c1))
          d.event_ d.vsyncEnabled_) := by
    simp only [RequestNextVSync, isRegistered_of_mem d.connections_ c hc, if_true]
  have hmem := updateAt_mem d.connections_ c
    (fun c1 => if c1.rate_ < 0 then { c1 with rate_ := 0 } else c1) hc
  have haddrs := updateAt_addrs d.connections_ c.addr
    (fun c1 => if c1.rate_ < 0 then { c1 with rate_ := 0 } else c1)
    (fun c1 => by dsimp only; split_ifs <;> rfl)
  rw [hreq]
  refine ⟨rfl, ?_, ?_⟩
  · intro h0
    simp only [if_neg (not_lt.2 h0)] at hmem
    exact hmem
  · intro hneg
    simp only [if_pos hneg] at hmem
    refine ⟨hmem, ?_⟩
    intro pre timestamp vsyncCount post hpre hts
    dsimp only
    have hnd1 : ((updateAt d.connections_ c.addr
        (fun c1 => if c1.rate_ < 0 then { c1 with rate_ := 0 } else c1)).map
        VSyncConnection.addr).Nodup := by rw [haddrs]; exact hnd
    -- the calls before the tick
    obtain ⟨a1, a2, a3⟩ := collectAll_unselected (fun e => e.1 ≤ 0) { c with rate_ := 0 }
      (fun e he => by
        rw [visit_armed_wait e.1 e.2 { c with rate_ := 0 } hhp rfl he])
      (VSyncDistributor.mk (updateAt d.connections_ c.addr
          (fun c1 => if c1.rate_ < 0 then { c1 with rate_ := 0 } else c1))
        d.event_ d.vsyncEnabled_)
      hmem hnd1 pre hpre
    -- the tick
    have hvt := visit_armed_tick timestamp vsyncCount { c with rate_ := 0 } hhp rfl hts
    have hsel := (loop_selects_iff timestamp vsyncCount _ { c with rate_ := 0 } a2 a3).2
      (by rw [hvt])
    have hin := loop_mem_fst timestamp vsyncCount _ { c with rate_ := 0 } a2 false []
    rw [hvt] at hin
    have hnd2 := a3
    rw [← loop_addrs timestamp vsyncCount _ false []] at hnd2
    -- the calls after the tick
    obtain ⟨b1, b2, -⟩ := collectAll_unselected (fun _ => True) { c with rate_ := -1 }
      (fun e _ => by
        rw [visit_idle e.1 e.2 { c with rate_ := -1 } hhp (show (-1 : Int) < 0 by decide)])
      (CollectConnections (collectAll (VSyncDistributor.mk (updateAt d.connections_ c.addr
          (fun c1 => if c1.rate_ < 0 then { c1 with rate_ := 0 } else c1))
        d.event_ d.vsyncEnabled_) pre).2
        false timestamp [] vsyncCount).2.2 hin hnd2 post (fun _ _ => trivial)
    rw [collectAll_append]
    simp only [collectAll, List.map_append, List.map_cons]
    refine ⟨?_, b2⟩
    rw [a1, b1]
    congr 2
    exact decide_eq_true hsel

end Rosen

namespace Rosen

theorem updateAt_mem_frame (cs : List VSyncConnection) (c : VSyncConnection) (a : Nat)
    (f : VSyncConnection → VSyncConnection) (hc : c ∈ cs) (hne : c.addr ≠ a) :
    c ∈ updateAt cs a f := by
  unfold updateAt
  exact List.mem_map.2 ⟨c, hc, by rw [if_neg hne]⟩

theorem eraseFirst_mem_frame (cs : List VSyncConnection) (c : VSyncConnection) (a : Nat)
    (hc : c ∈ cs) (hne : c.addr ≠ a) : c ∈ eraseFirst cs a := by
  induction cs with
  | nil => cases hc
  | cons x rest ih =>
    unfold eraseFirst
    rcases List.mem_cons.1 hc with h | h
    · subst h
      rw [if_neg hne]
      exact List.mem_cons_self _ _
    · split_ifs
      · exact h
      · exact List.mem_cons_of_mem _ (ih h)

/-- The sending step for a connection whose `PostEvent` returns `ERRNO_EAGAIN`. -/
theorem post_eagain (d : VSyncDistributor) (c : VSyncConnection) (hc : c ∈ d.connections_) :
    (if c.rate_ < 0 then { c with rate_ := 0 } else c) ∈
      (ThreadMain.post d c.addr ERRNO_EAGAIN).connections_ := by
  have h1 : ¬ (ERRNO_EAGAIN = 0 ∨ ERRNO_EAGAIN = ERRNO_OTHER) := by decide
  have h2 : ¬ ERRNO_EAGAIN > -1 := by decide
  unfold ThreadMain.post
  simp only [if_neg h1, if_true]
  have hp : (c.PostEvent ERRNO_EAGAIN).2 = c := by
    unfold VSyncConnection.PostEvent
    rw [if_neg h2]
  have hm := updateAt_mem d.connections_ c (fun c => (c.PostEvent ERRNO_EAGAIN).2) hc
  simp only [hp] at hm
  exact updateAt_mem _ c (fun c => if c.rate_ < 0 then { c with rate_ := 0 } else c) hm

/-- The sending step for a connection leaves the other connections as they are. -/
theorem post_frame (d : VSyncDistributor) (c : VSyncConnection) (addr : Nat) (ret : Int)
    (hc : c ∈ d.connections_) (hne : c.addr ≠ addr) :
    c ∈ (ThreadMain.post d addr ret).connections_ := by
  have hm := updateAt_mem_frame d.connections_ c addr (fun c => (c.PostEvent ret).2) hc hne
  unfold ThreadMain.post
  dsimp only
  split_ifs with h1 h2
  · unfold RemoveConnection
    dsimp only
    split_ifs
    · exact eraseFirst_mem_frame _ c addr hm hne
    · exact hm
  · exact updateAt_mem_frame _ c addr _ hm hne
  · exact hm

theorem send_frame (sendRet : Nat → Int) (c : VSyncConnection) (conns : List Nat)
    (d : VSyncDistributor) (hc : c ∈ d.connections_) (hsel : c.addr ∉ conns) :
    c ∈ (ThreadMain.send sendRet d conns).connections_ := by
  induction conns generalizing d with
  | nil => exact hc
  | cons a conns ih =>
    unfold ThreadMain.send
    exact ih _ (post_frame d c a (sendRet a) hc (fun h => hsel (h ▸ List.mem_cons_self _ _)))
      (fun h => hsel (List.mem_cons_of_mem _ h))

/-- C26, counterexample: a connection with rate 2 is selected at vsyncCount 2, its
`PostEvent` returns `ERRNO_EAGAIN`, and the loop iteration leaves its rate at 2. -/
theorem eagain_keeps_positive_rate_counterexample :
    (CollectConnections
        { sampleDistributor [sampleConnection 1 2] with
          event_ := { timestamp := 0, vsyncCount := 2 } } false 1000000 [] 2).2.1 = [1] ∧
    (ThreadMain.iteration
        { sampleDistributor [sampleConnection 1 2] with
          event_ := { timestamp := 1000000, vsyncCount := 2 } }
        true none (fun _ => ERRNO_EAGAIN)).1.connections_ = [sampleConnection 1 2] ∧
    (ThreadMain.send (fun _ => ERRNO_EAGAIN) (sampleDistributor [sampleConnection 1 2])
        [1]).connections_.map VSyncConnection.rate_ = [2] := by
  refine ⟨by decide, by decide, by decide⟩

/-- C26, amended: for every registered connection `c` among the selected ones whose
`PostEvent` returns `ERRNO_EAGAIN`, the sending loop of `ThreadMain` leaves the connection
registered, with a rate of 0 when its rate was negative before the send and with its rate
unchanged otherwise; nothing else of the connection changes. -/
theorem eagain_demotion (sendRet : Nat → Int) (conns : List Nat) (d : VSyncDistributor)
    (c : VSyncConnection) (hc : c ∈ d.connections_) (hsel : c.addr ∈ conns)
    (he : sendRet c.addr = ERRNO_EAGAIN) :
    (if c.rate_ < 0 then { c with rate_ := 0 } else c) ∈
        (ThreadMain.send sendRet d conns).connections_ ∧
      isRegistered (ThreadMain.send sendRet d conns).connections_ c.addr = true := by
  have key : ∀ (conns : List Nat) (d : VSyncDistributor) (c : VSyncConnection),
      c ∈ d.connections_ → c.addr ∈ conns → sendRet c.addr = ERRNO_EAGAIN →
      (if c.rate_ < 0 then { c with rate_ := 0 } else c) ∈
        (ThreadMain.send sendRet d conns).connections_ := by
    intro conns
    induction conns with
    | nil => intro d c _ h; cases h
    | cons a conns ih =>
      intro d c hc hsel he
      unfold ThreadMain.send
      by_cases ha : c.addr = a
      · subst ha
        rw [he]
        have hp := post_eagain d c hc
        by_cases hin : c.addr ∈ conns
        · have h2 := ih (ThreadMain.post d c.addr ERRNO_EAGAIN)
            (if c.rate_ < 0 then { c with rate_ := 0 } else c) hp
            (by split_ifs <;> exact hin) (by split_ifs <;> exact he)
          by_cases hr : c.rate_ < 0
          · simp only [if_pos hr] at h2 ⊢
            have h0 : ¬ ((0 : Int) < 0) := by decide
            simp only [h0, if_false] at h2
            exact h2
          · simp only [if_neg hr] at h2 ⊢
            exact h2
        · exact send_frame sendRet _ conns _ hp (by split_ifs <;> exact hin)
      · have hin : c.addr ∈ conns := by
          rcases List.mem_cons.1 hsel with h | h
          · exact absurd h ha
          · exact h
        exact ih _ c (post_frame d c a (sendRet a) hc ha) hin he
  have hm := key conns d c hc hsel he
  refine ⟨hm, ?_⟩
  unfold isRegistered
  exact List.any_eq_true.2 ⟨_, hm, by split_ifs <;> simp⟩

/-- C26, amended, witness: of two selected connections with rates `-1` and `2` whose sends
both return `ERRNO_EAGAIN`, the first is set to rate 0. -/
theorem eagain_demotion_witness :
    (if (sampleConnection 1 (-1)).rate_ < 0 then { sampleConnection 1 (-1) with rate_ := 0 }
        else sampleConnection 1 (-1)) ∈
      (ThreadMain.send (fun _ => ERRNO_EAGAIN)
        (sampleDistributor [sampleConnection 1 (-1), sampleConnection 2 2])
        [1, 2]).connections_ ∧
    (ThreadMain.send (fun _ => ERRNO_EAGAIN)
        (sampleDistributor [sampleConnection 1 (-1), sampleConnection 2 2])
        [1, 2]).connections_ = [sampleConnection 1 0, sampleConnection 2 2] :=
  ⟨(eagain_demotion (fun _ => ERRNO_EAGAIN) [1, 2]
      (sampleDistributor [sampleConnection 1 (-1), sampleConnection 2 2])
      (sampleConnection 1 (-1)) (by decide) (by decide) rfl).1, by decide⟩

end Rosen

theorem mark_eq_flagFirst (c : Cache) (m : Nat) (hm : 1 ≤ m) :
    DeleteBuffers.mark c (m : Int) = flagFirst m c := by
  induction c generalizing m with
  | nil => simp [DeleteBuffers.mark, flagFirst]
  | cons p rest ih =>
    obtain ⟨k, e⟩ := p
    unfold DeleteBuffers.mark
    by_cases h1 : m = 1
    · subst h1
      simp [flagFirst]
    · have h2 : ¬ ((m : Int) - 1 ≤ 0) := by omega
      rw [if_neg h2]
      have h3 : ((m : Int) - 1) = ((m - 1 : Nat) : Int) := by omega
      rw [h3, ih (m - 1) (by omega)]
      obtain ⟨j, rfl⟩ : ∃ j, m = j + 1 := ⟨m - 1, by omega⟩
      simp [flagFirst]

theorem drain_spec (q : BufferQueue) (l : List Int) (m : Nat) (hm : 1 ≤ m) :
    DeleteBuffers.drain q l (m : Int) =
      ((l.take m).foldl DeleteBufferInCache q, l.drop m, ((m - l.length : Nat) : Int),
        decide (m ≤ l.length)) := by
  induction l generalizing q m with
  | nil =>
    have : ¬ m ≤ 0 := by omega
    simp [DeleteBuffers.drain, this]
  | cons s rest ih =>
    unfold DeleteBuffers.drain
    by_cases h1 : m = 1
    · subst h1
      simp
    · have h2 : ¬ ((m : Int) - 1 ≤ 0) := by omega
      rw [if_neg h2]
      have h3 : ((m : Int) - 1) = ((m - 1 : Nat) : Int) := by omega
      rw [h3, ih (DeleteBufferInCache q s) (m - 1) (by omega)]
      obtain ⟨j, rfl⟩ : ∃ j, m = j + 1 := ⟨m - 1, by omega⟩
      simp

theorem cacheFind_eraseAll (l : List Int) (c : Cache) (s : Int) :
    cacheFind (eraseAll c l) s = if s ∈ l then none else cacheFind c s := by
  induction l generalizing c with
  | nil => simp [eraseAll]
  | cons a rest ih =>
    have : eraseAll c (a :: rest) = eraseAll (cacheErase c a) rest := rfl
    rw [this, ih, cacheFind_erase]
    by_cases h1 : s ∈ rest
    · simp [h1]
    · by_cases h2 : s = a
      · simp [h2]
      · simp [h1, h2]

theorem eraseAll_append (c : Cache) (a b : List Int) :
    eraseAll c (a ++ b) = eraseAll (eraseAll c a) b := by
  unfold eraseAll
  rw [List.foldl_append]

theorem cacheKeys_erase_nodup (c : Cache) (k : Int) (h : (cacheKeys c).Nodup) :
    (cacheKeys (cacheErase c k)).Nodup := by
  unfold cacheKeys cacheErase at *
  exact List.Nodup.sublist (List.Sublist.map _ (List.filter_sublist _)) h

theorem length_eraseAll (l : List Int) (c : Cache) (hk : (cacheKeys c).Nodup)
    (hnd : l.Nodup) (hc : ∀ s ∈ l, (cacheFind c s).isSome = true) :
    (eraseAll c l).length + l.length = c.length := by
  induction l generalizing c with
  | nil => simp [eraseAll]
  | cons a rest ih =>
    have hrw : eraseAll c (a :: rest) = eraseAll (cacheErase c a) rest := rfl
    obtain ⟨e, he⟩ := Option.isSome_iff_exists.1 (hc a (List.mem_cons_self _ _))
    have h1 := length_erase_of_nodup c a e hk he
    have hnd2 := List.nodup_cons.1 hnd
    have h2 := ih (cacheErase c a) (cacheKeys_erase_nodup c a hk) hnd2.2 (by
      intro s hs
      rw [cacheFind_erase, if_neg (fun h : s = a => hnd2.1 (h ▸ hs))]
      exact hc s (List.mem_cons_of_mem _ hs))
    rw [hrw, List.length_cons]
    omega

/-- The effect of `DeleteBufferInCache` on each entry of a list of distinct cached sequence
numbers: every one is erased, reported and appended to `deletingList_`. -/
theorem fold_DeleteBufferInCache (l : List Int) (q : BufferQueue) (hnd : l.Nodup)
    (hc : ∀ s ∈ l, (cacheFind q.bufferQueueCache_ s).isSome = true) :
    l.foldl DeleteBufferInCache q =
      { q with
        deleteCalls := if q.onBufferDelete_ = true then q.deleteCalls ++ l else q.deleteCalls,
        bufferQueueCache_ := eraseAll q.bufferQueueCache_ l,
        deletingList_ := q.deletingList_ ++ l } := by
  induction l generalizing q with
  | nil =>
    obtain ⟨sh, qs, c, fl, dl, del, l1, l2, obr, obd, mu, dc, ac⟩ := q
    simp [eraseAll]
  | cons a rest ih =>
    obtain ⟨e, he⟩ := Option.isSome_iff_exists.1 (hc a (List.mem_cons_self _ _))
    have hnd2 := List.nodup_cons.1 hnd
    rw [List.foldl_cons, DeleteBufferInCache_of_find q a e he]
    obtain ⟨sh, qs, c, fl, dl, del, l1, l2, obr, obd, mu, dc, ac⟩ := q
    rw [ih _ hnd2.2 (by
      intro s hs
      show (cacheFind (cacheErase c a) s).isSome = true
      rw [cacheFind_erase, if_neg (fun h : s = a => hnd2.1 (h ▸ hs))]
      exact hc s (List.mem_cons_of_mem _ hs))]
    cases obd <;> simp [eraseAll]

/-- The part of `DeleteBuffers(k)` that runs with the mutex held, for `k ≥ 1`, when the
entries of `freeList_` and `dirtyList_` are distinct and cached. -/
theorem locked_spec (q : BufferQueue) (k : Nat) (hk : 1 ≤ k)
    (hnd : (q.freeList_ ++ q.dirtyList_).Nodup)
    (hc : ∀ s ∈ q.freeList_ ++ q.dirtyList_, (cacheFind q.bufferQueueCache_ s).isSome = true) :
    DeleteBuffers.locked q (k : Int) =
      { q with
        freeList_ := q.freeList_.drop k,
        dirtyList_ := q.dirtyList_.drop (k - q.freeList_.length),
        bufferQueueCache_ :=
          flagFirst (k - q.freeList_.length - q.dirtyList_.length)
            (eraseAll q.bufferQueueCache_ ((q.freeList_ ++ q.dirtyList_).take k)),
        deletingList_ := q.deletingList_ ++ (q.freeList_ ++ q.dirtyList_).take k,
        deleteCalls :=
          if q.onBufferDelete_ = true then
            q.deleteCalls ++ (q.freeList_ ++ q.dirtyList_).take k
          else q.deleteCalls } := by
  obtain ⟨sh, qs, c, fl, dl, del, l1, l2, obr, obd, mu, dc, ac⟩ := q
  simp only at hnd hc ⊢
  have hndf : fl.Nodup := (List.nodup_append.1 hnd).1
  have hndd : dl.Nodup := (List.nodup_append.1 hnd).2.1
  have hdisj := (List.nodup_append.1 hnd).2.2
  have htake : (fl ++ dl).take k = fl.take k ++ dl.take (k - fl.length) :=
    List.take_append_eq_append_take
  have hf1 := fold_DeleteBufferInCache (fl.take k)
    ⟨sh, qs, c, fl, dl, del, l1, l2, obr, obd, mu, dc, ac⟩
    (List.Nodup.sublist (List.take_sublist _ _) hndf)
    (fun s hs => hc s (List.mem_append_left _ (List.mem_of_mem_take hs)))
  simp only at hf1
  unfold DeleteBuffers.locked
  simp only [drain_spec _ _ k hk, hf1]
  by_cases h1 : k ≤ fl.length
  · have e1 : k - fl.length = 0 := by omega
    simp only [decide_eq_true h1, if_true, htake, e1, List.take_zero, List.append_nil,
      List.drop_zero, Nat.zero_sub, flagFirst, List.map_nil, List.nil_append]
  · have hk2 : 1 ≤ k - fl.length := by omega
    have hft : fl.take k = fl := List.take_of_length_le (by omega)
    have hf2 := fold_DeleteBufferInCache (dl.take (k - fl.length))
      ⟨sh, qs, eraseAll c (fl.take k), fl.drop k, dl, del ++ fl.take k, l1, l2, obr, obd, mu,
        if obd = true then dc ++ fl.take k else dc, ac⟩
      (List.Nodup.sublist (List.take_sublist _ _) hndd)
      (fun s hs => by
        have hsd : s ∈ dl := List.mem_of_mem_take hs
        show (cacheFind (eraseAll c (fl.take k)) s).isSome = true
        rw [cacheFind_eraseAll, if_neg (fun h => hdisj (List.mem_of_mem_take h) hsd)]
        exact hc s (List.mem_append_right _ hsd))
    simp only at hf2
    simp only [decide_eq_false h1, Bool.false_eq_true, if_false, drain_spec _ _ _ hk2, hf2]
    by_cases h2 : k - fl.length ≤ dl.length
    · have e2 : k - fl.length - dl.length = 0 := by omega
      simp only [decide_eq_true h2, if_true, htake, e2, flagFirst, List.take_zero,
        List.map_nil, List.nil_append, List.drop_zero, eraseAll_append, List.append_assoc]
      cases obd <;> simp
    · have hk3 : 1 ≤ k - fl.length - dl.length := by omega
      simp only [decide_eq_false h2, Bool.false_eq_true, if_false,
        mark_eq_flagFirst _ _ hk3, htake, eraseAll_append, List.append_assoc]
      cases obd <;> simp

/-- The number of flagged entries after the first `m` entries are flagged. -/
theorem flagFirst_count (m : Nat) (c : Cache) :
    (flagFirst m c).countP (fun p => p.2.isDeleting) =
      c.countP (fun p => p.2.isDeleting) + (c.take m).countP (fun p => !p.2.isDeleting) := by
  have h1 : ∀ l : Cache,
      (l.map (fun p => (p.1, { p.2 with isDeleting := true }))).countP
        (fun p => p.2.isDeleting) = l.length := by
    intro l
    induction l with
    | nil => rfl
    | cons p rest ih => simp [List.countP_cons, ih]
  have h2 : ∀ l : Cache, l.length =
      l.countP (fun p => p.2.isDeleting) + l.countP (fun p => !p.2.isDeleting) := by
    intro l
    induction l with
    | nil => rfl
    | cons p rest ih =>
      cases hp : p.2.isDeleting <;> simp [List.countP_cons, hp] <;> omega
  have h3 : c.countP (fun p => p.2.isDeleting) =
      (c.take m).countP (fun p => p.2.isDeleting) +
        (c.drop m).countP (fun p => p.2.isDeleting) := by
    rw [← List.countP_append, List.take_append_drop]
  unfold flagFirst
  rw [List.countP_append, h1, h3]
  have h5 := h2 (c.take m)
  omega

/-- C22, counterexample: in a queue of size 4 whose cache holds the Requested buffers `0`
(flagged), `1` and `2` (not flagged) and whose lists are empty, `SetQueueSize(3)` (so
`k = 1`) deletes nothing and sets the flag of buffer `0` again: no flag changes from false
to true, while `min(k, number of entries not flagged before)` is 1. -/
theorem shrink_count_counterexample :
    (runOr sampleConsts (BufferQueue.ctor sampleConsts false) reflagOps).queueSize_ = 4 ∧
    (runOr sampleConsts (BufferQueue.ctor sampleConsts false) reflagOps).bufferQueueCache_.map
      (fun p => (p.1, p.2.isDeleting)) = [(0, true), (1, false), (2, false)] ∧
    (runOr sampleConsts (BufferQueue.ctor sampleConsts false) reflagOps).freeList_ = [] ∧
    (runOr sampleConsts (BufferQueue.ctor sampleConsts false) reflagOps).dirtyList_ = [] ∧
    SetQueueSize sampleConsts
        (runOr sampleConsts (BufferQueue.ctor sampleConsts false) reflagOps) 3 =
      Except.ok (GSError.GSERROR_OK,
        { runOr sampleConsts (BufferQueue.ctor sampleConsts false) reflagOps with
          queueSize_ := 3 }) ∧
    min (4 - 3)
      ((runOr sampleConsts (BufferQueue.ctor sampleConsts false)
        reflagOps).bufferQueueCache_.countP (fun p => !p.2.isDeleting)) = 1 := by
  refine ⟨by decide, by decide, by decide, by decide, rfl, by decide⟩

/-- C22, amended: `SetQueueSize(n)` on a non-shared queue with the mutex free, for
`1 ≤ n ≤ SURFACE_MAX_QUEUE_SIZE` and `k = queueSize_ - n ≥ 1` (old size below `2^31`), when
the entries of `freeList_` and `dirtyList_` are distinct and cached and the cache keys are
distinct.  It returns Ok, sets `queueSize_` to `n`, and deletes the first `k` entries of
`freeList_` followed by `dirtyList_`: each is erased from the cache, dropped from its list,
reported to `onBufferDelete_` when that is installed, and appended to `deletingList_`, in
that order.  When `k` exceeds the length of both lists, the first
`k - |freeList_| - |dirtyList_|` entries that remain in the cache, in key order, get
`isDeleting = true`, whether or not they were flagged before.  So the number of entries
deleted plus the number of entries whose flag is set is `min(k, cache size)`, and the
number of flags that change from false to true is the number of unflagged entries among
those first remaining entries. -/
theorem SetQueueSize_shrink (K : SurfaceConsts) (q : BufferQueue) (n k : Nat)
    (hu : q.mutex_ = false) (hs : q.isShared_ = false) (hn : 1 ≤ n)
    (hmax : n ≤ K.SURFACE_MAX_QUEUE_SIZE) (hk : q.queueSize_ = n + k) (hk1 : 1 ≤ k)
    (hq : q.queueSize_ < 2 ^ 31)
    (hnd : (q.freeList_ ++ q.dirtyList_).Nodup)
    (hc : ∀ s ∈ q.freeList_ ++ q.dirtyList_, (cacheFind q.bufferQueueCache_ s).isSome = true)
    (hkeys : (cacheKeys q.bufferQueueCache_).Nodup) :
    SetQueueSize K q n = Except.ok (GSError.GSERROR_OK,
      { q with
        queueSize_ := n,
        freeList_ := q.freeList_.drop k,
        dirtyList_ := q.dirtyList_.drop (k - q.freeList_.length),
        bufferQueueCache_ :=
          flagFirst (k - q.freeList_.length - q.dirtyList_.length)
            (eraseAll q.bufferQueueCache_ ((q.freeList_ ++ q.dirtyList_).take k)),
        deletingList_ := q.deletingList_ ++ (q.freeList_ ++ q.dirtyList_).take k,
        deleteCalls :=
          if q.onBufferDelete_ = true then
            q.deleteCalls ++ (q.freeList_ ++ q.dirtyList_).take k
          else q.deleteCalls }) ∧
    (eraseAll q.bufferQueueCache_ ((q.freeList_ ++ q.dirtyList_).take k)).length +
        ((q.freeList_ ++ q.dirtyList_).take k).length = q.bufferQueueCache_.length ∧
    ((q.freeList_ ++ q.dirtyList_).take k).length +
        min (k - q.freeList_.length - q.dirtyList_.length)
          (eraseAll q.bufferQueueCache_ ((q.freeList_ ++ q.dirtyList_).take k)).length =
      min k q.bufferQueueCache_.length ∧
    (flagFirst (k - q.freeList_.length - q.dirtyList_.length)
        (eraseAll q.bufferQueueCache_ ((q.freeList_ ++ q.dirtyList_).take k))).countP
        (fun p => p.2.isDeleting) =
      (eraseAll q.bufferQueueCache_ ((q.freeList_ ++ q.dirtyList_).take k)).countP
          (fun p => p.2.isDeleting) +
        ((eraseAll q.bufferQueueCache_ ((q.freeList_ ++ q.dirtyList_).take k)).take
          (k - q.freeList_.length - q.dirtyList_.length)).countP
          (fun p => !p.2.isDeleting) := by
  have hlen := length_eraseAll ((q.freeList_ ++ q.dirtyList_).take k) q.bufferQueueCache_ hkeys
    (List.Nodup.sublist (List.take_sublist _ _) hnd)
    (fun s hs => hc s (List.mem_of_mem_take hs))
  refine ⟨?_, hlen, ?_, flagFirst_count _ _⟩
  · have hshape := SetQueueSize_shape K q n hu
    rw [if_pos ⟨hn, hmax, Or.inl hs⟩] at hshape
    obtain ⟨q1, hd, hset⟩ := hshape
    have harg : toInt32 (q.queueSize_ % 2 ^ 32 + 2 ^ 32 - n % 2 ^ 32) = (k : Int) := by
      have h1 : q.queueSize_ % 2 ^ 32 + 2 ^ 32 - n % 2 ^ 32 = k + 2 ^ 32 := by omega
      rw [h1]
      unfold toInt32
      have h2 : (k + 2 ^ 32) % 2 ^ 32 = k := by omega
      rw [h2, if_pos (by omega)]
    obtain ⟨q2, hd2, -, hpos⟩ := DeleteBuffers_returns q (k : Int) hu
    rw [harg, hd2] at hd
    cases hd
    have hq2 := hpos (by omega)
    rw [hset, hq2]
    obtain ⟨sh, qs, c, fl, dl, del, l1, l2, obr, obd, mu, dc, ac⟩ := q
    simp only at hu hnd hc
    subst hu
    rw [locked_spec _ k hk1 hnd hc]
    rfl
  · have hl : ((q.freeList_ ++ q.dirtyList_).take k).length =
        min k (q.freeList_.length + q.dirtyList_.length) := by
      rw [List.length_take, List.length_append]
    omega

/-- C22, amended, witness: in a queue of size 5 with the buffers `0`, `1` in `freeList_`,
`2` in `dirtyList_` and `3` with the producer, `SetQueueSize(1)` deletes `0`, `1`, `2` in
that order and flags `3`. -/
theorem SetQueueSize_shrink_witness :
    ∃ q1, SetQueueSize sampleConsts
        (runOr sampleConsts (BufferQueue.ctor sampleConsts false) mixedOps) 1 =
        Except.ok (GSError.GSERROR_OK, q1) ∧
      q1.queueSize_ = 1 ∧ q1.freeList_ = [] ∧ q1.dirtyList_ = [] ∧
      q1.deletingList_ = [0, 1, 2] ∧ q1.deleteCalls = [0, 1, 2] ∧
      q1.bufferQueueCache_.map (fun p => (p.1, p.2.isDeleting)) = [(3, true)] :=
  ⟨_, (SetQueueSize_shrink sampleConsts
      (runOr sampleConsts (BufferQueue.ctor sampleConsts false) mixedOps) 1 4
      rfl rfl (by decide) (by decide) rfl (by decide) (by decide) (by decide) (by decide)
      (by decide)).1, rfl, by decide, by decide, by decide, by decide, by decide⟩

theorem ReuseBuffer.finish_no_relock (K : SurfaceConsts) (q : BufferQueue)
    (retval : RequestBufferReturnValue) (needRealloc : Bool) :
    ReuseBuffer.finish K q retval needRealloc ≠ Except.error Fault.deadlock := by
  intro h
  unfold ReuseBuffer.finish at h
  dsimp only at h
  repeat' first
    | (cases h)
    | split at h

theorem ReuseBuffer_no_relock (K : SurfaceConsts) (q : BufferQueue)
    (config : BufferRequestConfig) (bedata : Option BufferExtraData)
    (retval : RequestBufferReturnValue) (a : AllocOutcome) :
    ReuseBuffer K q config bedata retval a ≠ Except.error Fault.deadlock := by
  intro h
  unfold ReuseBuffer at h
  dsimp only at h
  repeat' first
    | exact ReuseBuffer.finish_no_relock _ _ _ _ h
    | (cases h)
    | split at h

theorem RequestBuffer.alloc_no_relock (K : SurfaceConsts) (q : BufferQueue)
    (config : BufferRequestConfig) (bedata : Option BufferExtraData)
    (retval : RequestBufferReturnValue) (a : AllocOutcome) :
    RequestBuffer.alloc K q config bedata retval a ≠ Except.error Fault.deadlock := by
  intro h
  unfold RequestBuffer.alloc at h
  dsimp only at h
  repeat' first
    | (cases h)
    | split at h

theorem RequestBuffer.locked_no_relock (K : SurfaceConsts) (q : BufferQueue)
    (config : BufferRequestConfig) (bedata : Option BufferExtraData)
    (retval : RequestBufferReturnValue) (a : AllocOutcome) :
    RequestBuffer.locked K q config bedata retval a ≠ Except.error Fault.deadlock := by
  intro h
  unfold RequestBuffer.locked at h
  dsimp only at h
  repeat' first
    | exact ReuseBuffer_no_relock _ _ _ _ _ _ h
    | exact RequestBuffer.alloc_no_relock _ _ _ _ _ _ h
    | (cases h)
    | split at h

theorem RequestBuffer_no_relock (K : SurfaceConsts) (q : BufferQueue)
    (config : BufferRequestConfig) (a : AllocOutcome) (hu : q.mutex_ = false) :
    RequestBuffer K q config a ≠ Except.error Fault.deadlock := by
  intro h
  unfold RequestBuffer at h
  rw [lock_of_unlocked q hu] at h
  dsimp only at h
  repeat' first
    | (cases h; exact RequestBuffer.locked_no_relock _ _ _ _ _ _ ‹_›)
    | (cases h)
    | split at h

theorem CancelBuffer_no_relock (K : SurfaceConsts) (q : BufferQueue) (sequence : Int)
    (bedata : Option BufferExtraData) (hu : q.mutex_ = false) :
    CancelBuffer K q sequence bedata ≠ Except.error Fault.deadlock := by
  intro h
  unfold CancelBuffer at h
  rw [lock_of_unlocked q hu] at h
  dsimp only at h
  repeat' first
    | (cases h)
    | split at h

theorem DoFlushBuffer_no_relock (K : SurfaceConsts) (q : BufferQueue) (sequence : Int)
    (bedata : Option BufferExtraData) (fence : Int) (config : BufferFlushConfig)
    (flushCacheRet : GSError) (now : Int) (hu : q.mutex_ = false) :
    DoFlushBuffer K q sequence bedata fence config flushCacheRet now ≠
      Except.error Fault.deadlock := by
  intro h
  unfold DoFlushBuffer at h
  rw [lock_of_unlocked q hu] at h
  dsimp only at h
  repeat' first
    | (cases h)
    | split at h

theorem FlushBuffer_no_relock (K : SurfaceConsts) (q : BufferQueue) (sequence : Int)
    (bedata : Option BufferExtraData) (fence : Int) (config : BufferFlushConfig)
    (flushCacheRet : GSError) (now : Int) (hu : q.mutex_ = false) :
    FlushBuffer K q sequence bedata fence config flushCacheRet now ≠
      Except.error Fault.deadlock := by
  intro h
  unfold FlushBuffer at h
  rw [lock_of_unlocked q hu] at h
  dsimp only at h
  repeat' first
    | (cases h; exact CancelBuffer_no_relock K _ sequence bedata rfl ‹_›)
    | (cases h;
       exact DoFlushBuffer_no_relock K _ sequence bedata fence config flushCacheRet now rfl ‹_›)
    | (cases h)
    | split at h

theorem AcquireBuffer_no_relock (K : SurfaceConsts) (q : BufferQueue) (hu : q.mutex_ = false) :
    AcquireBuffer K q ≠ Except.error Fault.deadlock := by
  intro h
  unfold AcquireBuffer at h
  rw [lock_of_unlocked q hu] at h
  dsimp only at h
  repeat' first
    | (cases h)
    | split at h

theorem ReleaseBuffer_no_relock (K : SurfaceConsts) (q : BufferQueue)
    (buffer : Option SurfaceBuffer) (fence : Int) (cbRet : GSError) (hu : q.mutex_ = false) :
    ReleaseBuffer K q buffer fence cbRet ≠ Except.error Fault.deadlock := by
  intro h
  unfold ReleaseBuffer at h
  cases buffer with
  | none => cases h
  | some b =>
    dsimp only at h
    rw [lock_of_unlocked q hu] at h
    simp only [lock, unlock, Bool.false_eq_true, if_false] at h
    repeat' first
      | (cases h)
      | split at h

theorem DetachBuffer_no_relock (q : BufferQueue) (buffer : Option SurfaceBuffer)
    (hu : q.mutex_ = false) : DetachBuffer q buffer ≠ Except.error Fault.deadlock := by
  intro h
  unfold DetachBuffer at h
  cases buffer with
  | none =>
    dsimp only at h
    repeat' first
      | (cases h)
      | split at h
  | some b =>
    dsimp only at h
    rw [lock_of_unlocked q hu] at h
    dsimp only at h
    repeat' first
      | (cases h)
      | split at h

theorem SetQueueSize_no_relock (K : SurfaceConsts) (q : BufferQueue) (n : Nat)
    (hu : q.mutex_ = false) : SetQueueSize K q n ≠ Except.error Fault.deadlock := by
  intro h
  have hshape := SetQueueSize_shape K q n hu
  split_ifs at hshape
  · obtain ⟨q1, -, h1⟩ := hshape
    rw [h1] at h
    cases h
  · rw [hshape] at h
    cases h

theorem CleanCache_no_relock (q : BufferQueue) (hu : q.mutex_ = false) :
    CleanCache q ≠ Except.error Fault.deadlock := by
  intro h
  unfold CleanCache at h
  rw [lock_of_unlocked q hu] at h
  cases h

theorem RegisterDeleteBufferListener_no_relock (q : BufferQueue) (func : Bool)
    (hu : q.mutex_ = false) :
    RegisterDeleteBufferListener q func ≠ Except.error Fault.deadlock := by
  intro h
  unfold RegisterDeleteBufferListener at h
  rw [lock_of_unlocked q hu] at h
  dsimp only at h
  repeat' first
    | (cases h)
    | split at h

theorem DumpCache_no_relock (fixed2 : Nat → StdString) (c : Cache) (result : StdString) :
    DumpCache fixed2 c result ≠ Except.error Fault.deadlock := by
  induction c generalizing result with
  | nil => intro h; unfold DumpCache at h; cases h
  | cons p rest ih =>
    obtain ⟨k, e⟩ := p
    intro h
    unfold DumpCache at h
    split at h
    · rename_i f hf
      cases h
      unfold DumpCache.line at hf
      split at hf
      · cases hf
      · split at hf <;> cases hf
    · exact ih _ h

theorem Dump.total_no_relock (c : Cache) (t : Nat) :
    Dump.total c t ≠ Except.error Fault.deadlock := by
  induction c generalizing t with
  | nil => intro h; unfold Dump.total at h; cases h
  | cons p rest ih =>
    obtain ⟨k, e⟩ := p
    intro h
    unfold Dump.total at h
    split at h
    · cases h
    · exact ih _ h

theorem Dump_no_relock (fixed2 : Nat → StdString) (defaultWidth defaultHeight : Int)
    (name_ : StdString) (uniqueId_ : Nat) (q : BufferQueue) (allSurfacesMemSize : Nat)
    (result : StdString) (hu : q.mutex_ = false) :
    Dump fixed2 defaultWidth defaultHeight name_ uniqueId_ q allSurfacesMemSize result ≠
      Except.error Fault.deadlock := by
  intro h
  unfold Dump at h
  cases ht : Dump.total q.bufferQueueCache_ 0 with
  | error f =>
    simp only [lock_of_unlocked q hu, ht] at h
    cases h
    exact Dump.total_no_relock _ _ ht
  | ok t =>
    simp only [lock_of_unlocked q hu, ht] at h
    split at h
    · cases h
    · split at h
      · exact Except.noConfusion h
      · split at h
        · rename_i f hf
          cases h
          exact DumpCache_no_relock _ _ _ hf
        · exact Except.noConfusion h

/-- `AttachBuffer(b)` on a non-shared queue with the mutex free whose cache is full and whose
lists hold enough entries: `DeleteBuffers` locks the mutex that `AttachBuffer` holds. -/
theorem AttachBuffer_relocks (K : SurfaceConsts) (q : BufferQueue) (b : SurfaceBuffer)
    (hu : q.mutex_ = false) (hs : q.isShared_ = false) (hq : q.queueSize_ < 2 ^ 31)
    (hfull : q.queueSize_ ≤ q.bufferQueueCache_.length)
    (hfree : q.bufferQueueCache_.length + 1 ≤
      q.queueSize_ + (q.dirtyList_.length + q.freeList_.length)) :
    AttachBuffer K q (some b) = Except.error Fault.deadlock := by
  unfold AttachBuffer
  rw [if_neg (by rw [hs]; decide), lock_of_unlocked q hu]
  dsimp only
  have h1 : toInt32 (GetQueueSize { q with mutex_ := true }) = (q.queueSize_ : Int) :=
    toInt32_of_lt _ hq
  have h2 : GetUsedSize { q with mutex_ := true } = q.bufferQueueCache_.length := rfl
  rw [h1, h2]
  rw [if_pos (by omega), if_pos (by push_cast; omega)]
  rw [DeleteBuffers_deadlock _ _ rfl (by omega)]

theorem AttachBuffer_no_relock_of_room (K : SurfaceConsts) (q : BufferQueue)
    (buffer : Option SurfaceBuffer) (hu : q.mutex_ = false)
    (hroom : q.isShared_ = true ∨ buffer = none ∨
      (q.bufferQueueCache_.length : Int) < toInt32 q.queueSize_ ∨
      ((q.dirtyList_.length + q.freeList_.length : Nat) : Int) <
        (q.bufferQueueCache_.length : Int) - toInt32 q.queueSize_ + 1) :
    AttachBuffer K q buffer ≠ Except.error Fault.deadlock := by
  intro h
  unfold AttachBuffer at h
  cases buffer with
  | none =>
    dsimp only at h
    split at h <;> cases h
  | some b =>
    by_cases h0 : q.isShared_ = true
    · rw [if_pos h0] at h
      cases h
    · rw [if_neg h0, lock_of_unlocked q hu] at h
      dsimp only at h
      have e1 : (GetUsedSize { q with mutex_ := true } : Int) = q.bufferQueueCache_.length :=
        rfl
      have e2 : toInt32 (GetQueueSize { q with mutex_ := true }) = toInt32 q.queueSize_ := rfl
      rw [e1, e2] at h
      rcases hroom with h1 | h1 | h1 | h1
      · exact h0 h1
      · cases h1
      · rw [if_neg (by omega)] at h
        cases h
      · by_cases h2 : (q.bufferQueueCache_.length : Int) ≥ toInt32 q.queueSize_
        · rw [if_pos h2, if_neg (by omega)] at h
          cases h
        · rw [if_neg h2] at h
          cases h

theorem map_no_relock {α β : Type} (x : Except Fault α) (f : α → β)
    (h : x ≠ Except.error Fault.deadlock) : x.map f ≠ Except.error Fault.deadlock := by
  cases x with
  | error e =>
    intro h2
    apply h
    simp only [Except.map] at h2
    cases h2
    rfl
  | ok a =>
    intro h2
    simp only [Except.map] at h2
    cases h2

/-- C30: with the mutex modelled as a held/free flag and free at the start of the call.
Every public operation other than `AttachBuffer`, and `Dump`, never locks the mutex while
the same call holds it.  `AttachBuffer` does not either when the queue is shared, the
buffer is null, the cache holds fewer than `queueSize_` entries, or the two lists hold
fewer than `used - queueSize_ + 1` entries.  But `AttachBuffer` of a non-null buffer on a
non-shared full queue (cache size at least `queueSize_`, below `2^31`) whose `freeList_`
and `dirtyList_` hold at least `used - queueSize_ + 1` entries calls `DeleteBuffers` with
the mutex held by `AttachBuffer` itself, and `DeleteBuffers` locks it again. -/
theorem reentrant_locking (K : SurfaceConsts) (q : BufferQueue) (hu : q.mutex_ = false) :
    (∀ op : Op, Op.isAttach op = false → step K q op ≠ Except.error Fault.deadlock) ∧
    (∀ (fixed2 : Nat → StdString) (defaultWidth defaultHeight : Int) (name_ : StdString)
        (uniqueId_ allSurfacesMemSize : Nat) (result : StdString),
      Dump fixed2 defaultWidth defaultHeight name_ uniqueId_ q allSurfacesMemSize result ≠
        Except.error Fault.deadlock) ∧
    (∀ buffer : Option SurfaceBuffer,
      (q.isShared_ = true ∨ buffer = none ∨
        (q.bufferQueueCache_.length : Int) < toInt32 q.queueSize_ ∨
        ((q.dirtyList_.length + q.freeList_.length : Nat) : Int) <
          (q.bufferQueueCache_.length : Int) - toInt32 q.queueSize_ + 1) →
      AttachBuffer K q buffer ≠ Except.error Fault.deadlock) ∧
    (∀ b : SurfaceBuffer, q.isShared_ = false → q.queueSize_ < 2 ^ 31 →
      q.queueSize_ ≤ q.bufferQueueCache_.length →
      q.bufferQueueCache_.length + 1 ≤
        q.queueSize_ + (q.dirtyList_.length + q.freeList_.length) →
      AttachBuffer K q (some b) = Except.error Fault.deadlock ∧
        step K q (Op.attachBuffer (some b)) = Except.error Fault.deadlock) := by
  refine ⟨?_, ?_, ?_, ?_⟩
  · intro op hop
    cases op with
    | requestBuffer config a =>
      exact map_no_relock _ _ (RequestBuffer_no_relock K q config a hu)
    | cancelBuffer sequence bedata =>
      exact map_no_relock _ _ (CancelBuffer_no_relock K q sequence bedata hu)
    | flushBuffer sequence bedata fence config flushCacheRet now =>
      exact map_no_relock _ _
        (FlushBuffer_no_relock K q sequence bedata fence config flushCacheRet now hu)
    | acquireBuffer => exact map_no_relock _ _ (AcquireBuffer_no_relock K q hu)
    | releaseBuffer buffer fence cbRet =>
      exact map_no_relock _ _ (ReleaseBuffer_no_relock K q buffer fence cbRet hu)
    | attachBuffer buffer => cases hop
    | detachBuffer buffer => exact map_no_relock _ _ (DetachBuffer_no_relock q buffer hu)
    | setQueueSize queueSize => exact map_no_relock _ _ (SetQueueSize_no_relock K q queueSize hu)
    | cleanCache => exact map_no_relock _ _ (CleanCache_no_relock q hu)
    | registerConsumerListener listener => intro h; cases h
    | registerConsumerListenerClazz listener => intro h; cases h
    | unregisterConsumerListener => intro h; cases h
    | registerReleaseListener func => intro h; cases h
    | registerDeleteBufferListener func =>
      exact map_no_relock _ _ (RegisterDeleteBufferListener_no_relock q func hu)
  · intro fixed2 defaultWidth defaultHeight name_ uniqueId_ allSurfacesMemSize result
    exact Dump_no_relock fixed2 defaultWidth defaultHeight name_ uniqueId_ q allSurfacesMemSize
      result hu
  · intro buffer hroom
    exact AttachBuffer_no_relock_of_room K q buffer hu hroom
  · intro b hs hq hfull hfree
    have h := AttachBuffer_relocks K q b hu hs hq hfull hfree
    refine ⟨h, ?_⟩
    show (AttachBuffer K q (some b)).map (fun r => r.2) = Except.error Fault.deadlock
    rw [h]
    rfl

/-- C30, witness: in a queue of size 1 whose single buffer `0` sits in `freeList_`,
`AttachBuffer` of buffer `5` locks the mutex a second time. -/
theorem reentrant_locking_witness :
    (runOr sampleConsts (BufferQueue.ctor sampleConsts false) fullQueueOps).mutex_ = false ∧
    (runOr sampleConsts (BufferQueue.ctor sampleConsts false) fullQueueOps).queueSize_ = 1 ∧
    (runOr sampleConsts (BufferQueue.ctor sampleConsts false) fullQueueOps).freeList_ = [0] ∧
    step sampleConsts (runOr sampleConsts (BufferQueue.ctor sampleConsts false) fullQueueOps)
      (Op.attachBuffer (some (sampleBuffer 5 800 600))) = Except.error Fault.deadlock ∧
    step sampleConsts (runOr sampleConsts (BufferQueue.ctor sampleConsts false) fullQueueOps)
      (Op.detachBuffer (some (sampleBuffer 0 800 600))) ≠ Except.error Fault.deadlock :=
  ⟨rfl, rfl, rfl,
    ((reentrant_locking sampleConsts
      (runOr sampleConsts (BufferQueue.ctor sampleConsts false) fullQueueOps) rfl).2.2.2
      (sampleBuffer 5 800 600) rfl (by decide) (by decide) (by decide)).2,
    (reentrant_locking sampleConsts
      (runOr sampleConsts (BufferQueue.ctor sampleConsts false) fullQueueOps) rfl).1
      (Op.detachBuffer (some (sampleBuffer 0 800 600))) rfl⟩

namespace Rosen

theorem visit_wait_mono (timestamp vsyncCount : Int) (c : VSyncConnection) (conns : List Nat) :
    (CollectConnections.visit timestamp vsyncCount c true conns).2.1 = true := by
  unfold CollectConnections.visit
  dsimp only
  split_ifs <;> rfl

theorem loop_wait_mono (timestamp vsyncCount : Int) (cs : List VSyncConnection)
    (conns : List Nat) :
    (CollectConnections.loop timestamp vsyncCount cs true conns).2.1 = true := by
  induction cs generalizing conns with
  | nil => rfl
  | cons c rest ih =>
    simp only [CollectConnections.loop]
    rw [visit_wait_mono]
    exact ih _

theorem visit_select_cases (timestamp vsyncCount : Int) (c : VSyncConnection) (w : Bool)
    (conns : List Nat) :
    (CollectConnections.visit timestamp vsyncCount c w conns).2.2 = conns ∨
      ((CollectConnections.visit timestamp vsyncCount c w conns).2.1 = true ∧ timestamp > 0) := by
  unfold CollectConnections.visit
  dsimp only
  split_ifs <;> simp [*]

/-- A pass of `CollectConnections` selects connections only for a timestamp above zero, and
then it sets `waitForVSync`. -/
theorem loop_select_cases (timestamp vsyncCount : Int) (cs : List VSyncConnection) (w : Bool)
    (conns : List Nat) :
    (CollectConnections.loop timestamp vsyncCount cs w conns).2.2 = conns ∨
      ((CollectConnections.loop timestamp vsyncCount cs w conns).2.1 = true ∧ timestamp > 0) := by
  induction cs generalizing w conns with
  | nil => left; rfl
  | cons c rest ih =>
    simp only [CollectConnections.loop]
    rcases visit_select_cases timestamp vsyncCount c w conns with h | ⟨h1, h2⟩
    · rw [h]
      exact ih _ _
    · right
      rw [h1]
      exact ⟨loop_wait_mono _ _ _ _, h2⟩

theorem EnableVSync_connections (d : VSyncDistributor) (controller_ : Bool) :
    (EnableVSync d controller_).connections_ = d.connections_ := by
  unfold EnableVSync
  split_ifs <;> rfl

/-- An iteration of the loop of `ThreadMain` collects the connections for the pending event
and sends to those it selected. -/
theorem iteration_spec (d : VSyncDistributor) (controller_ : Bool) (softNow : Option Int)
    (sendRet : Nat → Int) :
    (ThreadMain.iteration d controller_ softNow sendRet).1.connections_ =
      (ThreadMain.send sendRet
        (CollectConnections (VSyncDistributor.mk d.connections_
          (VSyncEvent.mk 0 d.event_.vsyncCount) d.vsyncEnabled_)
          false d.event_.timestamp [] d.event_.vsyncCount).2.2
        (CollectConnections.loop d.event_.timestamp d.event_.vsyncCount d.connections_
          false []).2.2).connections_ ∧
    (ThreadMain.iteration d controller_ softNow sendRet).2.map Prod.fst =
      (CollectConnections.loop d.event_.timestamp d.event_.vsyncCount d.connections_
        false []).2.2 := by
  have hcases := loop_select_cases d.event_.timestamp d.event_.vsyncCount d.connections_ false []
  unfold ThreadMain.iteration
  dsimp only
  by_cases h0 : d.event_.timestamp = 0
  · have hnil : (CollectConnections.loop d.event_.timestamp d.event_.vsyncCount d.connections_
        false []).2.2 = [] := by
      rcases hcases with h | ⟨-, h⟩
      · exact h
      · omega
    rw [if_pos h0]
    simp only [CollectConnections, hnil, ThreadMain.send]
    split_ifs
    · cases softNow with
      | none => exact ⟨EnableVSync_connections _ _, rfl⟩
      | some now => exact ⟨EnableVSync_connections _ _, rfl⟩
    · exact ⟨rfl, rfl⟩
  · rw [if_neg h0]
    by_cases h1 : d.event_.timestamp > 0 ∧
        (CollectConnections.loop d.event_.timestamp d.event_.vsyncCount d.connections_
          false []).2.1 = false
    · have hnil : (CollectConnections.loop d.event_.timestamp d.event_.vsyncCount
          d.connections_ false []).2.2 = [] := by
        rcases hcases with h | ⟨h, -⟩
        · exact h
        · rw [h1.2] at h; cases h
      simp only [CollectConnections, hnil, ThreadMain.send]
      rw [if_pos h1]
      exact ⟨rfl, rfl⟩
    · simp only [CollectConnections]
      rw [if_neg h1]
      refine ⟨rfl, ?_⟩
      simp only [List.map_map]
      exact List.map_id _

theorem updateAt_back (cs : List VSyncConnection) (a : Nat)
    (f : VSyncConnection → VSyncConnection) (x : VSyncConnection) (hx : x ∈ updateAt cs a f) :
    ∃ y ∈ cs, x = y ∨ (y.addr = a ∧ x = f y) := by
  unfold updateAt at hx
  obtain ⟨y, hy, rfl⟩ := List.mem_map.1 hx
  refine ⟨y, hy, ?_⟩
  by_cases h : y.addr = a
  · right; exact ⟨h, by rw [if_pos h]⟩
  · left; rw [if_neg h]

theorem eraseFirst_sublist (cs : List VSyncConnection) (a : Nat) :
    (eraseFirst cs a).Sublist cs := by
  induction cs with
  | nil => exact List.Sublist.refl _
  | cons c rest ih =>
    unfold eraseFirst
    split_ifs
    · exact List.sublist_cons_self _ _
    · exact List.Sublist.cons₂ _ ih

theorem PostEvent_fields (c : VSyncConnection) (ret : Int) :
    (c.PostEvent ret).2.addr = c.addr ∧ (c.PostEvent ret).2.rate_ = c.rate_ ∧
      (c.PostEvent ret).2.highPriorityState_ = c.highPriorityState_ := by
  unfold VSyncConnection.PostEvent
  split_ifs <;> exact ⟨rfl, rfl, rfl⟩

/-- Where a connection after the sending step for the connection at `b` comes from: its
rate is as before, unless it is the connection at `b`, the send returned `ERRNO_EAGAIN`
and the rate was negative. -/
theorem post_back (d : VSyncDistributor) (b : Nat) (ret : Int) (x : VSyncConnection)
    (hx : x ∈ (ThreadMain.post d b ret).connections_) :
    ∃ y ∈ d.connections_, y.addr = x.addr ∧ y.highPriorityState_ = x.highPriorityState_ ∧
      (x.rate_ = y.rate_ ∨ (x.addr = b ∧ ret = ERRNO_EAGAIN ∧ y.rate_ < 0 ∧ x.rate_ = 0)) := by
  have hposted : ∀ x ∈ updateAt d.connections_ b (fun c => (c.PostEvent ret).2),
      ∃ y ∈ d.connections_, y.addr = x.addr ∧ y.highPriorityState_ = x.highPriorityState_ ∧
        x.rate_ = y.rate_ := by
    intro x hx
    obtain ⟨y, hy, h | ⟨-, h⟩⟩ := updateAt_back _ _ _ _ hx
    · subst h
      exact ⟨x, hy, rfl, rfl, rfl⟩
    · subst h
      obtain ⟨f1, f2, f3⟩ := PostEvent_fields y ret
      exact ⟨y, hy, f1.symm, f3.symm, f2⟩
  unfold ThreadMain.post at hx
  dsimp only at hx
  split_ifs at hx with h1 h2
  · have hx2 : x ∈ updateAt d.connections_ b (fun c => (c.PostEvent ret).2) := by
      unfold RemoveConnection at hx
      dsimp only at hx
      split_ifs at hx
      · exact (eraseFirst_sublist _ _).subset hx
      · exact hx
    obtain ⟨y, hy, e1, e2, e3⟩ := hposted x hx2
    exact ⟨y, hy, e1, e2, Or.inl e3⟩
  · obtain ⟨z, hz, h | ⟨hzb, h⟩⟩ := updateAt_back _ _ _ _ hx
    · subst h
      obtain ⟨y, hy, e1, e2, e3⟩ := hposted x hz
      exact ⟨y, hy, e1, e2, Or.inl e3⟩
    · obtain ⟨y, hy, e1, e2, e3⟩ := hposted z hz
      by_cases hr : z.rate_ < 0
      · rw [if_pos hr] at h
        subst h
        exact ⟨y, hy, e1, e2, Or.inr ⟨hzb, h2, by rw [← e3]; exact hr, rfl⟩⟩
      · rw [if_neg hr] at h
        subst h
        exact ⟨y, hy, e1, e2, Or.inl e3⟩
  · obtain ⟨y, hy, e1, e2, e3⟩ := hposted x hx
    exact ⟨y, hy, e1, e2, Or.inl e3⟩

/-- The sending loop leaves a connection with negative rate and no high-priority override
so, unless a send to it returns `ERRNO_EAGAIN`. -/
theorem send_idle (sendRet : Nat → Int) (a : Nat) (conns : List Nat) (d : VSyncDistributor)
    (hI : ∀ x ∈ d.connections_, x.addr = a → x.rate_ < 0 ∧ x.highPriorityState_ = false)
    (hret : a ∈ conns → sendRet a ≠ ERRNO_EAGAIN) :
    ∀ x ∈ (ThreadMain.send sendRet d conns).connections_, x.addr = a →
      x.rate_ < 0 ∧ x.highPriorityState_ = false := by
  induction conns generalizing d with
  | nil => exact hI
  | cons b conns ih =>
    unfold ThreadMain.send
    apply ih (ThreadMain.post d b (sendRet b)) ?_ (fun h => hret (List.mem_cons_of_mem _ h))
    intro x hx hxa
    obtain ⟨y, hy, e1, e2, e3⟩ := post_back d b (sendRet b) x hx
    have hy2 := hI y hy (e1.trans hxa)
    rcases e3 with e3 | ⟨hb, he, -, -⟩
    · exact ⟨by rw [e3]; exact hy2.1, by rw [← e2]; exact hy2.2⟩
    · exfalso
      have hba : b = a := hb.symm.trans hxa
      subst hba
      exact hret (List.mem_cons_self _ _) he

theorem collect_idle (timestamp vsyncCount : Int) (a : Nat) (cs : List VSyncConnection)
    (hI : ∀ x ∈ cs, x.addr = a → x.rate_ < 0 ∧ x.highPriorityState_ = false) :
    a ∉ (CollectConnections.loop timestamp vsyncCount cs false []).2.2 ∧
      ∀ x ∈ (CollectConnections.loop timestamp vsyncCount cs false []).1, x.addr = a →
        x.rate_ < 0 ∧ x.highPriorityState_ = false := by
  constructor
  · rw [loop_mem_conns]
    rintro ⟨c, hc, hmem⟩
    rcases visit_conns_cases timestamp vsyncCount c with h | h
    · rw [h] at hmem; cases hmem
    · rw [h, List.mem_singleton] at hmem
      have hc2 := hI c hc hmem.symm
      rw [visit_idle timestamp vsyncCount c hc2.2 hc2.1] at h
      cases h
  · intro x hx hxa
    rw [loop_fst] at hx
    obtain ⟨c, hc, rfl⟩ := List.mem_map.1 hx
    rw [visit_addr] at hxa
    have hc2 := hI c hc hxa
    rw [visit_idle timestamp vsyncCount c hc2.2 hc2.1]
    exact hc2

theorem iteration_idle (d : VSyncDistributor) (controller_ : Bool) (softNow : Option Int)
    (sendRet : Nat → Int) (a : Nat)
    (hI : ∀ x ∈ d.connections_, x.addr = a → x.rate_ < 0 ∧ x.highPriorityState_ = false) :
    a ∉ (ThreadMain.iteration d controller_ softNow sendRet).2.map Prod.fst ∧
      ∀ x ∈ (ThreadMain.iteration d controller_ softNow sendRet).1.connections_, x.addr = a →
        x.rate_ < 0 ∧ x.highPriorityState_ = false := by
  obtain ⟨h1, h2⟩ := iteration_spec d controller_ softNow sendRet
  obtain ⟨c1, c2⟩ := collect_idle d.event_.timestamp d.event_.vsyncCount a d.connections_ hI
  rw [h1, h2]
  exact ⟨c1, send_idle sendRet a _ _ c2 (fun h => absurd h c1)⟩

theorem iterations_idle (controller_ : Bool) (a : Nat)
    (evs : List (Int × Int × (Nat → Int))) (d : VSyncDistributor)
    (hI : ∀ x ∈ d.connections_, x.addr = a → x.rate_ < 0 ∧ x.highPriorityState_ = false) :
    (ThreadMain.iterations controller_ d evs).1.map (fun sel => decide (a ∈ sel)) =
      List.replicate evs.length false := by
  induction evs generalizing d with
  | nil => rfl
  | cons e evs ih =>
    obtain ⟨ts, vc, sendRet⟩ := e
    obtain ⟨h1, h2⟩ := iteration_idle
      (VSyncDistributor.mk d.connections_ (VSyncEvent.mk ts vc) d.vsyncEnabled_)
      controller_ none sendRet a hI
    simp only [ThreadMain.iterations, List.map_cons, List.length_cons, List.replicate_succ]
    congr 1
    · exact decide_eq_false h1
    · exact ih _ h2

theorem iterations_append (controller_ : Bool) (d : VSyncDistributor)
    (pre evs : List (Int × Int × (Nat → Int))) :
    ThreadMain.iterations controller_ d (pre ++ evs) =
      ((ThreadMain.iterations controller_ d pre).1 ++
          (ThreadMain.iterations controller_ (ThreadMain.iterations controller_ d pre).2 evs).1,
        (ThreadMain.iterations controller_ (ThreadMain.iterations controller_ d pre).2 evs).2) := by
  induction pre generalizing d with
  | nil => simp [ThreadMain.iterations]
  | cons e pre ih =>
    obtain ⟨ts, vc, sendRet⟩ := e
    show ThreadMain.iterations controller_ d ((ts, vc, sendRet) :: (pre ++ evs)) = _
    simp only [ThreadMain.iterations, ih, List.cons_append]

theorem post_addrs_sublist (d : VSyncDistributor) (b : Nat) (ret : Int) :
    ((ThreadMain.post d b ret).connections_.map VSyncConnection.addr).Sublist
      (d.connections_.map VSyncConnection.addr) := by
  have hp := updateAt_addrs d.connections_ b (fun c => (c.PostEvent ret).2)
    (fun c => (PostEvent_fields c ret).1)
  unfold ThreadMain.post
  dsimp only
  split_ifs
  · unfold RemoveConnection
    dsimp only
    split_ifs
    · rw [← hp]
      exact List.Sublist.map _ (eraseFirst_sublist _ _)
    · rw [hp]
  · dsimp only
    rw [updateAt_addrs _ b _ (fun c => by split_ifs <;> rfl), hp]
  · rw [hp]

theorem send_nodup (sendRet : Nat → Int) (conns : List Nat) (d : VSyncDistributor)
    (hnd : (d.connections_.map VSyncConnection.addr).Nodup) :
    ((ThreadMain.send sendRet d conns).connections_.map VSyncConnection.addr).Nodup := by
  induction conns generalizing d with
  | nil => exact hnd
  | cons b conns ih =>
    unfold ThreadMain.send
    exact ih _ (List.Nodup.sublist (post_addrs_sublist d b (sendRet b)) hnd)

/-- The sending loop re-arms a selected connection with negative rate whose send returns
`ERRNO_EAGAIN`. -/
theorem send_eagain_mem (sendRet : Nat → Int) (conns : List Nat) (d : VSyncDistributor)
    (c : VSyncConnection) (hc : c ∈ d.connections_) (hsel : c.addr ∈ conns)
    (he : sendRet c.addr = ERRNO_EAGAIN) (hr : c.rate_ < 0) :
    { c with rate_ := 0 } ∈ (ThreadMain.send sendRet d conns).connections_ := by
  induction conns generalizing d with
  | nil => cases hsel
  | cons a conns ih =>
    unfold ThreadMain.send
    by_cases ha : c.addr = a
    · subst ha
      rw [he]
      have hp := post_eagain d c hc
      rw [if_pos hr] at hp
      by_cases hin : c.addr ∈ conns
      · have hp2 : ∀ (conns : List Nat) (d : VSyncDistributor) (c0 : VSyncConnection),
            c0 ∈ d.connections_ → c0.rate_ = 0 → sendRet c0.addr = ERRNO_EAGAIN →
            c0 ∈ (ThreadMain.send sendRet d conns).connections_ := by
          intro conns
          induction conns with
          | nil => intro d c0 h _ _; exact h
          | cons b conns ih2 =>
            intro d c0 h h0 he0
            unfold ThreadMain.send
            apply ih2 _ c0 _ h0 he0
            by_cases hb : c0.addr = b
            · subst hb
              rw [he0]
              have := post_eagain d c0 h
              rw [if_neg (by omega)] at this
              exact this
            · exact post_frame d c0 b (sendRet b) h hb
        exact hp2 conns _ { c with rate_ := 0 } hp rfl he
      · exact send_frame sendRet _ conns _ hp hin
    · have hin : c.addr ∈ conns := by
        rcases List.mem_cons.1 hsel with h | h
        · exact absurd h ha
        · exact h
      exact ih _ (post_frame d c a (sendRet a) hc ha) hin

/-- An iteration with no vsync pending leaves an armed connection armed and posts nothing. -/
theorem iteration_armed_wait (d : VSyncDistributor) (controller_ : Bool)
    (softNow : Option Int) (sendRet : Nat → Int) (c0 : VSyncConnection)
    (h0 : c0.rate_ = 0) (hhp : c0.highPriorityState_ = false) (hc0 : c0 ∈ d.connections_)
    (hnd : (d.connections_.map VSyncConnection.addr).Nodup)
    (hts : d.event_.timestamp ≤ 0) :
    c0.addr ∉ (ThreadMain.iteration d controller_ softNow sendRet).2.map Prod.fst ∧
      c0 ∈ (ThreadMain.iteration d controller_ softNow sendRet).1.connections_ ∧
      ((ThreadMain.iteration d controller_ softNow sendRet).1.connections_.map
        VSyncConnection.addr).Nodup := by
  obtain ⟨h1, h2⟩ := iteration_spec d controller_ softNow sendRet
  have hnil : (CollectConnections.loop d.event_.timestamp d.event_.vsyncCount d.connections_
      false []).2.2 = [] := by
    rcases loop_select_cases d.event_.timestamp d.event_.vsyncCount d.connections_ false []
      with h | ⟨-, h⟩
    · exact h
    · omega
  rw [h1, h2, hnil]
  refine ⟨by simp, ?_, ?_⟩
  · have hin := loop_mem_fst d.event_.timestamp d.event_.vsyncCount d.connections_ c0 hc0
      false []
    rw [visit_armed_wait _ _ c0 hhp h0 hts] at hin
    exact hin
  · show ((CollectConnections.loop d.event_.timestamp d.event_.vsyncCount d.connections_
      false []).1.map VSyncConnection.addr).Nodup
    rw [loop_addrs]
    exact hnd

theorem iterations_armed_wait (controller_ : Bool) (c0 : VSyncConnection)
    (h0 : c0.rate_ = 0) (hhp : c0.highPriorityState_ = false)
    (pre : List (Int × Int × (Nat → Int))) (hpre : ∀ e ∈ pre, e.1 ≤ 0)
    (d : VSyncDistributor) (hc0 : c0 ∈ d.connections_)
    (hnd : (d.connections_.map VSyncConnection.addr).Nodup) :
    (ThreadMain.iterations controller_ d pre).1.map (fun sel => decide (c0.addr ∈ sel)) =
        List.replicate pre.length false ∧
      c0 ∈ (ThreadMain.iterations controller_ d pre).2.connections_ ∧
      ((ThreadMain.iterations controller_ d pre).2.connections_.map
        VSyncConnection.addr).Nodup := by
  induction pre generalizing d with
  | nil => exact ⟨rfl, hc0, hnd⟩
  | cons e pre ih =>
    obtain ⟨ts, vc, sendRet⟩ := e
    obtain ⟨a1, a2, a3⟩ := iteration_armed_wait
      (VSyncDistributor.mk d.connections_ (VSyncEvent.mk ts vc) d.vsyncEnabled_)
      controller_ none sendRet c0 h0 hhp hc0 hnd (hpre (ts, vc, sendRet) (List.mem_cons_self _ _))
    obtain ⟨b1, b2, b3⟩ := ih (fun e he => hpre e (List.mem_cons_of_mem _ he)) _ a2 a3
    refine ⟨?_, b2, b3⟩
    simp only [ThreadMain.iterations, List.map_cons, List.length_cons, List.replicate_succ]
    congr 1
    exact decide_eq_false a1

/-- An iteration with a vsync pending posts to an armed connection; afterwards the
connection has a negative rate, unless the send returned `ERRNO_EAGAIN`: then it is armed
again. -/
theorem iteration_armed_tick (d : VSyncDistributor) (controller_ : Bool)
    (softNow : Option Int) (sendRet : Nat → Int) (c0 : VSyncConnection)
    (h0 : c0.rate_ = 0) (hhp : c0.highPriorityState_ = false) (hc0 : c0 ∈ d.connections_)
    (hnd : (d.connections_.map VSyncConnection.addr).Nodup)
    (hts : d.event_.timestamp > 0) :
    c0.addr ∈ (ThreadMain.iteration d controller_ softNow sendRet).2.map Prod.fst ∧
      ((ThreadMain.iteration d controller_ softNow sendRet).1.connections_.map
        VSyncConnection.addr).Nodup ∧
      (sendRet c0.addr ≠ ERRNO_EAGAIN →
        ∀ x ∈ (ThreadMain.iteration d controller_ softNow sendRet).1.connections_,
          x.addr = c0.addr → x.rate_ < 0 ∧ x.highPriorityState_ = false) ∧
      (sendRet c0.addr = ERRNO_EAGAIN →
        { c0 with rate_ := 0 } ∈
          (ThreadMain.iteration d controller_ softNow sendRet).1.connections_) := by
  obtain ⟨h1, h2⟩ := iteration_spec d controller_ softNow sendRet
  have hvt := visit_armed_tick d.event_.timestamp d.event_.vsyncCount c0 hhp h0 hts
  have hsel := (loop_selects_iff d.event_.timestamp d.event_.vsyncCount d.connections_ c0 hc0
    hnd).2 (by rw [hvt])
  have hin := loop_mem_fst d.event_.timestamp d.event_.vsyncCount d.connections_ c0 hc0
    false []
  rw [hvt] at hin
  have hnd2 : ((CollectConnections.loop d.event_.timestamp d.event_.vsyncCount d.connections_
      false []).1.map VSyncConnection.addr).Nodup := by
    rw [loop_addrs]; exact hnd
  rw [h1, h2]
  refine ⟨hsel, send_nodup sendRet _ _ hnd2, ?_, ?_⟩
  · intro hne
    apply send_idle sendRet c0.addr _ _ _ (fun _ => hne)
    intro x hx hxa
    have hx2 : x = { c0 with rate_ := -1 } :=
      List.inj_on_of_nodup_map hnd2 hx hin hxa
    subst hx2
    exact ⟨show (-1 : Int) < 0 by decide, hhp⟩
  · intro he
    exact send_eagain_mem sendRet _ _ { c0 with rate_ := -1 } hin hsel he
      (show (-1 : Int) < 0 by decide)

/-- C25, counterexample: a connection with rate `-1` requests the next vsync; the vsync at
1000000 is posted to it and the send returns `ERRNO_EAGAIN`, so the sending loop sets its
rate to 0 again; the following vsync at 2000000 is then selected and posted to it too,
although neither `RequestNextVSync` nor `SetVSyncRate` was called in between. -/
theorem one_shot_rearmed_by_eagain_counterexample :
    (ThreadMain.iterations true
      (RequestNextVSync (sampleDistributor [sampleConnection 1 (-1)]) (some 1)).2
      [(1000000, 1, fun _ => ERRNO_EAGAIN), (2000000, 2, fun _ => 8)]).1 = [[1], [1]] ∧
    (CollectConnections
      (RequestNextVSync (sampleDistributor [sampleConnection 1 (-1)]) (some 1)).2
      false 1000000 [] 1).2.1 = [1] ∧
    (ThreadMain.send (fun _ => ERRNO_EAGAIN)
      (CollectConnections
        (RequestNextVSync (sampleDistributor [sampleConnection 1 (-1)]) (some 1)).2
        false 1000000 [] 1).2.2 [1]).connections_ = [sampleConnection 1 0] ∧
    (CollectConnections
      (ThreadMain.send (fun _ => ERRNO_EAGAIN)
        (CollectConnections
          (RequestNextVSync (sampleDistributor [sampleConnection 1 (-1)]) (some 1)).2
          false 1000000 [] 1).2.2 [1])
      false 2000000 [] 2).2.1 = [1] := by
  refine ⟨by decide, by decide, by decide, by decide⟩

/-- C25, amended: for a registered connection `c` without high-priority override, in a
distributor whose registered connections have distinct addresses, `RequestNextVSync`
returns Ok; it leaves a rate of zero or more unchanged and sets a negative rate (`-1` for
an inactive connection) to zero.  After that, in every series of `CollectConnections`
calls with nothing else in between, the first call with a timestamp above zero selects the
connection and sets its rate to `-1`, and no call before or after it selects it.  In every
series of iterations of the loop of `ThreadMain`, the first iteration with a timestamp
above zero posts the vsync to the connection, and no iteration before it does.  When the
send of that iteration does not return `ERRNO_EAGAIN`, no later iteration posts to the
connection, whatever the timestamps, vsyncCounts and send results.  When it returns
`ERRNO_EAGAIN`, the sending loop sets the rate to zero again, and the next iteration with a
timestamp above zero posts to the connection once more, without a call of
`RequestNextVSync` or `SetVSyncRate`. -/
theorem one_shot_delivery (d : VSyncDistributor) (c : VSyncConnection)
    (hc : c ∈ d.connections_)
    (hnd : (d.connections_.map VSyncConnection.addr).Nodup)
    (hhp : c.highPriorityState_ = false) :
    (RequestNextVSync d (some c.addr)).1 = VsyncError.VSYNC_ERROR_OK ∧
    (0 ≤ c.rate_ → c ∈ (RequestNextVSync d (some c.addr)).2.connections_) ∧
    (c.rate_ < 0 →
      { c with rate_ := 0 } ∈ (RequestNextVSync d (some c.addr)).2.connections_ ∧
      (∀ (pre : List (Int × Int)) (timestamp vsyncCount : Int) (post : List (Int × Int)),
        (∀ e ∈ pre, e.1 ≤ 0) → timestamp > 0 →
        (collectAll (RequestNextVSync d (some c.addr)).2
            (pre ++ (timestamp, vsyncCount) :: post)).1.map
          (fun sel => decide (c.addr ∈ sel)) =
          List.replicate pre.length false ++ true :: List.replicate post.length false ∧
        { c with rate_ := -1 } ∈
          (collectAll (RequestNextVSync d (some c.addr)).2
            (pre ++ (timestamp, vsyncCount) :: post)).2.connections_) ∧
      (∀ (controller_ : Bool) (pre : List (Int × Int × (Nat → Int)))
          (timestamp vsyncCount : Int) (sendRet : Nat → Int),
        (∀ e ∈ pre, e.1 ≤ 0) → timestamp > 0 →
        (sendRet c.addr ≠ ERRNO_EAGAIN →
          ∀ post : List (Int × Int × (Nat → Int)),
            (ThreadMain.iterations controller_ (RequestNextVSync d (some c.addr)).2
                (pre ++ (timestamp, vsyncCount, sendRet) :: post)).1.map
              (fun sel => decide (c.addr ∈ sel)) =
              List.replicate pre.length false ++ true :: List.replicate post.length false) ∧
        (sendRet c.addr = ERRNO_EAGAIN →
          ∀ (timestamp2 vsyncCount2 : Int) (sendRet2 : Nat → Int), timestamp2 > 0 →
            (ThreadMain.iterations controller_ (RequestNextVSync d (some c.addr)).2
                (pre ++ [(timestamp, vsyncCount, sendRet),
                  (timestamp2, vsyncCount2, sendRet2)])).1.map
              (fun sel => decide (c.addr ∈ sel)) =
              List.replicate pre.length false ++ [true, true]))) := by
  obtain ⟨s1, s2, s3⟩ := one_shot_collect_series d c hc hnd hhp
  refine ⟨s1, s2, ?_⟩
  intro hneg
  obtain ⟨hmem, hseries⟩ := s3 hneg
  refine ⟨hmem, hseries, ?_⟩
  intro controller_ pre timestamp vsyncCount sendRet hpre hts
  have hnd1 : ((RequestNextVSync d (some c.addr)).2.connections_.map
      VSyncConnection.addr).Nodup := by
    have hreq : (RequestNextVSync d (some c.addr)).2.connections_ =
        updateAt d.connections_ c.addr
          (fun c1 => if c1.rate_ < 0 then { c1 with rate_ := 0 } else c1) := by
      simp only [RequestNextVSync, isRegistered_of_mem d.connections_ c hc, if_true]
    rw [hreq, updateAt_addrs _ _ _ (fun c1 => by split_ifs <;> rfl)]
    exact hnd
  -- the iterations before the vsync
  obtain ⟨a1, a2, a3⟩ := iterations_armed_wait controller_ { c with rate_ := 0 } rfl hhp pre hpre
    (RequestNextVSync d (some c.addr)).2 hmem hnd1
  -- the iteration of the vsync
  obtain ⟨t1, t2, t3, t4⟩ := iteration_armed_tick
    (VSyncDistributor.mk
      (ThreadMain.iterations controller_ (RequestNextVSync d (some c.addr)).2 pre).2.connections_
      (VSyncEvent.mk timestamp vsyncCount)
      (ThreadMain.iterations controller_ (RequestNextVSync d (some c.addr)).2
        pre).2.vsyncEnabled_)
    controller_ none sendRet { c with rate_ := 0 } rfl hhp a2 a3 hts
  constructor
  · intro hne post
    have hidle := iterations_idle controller_ c.addr post _ (t3 hne)
    rw [iterations_append]
    simp only [ThreadMain.iterations, List.map_append, List.map_cons]
    rw [a1]
    congr 2
    exact decide_eq_true t1
  · intro he timestamp2 vsyncCount2 sendRet2 hts2
    obtain ⟨u1, -, -, -⟩ := iteration_armed_tick
      (VSyncDistributor.mk
        (ThreadMain.iteration
          (VSyncDistributor.mk
            (ThreadMain.iterations controller_ (RequestNextVSync d (some c.addr)).2
              pre).2.connections_
            (VSyncEvent.mk timestamp vsyncCount)
            (ThreadMain.iterations controller_ (RequestNextVSync d (some c.addr)).2
              pre).2.vsyncEnabled_)
          controller_ none sendRet).1.connections_
        (VSyncEvent.mk timestamp2 vsyncCount2)
        (ThreadMain.iteration
          (VSyncDistributor.mk
            (ThreadMain.iterations controller_ (RequestNextVSync d (some c.addr)).2
              pre).2.connections_
            (VSyncEvent.mk timestamp vsyncCount)
            (ThreadMain.iterations controller_ (RequestNextVSync d (some c.addr)).2
              pre).2.vsyncEnabled_)
          controller_ none sendRet).1.vsyncEnabled_)
      controller_ none sendRet2 { c with rate_ := 0 } rfl hhp (t4 he) t2 hts2
    rw [iterations_append]
    simp only [ThreadMain.iterations, List.map_append, List.map_cons, List.map_nil]
    rw [a1]
    congr 2
    · exact decide_eq_true t1
    · congr 1
      exact decide_eq_true u1

/-- C25, amended, witness: a connection with rate `-1` requests the next vsync; the loop
posts the vsync at 1000000 to it, the send succeeds, and the vsync at 2000000 is not posted
to it. -/
theorem one_shot_delivery_witness :
    (ThreadMain.iterations true
      (RequestNextVSync (sampleDistributor [sampleConnection 1 (-1)]) (some 1)).2
      [(1000000, 1, fun _ => 8), (2000000, 2, fun _ => 8)]).1 = [[1], []] ∧
    (RequestNextVSync (sampleDistributor [sampleConnection 1 (-1)]) (some 1)).2.connections_ =
      [sampleConnection 1 0] ∧
    (ThreadMain.iterations true
        (RequestNextVSync (sampleDistributor [sampleConnection 1 (-1)])
          (some (sampleConnection 1 (-1)).addr)).2
        ([] ++ (1000000, 1, fun _ => 8) :: [(2000000, 2, fun _ => 8)])).1.map
      (fun sel => decide ((sampleConnection 1 (-1)).addr ∈ sel)) =
      List.replicate 0 false ++ true :: List.replicate 1 false :=
  ⟨by decide, by decide,
    ((((one_shot_delivery (sampleDistributor [sampleConnection 1 (-1)])
      (sampleConnection 1 (-1)) (by decide) (by decide) rfl).2.2 (by decide)).2.2
      true [] 1000000 1 (fun _ => 8) (fun _ h => (by cases h)) (by decide)).1 (by decide))
      [(2000000, 2, fun _ => 8)]⟩

end Rosen

end OHOS
